import Mathlib

/-!
# Network stack (jean-roland/Network): shallow embedding and verified properties

Embedding of `Lib/Fifo.c` and `src/lib/Network.c`.

Conventions of the embedding
* C unsigned integers are `Nat`; every assignment that can wrap in C is
  reduced modulo `2^32` (`uint32_t`), `2^16` (`uint16_t`) or `2^8`.
* A pointer to a memory region (`uint8_t *`, `void *`) is the content of the
  region, a function from the offset to the cell: `Nat → α`.  A pointer that
  may be `NULL` is an `Option`.
* `Lib/Fifo.c` is embedded at two levels.  `Bytes.FifoWrite` and `Bytes.FifoRead`
  follow the source byte by byte: `Buffer`, source and destination are byte
  regions, the offsets `idx * ItemSize` and the byte counts `n * ItemSize` are
  `uint32_t` products, and a `memcpy` that leaves the storage of
  `ItemNb * ItemSize mod 2^32` bytes allocated by `FifoCreate` is not defined
  (`none`).  `FifoWrite` and `FifoRead` address the storage by item: cell `i` of
  `Buffer` stands for the `ItemSize` bytes at byte offset `i * ItemSize`.  The
  two levels agree on a well-formed fifo with `ItemNb * ItemSize < 2^32`
  (`byteFifoWrite_items`, `byteFifoRead_items`), and on the returned flag, the
  cursors and the totals whenever the byte-level call is defined
  (`byteFifoWrite_flag`, `byteFifoRead_flag`).  The network module, whose
  fifos have a 16-bit capacity and hold bytes or message descriptors, is
  embedded on the item level.
* A dereference of a `NULL` pointer or an index outside a module list makes
  the operation return `none`.
-/

namespace Network

/-! ## Machine arithmetic -/

/-- The modulus of `uint32_t` arithmetic. -/
@[reducible] def U32 : Nat := 4294967296

/-- The modulus of `uint16_t` arithmetic. -/
@[reducible] def U16 : Nat := 65536

/-- Sum of two `uint32_t`. -/
def add32 (a b : Nat) : Nat := (a + b) % 4294967296

/-- Difference of two `uint32_t`. -/
def sub32 (a b : Nat) : Nat := (a + 4294967296 - b % 4294967296) % 4294967296

/-! ## Fifo.c -/

/-- The fifo descriptor `fifo_desc_t` of Fifo.h. -/
structure fifo_desc_t (α : Type) where
  Buffer : Nat → α
  ItemNb : Nat
  ItemSize : Nat
  ReadCount : Nat
  WriteCount : Nat
  ReadIdx : Nat
  WriteIdx : Nat

/-- The library call `memcpy(&dst[off], src, n)` on item cells. -/
def memcpy {α : Type} (dst : Nat → α) (off : Nat) (src : Nat → α) (n : Nat) : Nat → α :=
  fun i => if off ≤ i ∧ i < off + n then src (i - off) else dst i

/-- The pointer `&p[off]`. -/
def ptrAdd {α : Type} (p : Nat → α) (off : Nat) : Nat → α := fun i => p (off + i)

/-- Source `FifoGetItemCount`. -/
def FifoGetItemCount (readCount writeCount : Nat) : Nat :=
  if readCount ≤ writeCount then sub32 writeCount readCount
  else add32 (add32 (sub32 4294967295 readCount) writeCount) 1

/-- Source `FifoGetFreeSpace`. -/
def FifoGetFreeSpace (totalCount readCount writeCount : Nat) : Nat :=
  sub32 totalCount (FifoGetItemCount readCount writeCount)

/-- Source `FifoConsumeItems`. -/
def FifoConsumeItems {α : Type} (f : fifo_desc_t α) (itemNb : Nat) : Bool × fifo_desc_t α :=
  if FifoGetItemCount f.ReadCount f.WriteCount ≥ itemNb then
    let f1 := { f with ReadCount := add32 f.ReadCount itemNb }
    if add32 f1.ReadIdx itemNb ≥ f1.ItemNb then
      let itemNb1 := sub32 itemNb (sub32 f1.ItemNb f1.ReadIdx)
      let f2 := { f1 with ReadIdx := 0 }
      (true, { f2 with ReadIdx := add32 f2.ReadIdx itemNb1 })
    else
      (true, { f1 with ReadIdx := add32 f1.ReadIdx itemNb })
  else (false, f)

/-- Source `FifoCreate`; `mem` is the content of the freshly allocated storage, whose
size in bytes is the `uint32_t` product `itemNb * itemSize` (`FifoStorageSize`). -/
def FifoCreate {α : Type} (mem : Nat → α) (itemNb itemSize : Nat) : fifo_desc_t α :=
  { Buffer := mem, ItemNb := itemNb, ItemSize := itemSize,
    ReadCount := 0, WriteCount := 0, ReadIdx := 0, WriteIdx := 0 }

/-- Source `FifoItemCount`. -/
def FifoItemCount {α : Type} (pFifoDesc : Option (fifo_desc_t α)) : Nat :=
  match pFifoDesc with
  | some f => FifoGetItemCount f.ReadCount f.WriteCount
  | none => 0

/-- Source `FifoFreeSpace`. -/
def FifoFreeSpace {α : Type} (pFifoDesc : Option (fifo_desc_t α)) : Nat :=
  match pFifoDesc with
  | some f => FifoGetFreeSpace f.ItemNb f.ReadCount f.WriteCount
  | none => 0

/-- Source `FifoFlush` (the descriptor is dereferenced without a test). -/
def FifoFlush {α : Type} (f : fifo_desc_t α) : fifo_desc_t α :=
  { f with WriteIdx := 0, ReadIdx := 0, ReadCount := 0, WriteCount := 0 }

/-- Source `FifoWrite`, item level: `src` and `Buffer` are addressed by item, so that the
byte counts `n * ItemSize` and the offsets `idx * ItemSize` of the source are counts and
indices of cells (`Bytes.FifoWrite` is the byte-level function). -/
def FifoWrite {α : Type} (pFifoDesc : Option (fifo_desc_t α)) (src : Option (Nat → α))
    (itemNb : Nat) : Bool × Option (fifo_desc_t α) :=
  match pFifoDesc, src with
  | some f, some src =>
    if FifoFreeSpace (some f) ≥ itemNb then
      if add32 f.WriteIdx itemNb ≥ f.ItemNb then
        let ro_itemNb := sub32 f.ItemNb f.WriteIdx
        let srcOffset := ro_itemNb
        let f1 := { f with Buffer := memcpy f.Buffer f.WriteIdx src srcOffset }
        let f2 := { f1 with WriteIdx := 0 }
        let itemNb1 := sub32 itemNb ro_itemNb
        let f3 := { f2 with WriteCount := add32 f2.WriteCount ro_itemNb }
        let f4 := { f3 with Buffer := memcpy f3.Buffer f3.WriteIdx (ptrAdd src srcOffset) itemNb1 }
        let f5 := { f4 with WriteIdx := add32 f4.WriteIdx itemNb1 }
        (true, some { f5 with WriteCount := add32 f5.WriteCount itemNb1 })
      else
        let f4 := { f with Buffer := memcpy f.Buffer f.WriteIdx src itemNb }
        let f5 := { f4 with WriteIdx := add32 f4.WriteIdx itemNb }
        (true, some { f5 with WriteCount := add32 f5.WriteCount itemNb })
    else (false, some f)
  | p, _ => (false, p)

/-- Source `FifoRead`, item level (`Bytes.FifoRead` is the byte-level function); the third
component is the destination region after the call. -/
def FifoRead {α : Type} (pFifoDesc : Option (fifo_desc_t α)) (dest : Option (Nat → α))
    (itemNb : Nat) (consume : Bool) : Bool × Option (fifo_desc_t α) × Option (Nat → α) :=
  match pFifoDesc, dest with
  | some f, some dest =>
    if FifoGetItemCount f.ReadCount f.WriteCount ≥ itemNb then
      let d : Nat → α :=
        if add32 f.ReadIdx itemNb ≥ f.ItemNb then
          let ro_itemNb := sub32 f.ItemNb f.ReadIdx
          let buffOffset := ro_itemNb
          let d1 := memcpy dest 0 (ptrAdd f.Buffer f.ReadIdx) buffOffset
          let tmpReadIdx := 0
          let tmpItemNb := sub32 itemNb ro_itemNb
          memcpy d1 buffOffset (ptrAdd f.Buffer tmpReadIdx) tmpItemNb
        else
          memcpy dest 0 (ptrAdd f.Buffer f.ReadIdx) itemNb
      if consume then (true, some (FifoConsumeItems f itemNb).2, some d)
      else (true, some f, some d)
    else (false, some f, some dest)
  | p, d => (false, p, d)

/-- Source `FifoConsume`. -/
def FifoConsume {α : Type} (pFifoDesc : Option (fifo_desc_t α)) (itemNb : Nat) :
    Bool × Option (fifo_desc_t α) :=
  match pFifoDesc with
  | some f => ((FifoConsumeItems f itemNb).1, some (FifoConsumeItems f itemNb).2)
  | none => (false, none)

/-! ## Fifo.c, byte level -/

/-- Product of two `uint32_t`. -/
def mul32 (a b : Nat) : Nat := (a * b) % 4294967296

/-- Size in bytes of the storage of a fifo: the argument `itemNb * itemSize` of
`MemAllocMalloc` in `FifoCreate`, a `uint32_t` product (neither field is written after
the creation). -/
def FifoStorageSize {α : Type} (f : fifo_desc_t α) : Nat := mul32 f.ItemNb f.ItemSize

namespace Bytes

/-- The call `memcpy(&pFifoDesc->Buffer[off], src, n)`; it is not defined when bytes
outside the storage are written. -/
def storeBuffer (f : fifo_desc_t Nat) (off : Nat) (src : Nat → Nat) (n : Nat) :
    Option (fifo_desc_t Nat) :=
  if off + n ≤ FifoStorageSize f then some { f with Buffer := memcpy f.Buffer off src n }
  else none

/-- The call `memcpy(&dest[destOff], &pFifoDesc->Buffer[off], n)`; it is not defined when
bytes outside the storage are read. -/
def loadBuffer (f : fifo_desc_t Nat) (dest : Nat → Nat) (destOff off n : Nat) :
    Option (Nat → Nat) :=
  if off + n ≤ FifoStorageSize f then some (memcpy dest destOff (ptrAdd f.Buffer off) n)
  else none

/-- Source `FifoWrite`, byte by byte: `Buffer` and `src` are byte regions, the offsets and
the byte counts are the `uint32_t` products of the source. -/
def FifoWrite (pFifoDesc : Option (fifo_desc_t Nat)) (src : Option (Nat → Nat))
    (itemNb : Nat) : Option (Bool × Option (fifo_desc_t Nat)) :=
  match pFifoDesc, src with
  | some f, some src =>
    if FifoFreeSpace (some f) ≥ itemNb then
      if add32 f.WriteIdx itemNb ≥ f.ItemNb then
        let ro_itemNb := sub32 f.ItemNb f.WriteIdx
        let srcOffset := mul32 ro_itemNb f.ItemSize
        (storeBuffer f (mul32 f.WriteIdx f.ItemSize) src srcOffset).bind fun f1 =>
          let f2 := { f1 with WriteIdx := 0 }
          let itemNb1 := sub32 itemNb ro_itemNb
          let f3 := { f2 with WriteCount := add32 f2.WriteCount ro_itemNb }
          (storeBuffer f3 (mul32 f3.WriteIdx f3.ItemSize) (ptrAdd src srcOffset)
            (mul32 itemNb1 f3.ItemSize)).map fun f4 =>
            let f5 := { f4 with WriteIdx := add32 f4.WriteIdx itemNb1 }
            (true, some { f5 with WriteCount := add32 f5.WriteCount itemNb1 })
      else
        (storeBuffer f (mul32 f.WriteIdx f.ItemSize) src (mul32 itemNb f.ItemSize)).map
          fun f4 =>
            let f5 := { f4 with WriteIdx := add32 f4.WriteIdx itemNb }
            (true, some { f5 with WriteCount := add32 f5.WriteCount itemNb })
    else some (false, some f)
  | p, _ => some (false, p)

/-- Source `FifoRead`, byte by byte; the third component is the destination region after
the call. -/
def FifoRead (pFifoDesc : Option (fifo_desc_t Nat)) (dest : Option (Nat → Nat))
    (itemNb : Nat) (consume : Bool) :
    Option (Bool × Option (fifo_desc_t Nat) × Option (Nat → Nat)) :=
  match pFifoDesc, dest with
  | some f, some dest =>
    if FifoGetItemCount f.ReadCount f.WriteCount ≥ itemNb then
      let d : Option (Nat → Nat) :=
        if add32 f.ReadIdx itemNb ≥ f.ItemNb then
          let ro_itemNb := sub32 f.ItemNb f.ReadIdx
          let buffOffset := mul32 ro_itemNb f.ItemSize
          (loadBuffer f dest 0 (mul32 f.ReadIdx f.ItemSize) buffOffset).bind fun d1 =>
            let tmpReadIdx := 0
            let tmpItemNb := sub32 itemNb ro_itemNb
            loadBuffer f d1 buffOffset (mul32 tmpReadIdx f.ItemSize)
              (mul32 tmpItemNb f.ItemSize)
        else
          loadBuffer f dest 0 (mul32 f.ReadIdx f.ItemSize) (mul32 itemNb f.ItemSize)
      d.map fun d =>
        if consume then (true, some (FifoConsumeItems f itemNb).2, some d)
        else (true, some f, some d)
    else some (false, some f, some dest)
  | p, d => some (false, p, d)

end Bytes

/-! ## Utils.h, Utils.c -/

/-- Source macro `SWAP16`. -/
def SWAP16 (x : Nat) : Nat := (((x &&& 0xff) <<< 8) ||| (x >>> 8)) % 65536

/-- Source `UtilsRotrUint16`. -/
def UtilsRotrUint16 (n c : Nat) : Nat := ((n >>> c) ||| (n <<< (16 - c))) % 65536

/-- Source `UtilsDiffUint32`. -/
def UtilsDiffUint32 (old cur : Nat) : Nat :=
  if cur ≥ old then sub32 cur old else sub32 4294967295 (sub32 old cur)

/-! ## LibIp.h -/

/-- An array `uint8_t [IP_ADDR_LENGTH]`. -/
structure ip_addr where
  b0 : Nat
  b1 : Nat
  b2 : Nat
  b3 : Nat
deriving DecidableEq, Repr

/-- An array `uint8_t [MAC_ADDR_LENGTH]`. -/
structure mac_addr where
  b0 : Nat
  b1 : Nat
  b2 : Nat
  b3 : Nat
  b4 : Nat
  b5 : Nat
deriving DecidableEq, Repr

/-- The four bytes of an address, in memory order. -/
def ip_addr.toList (a : ip_addr) : List Nat := [a.b0, a.b1, a.b2, a.b3]

/-- The six bytes of an address, in memory order. -/
def mac_addr.toList (a : mac_addr) : List Nat := [a.b0, a.b1, a.b2, a.b3, a.b4, a.b5]

/-- The address stored at offset `off` of a byte region. -/
def ip_addr.ofMem (m : Nat → Nat) (off : Nat) : ip_addr :=
  { b0 := m off, b1 := m (off + 1), b2 := m (off + 2), b3 := m (off + 3) }

/-- The address stored at offset `off` of a byte region. -/
def mac_addr.ofMem (m : Nat → Nat) (off : Nat) : mac_addr :=
  { b0 := m off, b1 := m (off + 1), b2 := m (off + 2), b3 := m (off + 3),
    b4 := m (off + 4), b5 := m (off + 5) }

/-- The loop `for (i = 0; i < IP_ADDR_LENGTH; i++) r[i] = op(a[i], b[i])`. -/
def ip_addr.zipWith (op : Nat → Nat → Nat) (a b : ip_addr) : ip_addr :=
  { b0 := op a.b0 b.b0, b1 := op a.b1 b.b1, b2 := op a.b2 b.b2, b3 := op a.b3 b.b3 }

/-- The all-zero address `{0,0,0,0}`. -/
def ip_addr.zero : ip_addr := { b0 := 0, b1 := 0, b2 := 0, b3 := 0 }

/-- The all-zero address. -/
def mac_addr.zero : mac_addr := { b0 := 0, b1 := 0, b2 := 0, b3 := 0, b4 := 0, b5 := 0 }

/-- Byte stores `m[off + k] = bs[k]` for every `k` below the length of `bs`. -/
def storeBytes (m : Nat → Nat) (off : Nat) (bs : List Nat) : Nat → Nat :=
  fun i => if off ≤ i ∧ i < off + bs.length then bs.getD (i - off) 0 else m i

/-- Store of a `uint16_t` field on the little-endian host of the tests. -/
def store16 (m : Nat → Nat) (off v : Nat) : Nat → Nat :=
  storeBytes m off [v % 256, v / 256 % 256]

/-- Load of a `uint16_t` field on the little-endian host of the tests. -/
def load16 (m : Nat → Nat) (off : Nat) : Nat := m off % 256 + 256 * (m (off + 1) % 256)

/-- The `len` first bytes of a region: the message a driver callback is given. -/
def frameOf (m : Nat → Nat) (len : Nat) : List Nat := (List.range len).map m

/-- The region `p` after the bytes from offset `off` on were replaced by those of `d`. -/
def ptrStore (p : Nat → Nat) (off : Nat) (d : Nat → Nat) : Nat → Nat :=
  fun i => if i < off then p i else d (i - off)

@[reducible] def ETH_PROT_IPV4 : Nat := 0x0800
@[reducible] def ETH_PROT_ARP : Nat := 0x0806
@[reducible] def ARP_REQUEST : Nat := 1
@[reducible] def ARP_REPLY : Nat := 2
@[reducible] def IP_PROT_ICMP : Nat := 1
@[reducible] def IP_PROT_UDP : Nat := 17
@[reducible] def ICMP_ECHO_REPLY : Nat := 0
@[reducible] def ICMP_ECHO_REQUEST : Nat := 8
@[reducible] def ETH_HEADER_SIZE : Nat := 14
@[reducible] def ARP_HEADER_SIZE : Nat := 28
@[reducible] def IPV4_HEADER_SIZE : Nat := 20
@[reducible] def ICMP_HEADER_SIZE : Nat := 8
@[reducible] def UDP_HEADER_SIZE : Nat := 8
@[reducible] def NETWORK_HEADER_SIZE : Nat := 42
@[reducible] def ETHERNET_PAYLOAD_SIZE : Nat := 1500
@[reducible] def ETHERNET_MAX_DATA_SIZE : Nat := 1472
@[reducible] def ETHERNET_FRAME_LENTGH_MAX : Nat := 1514

/-! ## Network.h, Network.c: types -/

@[reducible] def NETWORK_ICMP_DATA_SIZE : Nat := 14
@[reducible] def NETWORK_ARP_REQ_GROUP_NB : Nat := 3
@[reducible] def NETWORK_ARP_REQUEST_COOLDOWN : Nat := 2000
@[reducible] def NETWORK_ARP_DECAY_COOLDOWN : Nat := 1000
@[reducible] def NETWORK_ARP_DECAY_TIME : Nat := 60000

/-- Source `network_msg_info_t`. -/
structure network_msg_info_t where
  DstIP : ip_addr
  SrcPort : Nat
  DstPort : Nat
  DataSize : Nat
  HeaderSize : Nat

/-- Source `arp_status_t`. -/
structure arp_status_t where
  IsInitialised : Bool
  IsValid : Bool
  IsRequested : Bool
  HasDecay : Bool
deriving DecidableEq, Repr

/-- Source `arp_entry_t`. -/
structure arp_entry_t where
  DecayTimer : Nat
  MacAddr : mac_addr
  IpAddr : ip_addr
  Status : arp_status_t
deriving DecidableEq, Repr

/-- Source `network_msg_desc_t`. -/
structure network_msg_desc_t where
  MsgSize : Nat
  IpAddr : ip_addr
deriving DecidableEq, Repr

/-- Source `network_gen_itfc_t`.  `pFnErrorNotify` tells whether the optional
callback is configured; `pFnTimerGetTime` is what the timer callback returns
during the operation, `pFnTimerIsPassed` the answer of the other callback. -/
structure network_gen_itfc_t where
  pFnErrorNotify : Bool
  pFnTimerGetTime : Nat
  pFnTimerIsPassed : Nat → Bool

/-- Source `network_init_desc_t`. -/
structure network_init_desc_t where
  GenInterface : network_gen_itfc_t
  ErrorCode : Nat
  CtrlNb : Nat
  PortNb : Nat

/-- Source `network_com_itfc_t`: the answers of the MAC driver callbacks.
`MacCtrlGetMsg id buf` gives the buffer after the copy and the reported size;
`MacCtrlSendMsg id msg` tells whether the driver accepts the message. -/
structure network_com_itfc_t where
  MacCtrlHasMsg : Nat → Bool
  MacCtrlGetMsg : Nat → (Nat → Nat) → (Nat → Nat) × Nat
  MacCtrlSendMsg : Nat → List Nat → Bool

/-- Source `network_ctrl_desc_t`. -/
structure network_ctrl_desc_t where
  ComInterface : network_com_itfc_t
  DefaultMacAddr : mac_addr
  DefaultIpAddr : ip_addr
  DefaultSubnetMask : ip_addr
  MacCtrlId : Nat
  ArpEntryNb : Nat

/-- Source `network_port_desc_t`. -/
structure network_port_desc_t where
  NetworkCtrlId : Nat
  Protocol : Nat
  DefaultDstIpAddr : ip_addr
  DefaultInPortNb : Nat
  DefaultOutPortNb : Nat
  RxFifoSize : Nat
  RxDescFifoSize : Nat
  TxFifoSize : Nat
  TxDescFifoSize : Nat

/-- Source `network_port_info_t`. -/
structure network_port_info_t where
  pDesc : Option network_port_desc_t
  pFifoRxMsg : Option (fifo_desc_t Nat)
  pFifoRxMsgDesc : Option (fifo_desc_t network_msg_desc_t)
  pFifoTxMsg : Option (fifo_desc_t Nat)
  pFifoTxMsgDesc : Option (fifo_desc_t network_msg_desc_t)
  TimerRequestARP : Nat
  InPortNb : Nat
  OutPortNb : Nat
  CounterARP : Nat
  IsVirtualComRx : Bool
  IsVirtualComTx : Bool
  DstIpAddr : ip_addr

/-- Source `network_ctrl_info_t`. -/
structure network_ctrl_info_t where
  pDesc : Option network_ctrl_desc_t
  pArpArray : List arp_entry_t
  TimerDecayARP : Nat
  IcmpReplyDelay : Nat
  IcmpReplyReceived : Bool
  IpAddr : ip_addr
  SubnetMask : ip_addr
  MacAddr : mac_addr

/-- Source `network_module_info_t` (the module variable `NetworkInfo`), with the
trace of the calls made to the external callbacks: `Sent` lists the messages
handed to `MacCtrlSendMsg` (driver id, bytes), `Errors` the codes given to the
error callback, `MacSet` the addresses given to `MacCtrlSetMacAddr`. -/
structure network_module_info_t where
  pInitDesc : network_init_desc_t
  pCtrlInfoList : List network_ctrl_info_t
  pPortInfoList : List network_port_info_t
  pBuffer : Nat → Nat
  Sent : List (Nat × List Nat)
  Errors : List Nat
  MacSet : List (Nat × mac_addr)

/-! ## Network.c: private functions -/

/-- The test `pFnErrorNotify != NULL` followed by the call `pFnErrorNotify(ErrorCode)`. -/
def notifyError (s : network_module_info_t) : network_module_info_t :=
  if s.pInitDesc.GenInterface.pFnErrorNotify then
    { s with Errors := s.Errors ++ [s.pInitDesc.ErrorCode] }
  else s

/-- The call `MacCtrlSendMsg(MacCtrlId, pBuffer, size)` of a controller descriptor. -/
def macSend (s : network_module_info_t) (desc : network_ctrl_desc_t) (pBuffer : Nat → Nat)
    (size : Nat) : Bool × network_module_info_t :=
  (desc.ComInterface.MacCtrlSendMsg desc.MacCtrlId (frameOf pBuffer size),
    { s with Sent := s.Sent ++ [(desc.MacCtrlId, frameOf pBuffer size)] })

/-- Assignment to `NetworkInfo.pCtrlInfoList[ctrlId]`. -/
def setCtrl (s : network_module_info_t) (ctrlId : Nat) (c : network_ctrl_info_t) :
    network_module_info_t :=
  { s with pCtrlInfoList := s.pCtrlInfoList.set ctrlId c }

/-- Assignment to `NetworkInfo.pPortInfoList[portId]`. -/
def setPort (s : network_module_info_t) (portId : Nat) (p : network_port_info_t) :
    network_module_info_t :=
  { s with pPortInfoList := s.pPortInfoList.set portId p }

/-- Assignment to `NetworkInfo.pCtrlInfoList[ctrlId].pArpArray[idx]`. -/
def setArp (s : network_module_info_t) (ctrlId idx : Nat) (e : arp_entry_t) :
    Option network_module_info_t :=
  match s.pCtrlInfoList[ctrlId]? with
  | none => none
  | some c => some (setCtrl s ctrlId { c with pArpArray := c.pArpArray.set idx e })

/-- Source `NetworkInitMsgInfo`. -/
def NetworkInitMsgInfo (pIpAddr : ip_addr) (srcPort dstPort dataSize : Nat) :
    network_msg_info_t :=
  { SrcPort := srcPort, DstPort := dstPort, DataSize := dataSize, HeaderSize := 0,
    DstIP := pIpAddr }

/-- Source `NetworkIsIpValid`. -/
def NetworkIsIpValid (pIpAddr pRefIpAddr pSubnetMask : ip_addr) : Bool :=
  let maskedIpAddr := ip_addr.zipWith (fun a m => a &&& m) pIpAddr pSubnetMask
  let maskedRefIpAddr := ip_addr.zipWith (fun a m => a &&& m) pRefIpAddr pSubnetMask
  decide (maskedRefIpAddr = maskedIpAddr)

/-- Source `NetworkIsIpBroadcast`; the complement `~mask` is kept to its low byte by
the store into a `uint8_t`. -/
def NetworkIsIpBroadcast (pIpAddr pRefIpAddr pSubnetMask : ip_addr) : Bool :=
  let broadcastIpAddr :=
    ip_addr.zipWith (fun r m => (r ||| (255 - m % 256)) % 256) pRefIpAddr pSubnetMask
  decide (broadcastIpAddr = pIpAddr)

/-- Source `NetworkAcceptIncIpPacket`; `pIpHeader` is the region of the IPv4 header. -/
def NetworkAcceptIncIpPacket (s : network_module_info_t) (ctrlId : Nat)
    (pIpHeader : Nat → Nat) : Option Bool :=
  match s.pCtrlInfoList[ctrlId]? with
  | none => none
  | some pNetworkCtrl =>
    let srcIp := ip_addr.ofMem pIpHeader 12
    let dstIp := ip_addr.ofMem pIpHeader 16
    if NetworkIsIpValid srcIp pNetworkCtrl.IpAddr pNetworkCtrl.SubnetMask then
      let isBroadcast := NetworkIsIpBroadcast dstIp pNetworkCtrl.IpAddr pNetworkCtrl.SubnetMask
      let destIsThis := decide (dstIp = pNetworkCtrl.IpAddr)
      if isBroadcast || destIsThis then some true else some false
    else some false

/-- The loop of `NetworkGetArpEntry` from index `i` with `k` iterations left: the
index of the first initialised entry that holds the address. -/
def NetworkGetArpEntry.loop (arr : List arp_entry_t) (pIpAddr : ip_addr) :
    Nat → Nat → Option (Option Nat)
  | _, 0 => some none
  | i, k + 1 =>
    match arr[i]? with
    | none => none
    | some e =>
      if e.Status.IsInitialised && decide (e.IpAddr = pIpAddr) then some (some i)
      else NetworkGetArpEntry.loop arr pIpAddr (i + 1) k

/-- Source `NetworkGetArpEntry`; the entry pointer is the index in the table. -/
def NetworkGetArpEntry (s : network_module_info_t) (ctrlId : Nat) (pIpAddr : ip_addr) :
    Option (Option Nat) :=
  match s.pCtrlInfoList[ctrlId]? with
  | none => none
  | some pNetworkCtrl =>
    match pNetworkCtrl.pDesc with
    | none => none
    | some desc => NetworkGetArpEntry.loop pNetworkCtrl.pArpArray pIpAddr 0 desc.ArpEntryNb

/-- The loop of `NetworkCreateArpEntry` from index `i` with `k` iterations left: the
value of `freeIdx` when the loop ends. -/
def NetworkCreateArpEntry.loop (arr : List arp_entry_t) : Nat → Nat → Option Nat
  | i, 0 => some i
  | i, k + 1 =>
    match arr[i]? with
    | none => none
    | some e =>
      if !e.Status.IsInitialised then some i
      else NetworkCreateArpEntry.loop arr (i + 1) k

/-- Source `NetworkCreateArpEntry`. -/
def NetworkCreateArpEntry (s : network_module_info_t) (ctrlId : Nat) :
    Option (Option Nat × network_module_info_t) :=
  match s.pCtrlInfoList[ctrlId]? with
  | none => none
  | some pNetworkCtrl =>
    match pNetworkCtrl.pDesc with
    | none => none
    | some desc =>
      match NetworkCreateArpEntry.loop pNetworkCtrl.pArpArray 0 desc.ArpEntryNb with
      | none => none
      | some freeIdx =>
        if freeIdx < desc.ArpEntryNb then some (some freeIdx, s)
        else some (none, notifyError s)

/-- The 42 bytes `msgBuffer` of `NetworkRequestArp` once filled (the local array is
written entirely before it is sent). -/
def arpRequestBuffer (pNetworkCtrl : network_ctrl_info_t) (pIpAddr : ip_addr) : Nat → Nat :=
  let b := storeBytes (fun _ => 0) 0 [0xFF, 0xFF, 0xFF, 0xFF, 0xFF, 0xFF]
  let b := storeBytes b 6 pNetworkCtrl.MacAddr.toList
  let b := storeBytes b 22 pNetworkCtrl.MacAddr.toList
  let b := storeBytes b 32 [0, 0, 0, 0, 0, 0]
  let b := storeBytes b 28 pNetworkCtrl.IpAddr.toList
  let b := storeBytes b 38 pIpAddr.toList
  let b := store16 b 12 (UtilsRotrUint16 0x0806 8)
  let b := store16 b 14 (UtilsRotrUint16 0x0001 8)
  let b := store16 b 16 (UtilsRotrUint16 0x0800 8)
  let b := storeBytes b 18 [6]
  let b := storeBytes b 19 [4]
  store16 b 20 (UtilsRotrUint16 0x0001 8)

/-- Source `NetworkRequestArp`. -/
def NetworkRequestArp (s : network_module_info_t) (ctrlId : Nat) (pIpAddr : ip_addr) :
    Option (Bool × network_module_info_t) :=
  match NetworkGetArpEntry s ctrlId pIpAddr with
  | none => none
  | some found =>
    let created : Option (Option Nat × network_module_info_t) :=
      match found with
      | some idx => some (some idx, s)
      | none =>
        match NetworkCreateArpEntry s ctrlId with
        | none => none
        | some (none, s1) => some (none, s1)
        | some (some idx, s1) =>
          match s1.pCtrlInfoList[ctrlId]? with
          | none => none
          | some c =>
            match c.pArpArray[idx]? with
            | none => none
            | some e =>
              match setArp s1 ctrlId idx
                { e with IpAddr := pIpAddr,
                         Status := { e.Status with IsRequested := true, IsInitialised := true,
                                                   IsValid := false, HasDecay := false },
                         DecayTimer := 0 } with
              | none => none
              | some s2 => some (some idx, s2)
    match created with
    | none => none
    | some (none, s1) => some (false, s1)
    | some (some idx, s1) =>
      match s1.pCtrlInfoList[ctrlId]? with
      | none => none
      | some pNetworkCtrl =>
        match pNetworkCtrl.pDesc, pNetworkCtrl.pArpArray[idx]? with
        | some desc, some e =>
          let msgBuffer := arpRequestBuffer pNetworkCtrl pIpAddr
          match setArp s1 ctrlId idx { e with Status := { e.Status with IsValid := false } } with
          | none => none
          | some s2 => some (macSend s2 desc msgBuffer (ETH_HEADER_SIZE + ARP_HEADER_SIZE))
        | _, _ => none

/-- Source `NetworkStoreArp`. -/
def NetworkStoreArp (s : network_module_info_t) (ctrlId : Nat) (pIpAddr : ip_addr)
    (pMacAddr : mac_addr) (hasDecay : Bool) : Option (Bool × network_module_info_t) :=
  match NetworkGetArpEntry s ctrlId pIpAddr with
  | none => none
  | some none =>
    match NetworkCreateArpEntry s ctrlId with
    | none => none
    | some (none, s1) => some (false, s1)
    | some (some idx, s1) =>
      match s1.pCtrlInfoList[ctrlId]? with
      | none => none
      | some c =>
        match c.pArpArray[idx]? with
        | none => none
        | some e =>
          match setArp s1 ctrlId idx
            { e with IpAddr := pIpAddr, MacAddr := pMacAddr,
                     Status := { e.Status with IsRequested := true, IsInitialised := true,
                                               IsValid := true, HasDecay := hasDecay },
                     DecayTimer := s1.pInitDesc.GenInterface.pFnTimerGetTime } with
          | none => none
          | some s2 => some (true, s2)
  | some (some idx) =>
    match s.pCtrlInfoList[ctrlId]? with
    | none => none
    | some c =>
      match c.pArpArray[idx]? with
      | none => none
      | some e =>
        if !e.Status.IsValid then
          match setArp s ctrlId idx
            { e with MacAddr := pMacAddr,
                     Status := { e.Status with IsValid := true, HasDecay := hasDecay },
                     DecayTimer := s.pInitDesc.GenInterface.pFnTimerGetTime } with
          | none => none
          | some s2 => some (true, s2)
        else some (true, s)

/-- Source `NetworkUpdateArpTable`. -/
def NetworkUpdateArpTable (s : network_module_info_t) (ctrlId : Nat) (pSourceIp : ip_addr)
    (pSourceMac : mac_addr) (hasDecay : Bool) : Option (Bool × network_module_info_t) :=
  match NetworkGetArpEntry s ctrlId pSourceIp with
  | none => none
  | some none => NetworkStoreArp s ctrlId pSourceIp pSourceMac hasDecay
  | some (some idx) =>
    match s.pCtrlInfoList[ctrlId]? with
    | none => none
    | some c =>
      match c.pArpArray[idx]? with
      | none => none
      | some e =>
        if !e.Status.IsValid then NetworkStoreArp s ctrlId pSourceIp pSourceMac hasDecay
        else
          let e1 := { e with DecayTimer := s.pInitDesc.GenInterface.pFnTimerGetTime }
          let e2 := if e1.MacAddr ≠ pSourceMac then { e1 with MacAddr := pSourceMac } else e1
          match setArp s ctrlId idx e2 with
          | none => none
          | some s2 => some (true, s2)

/-- Source `NetworkSendEthPacket`; the third component is the buffer after the call. -/
def NetworkSendEthPacket (s : network_module_info_t) (ctrlId : Nat) (pBuffer : Nat → Nat)
    (msgInfo : network_msg_info_t) : Option (Bool × network_module_info_t × (Nat → Nat)) :=
  match s.pCtrlInfoList[ctrlId]?, NetworkGetArpEntry s ctrlId msgInfo.DstIP with
  | some pNetworkCtrl, some pArpEntry =>
    let entry : Option arp_entry_t :=
      match pArpEntry with
      | some idx => pNetworkCtrl.pArpArray[idx]?
      | none => none
    let arpValid : Bool :=
      match entry with
      | some e => e.Status.IsValid
      | none => false
    let isBroadcast :=
      NetworkIsIpBroadcast msgInfo.DstIP pNetworkCtrl.IpAddr pNetworkCtrl.SubnetMask
    if arpValid || isBroadcast then
      let b1 := storeBytes pBuffer 6 pNetworkCtrl.MacAddr.toList
      let b2 : Option (Nat → Nat) :=
        if !isBroadcast then
          match entry with
          | some e => some (storeBytes b1 0 e.MacAddr.toList)
          | none => none
        else some (storeBytes b1 0 [0xFF, 0xFF, 0xFF, 0xFF, 0xFF, 0xFF])
      match b2, pNetworkCtrl.pDesc with
      | some b2, some desc =>
        let b3 := store16 b2 12 0x0008
        let headerSize := (msgInfo.HeaderSize + ETH_HEADER_SIZE) % 65536
        let r := macSend s desc b3 ((headerSize + msgInfo.DataSize) % 65536)
        some (r.1, r.2, b3)
      | _, _ => none
    else some (false, s, pBuffer)
  | _, _ => none

/-- Source `NetworkSendIpPacket`; the bit-fields `ihl`, `version` share the first byte
of the header (low and high nibble), `ecn` and `dscp` the second. -/
def NetworkSendIpPacket (s : network_module_info_t) (ctrlId : Nat) (protocol : Nat)
    (pBuffer : Nat → Nat) (msgInfo : network_msg_info_t) :
    Option (Bool × network_module_info_t × (Nat → Nat)) :=
  match s.pCtrlInfoList[ctrlId]? with
  | none => none
  | some pNetworkCtrl =>
    let h := ETH_HEADER_SIZE
    let b := storeBytes pBuffer h [(pBuffer h &&& 0xF0) ||| 5]
    let b := storeBytes b h [(b h &&& 0x0F) ||| (4 <<< 4)]
    let b := storeBytes b (h + 1) [(b (h + 1) &&& 0xFC) ||| 0]
    let b := storeBytes b (h + 1) [(b (h + 1) &&& 0x03) ||| (0 <<< 2)]
    let b := store16 b (h + 2)
      (UtilsRotrUint16 ((IPV4_HEADER_SIZE + msgInfo.DataSize + msgInfo.HeaderSize) % 65536) 8)
    let b := store16 b (h + 4) 0
    let b := store16 b (h + 6) 64
    let b := storeBytes b (h + 8) [128]
    let b := storeBytes b (h + 9) [protocol]
    let b := store16 b (h + 10) 0
    let b := storeBytes b (h + 12) pNetworkCtrl.IpAddr.toList
    let b := storeBytes b (h + 16) msgInfo.DstIP.toList
    let msgInfo1 :=
      { msgInfo with HeaderSize := (msgInfo.HeaderSize + IPV4_HEADER_SIZE) % 65536 }
    NetworkSendEthPacket s ctrlId b msgInfo1

/-- Source `NetworkSendUdpPacket`. -/
def NetworkSendUdpPacket (s : network_module_info_t) (ctrlId : Nat) (pBuffer : Nat → Nat)
    (msgInfo : network_msg_info_t) : Option (Bool × network_module_info_t × (Nat → Nat)) :=
  let h := IPV4_HEADER_SIZE + ETH_HEADER_SIZE
  let b := store16 pBuffer h (UtilsRotrUint16 msgInfo.SrcPort 8)
  let b := store16 b (h + 2) (UtilsRotrUint16 msgInfo.DstPort 8)
  let b := store16 b (h + 4) (UtilsRotrUint16 ((msgInfo.DataSize + UDP_HEADER_SIZE) % 65536) 8)
  let b := store16 b (h + 6) 0
  let msgInfo1 := { msgInfo with HeaderSize := UDP_HEADER_SIZE }
  NetworkSendIpPacket s ctrlId IP_PROT_UDP b msgInfo1

/-- Source `NetworkIcmpChecksum`; `pBuffer` is the region of the 16-bit words. -/
def NetworkIcmpChecksum (pBuffer : Nat → Nat) (buffSize : Nat) : Nat :=
  let checksum :=
    (List.range buffSize).foldl (fun acc i => add32 acc (SWAP16 (load16 pBuffer (2 * i)))) 0
  let checksum := add32 (checksum &&& 0xffff) (checksum >>> 16)
  (4294967295 - checksum) % 65536

/-- Source `NetworkIcmpLength`; the header is at offset `hdr` of `pBuffer`, the second
component is the buffer after the padding byte was written. -/
def NetworkIcmpLength (pBuffer : Nat → Nat) (hdr : Nat) (ipMsgSize : Nat) :
    Nat × (Nat → Nat) :=
  let icmpMsgSize := (SWAP16 ipMsgSize + 65536 - IPV4_HEADER_SIZE) % 65536
  if icmpMsgSize % 2 > 0 then
    (((icmpMsgSize + 1) % 65536) / 2, storeBytes pBuffer (hdr + icmpMsgSize) [0])
  else (icmpMsgSize / 2, pBuffer)

/-- Source `NetworkSendIcmpEchoRequest`. -/
def NetworkSendIcmpEchoRequest (s : network_module_info_t) (ctrlId : Nat)
    (pIpAdress : ip_addr) : Option (Bool × network_module_info_t) :=
  match s.pCtrlInfoList[ctrlId]? with
  | none => none
  | some pNetworkCtrl =>
    let h := ETH_HEADER_SIZE + IPV4_HEADER_SIZE
    let msgInfo := NetworkInitMsgInfo pIpAdress 0 0 NETWORK_ICMP_DATA_SIZE
    let s1 := setCtrl s ctrlId { pNetworkCtrl with IcmpReplyReceived := false }
    let b := storeBytes (fun _ => 0) h [ICMP_ECHO_REQUEST]
    let b := storeBytes b (h + 1) [0]
    let b := store16 b (h + 2) 0
    let b := store16 b (h + 4) 1
    let b := store16 b (h + 6) 1
    let b := storeBytes b (h + ICMP_HEADER_SIZE) (List.replicate NETWORK_ICMP_DATA_SIZE 0x5)
    let msgLength := UtilsRotrUint16 (56 - ETH_HEADER_SIZE) 8
    let l := NetworkIcmpLength b h msgLength
    let b := store16 l.2 (h + 2) (SWAP16 (NetworkIcmpChecksum (ptrAdd l.2 h) l.1))
    let msgInfo1 := { msgInfo with HeaderSize := (msgInfo.HeaderSize + ICMP_HEADER_SIZE) % 65536 }
    match s1.pCtrlInfoList[ctrlId]? with
    | none => none
    | some c1 =>
      let s2 := setCtrl s1 ctrlId
        { c1 with IcmpReplyDelay := s1.pInitDesc.GenInterface.pFnTimerGetTime }
      match NetworkSendIpPacket s2 ctrlId IP_PROT_ICMP b msgInfo1 with
      | none => none
      | some r => some (r.1, r.2.1)

/-- Source `NetworkProcessIcmpEchoRequest`. -/
def NetworkProcessIcmpEchoRequest (s : network_module_info_t) (ctrlId : Nat)
    (pBuffer : Nat → Nat) (buffSize : Nat) :
    Option (Bool × network_module_info_t × (Nat → Nat)) :=
  match s.pCtrlInfoList[ctrlId]? with
  | none => none
  | some pNetworkCtrl =>
    let ip := ETH_HEADER_SIZE
    let h := ETH_HEADER_SIZE + IPV4_HEADER_SIZE
    let b := storeBytes pBuffer h [ICMP_ECHO_REPLY]
    let b := storeBytes b (h + 1) [0]
    let b := store16 b (h + 2) 0
    let l := NetworkIcmpLength b h (load16 b (ip + 2))
    let b := store16 l.2 (h + 2) (SWAP16 (NetworkIcmpChecksum (ptrAdd l.2 h) l.1))
    let b := storeBytes b (ip + 16) (ip_addr.ofMem b (ip + 12)).toList
    let b := storeBytes b (ip + 12) pNetworkCtrl.IpAddr.toList
    let b := storeBytes b 0 (mac_addr.ofMem b 6).toList
    let b := storeBytes b 6 pNetworkCtrl.MacAddr.toList
    match pNetworkCtrl.pDesc with
    | none => none
    | some desc =>
      let r := macSend s desc b buffSize
      some (r.1, r.2, b)

/-- Source `NetworkProcessIcmpEchoReply`. -/
def NetworkProcessIcmpEchoReply (s : network_module_info_t) (ctrlId : Nat) :
    Option (Bool × network_module_info_t) :=
  match s.pCtrlInfoList[ctrlId]? with
  | none => none
  | some pNetworkCtrl =>
    if !pNetworkCtrl.IcmpReplyReceived then
      some (true, setCtrl s ctrlId
        { pNetworkCtrl with
            IcmpReplyDelay :=
              UtilsDiffUint32 pNetworkCtrl.IcmpReplyDelay s.pInitDesc.GenInterface.pFnTimerGetTime,
            IcmpReplyReceived := true })
    else some (true, s)

/-- Source `NetworkProcessIcmpPacket`. -/
def NetworkProcessIcmpPacket (s : network_module_info_t) (ctrlId : Nat)
    (pBuffer : Nat → Nat) (buffSize : Nat) :
    Option (Bool × network_module_info_t × (Nat → Nat)) :=
  let type := pBuffer (ETH_HEADER_SIZE + IPV4_HEADER_SIZE)
  if type = ICMP_ECHO_REQUEST then NetworkProcessIcmpEchoRequest s ctrlId pBuffer buffSize
  else if type = ICMP_ECHO_REPLY then
    match NetworkProcessIcmpEchoReply s ctrlId with
    | none => none
    | some r => some (r.1, r.2, pBuffer)
  else some (true, s, pBuffer)

/-- Source `NetworkDecodeUdpPacket`: the buffer after the two port fields were swapped in
place, the data size, the destination port and the offset of the data. -/
def NetworkDecodeUdpPacket (pBuffer : Nat → Nat) : (Nat → Nat) × Nat × Nat × Nat :=
  let h := ETH_HEADER_SIZE + IPV4_HEADER_SIZE
  let b := store16 pBuffer h (UtilsRotrUint16 (load16 pBuffer h) 8)
  let b := store16 b (h + 2) (UtilsRotrUint16 (load16 b (h + 2)) 8)
  let destPort := load16 b (h + 2)
  let dataSize := (UtilsRotrUint16 (load16 b (h + 4)) 8 + 65536 - UDP_HEADER_SIZE) % 65536
  (b, dataSize, destPort, ETH_HEADER_SIZE + IPV4_HEADER_SIZE + UDP_HEADER_SIZE)

/-- Source `NetworkStoreSendData`; `pBuffer` is the region of the bytes to send and
`pIpDest` the optional recipient address. -/
def NetworkStoreSendData (s : network_module_info_t) (portId : Nat) (pBuffer : Nat → Nat)
    (buffSize : Nat) (pIpDest : Option ip_addr) : Option (Bool × network_module_info_t) :=
  match s.pPortInfoList[portId]? with
  | none => none
  | some port =>
    if port.IsVirtualComTx || decide (FifoFreeSpace port.pFifoTxMsgDesc > 0) then
      let w := FifoWrite port.pFifoTxMsg (some pBuffer) buffSize
      let port1 := { port with pFifoTxMsg := w.2 }
      if w.1 && !port.IsVirtualComTx then
        let msgDesc : network_msg_desc_t :=
          { MsgSize := buffSize, IpAddr := pIpDest.getD ip_addr.zero }
        let w2 := FifoWrite port1.pFifoTxMsgDesc (some (fun _ => msgDesc)) 1
        some (w.1 && w2.1, setPort s portId { port1 with pFifoTxMsgDesc := w2.2 })
      else some (w.1, setPort s portId port1)
    else some (false, s)

/-- The deposit of `NetworkStoreIncMsg` in one port whose number and protocol match:
the status and the port after it. -/
def storeIncPort (port : network_port_info_t) (pBuffer : Nat → Nat) (buffSize : Nat)
    (pIpSrc : ip_addr) : Bool × network_port_info_t :=
  if port.IsVirtualComRx || decide (FifoFreeSpace port.pFifoRxMsgDesc > 0) then
    let w := FifoWrite port.pFifoRxMsg (some pBuffer) buffSize
    let port1 := { port with pFifoRxMsg := w.2 }
    if w.1 && !port.IsVirtualComRx then
      let msgDesc : network_msg_desc_t := { MsgSize := buffSize, IpAddr := pIpSrc }
      let w2 := FifoWrite port1.pFifoRxMsgDesc (some (fun _ => msgDesc)) 1
      (w.1 && w2.1, { port1 with pFifoRxMsgDesc := w2.2 })
    else (w.1, port1)
  else (false, port)

/-- The body of the loop of `NetworkStoreIncMsg` for the port `portId`. -/
def NetworkStoreIncMsg.body (pBuffer : Nat → Nat) (buffSize destPort protocol : Nat)
    (pIpSrc : ip_addr) (portId : Nat) (s : network_module_info_t) (storeStatus : Bool) :
    Option (Bool × network_module_info_t) :=
  match s.pPortInfoList[portId]? with
  | none => none
  | some port =>
    if destPort = port.InPortNb then
      match port.pDesc with
      | none => none
      | some desc =>
        if protocol = desc.Protocol then
          some ((storeIncPort port pBuffer buffSize pIpSrc).1,
            setPort s portId (storeIncPort port pBuffer buffSize pIpSrc).2)
        else some (storeStatus, s)
    else some (storeStatus, s)

/-- The loop of `NetworkStoreIncMsg` from `portId` with `k` iterations left. -/
def NetworkStoreIncMsg.loop (pBuffer : Nat → Nat) (buffSize destPort protocol : Nat)
    (pIpSrc : ip_addr) :
    Nat → Nat → network_module_info_t → Bool → Option (Bool × network_module_info_t)
  | _, 0, s, storeStatus => some (storeStatus, s)
  | portId, k + 1, s, storeStatus =>
    match NetworkStoreIncMsg.body pBuffer buffSize destPort protocol pIpSrc portId s
        storeStatus with
    | none => none
    | some r =>
      NetworkStoreIncMsg.loop pBuffer buffSize destPort protocol pIpSrc (portId + 1) k r.2 r.1

/-- Source `NetworkStoreIncMsg`; `pBuffer` is the region of the message data. -/
def NetworkStoreIncMsg (s : network_module_info_t) (pBuffer : Nat → Nat)
    (buffSize destPort protocol : Nat) (pIpSrc : ip_addr) :
    Option (Bool × network_module_info_t) :=
  NetworkStoreIncMsg.loop pBuffer buffSize destPort protocol pIpSrc 0 s.pInitDesc.PortNb s true

/-- The two calls `FifoConsume(pFifoTxMsg, msgSize)` and, on a port that is not a
virtual com port, `FifoConsume(pFifoTxMsgDesc, 1)` of `NetworkProcessSendMsg`. -/
def consumeTxMsg (port : network_port_info_t) (msgSize : Nat) : network_port_info_t :=
  let port1 := { port with pFifoTxMsg := (FifoConsume port.pFifoTxMsg msgSize).2 }
  if !port1.IsVirtualComTx then
    { port1 with pFifoTxMsgDesc := (FifoConsume port1.pFifoTxMsgDesc 1).2 }
  else port1

/-- The message size and destination that `NetworkProcessSendMsg` reads first; `none`
when the descriptor cannot be read (the function then returns false). -/
def sendMsgInfo (port : network_port_info_t) : Option (Nat × ip_addr) :=
  if !port.IsVirtualComTx then
    let r := FifoRead port.pFifoTxMsgDesc
      (some (fun _ => ({ MsgSize := 0, IpAddr := ip_addr.zero } : network_msg_desc_t))) 1 false
    match r.1, r.2.2 with
    | true, some d =>
      let msgDesc := d 0
      if ip_addr.zero ≠ msgDesc.IpAddr then some (msgDesc.MsgSize, msgDesc.IpAddr)
      else some (msgDesc.MsgSize, port.DstIpAddr)
    | _, _ => none
  else some (FifoItemCount port.pFifoTxMsg % 65536, port.DstIpAddr)

/-- Source `NetworkProcessSendMsg`; the third component is the transmit buffer after
the call. -/
def NetworkProcessSendMsg (s : network_module_info_t) (portId : Nat) (pBuffer : Nat → Nat) :
    Option (Bool × network_module_info_t × (Nat → Nat)) :=
  match s.pPortInfoList[portId]? with
  | none => none
  | some port =>
    match sendMsgInfo port with
    | none => some (false, s, pBuffer)
    | some (msgSize0, destIp) =>
      let msgSize := if msgSize0 < ETHERNET_MAX_DATA_SIZE then msgSize0 else ETHERNET_MAX_DATA_SIZE
      match port.pDesc with
      | none => none
      | some pdesc =>
        let ctrlId := pdesc.NetworkCtrlId
        match s.pCtrlInfoList[ctrlId]? with
        | none => none
        | some pNetworkCtrl =>
          if NetworkIsIpValid destIp pNetworkCtrl.IpAddr pNetworkCtrl.SubnetMask then
            let msgInfo := NetworkInitMsgInfo destIp port.InPortNb port.OutPortNb msgSize
            match NetworkGetArpEntry s ctrlId msgInfo.DstIP with
            | none => none
            | some pArpEntry =>
              let entry : Option arp_entry_t :=
                match pArpEntry with
                | some idx => pNetworkCtrl.pArpArray[idx]?
                | none => none
              let arpValid : Bool :=
                match entry with
                | some e => e.Status.IsValid
                | none => false
              if NetworkIsIpBroadcast msgInfo.DstIP pNetworkCtrl.IpAddr pNetworkCtrl.SubnetMask
                  || arpValid then
                let r := FifoRead port.pFifoTxMsg (some (ptrAdd pBuffer NETWORK_HEADER_SIZE))
                  msgSize false
                match r.1, r.2.2 with
                | true, some d =>
                  let pBuffer1 := ptrStore pBuffer NETWORK_HEADER_SIZE d
                  match NetworkSendUdpPacket s ctrlId pBuffer1 msgInfo with
                  | none => none
                  | some (true, s1, b) => some (true, setPort s1 portId (consumeTxMsg port msgSize), b)
                  | some (false, s1, b) => some (false, s1, b)
                | _, _ => some (false, s, pBuffer)
              else if pArpEntry.isNone ||
                  (!arpValid && s.pInitDesc.GenInterface.pFnTimerIsPassed port.TimerRequestARP) then
                let port1 :=
                  if port.CounterARP < NETWORK_ARP_REQ_GROUP_NB then
                    { port with
                        CounterARP := (port.CounterARP + 1) % 256,
                        TimerRequestARP :=
                          add32 s.pInitDesc.GenInterface.pFnTimerGetTime
                            NETWORK_ARP_REQUEST_COOLDOWN }
                  else consumeTxMsg { port with CounterARP := 0 } msgSize
                match NetworkRequestArp (setPort s portId port1) ctrlId msgInfo.DstIP with
                | none => none
                | some r => some (true, r.2, pBuffer)
              else some (true, s, pBuffer)
          else some (false, setPort s portId (consumeTxMsg port msgSize), pBuffer)

/-- Source `NetworkProcessIpPacket`; the third component is the buffer after the call. -/
def NetworkProcessIpPacket (s : network_module_info_t) (ctrlId : Nat) (pBuffer : Nat → Nat)
    (buffSize : Nat) : Option (Bool × network_module_info_t × (Nat → Nat)) :=
  match NetworkAcceptIncIpPacket s ctrlId (ptrAdd pBuffer ETH_HEADER_SIZE) with
  | none => none
  | some false => some (true, s, pBuffer)
  | some true =>
    match NetworkUpdateArpTable s ctrlId (ip_addr.ofMem pBuffer (ETH_HEADER_SIZE + 12))
        (mac_addr.ofMem pBuffer 6) false with
    | none => none
    | some u =>
      let protocol := pBuffer (ETH_HEADER_SIZE + 9)
      if protocol = IP_PROT_ICMP then NetworkProcessIcmpPacket u.2 ctrlId pBuffer buffSize
      else if protocol = IP_PROT_UDP then
        let dec := NetworkDecodeUdpPacket pBuffer
        match NetworkStoreIncMsg u.2 (ptrAdd dec.1 dec.2.2.2) dec.2.1 dec.2.2.1 IP_PROT_UDP
            (ip_addr.ofMem dec.1 (ETH_HEADER_SIZE + 12)) with
        | none => none
        | some r => some (r.1, r.2, dec.1)
      else some (true, u.2, pBuffer)

/-- Source `NetworkProcessArpPacket`. -/
def NetworkProcessArpPacket (s : network_module_info_t) (ctrlId : Nat) (pBuffer : Nat → Nat)
    (buffSize : Nat) : Option (Bool × network_module_info_t × (Nat → Nat)) :=
  match s.pCtrlInfoList[ctrlId]? with
  | none => none
  | some pNetworkCtrl =>
    let a := ETH_HEADER_SIZE
    let operation := SWAP16 (load16 pBuffer (a + 6))
    if NetworkIsIpValid (ip_addr.ofMem pBuffer (a + 14)) pNetworkCtrl.IpAddr
        pNetworkCtrl.SubnetMask then
      if operation = ARP_REQUEST then
        if ip_addr.ofMem pBuffer (a + 24) = pNetworkCtrl.IpAddr then
          let b := store16 pBuffer (a + 6) (SWAP16 ARP_REPLY)
          let b := storeBytes b 0 (mac_addr.ofMem b 6).toList
          let b := storeBytes b 6 pNetworkCtrl.MacAddr.toList
          let b := storeBytes b (a + 18) (mac_addr.ofMem b (a + 8)).toList
          let b := storeBytes b (a + 8) pNetworkCtrl.MacAddr.toList
          let b := storeBytes b (a + 24) (ip_addr.ofMem b (a + 14)).toList
          let b := storeBytes b (a + 14) pNetworkCtrl.IpAddr.toList
          match pNetworkCtrl.pDesc with
          | none => none
          | some desc =>
            let r := macSend s desc b buffSize
            some (r.1, r.2, b)
        else some (true, s, pBuffer)
      else if operation = ARP_REPLY then
        match NetworkStoreArp s ctrlId (ip_addr.ofMem pBuffer (a + 14))
            (mac_addr.ofMem pBuffer (a + 8)) false with
        | none => none
        | some r => some (r.1, r.2, pBuffer)
      else some (true, s, pBuffer)
    else some (true, s, pBuffer)

/-- Source `NetworkProcessEthPacket`. -/
def NetworkProcessEthPacket (s : network_module_info_t) (ctrlId : Nat) (pBuffer : Nat → Nat)
    (buffSize : Nat) : Option (Bool × network_module_info_t × (Nat → Nat)) :=
  let protocol := SWAP16 (load16 pBuffer 12)
  if protocol = ETH_PROT_ARP then NetworkProcessArpPacket s ctrlId pBuffer buffSize
  else if protocol = ETH_PROT_IPV4 then NetworkProcessIpPacket s ctrlId pBuffer buffSize
  else some (true, s, pBuffer)

/-- Source `NetworkCtrlValid`. -/
def NetworkCtrlValid (s : network_module_info_t) (ctrlId : Nat) : Bool :=
  decide (ctrlId < s.pInitDesc.CtrlNb) &&
    (match s.pCtrlInfoList[ctrlId]? with
     | some c => c.pDesc.isSome
     | none => false)

/-- Source `NetworkPortValid`. -/
def NetworkPortValid (s : network_module_info_t) (portId : Nat) : Bool :=
  decide (portId < s.pInitDesc.PortNb) &&
    (match s.pPortInfoList[portId]? with
     | some p => p.pDesc.isSome
     | none => false)

/-! ## Network.c: public functions -/

/-- A controller entry as `MemAllocCalloc` returns it (all bytes zero). -/
def network_ctrl_info_t.zero : network_ctrl_info_t :=
  { pDesc := none, pArpArray := [], TimerDecayARP := 0, IcmpReplyDelay := 0,
    IcmpReplyReceived := false, IpAddr := ip_addr.zero, SubnetMask := ip_addr.zero,
    MacAddr := mac_addr.zero }

/-- A port entry as `MemAllocCalloc` returns it (all bytes zero). -/
def network_port_info_t.zero : network_port_info_t :=
  { pDesc := none, pFifoRxMsg := none, pFifoRxMsgDesc := none, pFifoTxMsg := none,
    pFifoTxMsgDesc := none, TimerRequestARP := 0, InPortNb := 0, OutPortNb := 0,
    CounterARP := 0, IsVirtualComRx := false, IsVirtualComTx := false,
    DstIpAddr := ip_addr.zero }

/-- An ARP entry as `MemAllocCalloc` returns it (all bytes zero). -/
def arp_entry_t.zero : arp_entry_t :=
  { DecayTimer := 0, MacAddr := mac_addr.zero, IpAddr := ip_addr.zero,
    Status := { IsInitialised := false, IsValid := false, IsRequested := false,
                HasDecay := false } }

/-- Source `NetworkInit` for a descriptor that is not `NULL` and whose two timer
callbacks are set: the module state after the call (which returns true). -/
def NetworkInit (pInitDesc : network_init_desc_t) : network_module_info_t :=
  { pInitDesc := pInitDesc,
    pCtrlInfoList := List.replicate pInitDesc.CtrlNb network_ctrl_info_t.zero,
    pPortInfoList := List.replicate pInitDesc.PortNb network_port_info_t.zero,
    pBuffer := fun _ => 0,
    Sent := [], Errors := [], MacSet := [] }

/-- Source `NetworkCtrlAdd` (the four driver callbacks of the descriptor are set). -/
def NetworkCtrlAdd (s : network_module_info_t) (ctrlId : Nat)
    (pCtrlDesc : Option network_ctrl_desc_t) : Option (Bool × network_module_info_t) :=
  match pCtrlDesc with
  | some desc =>
    if ctrlId < s.pInitDesc.CtrlNb then
      match s.pCtrlInfoList[ctrlId]? with
      | none => none
      | some pNetworkCtrl =>
        let c : network_ctrl_info_t :=
          { pNetworkCtrl with
              pDesc := some desc,
              TimerDecayARP := 0,
              IcmpReplyDelay := 0,
              IcmpReplyReceived := false,
              pArpArray := List.replicate desc.ArpEntryNb arp_entry_t.zero,
              SubnetMask := desc.DefaultSubnetMask,
              IpAddr := desc.DefaultIpAddr,
              MacAddr := desc.DefaultMacAddr }
        let s1 := setCtrl s ctrlId c
        some (true, { s1 with MacSet := s1.MacSet ++ [(desc.MacCtrlId, c.MacAddr)] })
    else some (false, s)
  | none => some (false, s)

/-- Source `NetworkPortAdd`; the storage of a new fifo is taken zero-filled. -/
def NetworkPortAdd (s : network_module_info_t) (portId : Nat)
    (pPortDesc : Option network_port_desc_t) : Option (Bool × network_module_info_t) :=
  match pPortDesc with
  | some desc =>
    if portId < s.pInitDesc.PortNb then
      match s.pPortInfoList[portId]?, s.pCtrlInfoList[desc.NetworkCtrlId]? with
      | some pNetworkPort, some pNetworkCtrl =>
        if NetworkIsIpValid desc.DefaultDstIpAddr pNetworkCtrl.IpAddr pNetworkCtrl.SubnetMask then
          let p : network_port_info_t :=
            { pNetworkPort with
                pDesc := some desc,
                TimerRequestARP := 0,
                IsVirtualComTx := true,
                IsVirtualComRx := true,
                DstIpAddr := desc.DefaultDstIpAddr,
                InPortNb := desc.DefaultInPortNb,
                OutPortNb := desc.DefaultOutPortNb,
                pFifoRxMsg := some (FifoCreate (fun _ => 0) desc.RxFifoSize 1),
                pFifoTxMsg := some (FifoCreate (fun _ => 0) desc.TxFifoSize 1) }
          let p :=
            if desc.RxDescFifoSize ≠ 0 then
              { p with
                  pFifoRxMsgDesc := some (FifoCreate
                    (fun _ => ({ MsgSize := 0, IpAddr := ip_addr.zero } : network_msg_desc_t))
                    desc.RxDescFifoSize 8),
                  IsVirtualComRx := false }
            else p
          let p :=
            if desc.TxDescFifoSize ≠ 0 then
              { p with
                  pFifoTxMsgDesc := some (FifoCreate
                    (fun _ => ({ MsgSize := 0, IpAddr := ip_addr.zero } : network_msg_desc_t))
                    desc.TxDescFifoSize 8),
                  IsVirtualComTx := false }
            else p
          some (true, setPort s portId p)
        else some (false, s)
      | _, _ => none
    else some (false, s)
  | none => some (false, s)

/-- Source `NetworkPortTxFreeSpace`. -/
def NetworkPortTxFreeSpace (s : network_module_info_t) (portId : Nat) : Nat :=
  if NetworkPortValid s portId then
    match s.pPortInfoList[portId]? with
    | none => 0
    | some port =>
      if !port.IsVirtualComTx && decide (FifoFreeSpace port.pFifoTxMsgDesc = 0) then 0
      else FifoFreeSpace port.pFifoTxMsg
  else 0

/-- Source `NetworkPortIsTxEmpty`. -/
def NetworkPortIsTxEmpty (s : network_module_info_t) (portId : Nat) : Bool :=
  if NetworkPortValid s portId then
    match s.pPortInfoList[portId]? with
    | none => false
    | some port =>
      decide (FifoItemCount port.pFifoTxMsg = 0) ||
        (!port.IsVirtualComTx && decide (FifoItemCount port.pFifoTxMsgDesc = 0))
  else false

/-- Source `NetworkPortSendByte`. -/
def NetworkPortSendByte (s : network_module_info_t) (portId : Nat) (data : Nat)
    (pIpDest : Option ip_addr) : Option (Bool × network_module_info_t) :=
  if NetworkPortValid s portId then NetworkStoreSendData s portId (fun _ => data) 1 pIpDest
  else some (false, s)

/-- Source `NetworkPortSendBuff`. -/
def NetworkPortSendBuff (s : network_module_info_t) (portId : Nat)
    (pBuffer : Option (Nat → Nat)) (buffSize : Nat) (pIpDest : Option ip_addr) :
    Option (Bool × network_module_info_t) :=
  match pBuffer, s.pPortInfoList[portId]? with
  | some buf, some port =>
    if NetworkPortValid s portId then
      if port.IsVirtualComTx || decide (buffSize ≤ ETHERNET_MAX_DATA_SIZE) then
        NetworkStoreSendData s portId buf buffSize pIpDest
      else some (false, s)
    else some (false, s)
  | _, _ => some (false, s)

/-- Source `NetworkPortIsRxEmpty`. -/
def NetworkPortIsRxEmpty (s : network_module_info_t) (portId : Nat) : Bool :=
  if NetworkPortValid s portId then
    match s.pPortInfoList[portId]? with
    | none => false
    | some port =>
      decide (FifoItemCount port.pFifoRxMsg = 0) ||
        (!port.IsVirtualComRx && decide (FifoItemCount port.pFifoRxMsgDesc = 0))
  else false

/-- What `NetworkPortReadByte` and `NetworkPortReadBuff` leave behind: the returned
value, the module state, and the regions behind the three output pointers. -/
structure read_result where
  ret : Bool
  s : network_module_info_t
  pBuffer : Option (Nat → Nat)
  pDataSize : Option Nat
  pSrcIp : Option ip_addr

/-- Source `NetworkPortReadByte`. -/
def NetworkPortReadByte (s : network_module_info_t) (portId : Nat)
    (pBuffer : Option (Nat → Nat)) : read_result :=
  match pBuffer, s.pPortInfoList[portId]? with
  | some buf, some port =>
    if NetworkPortValid s portId && port.IsVirtualComRx then
      let r := FifoRead port.pFifoRxMsg (some buf) 1 true
      { ret := r.1, s := setPort s portId { port with pFifoRxMsg := r.2.1 },
        pBuffer := r.2.2, pDataSize := none, pSrcIp := none }
    else { ret := false, s := s, pBuffer := pBuffer, pDataSize := none, pSrcIp := none }
  | _, _ => { ret := false, s := s, pBuffer := pBuffer, pDataSize := none, pSrcIp := none }

/-- Source `NetworkPortReadBuff`. -/
def NetworkPortReadBuff (s : network_module_info_t) (portId : Nat)
    (pBuffer : Option (Nat → Nat)) (pDataSize : Option Nat) (buffSize : Nat)
    (pSrcIp : Option ip_addr) : read_result :=
  match pBuffer, pDataSize, s.pPortInfoList[portId]? with
  | some buf, some _, some port =>
    if NetworkPortValid s portId then
      let info : Option (Nat × Option ip_addr) :=
        if !port.IsVirtualComRx then
          let r := FifoRead port.pFifoRxMsgDesc
            (some (fun _ => ({ MsgSize := 0, IpAddr := ip_addr.zero } : network_msg_desc_t)))
            1 false
          match r.1, r.2.2 with
          | true, some d =>
            some ((d 0).MsgSize,
              match pSrcIp with
              | some _ => some (d 0).IpAddr
              | none => none)
          | _, _ => none
        else some (FifoItemCount port.pFifoRxMsg % 65536, pSrcIp)
      match info with
      | none =>
        { ret := false, s := s, pBuffer := pBuffer, pDataSize := pDataSize, pSrcIp := pSrcIp }
      | some (msgSize, srcIp) =>
        if msgSize > buffSize ∧ port.IsVirtualComRx = false then
          { ret := false, s := s, pBuffer := pBuffer, pDataSize := some buffSize,
            pSrcIp := srcIp }
        else
          let dataSize := if msgSize > buffSize then buffSize else msgSize
          let r := FifoRead port.pFifoRxMsg (some buf) dataSize true
          if r.1 then
            let port1 := { port with pFifoRxMsg := r.2.1 }
            let port2 :=
              if !port1.IsVirtualComTx then
                { port1 with pFifoRxMsgDesc := (FifoConsume port1.pFifoRxMsgDesc 1).2 }
              else port1
            { ret := true, s := setPort s portId port2, pBuffer := r.2.2,
              pDataSize := some dataSize, pSrcIp := srcIp }
          else
            { ret := false, s := s, pBuffer := r.2.2, pDataSize := some dataSize,
              pSrcIp := srcIp }
    else { ret := false, s := s, pBuffer := pBuffer, pDataSize := pDataSize, pSrcIp := pSrcIp }
  | _, _, _ =>
    { ret := false, s := s, pBuffer := pBuffer, pDataSize := pDataSize, pSrcIp := pSrcIp }

/-- Source `NetworkCtrlAddArpEntry`. -/
def NetworkCtrlAddArpEntry (s : network_module_info_t) (ctrlId : Nat)
    (pIpAddr : Option ip_addr) (pMacAddr : Option mac_addr) (hasDecay : Bool) :
    Option (Bool × network_module_info_t) :=
  match pIpAddr, pMacAddr, s.pCtrlInfoList[ctrlId]? with
  | some ip, some mac, some pNetworkCtrl =>
    if NetworkCtrlValid s ctrlId then
      if NetworkIsIpValid ip pNetworkCtrl.IpAddr pNetworkCtrl.SubnetMask then
        NetworkUpdateArpTable s ctrlId ip mac hasDecay
      else some (false, s)
    else some (false, s)
  | _, _, _ => some (false, s)

/-- The loop of `NetworkCtrlArpDecayProcess` from index `idx` with `k` iterations left:
the table after the decayed entries were cleared (`memset` to zero). -/
def NetworkCtrlArpDecayProcess.loop (isPassed : Nat → Bool) :
    List arp_entry_t → Nat → Nat → Option (List arp_entry_t)
  | arr, _, 0 => some arr
  | arr, idx, k + 1 =>
    match arr[idx]? with
    | none => none
    | some pArpEntry =>
      let arr1 :=
        if pArpEntry.Status.HasDecay && pArpEntry.Status.IsValid then
          let ARPDecayTimer := add32 pArpEntry.DecayTimer NETWORK_ARP_DECAY_TIME
          if isPassed ARPDecayTimer then arr.set idx arp_entry_t.zero else arr
        else arr
      NetworkCtrlArpDecayProcess.loop isPassed arr1 (idx + 1) k

/-- Source `NetworkCtrlArpDecayProcess`. -/
def NetworkCtrlArpDecayProcess (s : network_module_info_t) (ctrlId : Nat) :
    Option network_module_info_t :=
  if NetworkCtrlValid s ctrlId then
    match s.pCtrlInfoList[ctrlId]? with
    | none => none
    | some pNetworkCtrl =>
      if s.pInitDesc.GenInterface.pFnTimerIsPassed pNetworkCtrl.TimerDecayARP then
        let c1 := { pNetworkCtrl with
          TimerDecayARP := add32 s.pInitDesc.GenInterface.pFnTimerGetTime
            NETWORK_ARP_DECAY_COOLDOWN }
        match c1.pDesc with
        | none => none
        | some desc =>
          match NetworkCtrlArpDecayProcess.loop s.pInitDesc.GenInterface.pFnTimerIsPassed
              c1.pArpArray 0 desc.ArpEntryNb with
          | none => none
          | some arr => some (setCtrl s ctrlId { c1 with pArpArray := arr })
      else some s
  else some s

/-- Source `NetworkCtrlForceRequestARP`. -/
def NetworkCtrlForceRequestARP (s : network_module_info_t) (ctrlId : Nat)
    (pIpAddr : Option ip_addr) : Option (Bool × network_module_info_t) :=
  match pIpAddr, s.pCtrlInfoList[ctrlId]? with
  | some ip, some pNetworkCtrl =>
    if NetworkCtrlValid s ctrlId then
      if NetworkIsIpValid ip pNetworkCtrl.IpAddr pNetworkCtrl.SubnetMask then
        NetworkRequestArp s ctrlId ip
      else some (false, s)
    else some (false, s)
  | _, _ => some (false, s)

/-- Source `NetworkCtrlIsArpValid`. -/
def NetworkCtrlIsArpValid (s : network_module_info_t) (ctrlId : Nat)
    (pIpAddr : Option ip_addr) : Option Bool :=
  match pIpAddr with
  | some ip =>
    if NetworkCtrlValid s ctrlId then
      match s.pCtrlInfoList[ctrlId]?, NetworkGetArpEntry s ctrlId ip with
      | some pNetworkCtrl, some (some idx) =>
        match pNetworkCtrl.pArpArray[idx]? with
        | none => none
        | some arpEntry => some arpEntry.Status.IsValid
      | some _, some none => some false
      | _, _ => none
    else some false
  | none => some false

/-- Source `NetworkCtrlSendPingIcmp`. -/
def NetworkCtrlSendPingIcmp (s : network_module_info_t) (ctrlId : Nat)
    (pIpAddr : Option ip_addr) : Option (Bool × network_module_info_t) :=
  match pIpAddr with
  | some ip =>
    if NetworkCtrlValid s ctrlId then NetworkSendIcmpEchoRequest s ctrlId ip
    else some (false, s)
  | none => some (false, s)

/-- Source `NetworkCtrlCheckPingReply`: the returned value and the cell behind
`pDelayValue` after the call. -/
def NetworkCtrlCheckPingReply (s : network_module_info_t) (ctrlId : Nat)
    (pDelayValue : Option Nat) : Bool × Option Nat :=
  if NetworkCtrlValid s ctrlId then
    match s.pCtrlInfoList[ctrlId]? with
    | none => (false, pDelayValue)
    | some pNetworkCtrl =>
      (pNetworkCtrl.IcmpReplyReceived,
        if pDelayValue.isSome && pNetworkCtrl.IcmpReplyReceived then
          some pNetworkCtrl.IcmpReplyDelay
        else pDelayValue)
  else (false, pDelayValue)

/-! ## Specification-side definitions -/

/-- Cursor position `i` folded back into a ring of `cap` cells. -/
def wrapIdx (cap i : Nat) : Nat := if i < cap then i else i - cap

/-- The items a fifo holds, oldest first: the cells from the read cursor on, as many
as the item count, wrapping at the end of the storage. -/
def FifoItems {α : Type} (f : fifo_desc_t α) : List α :=
  (List.range (FifoGetItemCount f.ReadCount f.WriteCount)).map
    (fun k => f.Buffer (wrapIdx f.ItemNb (f.ReadIdx + k)))

/-- Well-formed fifo descriptor: counters in 32-bit range, no more items than cells,
cursors inside the storage and consistent with the item count, and a capacity for
which the 32-bit cursor sums of Fifo.c cannot wrap. -/
structure FifoWf {α : Type} (f : fifo_desc_t α) : Prop where
  cap : f.ItemNb ≤ 2147483648
  rc : f.ReadCount < 4294967296
  wc : f.WriteCount < 4294967296
  cnt : FifoGetItemCount f.ReadCount f.WriteCount ≤ f.ItemNb
  ridx : f.ReadIdx = 0 ∨ f.ReadIdx < f.ItemNb
  widx : f.WriteIdx = wrapIdx f.ItemNb (f.ReadIdx + FifoGetItemCount f.ReadCount f.WriteCount)

/-- The destination region after `n` items were read from the fifo `f`. -/
def FifoReadDest {α : Type} (f : fifo_desc_t α) (dest : Nat → α) (n : Nat) : Nat → α :=
  fun i => if i < n then f.Buffer (wrapIdx f.ItemNb (f.ReadIdx + i)) else dest i

/-- A call of the fifo interface on an existing fifo, with its arguments. -/
inductive FifoOp (α : Type) where
  | write (src : Nat → α) (itemNb : Nat)
  | read (dest : Nat → α) (itemNb : Nat) (consume : Bool)
  | consume (itemNb : Nat)
  | flush

/-- The fifo descriptor after a call. -/
def FifoApply {α : Type} (f : fifo_desc_t α) : FifoOp α → fifo_desc_t α
  | .write src n => ((FifoWrite (some f) (some src) n).2).getD f
  | .read dest n c => ((FifoRead (some f) (some dest) n c).2.1).getD f
  | .consume n => ((FifoConsume (some f) n).2).getD f
  | .flush => FifoFlush f

/-- The fifo descriptors that calls of the interface produce from
`FifoCreate(cap, itemSize)`. -/
inductive FifoReachable {α : Type} (cap itemSize : Nat) : fifo_desc_t α → Prop where
  | create (mem : Nat → α) : FifoReachable cap itemSize (FifoCreate mem cap itemSize)
  | step (f : fifo_desc_t α) (op : FifoOp α) :
      FifoReachable cap itemSize f → FifoReachable cap itemSize (FifoApply f op)

/-- Specification of the ring buffer (spec 4.1, in the words of the spec): a queue of
at most `cap` items.  A write of `n` items is refused when fewer than `n` cells are
free and appends the items otherwise; a consuming read or a consume of `n` items is
refused when fewer than `n` items are held and removes the `n` oldest otherwise; a
read that does not consume changes nothing; a flush empties the queue. -/
def QueueApply {α : Type} (cap : Nat) (q : List α) : FifoOp α → List α
  | .write src n => if q.length + n ≤ cap then q ++ (List.range n).map src else q
  | .read _ n c => if c = true ∧ n ≤ q.length then q.drop n else q
  | .consume n => if n ≤ q.length then q.drop n else q
  | .flush => []

namespace Bytes

/-- The fifo descriptor after a call, when the call is defined. -/
def FifoApply (f : fifo_desc_t Nat) : FifoOp Nat → Option (fifo_desc_t Nat)
  | .write src n => (FifoWrite (some f) (some src) n).map fun r => r.2.getD f
  | .read dest n c => (FifoRead (some f) (some dest) n c).map fun r => r.2.1.getD f
  | .consume n => some ((FifoConsume (some f) n).2.getD f)
  | .flush => some (FifoFlush f)

/-- The fifo descriptors that defined calls of the interface produce from
`FifoCreate(cap, itemSize)`. -/
inductive FifoReachable (cap itemSize : Nat) : fifo_desc_t Nat → Prop where
  | create (mem : Nat → Nat) : FifoReachable cap itemSize (FifoCreate mem cap itemSize)
  | step (f g : fifo_desc_t Nat) (op : FifoOp Nat) :
      FifoReachable cap itemSize f → FifoApply f op = some g → FifoReachable cap itemSize g

end Bytes


/-- Item `i` of a byte region cut into items of `s` bytes. -/
def cellsOf (s : Nat) (b : Nat → Nat) : Nat → List Nat :=
  fun i => (List.range s).map fun j => b (i * s + j)

/-- The fifo seen by item: cell `i` of the storage is the item made of the `ItemSize`
bytes at byte offset `i * ItemSize`. -/
def itemView (f : fifo_desc_t Nat) : fifo_desc_t (List Nat) :=
  { Buffer := cellsOf f.ItemSize f.Buffer, ItemNb := f.ItemNb, ItemSize := f.ItemSize,
    ReadCount := f.ReadCount, WriteCount := f.WriteCount, ReadIdx := f.ReadIdx,
    WriteIdx := f.WriteIdx }

/-- A call on byte regions seen as a call on items of `s` bytes. -/
def itemOp (s : Nat) : FifoOp Nat → FifoOp (List Nat)
  | .write src n => .write (cellsOf s src) n
  | .read dest n c => .read (cellsOf s dest) n c
  | .consume n => .consume n
  | .flush => .flush

/-- Every cell of the address holds a byte. -/
def ip_addr.isBytes (a : ip_addr) : Prop := a.b0 < 256 ∧ a.b1 < 256 ∧ a.b2 < 256 ∧ a.b3 < 256

/-- The port after `NetworkStoreIncMsg` went over it: the deposit when the port number
and the protocol match, the same port otherwise. -/
def storeIncUpdate (pBuffer : Nat → Nat) (buffSize destPort protocol : Nat) (pIpSrc : ip_addr)
    (port : network_port_info_t) : network_port_info_t :=
  match port.pDesc with
  | some desc =>
    if destPort = port.InPortNb ∧ protocol = desc.Protocol then
      (storeIncPort port pBuffer buffSize pIpSrc).2
    else port
  | none => port

/-- The parts of the module state that the ARP functions leave alone. -/
def sameOutsideArp (s s1 : network_module_info_t) : Prop :=
  s1.pPortInfoList = s.pPortInfoList ∧ s1.pInitDesc = s.pInitDesc ∧ s1.pBuffer = s.pBuffer ∧
    s1.Sent = s.Sent ∧ s1.MacSet = s.MacSet

/-- The UDP frame of spec 4.6, step 4, byte by byte: Ethernet II header (destination,
source, type 08 00), IPv4 header (45 00, total length, identification 00 00, flags and
offset 40 00, TTL 80, protocol 11, checksum 00 00, source, destination), UDP header
(source port, destination port, length, checksum 00 00), payload; the lengths and the
ports are big-endian. -/
def udpFrame (dstMac srcMac : mac_addr) (srcIp dstIp : ip_addr) (srcPort dstPort : Nat)
    (payload : List Nat) : List Nat :=
  dstMac.toList ++ srcMac.toList ++
    [0x08, 0x00, 0x45, 0x00, (28 + payload.length) / 256, (28 + payload.length) % 256,
     0x00, 0x00, 0x40, 0x00, 0x80, 0x11, 0x00, 0x00] ++
    srcIp.toList ++ dstIp.toList ++
    [srcPort / 256, srcPort % 256, dstPort / 256, dstPort % 256,
     (8 + payload.length) / 256, (8 + payload.length) % 256, 0x00, 0x00] ++
    payload

/-- The counters of a fifo of capacity `cap` are consistent: both in 32-bit range and an
item count of at most `cap`. -/
def FifoCounts {α : Type} (cap : Nat) (f : fifo_desc_t α) : Prop :=
  f.ItemNb = cap ∧ f.ReadCount < 4294967296 ∧ f.WriteCount < 4294967296 ∧
    FifoGetItemCount f.ReadCount f.WriteCount ≤ cap

/-! ## Concrete inputs -/

/-- Calls on a fifo of four cells: three items written, one read and consumed, two
more written (the second one lands in cell 0). -/
def smallOps : List (FifoOp Nat) :=
  [.write (fun i => 1 + i) 3, .read (fun _ => 0) 1 true, .write (fun i => 4 + i) 2]

/-- A fifo of four cells that holds three items. -/
def smallFifo : fifo_desc_t Nat :=
  FifoApply (FifoCreate (fun _ => 0) 4 1) (.write (fun i => 1 + i) 3)

/-- Calls on a fifo of `2^32 - 1` items of one byte: the storage is filled up to its last
byte but one and drained, then the items 10 and 11 are written (into the last byte and
into byte 0) and consumed; the 32-bit sum `ReadIdx + 2` of that last call is `2^32`. -/
def skewOps : List (FifoOp Nat) :=
  [.write (fun _ => 7) 4294967294, .consume 4294967294, .write (fun _ => 10) 1,
   .write (fun _ => 11) 1, .consume 2]

/-- The calls `skewOps` followed by the write of the item 12. -/
def wrapOps : List (FifoOp Nat) := skewOps ++ [.write (fun _ => 12) 1]

/-- The fifo of `2^32 - 1` items of one byte after the calls `skewOps`: it is empty, its
read cursor stands at byte 0 and its write cursor at byte 1. -/
def skewFifo : fifo_desc_t Nat :=
  (skewOps.foldlM Bytes.FifoApply (FifoCreate (fun _ => 0) 4294967295 1)).getD
    (FifoCreate (fun _ => 0) 4294967295 1)

/-- One call on a fifo of `2^30 + 1` items of four bytes: as many items as the fifo has
room for are written, every byte of them 1. -/
def wideOps : List (FifoOp Nat) := [.write (fun _ => 1) 1073741825]

/-- An empty fifo of four items of two bytes whose cursors stand at item 3. -/
def pairEmptyFifo : fifo_desc_t Nat :=
  (([.write (fun i => 1 + i) 3, .consume 3] : List (FifoOp Nat)).foldlM Bytes.FifoApply
    (FifoCreate (fun _ => 0) 4 2)).getD (FifoCreate (fun _ => 0) 4 2)

/-- The byte region that holds the bytes of `l` from offset 0 on, and zero after them. -/
def bufOf (l : List Nat) : Nat → Nat := fun i => l.getD i 0

/-- A driver that has no message and accepts every message. -/
def idleDriver : network_com_itfc_t :=
  { MacCtrlHasMsg := fun _ => false, MacCtrlGetMsg := fun _ b => (b, 0),
    MacCtrlSendMsg := fun _ _ => true }

/-- The module descriptor of test_network.c with the clock at `now` and the timer
callbacks of the test (`isPassed d` is `now >= d`), for `ctrlNb` controllers and
`portNb` ports. -/
def testInitDesc (now ctrlNb portNb : Nat) : network_init_desc_t :=
  { GenInterface := { pFnErrorNotify := false, pFnTimerGetTime := now,
                      pFnTimerIsPassed := fun d => decide (now ≥ d) },
    ErrorCode := 0, CtrlNb := ctrlNb, PortNb := portNb }

/-- The controller descriptor `NetworkMainCtrlDesc` of test_network.c. -/
def testCtrlDesc : network_ctrl_desc_t :=
  { ComInterface := idleDriver,
    DefaultMacAddr := ⟨0x01, 0x23, 0x45, 0x67, 0x89, 0xab⟩,
    DefaultIpAddr := ⟨192, 168, 2, 101⟩,
    DefaultSubnetMask := ⟨255, 255, 255, 0⟩,
    MacCtrlId := 0, ArpEntryNb := 20 }

/-- A second controller, on the subnet 10.0.0.0/24. -/
def otherCtrlDesc : network_ctrl_desc_t :=
  { ComInterface := idleDriver,
    DefaultMacAddr := ⟨0x02, 0, 0, 0, 0, 0x01⟩,
    DefaultIpAddr := ⟨10, 0, 0, 1⟩,
    DefaultSubnetMask := ⟨255, 255, 255, 0⟩,
    MacCtrlId := 1, ArpEntryNb := 20 }

/-- A UDP port with local number 10101 bound to the second controller. -/
def otherPortDesc : network_port_desc_t :=
  { NetworkCtrlId := 1, Protocol := IP_PROT_UDP, DefaultDstIpAddr := ⟨10, 0, 0, 2⟩,
    DefaultInPortNb := 10101, DefaultOutPortNb := 10201,
    RxFifoSize := 1514, RxDescFifoSize := 20, TxFifoSize := 1514, TxDescFifoSize := 20 }

/-- The frame `udp_rx_barray` of test_network.c: 192.168.2.0 to 192.168.2.101, UDP
10201 to 10101, nine bytes of data. -/
def udp_rx_barray : List Nat :=
  [0x01, 0x23, 0x45, 0x67, 0x89, 0xAB, 0x11, 0x22, 0x44, 0x55, 0x88, 0xAA, 0x08, 0x00, 0x45, 0x00,
   0x00, 0x25, 0x00, 0x00, 0x40, 0x00, 0x80, 0x11, 0x00, 0x00, 0xC0, 0xA8, 0x02, 0x00, 0xC0, 0xA8,
   0x02, 0x65, 0x27, 0xD9, 0x27, 0x75, 0x00, 0x11, 0x00, 0x00, 0x53, 0x79, 0x6E, 0x65, 0x72, 0x65,
   0x73, 0x69, 0x73]

/-- Two controllers, and one port that is bound to the second one. -/
def crossState : Option network_module_info_t :=
  (NetworkCtrlAdd (NetworkInit (testInitDesc 0 2 1)) 0 (some testCtrlDesc)).bind fun r1 =>
  (NetworkCtrlAdd r1.2 1 (some otherCtrlDesc)).bind fun r2 =>
  (NetworkPortAdd r2.2 0 (some otherPortDesc)).map fun r3 => r3.2

/-- The receive side of each port: controller of the port, bytes queued, descriptors
queued. -/
def rxSummary (s : network_module_info_t) : List (Option Nat × Nat × Nat) :=
  s.pPortInfoList.map fun p =>
    (p.pDesc.map fun d => d.NetworkCtrlId, FifoItemCount p.pFifoRxMsg,
      FifoItemCount p.pFifoRxMsgDesc)

/-- The port descriptor `NetworkMainPortDesc` of test_network.c. -/
def testPortDesc : network_port_desc_t :=
  { NetworkCtrlId := 0, Protocol := IP_PROT_UDP, DefaultDstIpAddr := ⟨192, 168, 2, 100⟩,
    DefaultInPortNb := 10101, DefaultOutPortNb := 10201,
    RxFifoSize := 1514, RxDescFifoSize := 20, TxFifoSize := 1514, TxDescFifoSize := 20 }

/-- A port descriptor with a descriptor queue on the receive side only: datagram mode
for reception, stream mode for transmission. -/
def mixedPortDesc : network_port_desc_t :=
  { NetworkCtrlId := 0, Protocol := IP_PROT_UDP, DefaultDstIpAddr := ⟨192, 168, 2, 100⟩,
    DefaultInPortNb := 10101, DefaultOutPortNb := 10201,
    RxFifoSize := 1514, RxDescFifoSize := 20, TxFifoSize := 1514, TxDescFifoSize := 0 }

/-- The module after `NetworkInit` for one controller and one port and `NetworkCtrlAdd`
of the test controller. -/
def baseState : network_module_info_t :=
  ((NetworkCtrlAdd (NetworkInit (testInitDesc 0 1 1)) 0 (some testCtrlDesc)).map
    fun r => r.2).getD (NetworkInit (testInitDesc 0 1 1))

/-- The module of test_network.c: the test port added, and the peer 192.168.2.0 entered
in the ARP table. -/
def testState : network_module_info_t :=
  (((NetworkPortAdd baseState 0 (some testPortDesc)).bind fun r =>
    NetworkCtrlAddArpEntry r.2 0 (some ⟨192, 168, 2, 0⟩)
      (some ⟨0x11, 0x22, 0x44, 0x55, 0x88, 0xaa⟩) false).map fun r => r.2).getD baseState

/-- The module `testState` after `NetworkPortSendByte(port, 0x55, 192.168.2.0)`. -/
def txState : network_module_info_t :=
  ((NetworkPortSendByte testState 0 0x55 (some ⟨192, 168, 2, 0⟩)).map fun r => r.2).getD
    testState

/-- The module with the port of `mixedPortDesc` added. -/
def mixedState : network_module_info_t :=
  ((NetworkPortAdd baseState 0 (some mixedPortDesc)).map fun r => r.2).getD baseState

/-- The module `mixedState` after the controller processed the frame `udp_rx_barray`. -/
def mixedRxState : network_module_info_t :=
  ((NetworkProcessIpPacket mixedState 0 (bufOf udp_rx_barray) 51).map fun r => r.2.1).getD
    mixedState

/-- The modes of each port: `IsVirtualComRx`, `IsVirtualComTx`. -/
def modeSummary (s : network_module_info_t) : List (Bool × Bool) :=
  s.pPortInfoList.map fun p => (p.IsVirtualComRx, p.IsVirtualComTx)

/-- The frame `udp_tx_byte` of test_network.c. -/
def udp_tx_byte : List Nat :=
  [0x11, 0x22, 0x44, 0x55, 0x88, 0xaa, 0x01, 0x23, 0x45, 0x67, 0x89, 0xab, 0x08, 0x00, 0x45, 0x00,
   0x00, 0x1d, 0x00, 0x00, 0x40, 0x00, 0x80, 0x11, 0x00, 0x00, 0xc0, 0xa8, 0x02, 0x65, 0xc0, 0xa8,
   0x02, 0x00, 0x27, 0x75, 0x27, 0xd9, 0x00, 0x09, 0x00, 0x00, 0x55]

/-- The frame `udp_rx_barray` with the source address 192.168.3.0, outside the subnet of
the test controller. -/
def udp_rx_foreign : List Nat :=
  [0x01, 0x23, 0x45, 0x67, 0x89, 0xAB, 0x11, 0x22, 0x44, 0x55, 0x88, 0xAA, 0x08, 0x00, 0x45, 0x00,
   0x00, 0x25, 0x00, 0x00, 0x40, 0x00, 0x80, 0x11, 0x00, 0x00, 0xC0, 0xA8, 0x03, 0x00, 0xC0, 0xA8,
   0x02, 0x65, 0x27, 0xD9, 0x27, 0x75, 0x00, 0x11, 0x00, 0x00, 0x53, 0x79, 0x6E, 0x65, 0x72, 0x65,
   0x73, 0x69, 0x73]

/-- The controller of `testState`. -/
def testCtrl : network_ctrl_info_t := testState.pCtrlInfoList.getD 0 network_ctrl_info_t.zero

/-- The port of `testState`. -/
def testPort : network_port_info_t := testState.pPortInfoList.getD 0 network_port_info_t.zero

/-- The port of `txState`. -/
def txPort : network_port_info_t := txState.pPortInfoList.getD 0 network_port_info_t.zero

/-- The transmit byte queue of `txPort`. -/
def txBytes : fifo_desc_t Nat := txPort.pFifoTxMsg.getD (FifoCreate (fun _ => 0) 0 1)

/-- The transmit descriptor queue of `txPort`. -/
def txDescs : fifo_desc_t network_msg_desc_t :=
  txPort.pFifoTxMsgDesc.getD
    (FifoCreate (fun _ => ({ MsgSize := 0, IpAddr := ip_addr.zero } : network_msg_desc_t)) 0 8)

/-- The entry holds the address: the test of the loop of `NetworkGetArpEntry`. -/
def arpMatches (ip : ip_addr) (e : arp_entry_t) : Bool :=
  e.Status.IsInitialised && decide (e.IpAddr = ip)

/-- The ARP request of spec 4.3, byte by byte: Ethernet broadcast destination, source,
type 08 06; hardware type 00 01, protocol type 08 00, lengths 06 and 04, opcode 00 01,
sender (MAC, IP), target MAC zeroed, target IP. -/
def arpRequestFrame (srcMac : mac_addr) (srcIp targetIp : ip_addr) : List Nat :=
  [0xFF, 0xFF, 0xFF, 0xFF, 0xFF, 0xFF] ++ srcMac.toList ++
    [0x08, 0x06, 0x00, 0x01, 0x08, 0x00, 0x06, 0x04, 0x00, 0x01] ++
    srcMac.toList ++ srcIp.toList ++ [0x00, 0x00, 0x00, 0x00, 0x00, 0x00] ++ targetIp.toList

/-- The frame `arp_req_int` of test_network.c: who has 192.168.2.0, tell 192.168.2.101. -/
def arp_req_int : List Nat :=
  [0xff, 0xff, 0xff, 0xff, 0xff, 0xff, 0x01, 0x23, 0x45, 0x67, 0x89, 0xab, 0x08, 0x06, 0x00, 0x01,
   0x08, 0x00, 0x06, 0x04, 0x00, 0x01, 0x01, 0x23, 0x45, 0x67, 0x89, 0xab, 0xc0, 0xa8, 0x02, 0x65,
   0x00, 0x00, 0x00, 0x00, 0x00, 0x00, 0xc0, 0xa8, 0x02, 0x00]

/-- The ARP reply of spec 4.3 to the request held in `req`, byte by byte: Ethernet
destination = the request's Ethernet source, Ethernet source = `mac`, the six fields from
the type to the protocol length as in the request, opcode 00 02, sender (`mac`, `ip`),
target = the request's sender (MAC, IP); every byte from offset 42 on is that of the
request. -/
def arpReplyBytes (req : Nat → Nat) (mac : mac_addr) (ip : ip_addr) : Nat → Nat :=
  fun i =>
    if i < 42 then
      ([req 6, req 7, req 8, req 9, req 10, req 11] ++ mac.toList ++
        [req 12, req 13, req 14, req 15, req 16, req 17, req 18, req 19, 0x00, 0x02] ++
        mac.toList ++ ip.toList ++
        [req 22, req 23, req 24, req 25, req 26, req 27] ++
        [req 28, req 29, req 30, req 31]).getD i 0
    else req i

/-- The frame `arp_req_ext` of test_network.c: who has 192.168.2.101, tell 192.168.2.0. -/
def arp_req_ext : List Nat :=
  [0xFF, 0xFF, 0xFF, 0xFF, 0xFF, 0xFF, 0x11, 0x22, 0x44, 0x55, 0x88, 0xAA, 0x08, 0x06, 0x00, 0x01,
   0x08, 0x00, 0x06, 0x04, 0x00, 0x01, 0x11, 0x22, 0x44, 0x55, 0x88, 0xAA, 0xC0, 0xA8, 0x02, 0x00,
   0x00, 0x00, 0x00, 0x00, 0x00, 0x00, 0xC0, 0xA8, 0x02, 0x65]

/-- The frame `arp_reply_int` of test_network.c: 192.168.2.101 is at 01:23:45:67:89:ab. -/
def arp_reply_int : List Nat :=
  [0x11, 0x22, 0x44, 0x55, 0x88, 0xAA, 0x01, 0x23, 0x45, 0x67, 0x89, 0xAB, 0x08, 0x06, 0x00, 0x01,
   0x08, 0x00, 0x06, 0x04, 0x00, 0x02, 0x01, 0x23, 0x45, 0x67, 0x89, 0xAB, 0xC0, 0xA8, 0x02, 0x65,
   0x11, 0x22, 0x44, 0x55, 0x88, 0xAA, 0xC0, 0xA8, 0x02, 0x00]

/-- The frame `arp_reply_ext` of test_network.c: 192.168.2.0 is at 11:22:44:55:88:aa. -/
def arp_reply_ext : List Nat :=
  [0x01, 0x23, 0x45, 0x67, 0x89, 0xAB, 0x11, 0x22, 0x44, 0x55, 0x88, 0xAA, 0x08, 0x06, 0x00, 0x01,
   0x08, 0x00, 0x06, 0x04, 0x00, 0x02, 0x11, 0x22, 0x44, 0x55, 0x88, 0xAA, 0xC0, 0xA8, 0x02, 0x00,
   0x01, 0x23, 0x45, 0x67, 0x89, 0xAB, 0xC0, 0xA8, 0x02, 0x65]

/-- The module of test_network.c before any ARP entry is known: the test port added. -/
def portState : network_module_info_t :=
  ((NetworkPortAdd baseState 0 (some testPortDesc)).map fun r => r.2).getD baseState

/-- The module `portState` after `NetworkPortSendByte(port, 0x55, 192.168.2.0)`. -/
def pendingState : network_module_info_t :=
  ((NetworkPortSendByte portState 0 0x55 (some ⟨192, 168, 2, 0⟩)).map fun r => r.2).getD
    portState

/-- The controller of `pendingState`. -/
def pendingCtrl : network_ctrl_info_t :=
  pendingState.pCtrlInfoList.getD 0 network_ctrl_info_t.zero

/-- The port of `pendingState`. -/
def pendingPort : network_port_info_t :=
  pendingState.pPortInfoList.getD 0 network_port_info_t.zero

/-- The transmit byte queue of `pendingPort`. -/
def pendingBytes : fifo_desc_t Nat := pendingPort.pFifoTxMsg.getD (FifoCreate (fun _ => 0) 0 1)

/-- The transmit descriptor queue of `pendingPort`. -/
def pendingDescs : fifo_desc_t network_msg_desc_t :=
  pendingPort.pFifoTxMsgDesc.getD
    (FifoCreate (fun _ => ({ MsgSize := 0, IpAddr := ip_addr.zero } : network_msg_desc_t)) 0 8)

/-- The subnet broadcast address of the test controller. -/
def bcastIp : ip_addr := ⟨192, 168, 2, 255⟩

/-- An ARP reply whose sender is (192.168.2.255, 11:22:44:55:88:aa). -/
def arp_reply_bcast : List Nat :=
  [0x01, 0x23, 0x45, 0x67, 0x89, 0xAB, 0x11, 0x22, 0x44, 0x55, 0x88, 0xAA, 0x08, 0x06, 0x00, 0x01,
   0x08, 0x00, 0x06, 0x04, 0x00, 0x02, 0x11, 0x22, 0x44, 0x55, 0x88, 0xAA, 0xC0, 0xA8, 0x02, 0xFF,
   0x01, 0x23, 0x45, 0x67, 0x89, 0xAB, 0xC0, 0xA8, 0x02, 0x65]

/-- The module `portState` after `NetworkCtrlForceRequestARP(192.168.2.255)`, the reply
`arp_reply_bcast` and `NetworkPortSendByte(port, 0x55, 192.168.2.255)`. -/
def bcastTripState : Option network_module_info_t :=
  (NetworkCtrlForceRequestARP portState 0 (some bcastIp)).bind fun r1 =>
  (NetworkProcessEthPacket r1.2 0 (bufOf arp_reply_bcast) 42).bind fun r2 =>
  (NetworkPortSendByte r2.2.1 0 0x55 (some bcastIp)).map fun r3 => r3.2

/-- The UDP frame for the byte 0x55 from the test port to 192.168.2.255, with the
Ethernet broadcast destination. -/
def udp_tx_bcast : List Nat :=
  [0xff, 0xff, 0xff, 0xff, 0xff, 0xff, 0x01, 0x23, 0x45, 0x67, 0x89, 0xab, 0x08, 0x00, 0x45, 0x00,
   0x00, 0x1d, 0x00, 0x00, 0x40, 0x00, 0x80, 0x11, 0x00, 0x00, 0xc0, 0xa8, 0x02, 0x65, 0xc0, 0xa8,
   0x02, 0xff, 0x27, 0x75, 0x27, 0xd9, 0x00, 0x09, 0x00, 0x00, 0x55]

/-- The entry after the decay sweep of `NetworkCtrlArpDecayProcess` went over it: cleared
when it is valid, subject to decay, and the timer says that its deadline is passed. -/
def decayUpdate (isPassed : Nat → Bool) (e : arp_entry_t) : arp_entry_t :=
  if (e.Status.HasDecay && e.Status.IsValid) = true ∧
      isPassed (add32 e.DecayTimer NETWORK_ARP_DECAY_TIME) = true then arp_entry_t.zero
  else e

/-- The module state when the clock of test_network.c reads `now`: the answers of the
callbacks `time_get_Callback` and `time_passed_Callback` (`timeVal >= val`). -/
def atClock (s : network_module_info_t) (now : Nat) : network_module_info_t :=
  { s with pInitDesc :=
      { s.pInitDesc with GenInterface :=
          { s.pInitDesc.GenInterface with
              pFnTimerGetTime := now, pFnTimerIsPassed := fun d => decide (now ≥ d) } } }

/-- The first entry of the ARP table of controller 0. -/
def firstArpEntry (s : network_module_info_t) : Option arp_entry_t :=
  s.pCtrlInfoList[0]?.bind fun c => c.pArpArray[0]?

/-- The module with the peer 192.168.2.0 entered, subject to decay, when the clock reads
`t`, seen when the clock reads `now`. -/
def decayState (t now : Nat) : network_module_info_t :=
  atClock (((NetworkCtrlAddArpEntry (atClock baseState t) 0 (some ⟨192, 168, 2, 0⟩)
    (some ⟨0x11, 0x22, 0x44, 0x55, 0x88, 0xaa⟩) true).map fun r => r.2).getD baseState) now

/-- The echo request of spec 4.4, byte by byte: Ethernet II header (destination, source,
type 08 00), IPv4 header (45 00, total length 00 2A, identification 00 00, flags and
offset 40 00, TTL 80, protocol 01, checksum 00 00, source, destination), ICMP header
(type 08, code 00, checksum D2 DC, identifier 01 00, sequence 01 00), fourteen bytes 05. -/
def icmpEchoFrame (dstMac srcMac : mac_addr) (srcIp dstIp : ip_addr) : List Nat :=
  (dstMac.toList ++ srcMac.toList ++
    [0x08, 0x00, 0x45, 0x00, 0x00, 0x2A, 0x00, 0x00, 0x40, 0x00, 0x80, 0x01, 0x00, 0x00] ++
    srcIp.toList ++ dstIp.toList) ++
    [0x08, 0x00, 0xD2, 0xDC, 0x01, 0x00, 0x01, 0x00, 0x05, 0x05, 0x05, 0x05, 0x05, 0x05, 0x05,
     0x05, 0x05, 0x05, 0x05, 0x05, 0x05, 0x05]

/-- The frame `icmp_req_int` of test_network.c: echo request from 192.168.2.101 to
192.168.2.0. -/
def icmp_req_int : List Nat :=
  [0x11, 0x22, 0x44, 0x55, 0x88, 0xAA, 0x01, 0x23, 0x45, 0x67, 0x89, 0xAB, 0x08, 0x00, 0x45, 0x00,
   0x00, 0x2A, 0x00, 0x00, 0x40, 0x00, 0x80, 0x01, 0x00, 0x00, 0xC0, 0xA8, 0x02, 0x65, 0xC0, 0xA8,
   0x02, 0x00, 0x08, 0x00, 0xD2, 0xDC, 0x01, 0x00, 0x01, 0x00, 0x05, 0x05, 0x05, 0x05, 0x05, 0x05,
   0x05, 0x05, 0x05, 0x05, 0x05, 0x05, 0x05, 0x05]

/-- The module `portState` after `NetworkCtrlAddArpEntry(192.168.2.255,
11:22:44:55:88:aa, false)`. -/
def bcastArpState : Option network_module_info_t :=
  (NetworkCtrlAddArpEntry portState 0 (some bcastIp) (some ⟨0x11, 0x22, 0x44, 0x55, 0x88, 0xaa⟩)
    false).map fun r => r.2

/-- The echo request from 192.168.2.101 to 192.168.2.255 with the Ethernet broadcast
destination. -/
def icmp_req_bcast : List Nat :=
  [0xFF, 0xFF, 0xFF, 0xFF, 0xFF, 0xFF, 0x01, 0x23, 0x45, 0x67, 0x89, 0xAB, 0x08, 0x00, 0x45, 0x00,
   0x00, 0x2A, 0x00, 0x00, 0x40, 0x00, 0x80, 0x01, 0x00, 0x00, 0xC0, 0xA8, 0x02, 0x65, 0xC0, 0xA8,
   0x02, 0xFF, 0x08, 0x00, 0xD2, 0xDC, 0x01, 0x00, 0x01, 0x00, 0x05, 0x05, 0x05, 0x05, 0x05, 0x05,
   0x05, 0x05, 0x05, 0x05, 0x05, 0x05, 0x05, 0x05]

/-- The ICMP message of an echo reply as the checksum of spec 4.4 sees it: the `T - 20`
bytes that follow the IPv4 header of the request `req`, with type, code and checksum
field zeroed, and one zero byte appended when their number is odd. -/
def icmpReplyMessage (req : Nat → Nat) (T : Nat) : List Nat :=
  let bytes := (List.range (T - 20)).map fun j => if j < 4 then 0 else req (34 + j)
  if (T - 20) % 2 = 1 then bytes ++ [0] else bytes

/-- What the module writes into the checksum field of the echo reply to the request `req`
of IP total length `T`: its own `NetworkIcmpChecksum` over the 16-bit words of
`icmpReplyMessage` (the checksum of the specification is `internetChecksum`). -/
def icmpReplyChecksum (req : Nat → Nat) (T : Nat) : Nat :=
  NetworkIcmpChecksum (bufOf (icmpReplyMessage req T)) ((icmpReplyMessage req T).length / 2)

/-- The echo reply of spec 4.4 to the request held in `req`, byte by byte: Ethernet
destination = the request's Ethernet source, Ethernet source = `mac`, the bytes of the
request up to the IPv4 checksum, IPv4 source = `ip`, IPv4 destination = the request's
IPv4 source, ICMP type 00, code 00, the checksum `cks` big-endian; every byte from offset
38 on is that of the request. -/
def icmpReplyBytes (req : Nat → Nat) (mac : mac_addr) (ip : ip_addr) (cks : Nat) : Nat → Nat :=
  fun i =>
    if i < 38 then
      ([req 6, req 7, req 8, req 9, req 10, req 11] ++ mac.toList ++
        [req 12, req 13, req 14, req 15, req 16, req 17, req 18, req 19, req 20, req 21,
         req 22, req 23, req 24, req 25] ++
        ip.toList ++ [req 26, req 27, req 28, req 29] ++
        [0x00, 0x00, cks / 256, cks % 256]).getD i 0
    else req i

/-- The frame `icmp_req_ext` of test_network.c: echo request from 192.168.2.0 to
192.168.2.101. -/
def icmp_req_ext : List Nat :=
  [0x01, 0x23, 0x45, 0x67, 0x89, 0xAB, 0x11, 0x22, 0x44, 0x55, 0x88, 0xAA, 0x08, 0x00, 0x45, 0x00,
   0x00, 0x2A, 0x00, 0x00, 0x40, 0x00, 0x80, 0x01, 0x00, 0x00, 0xC0, 0xA8, 0x02, 0x00, 0xC0, 0xA8,
   0x02, 0x65, 0x08, 0x00, 0xD2, 0xDC, 0x01, 0x00, 0x01, 0x00, 0x05, 0x05, 0x05, 0x05, 0x05, 0x05,
   0x05, 0x05, 0x05, 0x05, 0x05, 0x05, 0x05, 0x05]

/-- The frame `icmp_reply_int` of test_network.c: echo reply from 192.168.2.101 to
192.168.2.0. -/
def icmp_reply_int : List Nat :=
  [0x11, 0x22, 0x44, 0x55, 0x88, 0xAA, 0x01, 0x23, 0x45, 0x67, 0x89, 0xAB, 0x08, 0x00, 0x45, 0x00,
   0x00, 0x2A, 0x00, 0x00, 0x40, 0x00, 0x80, 0x01, 0x00, 0x00, 0xC0, 0xA8, 0x02, 0x65, 0xC0, 0xA8,
   0x02, 0x00, 0x00, 0x00, 0xDA, 0xDC, 0x01, 0x00, 0x01, 0x00, 0x05, 0x05, 0x05, 0x05, 0x05, 0x05,
   0x05, 0x05, 0x05, 0x05, 0x05, 0x05, 0x05, 0x05]

/-- The frame `icmp_reply_ext` of test_network.c: echo reply from 192.168.2.0 to
192.168.2.101. -/
def icmp_reply_ext : List Nat :=
  [0x01, 0x23, 0x45, 0x67, 0x89, 0xAB, 0x11, 0x22, 0x44, 0x55, 0x88, 0xAA, 0x08, 0x00, 0x45, 0x00,
   0x00, 0x2A, 0x00, 0x00, 0x40, 0x00, 0x80, 0x01, 0x00, 0x00, 0xC0, 0xA8, 0x02, 0x00, 0xC0, 0xA8,
   0x02, 0x65, 0x00, 0x00, 0xDA, 0xDC, 0x01, 0x00, 0x01, 0x00, 0x05, 0x05, 0x05, 0x05, 0x05, 0x05,
   0x05, 0x05, 0x05, 0x05, 0x05, 0x05, 0x05, 0x05]

/-- The module `testState` after `NetworkCtrlSendPingIcmp(192.168.2.0)` when the clock
reads `T0`, seen when the clock reads `T1`. -/
def pingSentState (T0 T1 : Nat) : Option network_module_info_t :=
  (NetworkCtrlSendPingIcmp (atClock testState T0) 0 (some ⟨192, 168, 2, 0⟩)).map fun r =>
    atClock r.2 T1

/-- The module `pingSentState T0 T1` after the controller processed the echo reply
`icmp_reply_ext`. -/
def pingTripState (T0 T1 : Nat) : Option network_module_info_t :=
  (pingSentState T0 T1).bind fun s =>
    (NetworkProcessEthPacket s 0 (bufOf icmp_reply_ext) 56).map fun r => r.2.1

/-- The module after the echo of test_network.c was sent at clock 100 and answered at
clock 142, seen at clock 500. -/
def repliedState : network_module_info_t :=
  atClock ((pingTripState 100 142).getD testState) 500

/-- The port descriptor `NetworkSecPortDesc` of test_network.c: no descriptor queue on
either side (stream mode). -/
def secPortDesc : network_port_desc_t :=
  { NetworkCtrlId := 0, Protocol := IP_PROT_UDP, DefaultDstIpAddr := ⟨192, 168, 2, 99⟩,
    DefaultInPortNb := 25565, DefaultOutPortNb := 25565,
    RxFifoSize := 1514, RxDescFifoSize := 0, TxFifoSize := 1514, TxDescFifoSize := 0 }

/-- The frame `udp_com_rx_barray` of test_network.c: 192.168.2.16 to 192.168.2.101, UDP
25565 to 25565, the fourteen bytes "Hessian matrix". -/
def udp_com_rx_barray : List Nat :=
  [0x01, 0x23, 0x45, 0x67, 0x89, 0xAB, 0x11, 0x22, 0x44, 0x55, 0x88, 0xAA, 0x08, 0x00, 0x45, 0x00,
   0x00, 0x2A, 0x00, 0x00, 0x40, 0x00, 0x80, 0x11, 0x00, 0x00, 0xC0, 0xA8, 0x02, 0x10, 0xC0, 0xA8,
   0x02, 0x65, 0x63, 0xDD, 0x63, 0xDD, 0x00, 0x16, 0x00, 0x00, 0x48, 0x65, 0x73, 0x73, 0x69, 0x61,
   0x6E, 0x20, 0x6D, 0x61, 0x74, 0x72, 0x69, 0x78]

/-- The module of `test_network_virtual_port_com`: the port of `portState` added again
with the descriptor `NetworkSecPortDesc`. -/
def streamState : network_module_info_t :=
  ((NetworkPortAdd portState 0 (some secPortDesc)).map fun r => r.2).getD portState

/-- The port of `streamState`. -/
def streamPort : network_port_info_t :=
  streamState.pPortInfoList.getD 0 network_port_info_t.zero

/-- The module `streamState` after the controller processed the frame
`udp_com_rx_barray`. -/
def streamRxState : network_module_info_t :=
  ((NetworkProcessEthPacket streamState 0 (bufOf udp_com_rx_barray) 56).map
    fun r => r.2.1).getD streamState

/-- The module `streamRxState` after `NetworkPortReadByte` on its port. -/
def streamReadState : network_module_info_t :=
  (NetworkPortReadByte streamRxState 0 (some (fun _ => 0))).s

/-! ## Timer.h, Timer.c -/

/-- Source `timer_init_desc_t`. -/
structure timer_init_desc_t where
  TimerNb : Nat

/-- Source `timer_inst_info_t`. -/
structure timer_inst_info_t where
  Counter : Nat

/-- Source `timer_module_info_t` (the module variable `TimerInfo`). -/
structure timer_module_info_t where
  pDesc : Option timer_init_desc_t
  pTimerInfoList : List timer_inst_info_t
  RefTimerId : Nat

/-- The comparison shared by `TimerRefIsPassed` and `TimerIsPassed`, on the counter value
`currTime`. -/
def timerPassed (currTime timeValue : Nat) : Bool :=
  let diffTime :=
    if currTime ≤ timeValue then sub32 timeValue currTime else sub32 currTime timeValue
  if diffTime < 0x80000000 then decide (currTime ≥ timeValue) else decide (currTime ≤ timeValue)

/-- Source `TimerRefGetTime`. -/
def TimerRefGetTime (t : timer_module_info_t) : Option Nat :=
  match t.pTimerInfoList[t.RefTimerId]? with
  | none => none
  | some inst => some inst.Counter

/-- Source `TimerRefIsPassed`. -/
def TimerRefIsPassed (t : timer_module_info_t) (timeValue : Nat) : Option Bool :=
  match TimerRefGetTime t with
  | none => none
  | some currTime => some (timerPassed currTime timeValue)

/-- Source `TimerGetTime`. -/
def TimerGetTime (t : timer_module_info_t) (timerId : Nat) : Option Nat :=
  match t.pDesc with
  | none => none
  | some desc =>
    if timerId < desc.TimerNb then
      match t.pTimerInfoList[timerId]? with
      | none => none
      | some inst => some inst.Counter
    else some 0

/-- Source `TimerIsPassed`. -/
def TimerIsPassed (t : timer_module_info_t) (timerId timeValue : Nat) : Option Bool :=
  match t.pDesc with
  | none => none
  | some desc =>
    if timerId < desc.TimerNb then
      match TimerGetTime t timerId with
      | none => none
      | some currTime => some (timerPassed currTime timeValue)
    else some false

/-- A timer module with one timer, the reference timer, whose counter reads `now`. -/
def timerAt (now : Nat) : timer_module_info_t :=
  { pDesc := some { TimerNb := 1 }, pTimerInfoList := [{ Counter := now }], RefTimerId := 0 }

/-- A controller descriptor as `testCtrlDesc`, with an ARP table of one entry. -/
def tinyCtrlDesc : network_ctrl_desc_t := { testCtrlDesc with ArpEntryNb := 1 }

/-- A module whose error callback is configured (error code 0x42), with the controller of
`tinyCtrlDesc`, the test port, and the peer 192.168.2.0 in the only slot of the ARP
table. -/
def fullState : network_module_info_t :=
  let init : network_init_desc_t :=
    { testInitDesc 0 1 1 with
        GenInterface := { (testInitDesc 0 1 1).GenInterface with pFnErrorNotify := true },
        ErrorCode := 0x42 }
  (((NetworkCtrlAdd (NetworkInit init) 0 (some tinyCtrlDesc)).bind fun r =>
    (NetworkPortAdd r.2 0 (some testPortDesc)).bind fun r =>
      NetworkCtrlAddArpEntry r.2 0 (some ⟨192, 168, 2, 0⟩)
        (some ⟨0x11, 0x22, 0x44, 0x55, 0x88, 0xaa⟩) false).map fun r => r.2).getD
    (NetworkInit init)

/-- The controller of `fullState`. -/
def fullCtrl : network_ctrl_info_t := fullState.pCtrlInfoList.getD 0 network_ctrl_info_t.zero

/-- The module `portState`, whose ARP table is empty, after its controller processed the
frame `udp_rx_barray` (from 192.168.2.0 at 11:22:44:55:88:aa) when the clock read `t`. -/
def learnedState (t : Nat) : network_module_info_t :=
  ((NetworkProcessIpPacket (atClock portState t) 0 (bufOf udp_rx_barray) 51).map
    fun r => r.2.1).getD portState

/-- The first ARP entry of `learnedState t` after the decay sweep that runs when the clock
reads `now`. -/
def learnedThenSwept (t now : Nat) : Option arp_entry_t :=
  (NetworkCtrlArpDecayProcess (atClock (learnedState t) now) 0).bind firstArpEntry

/-- An ARP reply as `arp_reply_ext`, in which 192.168.2.0 is at 11:22:44:55:88:bb. -/
def arp_reply_moved : List Nat :=
  [0x01, 0x23, 0x45, 0x67, 0x89, 0xAB, 0x11, 0x22, 0x44, 0x55, 0x88, 0xBB, 0x08, 0x06, 0x00, 0x01,
   0x08, 0x00, 0x06, 0x04, 0x00, 0x02, 0x11, 0x22, 0x44, 0x55, 0x88, 0xBB, 0xC0, 0xA8, 0x02, 0x00,
   0x01, 0x23, 0x45, 0x67, 0x89, 0xAB, 0xC0, 0xA8, 0x02, 0x65]

/-- The frame `udp_rx_barray` with the Ethernet source 11:22:44:55:88:bb. -/
def udp_rx_moved : List Nat :=
  (udp_rx_barray.take 6 ++ [0x11, 0x22, 0x44, 0x55, 0x88, 0xBB]) ++ udp_rx_barray.drop 12

/-- The body of the loop of `NetworkCtrlTxProcess` for the port `portIdx`; the transmit
buffer is the module buffer `NetworkInfo.pBuffer`. -/
def NetworkCtrlTxProcess.body (s : network_module_info_t) (portIdx : Nat) :
    Option network_module_info_t :=
  if !NetworkPortValid s portIdx then some s
  else if !NetworkPortIsTxEmpty s portIdx then
    match NetworkProcessSendMsg s portIdx s.pBuffer with
    | none => none
    | some r =>
      let s1 := { r.2.1 with pBuffer := r.2.2 }
      if !r.1 then some (notifyError s1) else some s1
  else some s

/-- The loop of `NetworkCtrlTxProcess` from `portIdx` with `k` iterations left. -/
def NetworkCtrlTxProcess.loop : Nat → Nat → network_module_info_t → Option network_module_info_t
  | _, 0, s => some s
  | portIdx, k + 1, s =>
    match NetworkCtrlTxProcess.body s portIdx with
    | none => none
    | some s1 => NetworkCtrlTxProcess.loop (portIdx + 1) k s1

/-- Source `NetworkCtrlTxProcess`. -/
def NetworkCtrlTxProcess (s : network_module_info_t) (ctrlId : Nat) :
    Option network_module_info_t :=
  if NetworkCtrlValid s ctrlId then NetworkCtrlTxProcess.loop 0 s.pInitDesc.PortNb s
  else some s

/-- The head message of the transmit side of a port, as spec 4.6 step 1 reads it: in
datagram mode the size and the destination of the head descriptor, the peer address of the
port standing in for an all-zero destination; in stream mode all the queued bytes (their
number kept to 16 bits), for the peer address of the port. -/
def headMessage (port : network_port_info_t) (n0 : Nat) (D : ip_addr) : Prop :=
  (port.IsVirtualComTx = false ∧
    ∃ df ip rest, port.pFifoTxMsgDesc = some df ∧ FifoWf df ∧
      FifoItems df = { MsgSize := n0, IpAddr := ip } :: rest ∧
      D = if ip = ip_addr.zero then port.DstIpAddr else ip) ∨
  (port.IsVirtualComTx = true ∧ n0 = FifoItemCount port.pFifoTxMsg % 65536 ∧
    D = port.DstIpAddr)

/-- The port has nothing for the transmit sweep: it is not valid, or its transmit side is
empty. -/
def txIdle (s : network_module_info_t) (j : Nat) : Prop :=
  NetworkPortValid s j = false ∨ NetworkPortIsTxEmpty s j = true

/-- The broadcast MAC address. -/
def macBroadcast : mac_addr := ⟨0xFF, 0xFF, 0xFF, 0xFF, 0xFF, 0xFF⟩

/-- A driver that has no message and rejects every message. -/
def rejectingDriver : network_com_itfc_t :=
  { MacCtrlHasMsg := fun _ => false, MacCtrlGetMsg := fun _ b => (b, 0),
    MacCtrlSendMsg := fun _ _ => false }

/-- The controller descriptor `testCtrlDesc` on the driver that rejects every message. -/
def deafCtrlDesc : network_ctrl_desc_t := { testCtrlDesc with ComInterface := rejectingDriver }

/-- The module of test_network.c on the rejecting driver: the peer 192.168.2.0 is in the
ARP table and the byte 0x55 is queued for it. -/
def rejectState : network_module_info_t :=
  (((NetworkCtrlAdd (NetworkInit (testInitDesc 0 1 1)) 0 (some deafCtrlDesc)).bind fun r =>
    (NetworkPortAdd r.2 0 (some testPortDesc)).bind fun r =>
      (NetworkCtrlAddArpEntry r.2 0 (some ⟨192, 168, 2, 0⟩)
        (some ⟨0x11, 0x22, 0x44, 0x55, 0x88, 0xaa⟩) false).bind fun r =>
        NetworkPortSendByte r.2 0 0x55 (some ⟨192, 168, 2, 0⟩)).map fun r => r.2).getD
    (NetworkInit (testInitDesc 0 1 1))

/-- The controller of `rejectState`. -/
def rejectCtrl : network_ctrl_info_t :=
  rejectState.pCtrlInfoList.getD 0 network_ctrl_info_t.zero

/-- The port of `rejectState`. -/
def rejectPort : network_port_info_t :=
  rejectState.pPortInfoList.getD 0 network_port_info_t.zero

/-- The module `fullState` (error callback configured, code 0x42) after
`NetworkPortSendByte(port, 0x55, 192.168.3.1)`: the destination is outside the subnet
192.168.2.0/24 of the controller. -/
def strayState : network_module_info_t :=
  ((NetworkPortSendByte fullState 0 0x55 (some ⟨192, 168, 3, 1⟩)).map fun r => r.2).getD
    fullState

/-- The port of `strayState`. -/
def strayPort : network_port_info_t :=
  strayState.pPortInfoList.getD 0 network_port_info_t.zero

/-- The numbers of bytes and of descriptors in the transmit queues of each port. -/
def txSummary (s : network_module_info_t) : List (Nat × Nat) :=
  s.pPortInfoList.map fun p => (FifoItemCount p.pFifoTxMsg, FifoItemCount p.pFifoTxMsgDesc)

/-- The module state when the timer callbacks answer `now` and `isPassed`. -/
def withClock (s : network_module_info_t) (now : Nat) (isPassed : Nat → Bool) :
    network_module_info_t :=
  { s with pInitDesc :=
      { s.pInitDesc with GenInterface :=
          { s.pInitDesc.GenInterface with
              pFnTimerGetTime := now, pFnTimerIsPassed := isPassed } } }

/-- The head message of the port `portId` waits for the address `D`, which is in the
subnet of the controller of the port, is not the broadcast address and has no valid ARP
entry; the port is `port` with the ARP counter `c` and the ARP timer `t`. -/
def arpPending (s : network_module_info_t) (portId : Nat) (port : network_port_info_t)
    (D : ip_addr) (c t : Nat) : Prop :=
  ∃ pd ctrl cd r,
    s.pPortInfoList[portId]? = some { port with CounterARP := c, TimerRequestARP := t } ∧
    port.pDesc = some pd ∧ s.pCtrlInfoList[pd.NetworkCtrlId]? = some ctrl ∧
    ctrl.pDesc = some cd ∧ cd.ArpEntryNb ≤ ctrl.pArpArray.length ∧
    NetworkIsIpValid D ctrl.IpAddr ctrl.SubnetMask = true ∧
    NetworkIsIpBroadcast D ctrl.IpAddr ctrl.SubnetMask = false ∧
    NetworkGetArpEntry.loop ctrl.pArpArray D 0 cd.ArpEntryNb = some r ∧
    (r = none ∨ ∃ idx e, r = some idx ∧ ctrl.pArpArray[idx]? = some e ∧
      e.Status.IsValid = false)

/-- The module after one transmit attempt of port 0 made when the clock of
test_network.c reads `now`. -/
def attemptAt (s : network_module_info_t) (now : Nat) : network_module_info_t :=
  ((NetworkProcessSendMsg (atClock s now) 0 s.pBuffer).map fun r => r.2.1).getD s

/-- The ARP counter of each port. -/
def arpCounters (s : network_module_info_t) : List Nat :=
  s.pPortInfoList.map fun p => p.CounterARP

/-- The module `pendingState` (the byte 0x55 queued for 192.168.2.0, which has no ARP
entry) after two transmit attempts, at the clock values 0 and 2000, then the ARP reply
`arp_reply_ext` of 192.168.2.0, then the transmit attempt at 4000 that sends the byte. -/
def afterPeerA : network_module_info_t :=
  let a2 := attemptAt (attemptAt pendingState 0) 2000
  attemptAt (((NetworkProcessEthPacket a2 0 (bufOf arp_reply_ext) 42).map
    fun r => r.2.1).getD a2) 4000

/-- The module `s` after `NetworkPortSendByte(port 0, 0x66, 192.168.2.7)`; the address
192.168.2.7 has no ARP entry. -/
def queuedForB (s : network_module_info_t) : network_module_info_t :=
  ((NetworkPortSendByte s 0 0x66 (some ⟨192, 168, 2, 7⟩)).map fun r => r.2).getD s

/-- The 16-bit word `i` of a byte region, read big-endian. -/
def wordBE (m : Nat → Nat) (i : Nat) : Nat := 256 * (m (2 * i) % 256) + m (2 * i + 1) % 256

/-- One end-around-carry fold: what stands above bit 15 is added into the low 16 bits. -/
def foldCarry (x : Nat) : Nat := x % 65536 + x / 65536

/-- The Internet checksum of the first `n` big-endian words of a region: the 32-bit sum
of the words with its carry folded into the low 16 bits twice, complemented on 16 bits. -/
def internetChecksum (m : Nat → Nat) (n : Nat) : Nat :=
  65535 - foldCarry (foldCarry ((((List.range n).map (wordBE m)).sum) % 4294967296))

/-- Three words whose sum carries twice: FFFF, FFFF, 0001. -/
def carry_twice_barray : List Nat := [0xFF, 0xFF, 0xFF, 0xFF, 0x00, 0x01]

/-- An echo request from 192.168.2.0 to the controller, identifier 0x0100, sequence
0x0100, with the four payload bytes FF FF FE 00 (IP total length 32). -/
def icmp_req_carry : List Nat :=
  [0x01, 0x23, 0x45, 0x67, 0x89, 0xAB, 0x11, 0x22, 0x44, 0x55, 0x88, 0xAA, 0x08, 0x00, 0x45, 0x00,
   0x00, 0x20, 0x00, 0x00, 0x40, 0x00, 0x80, 0x01, 0x00, 0x00, 0xC0, 0xA8, 0x02, 0x00, 0xC0, 0xA8,
   0x02, 0x65, 0x08, 0x00, 0x00, 0x00, 0x01, 0x00, 0x01, 0x00, 0xFF, 0xFF, 0xFE, 0x00]

/-- The echo reply of the module to `icmp_req_carry`: the ICMP checksum field holds
FF FF. -/
def icmp_reply_carry : List Nat :=
  [0x11, 0x22, 0x44, 0x55, 0x88, 0xAA, 0x01, 0x23, 0x45, 0x67, 0x89, 0xAB, 0x08, 0x00, 0x45, 0x00,
   0x00, 0x20, 0x00, 0x00, 0x40, 0x00, 0x80, 0x01, 0x00, 0x00, 0xC0, 0xA8, 0x02, 0x65, 0xC0, 0xA8,
   0x02, 0x00, 0x00, 0x00, 0xFF, 0xFF, 0x01, 0x00, 0x01, 0x00, 0xFF, 0xFF, 0xFE, 0x00]

/-- An ARP reply that answers no request: 192.168.2.9 is at 02:00:00:00:00:09, sent to
the Ethernet broadcast address, with target de:ad:be:ef:00:00 and target IP 10.9.8.7. -/
def arp_reply_unsolicited : List Nat :=
  [0xFF, 0xFF, 0xFF, 0xFF, 0xFF, 0xFF, 0x02, 0x00, 0x00, 0x00, 0x00, 0x09, 0x08, 0x06, 0x00, 0x01,
   0x08, 0x00, 0x06, 0x04, 0x00, 0x02, 0x02, 0x00, 0x00, 0x00, 0x00, 0x09, 0xC0, 0xA8, 0x02, 0x09,
   0xDE, 0xAD, 0xBE, 0xEF, 0x00, 0x00, 0x0A, 0x09, 0x08, 0x07]

/-- Well-formedness of the first `k` entries of an ARP table: an entry with the valid flag
set has the initialised flag set, and no two initialised entries hold the same address. -/
def ArpWf (k : Nat) (arr : List arp_entry_t) : Prop :=
  (∀ (i : Nat) (e : arp_entry_t), i < k → arr[i]? = some e → e.Status.IsValid = true →
    e.Status.IsInitialised = true) ∧
  (∀ (i j : Nat) (ei ej : arp_entry_t), i < k → j < k → arr[i]? = some ei → arr[j]? = some ej →
    ei.Status.IsInitialised = true → ej.Status.IsInitialised = true →
    ei.IpAddr = ej.IpAddr → i = j)

/-- Every controller that was added has an ARP table of the configured number of entries,
and that table is well formed. -/
def ArpTablesWf (s : network_module_info_t) : Prop :=
  ∀ (id : Nat) (c : network_ctrl_info_t) (cd : network_ctrl_desc_t),
    s.pCtrlInfoList[id]? = some c → c.pDesc = some cd →
    c.pArpArray.length = cd.ArpEntryNb ∧ ArpWf cd.ArpEntryNb c.pArpArray

/-- Source `NetworkCtrlRxProcess`; the answers of the MAC driver are those of the
descriptor of the controller, and `MacCtrlGetMsg` fills the module buffer. -/
def NetworkCtrlRxProcess (s : network_module_info_t) (ctrlId : Nat) :
    Option network_module_info_t :=
  if NetworkCtrlValid s ctrlId then
    match s.pCtrlInfoList[ctrlId]? with
    | none => none
    | some pNetworkCtrl =>
      match pNetworkCtrl.pDesc with
      | none => none
      | some desc =>
        if desc.ComInterface.MacCtrlHasMsg desc.MacCtrlId then
          let m := desc.ComInterface.MacCtrlGetMsg desc.MacCtrlId s.pBuffer
          match NetworkProcessEthPacket { s with pBuffer := m.1 } ctrlId m.1 m.2 with
          | none => none
          | some r =>
            let s1 := { r.2.1 with pBuffer := r.2.2 }
            if !r.1 then some (notifyError s1) else some s1
        else some s
  else some s

/-- Source `NetworkCtrlMainProcess`. -/
def NetworkCtrlMainProcess (s : network_module_info_t) (ctrlId : Nat) :
    Option network_module_info_t :=
  ((NetworkCtrlRxProcess s ctrlId).bind fun s1 => NetworkCtrlTxProcess s1 ctrlId).bind
    fun s2 => NetworkCtrlArpDecayProcess s2 ctrlId

/-- The module state when the MAC driver of the controller `ctrlId` gives the answers
`itf` (a frame is waiting or not, a message is accepted or not). -/
def withDriver (s : network_module_info_t) (ctrlId : Nat) (itf : network_com_itfc_t) :
    network_module_info_t :=
  match s.pCtrlInfoList[ctrlId]? with
  | none => s
  | some c =>
    match c.pDesc with
    | none => s
    | some cd => setCtrl s ctrlId { c with pDesc := some { cd with ComInterface := itf } }

/-- The module states that the public operations reach from `NetworkInit`. Between two
operations the clock and the MAC drivers answer as they like (`withClock`, `withDriver`);
an operation whose model is not defined on a state (a `NULL` dereference) reaches
nothing from it. -/
inductive Reachable : network_module_info_t → Prop where
  | init (d : network_init_desc_t) : Reachable (NetworkInit d)
  | clock {s : network_module_info_t} (now : Nat) (isPassed : Nat → Bool) :
      Reachable s → Reachable (withClock s now isPassed)
  | driver {s : network_module_info_t} (ctrlId : Nat) (itf : network_com_itfc_t) :
      Reachable s → Reachable (withDriver s ctrlId itf)
  | ctrlAdd {s : network_module_info_t} (ctrlId : Nat) (d : Option network_ctrl_desc_t)
      (r : Bool × network_module_info_t) :
      Reachable s → NetworkCtrlAdd s ctrlId d = some r → Reachable r.2
  | portAdd {s : network_module_info_t} (portId : Nat) (d : Option network_port_desc_t)
      (r : Bool × network_module_info_t) :
      Reachable s → NetworkPortAdd s portId d = some r → Reachable r.2
  | addArpEntry {s : network_module_info_t} (ctrlId : Nat) (ip : Option ip_addr)
      (mac : Option mac_addr) (hasDecay : Bool) (r : Bool × network_module_info_t) :
      Reachable s → NetworkCtrlAddArpEntry s ctrlId ip mac hasDecay = some r → Reachable r.2
  | forceRequestARP {s : network_module_info_t} (ctrlId : Nat) (ip : Option ip_addr)
      (r : Bool × network_module_info_t) :
      Reachable s → NetworkCtrlForceRequestARP s ctrlId ip = some r → Reachable r.2
  | rxProcess {s s1 : network_module_info_t} (ctrlId : Nat) :
      Reachable s → NetworkCtrlRxProcess s ctrlId = some s1 → Reachable s1
  | txProcess {s s1 : network_module_info_t} (ctrlId : Nat) :
      Reachable s → NetworkCtrlTxProcess s ctrlId = some s1 → Reachable s1
  | decayProcess {s s1 : network_module_info_t} (ctrlId : Nat) :
      Reachable s → NetworkCtrlArpDecayProcess s ctrlId = some s1 → Reachable s1
  | sendPing {s : network_module_info_t} (ctrlId : Nat) (ip : Option ip_addr)
      (r : Bool × network_module_info_t) :
      Reachable s → NetworkCtrlSendPingIcmp s ctrlId ip = some r → Reachable r.2
  | sendByte {s : network_module_info_t} (portId data : Nat) (ip : Option ip_addr)
      (r : Bool × network_module_info_t) :
      Reachable s → NetworkPortSendByte s portId data ip = some r → Reachable r.2
  | sendBuff {s : network_module_info_t} (portId : Nat) (buf : Option (Nat → Nat))
      (n : Nat) (ip : Option ip_addr) (r : Bool × network_module_info_t) :
      Reachable s → NetworkPortSendBuff s portId buf n ip = some r → Reachable r.2
  | readByte {s : network_module_info_t} (portId : Nat) (buf : Option (Nat → Nat)) :
      Reachable s → Reachable (NetworkPortReadByte s portId buf).s
  | readBuff {s : network_module_info_t} (portId : Nat) (buf : Option (Nat → Nat))
      (size : Option Nat) (n : Nat) (ip : Option ip_addr) :
      Reachable s → Reachable (NetworkPortReadBuff s portId buf size n ip).s

/-- The MAC driver of test_network.c once the frame `arp_reply_ext` is waiting. -/
def driverWithReply : network_com_itfc_t :=
  { idleDriver with
      MacCtrlHasMsg := fun _ => true
      MacCtrlGetMsg := fun _ _ => (bufOf arp_reply_ext, 42) }

/-- The module of test_network.c after `NetworkCtrlForceRequestARP(192.168.2.0)`. -/
def requestedState : network_module_info_t :=
  ((NetworkCtrlForceRequestARP portState 0 (some ⟨192, 168, 2, 0⟩)).map fun r => r.2).getD
    portState

/-- The module `requestedState` after `NetworkCtrlRxProcess` while the driver holds the
frame `arp_reply_ext`. -/
def resolvedState : network_module_info_t :=
  (NetworkCtrlRxProcess (withDriver requestedState 0 driverWithReply) 0).getD requestedState

/-- The address `X` has an entry in the ARP table of the valid controller `ctrlId`, and
that entry is not valid. -/
def arpInvalid (s : network_module_info_t) (ctrlId : Nat) (X : ip_addr) : Prop :=
  ctrlId < s.pInitDesc.CtrlNb ∧
  ∃ (ctrl : network_ctrl_info_t) (cd : network_ctrl_desc_t) (idx : Nat) (e : arp_entry_t),
    s.pCtrlInfoList[ctrlId]? = some ctrl ∧ ctrl.pDesc = some cd ∧
    cd.ArpEntryNb ≤ ctrl.pArpArray.length ∧
    NetworkGetArpEntry.loop ctrl.pArpArray X 0 cd.ArpEntryNb = some (some idx) ∧
    ctrl.pArpArray[idx]? = some e ∧ e.Status.IsValid = false

/-- The module `bcastArpState` (192.168.2.255 entered as a valid entry) after
`NetworkCtrlForceRequestARP(192.168.2.255)` and
`NetworkPortSendByte(port, 0x55, 192.168.2.255)`. -/
def bcastForcedState : Option network_module_info_t :=
  bcastArpState.bind fun s =>
  (NetworkCtrlForceRequestARP s 0 (some bcastIp)).bind fun r1 =>
  (NetworkPortSendByte r1.2 0 0x55 (some bcastIp)).map fun r2 => r2.2

/-- The module `txState` (the byte 0x55 queued for 192.168.2.0, whose entry is valid)
after `NetworkCtrlForceRequestARP(192.168.2.0)`. -/
def forcedState : network_module_info_t :=
  ((NetworkCtrlForceRequestARP txState 0 (some ⟨192, 168, 2, 0⟩)).map fun r => r.2).getD txState

/-- The MAC driver of test_network.c once the frame `udp_rx_barray` is waiting. -/
def driverWithDatagram : network_com_itfc_t :=
  { idleDriver with
      MacCtrlHasMsg := fun _ => true
      MacCtrlGetMsg := fun _ _ => (bufOf udp_rx_barray, 51) }

/-- The module `mixedState` after `NetworkCtrlRxProcess` while the driver holds the frame
`udp_rx_barray`. -/
def mixedReceivedState : network_module_info_t :=
  (NetworkCtrlRxProcess (withDriver mixedState 0 driverWithDatagram) 0).getD mixedState

/-- The module `mixedReceivedState` after `NetworkPortReadBuff` with a buffer of 64
bytes. -/
def mixedReadState : network_module_info_t :=
  (NetworkPortReadBuff mixedReceivedState 0 (some (fun _ => 0)) (some 0) 64
    (some ip_addr.zero)).s

/-- The receive queues of each port: the number of queued bytes and the sizes held by the
queued descriptors. -/
def rxQueues (s : network_module_info_t) : List (Nat × List Nat) :=
  s.pPortInfoList.map fun p =>
    (FifoItemCount p.pFifoRxMsg,
      match p.pFifoRxMsgDesc with
      | some d => (FifoItems d).map fun m => m.MsgSize
      | none => [])

/-- The frame `udp_rx_barray` with the UDP destination port 0. -/
def udp_rx_port_zero : List Nat :=
  (udp_rx_barray.take 36 ++ [0x00, 0x00]) ++ udp_rx_barray.drop 38

/-- One step of the transmit sweep, as the specification words it: a port that was added
and has pending data gets one transmit attempt (one call of `NetworkProcessSendMsg` on the
module buffer, a failure being notified); any other port is left alone. -/
def txAttempt (s : network_module_info_t) (portIdx : Nat) : Option network_module_info_t :=
  if NetworkPortValid s portIdx = true ∧ NetworkPortIsTxEmpty s portIdx = false then
    (NetworkProcessSendMsg s portIdx s.pBuffer).map fun r =>
      if r.1 then { r.2.1 with pBuffer := r.2.2 }
      else notifyError { r.2.1 with pBuffer := r.2.2 }
  else some s

/-- Two controllers and two ports: port 0 is bound to controller 1 (10.0.0.1), port 1 to
controller 0 (192.168.2.101); each controller knows the peer of its port; two bytes are
queued on port 1, as two messages, and then one byte on port 0. -/
def sweepState : network_module_info_t :=
  ((NetworkCtrlAdd (NetworkInit (testInitDesc 0 2 2)) 0 (some testCtrlDesc)).bind fun r1 =>
   (NetworkCtrlAdd r1.2 1 (some otherCtrlDesc)).bind fun r2 =>
   (NetworkPortAdd r2.2 0 (some otherPortDesc)).bind fun r3 =>
   (NetworkPortAdd r3.2 1 (some testPortDesc)).bind fun r4 =>
   (NetworkCtrlAddArpEntry r4.2 0 (some ⟨192, 168, 2, 100⟩)
     (some ⟨0x11, 0x22, 0x44, 0x55, 0x88, 0xaa⟩) false).bind fun r5 =>
   (NetworkCtrlAddArpEntry r5.2 1 (some ⟨10, 0, 0, 2⟩)
     (some ⟨0x02, 0, 0, 0, 0, 0x02⟩) false).bind fun r6 =>
   (NetworkPortSendByte r6.2 1 0x66 none).bind fun r7 =>
   (NetworkPortSendByte r7.2 1 0x67 none).bind fun r8 =>
   (NetworkPortSendByte r8.2 0 0x55 none).map fun r9 => r9.2).getD
    (NetworkInit (testInitDesc 0 2 2))

/-! # Properties -/

/-! ## Machine arithmetic -/

theorem add32_eq {a b : Nat} (h : a + b < 4294967296) : add32 a b = a + b := by
  unfold add32; omega

theorem sub32_eq {a b : Nat} (h1 : b ≤ a) (h2 : a < 4294967296) : sub32 a b = a - b := by
  unfold sub32; omega

theorem add32_lt (a b : Nat) : add32 a b < 4294967296 := by
  unfold add32; omega

theorem sub32_lt (a b : Nat) : sub32 a b < 4294967296 := by
  unfold sub32; omega

theorem add32_add32 {W a b : Nat} : add32 (add32 W a) b = add32 W (a + b) := by
  unfold add32; omega

theorem shl8_or (a b : Nat) (hb : b < 256) : (a <<< 8 ||| b) = a * 256 + b := by
  have := Nat.mul_add_lt_is_or (i := 8) (b := b) (by simpa using hb) a
  rw [Nat.shiftLeft_eq]
  simp only [Nat.reducePow] at this ⊢
  rw [Nat.mul_comm a 256, ← this]

theorem UtilsRotrUint16_eight (n : Nat) (h : n < 65536) :
    UtilsRotrUint16 n 8 = (n % 256) * 256 + n / 256 := by
  unfold UtilsRotrUint16
  have h1 : n >>> 8 < 256 := by
    rw [Nat.shiftRight_eq_div_pow]; omega
  rw [Nat.lor_comm, show 16 - 8 = 8 from rfl, shl8_or _ _ h1, Nat.shiftRight_eq_div_pow]
  omega

theorem SWAP16_eq (n : Nat) (h : n < 65536) : SWAP16 n = (n % 256) * 256 + n / 256 := by
  unfold SWAP16
  have h1 : n >>> 8 < 256 := by
    rw [Nat.shiftRight_eq_div_pow]; omega
  have h2 : n &&& 0xff = n % 256 := Nat.and_pow_two_sub_one_eq_mod n 8
  rw [h2, shl8_or _ _ h1, Nat.shiftRight_eq_div_pow]
  omega

theorem ihl_version_byte (b : Nat) : (((b &&& 240) ||| 5) &&& 15) ||| (4 <<< 4) = 69 := by
  rw [Nat.and_comm, Nat.and_or_distrib_left, ← Nat.and_assoc, Nat.and_comm 15 b, Nat.and_assoc,
    show (15 &&& 240 : Nat) = 0 from by decide, Nat.and_zero]
  decide

theorem ecn_dscp_byte (b : Nat) : (((b &&& 252) ||| 0) &&& 3) ||| (0 <<< 2) = 0 := by
  rw [Nat.or_zero, Nat.and_assoc, show (252 &&& 3 : Nat) = 0 from by decide, Nat.and_zero]
  decide

/-! ## Ring buffer -/

theorem count_write {R W n : Nat} (hR : R < 4294967296) (hW : W < 4294967296)
    (h : FifoGetItemCount R W + n < 4294967296) :
    FifoGetItemCount R (add32 W n) = FifoGetItemCount R W + n := by
  unfold FifoGetItemCount add32 sub32 at *
  split_ifs at * <;> omega

theorem count_consume {R W n : Nat} (hR : R < 4294967296) (hW : W < 4294967296)
    (h : n ≤ FifoGetItemCount R W) :
    FifoGetItemCount (add32 R n) W = FifoGetItemCount R W - n := by
  unfold FifoGetItemCount add32 sub32 at *
  split_ifs at * <;> omega

theorem count_lt (R W : Nat) : FifoGetItemCount R W < 4294967296 := by
  unfold FifoGetItemCount add32 sub32
  split_ifs <;> omega

theorem FifoItems_length {α : Type} (f : fifo_desc_t α) :
    (FifoItems f).length = FifoGetItemCount f.ReadCount f.WriteCount := by
  simp [FifoItems]

theorem FifoItems_append {α : Type} (f g : fifo_desc_t α) (src : Nat → α) (n : Nat)
    (hcap : g.ItemNb = f.ItemNb) (hR : g.ReadIdx = f.ReadIdx)
    (hc : FifoGetItemCount g.ReadCount g.WriteCount
        = FifoGetItemCount f.ReadCount f.WriteCount + n)
    (hold : ∀ k, k < FifoGetItemCount f.ReadCount f.WriteCount →
        g.Buffer (wrapIdx f.ItemNb (f.ReadIdx + k)) = f.Buffer (wrapIdx f.ItemNb (f.ReadIdx + k)))
    (hnew : ∀ k, k < n →
        g.Buffer (wrapIdx f.ItemNb (f.ReadIdx + (FifoGetItemCount f.ReadCount f.WriteCount + k)))
          = src k) :
    FifoItems g = FifoItems f ++ (List.range n).map src := by
  apply List.ext_getElem
  · simp [FifoItems, hc]
  · intro i h1 h2
    simp only [FifoItems, List.length_map, List.length_range] at h1
    by_cases hi : i < FifoGetItemCount f.ReadCount f.WriteCount
    · rw [List.getElem_append_left (by simpa [FifoItems] using hi)]
      simp [FifoItems, hcap, hR, hold i hi]
    · rw [List.getElem_append_right (by simpa [FifoItems] using hi)]
      simp only [FifoItems, List.getElem_map, List.getElem_range, List.length_map,
        List.length_range, hcap, hR]
      have := hnew (i - FifoGetItemCount f.ReadCount f.WriteCount) (by omega)
      rw [← this]
      congr 2
      omega

theorem FifoWrite_ok {α : Type} (f : fifo_desc_t α) (hwf : FifoWf f) (src : Nat → α) (n : Nat)
    (hn : n ≤ FifoFreeSpace (some f)) :
    ∃ g, FifoWrite (some f) (some src) n = (true, some g) ∧ FifoWf g ∧
      FifoItems g = FifoItems f ++ (List.range n).map src ∧
      g.ItemNb = f.ItemNb ∧ g.ItemSize = f.ItemSize := by
  obtain ⟨hcap, hrc, hwc, hcnt, hridx, hwidx⟩ := hwf
  have hfree : FifoFreeSpace (some f) = f.ItemNb - FifoGetItemCount f.ReadCount f.WriteCount := by
    simp only [FifoFreeSpace, FifoGetFreeSpace]
    exact sub32_eq hcnt (by omega)
  rw [hfree] at hn
  generalize hc : FifoGetItemCount f.ReadCount f.WriteCount = c at *
  have hcw : FifoGetItemCount f.ReadCount (add32 f.WriteCount n) = c + n := by
    rw [count_write hrc hwc (by omega), hc]
  unfold FifoWrite
  simp only [hfree, ge_iff_le, hn, if_true]
  by_cases hro : f.ItemNb ≤ add32 f.WriteIdx n
  · simp only [hro, if_true]
    have hWl : f.WriteIdx + n < 4294967296 := by
      rw [hwidx]; unfold wrapIdx; split_ifs <;> omega
    have hWc : f.WriteIdx ≤ f.ItemNb := by
      rw [hwidx]; unfold wrapIdx; split_ifs <;> omega
    have hro1 : sub32 f.ItemNb f.WriteIdx = f.ItemNb - f.WriteIdx := sub32_eq hWc (by omega)
    have hro2 : f.ItemNb - f.WriteIdx ≤ n := by
      rw [add32_eq hWl] at hro; omega
    have hn1 : sub32 n (f.ItemNb - f.WriteIdx) = n - (f.ItemNb - f.WriteIdx) :=
      sub32_eq hro2 (by omega)
    have hsum : f.ItemNb - f.WriteIdx + (n - (f.ItemNb - f.WriteIdx)) = n := by omega
    simp only [hro1, hn1, add32_add32, hsum]
    rw [add32_eq hWl] at hro
    clear hro1 hn1 hsum hfree
    refine ⟨_, rfl, ?_, ?_, rfl, rfl⟩
    · refine ⟨hcap, hrc, add32_lt _ _, ?_, hridx, ?_⟩
      · simp only [hcw]; omega
      · simp only [hcw]
        rw [hwidx] at hro hWl hro2 hWc ⊢
        unfold add32 wrapIdx at *
        split_ifs at * <;> omega
    · refine FifoItems_append f _ src n ?_ ?_ ?_ ?_ ?_
      · rfl
      · rfl
      · simp only [hcw, hc]
      · intro k hk
        simp only [hc] at hk
        simp only [memcpy, ptrAdd]
        rw [hwidx] at hro hWl hro2 hWc ⊢
        rw [if_neg, if_neg]
        · unfold wrapIdx at *
          split_ifs at * <;> omega
        · unfold wrapIdx at *
          split_ifs at * <;> omega
      · intro k hk
        simp only [memcpy, ptrAdd, hc]
        rw [hwidx] at hro hWl hro2 hWc ⊢
        by_cases hk2 : k < f.ItemNb - wrapIdx f.ItemNb (f.ReadIdx + c)
        · rw [if_neg, if_pos]
          · congr 1
            unfold wrapIdx at *
            split_ifs at * <;> omega
          · unfold wrapIdx at *
            split_ifs at * <;> omega
          · unfold wrapIdx at *
            split_ifs at * <;> omega
        · rw [if_pos]
          · congr 1
            unfold wrapIdx at *
            split_ifs at * <;> omega
          · unfold wrapIdx at *
            split_ifs at * <;> omega
  · simp only [hro, if_false]
    refine ⟨_, rfl, ?_, ?_, rfl, rfl⟩
    · refine ⟨hcap, hrc, add32_lt _ _, ?_, hridx, ?_⟩
      · simp only [hcw]; omega
      · simp only [hcw, hwidx]
        unfold add32 wrapIdx at *
        split_ifs at * <;> omega
    · refine FifoItems_append f _ src n ?_ ?_ ?_ ?_ ?_
      · rfl
      · rfl
      · simp only [hcw, hc]
      · intro k hk
        simp only [hc] at hk
        simp only [memcpy, hwidx]
        rw [if_neg]
        unfold add32 wrapIdx at *
        split_ifs at * <;> omega
      · intro k hk
        simp only [memcpy, hwidx, hc]
        rw [if_pos]
        · congr 1
          unfold add32 wrapIdx at *
          split_ifs at * <;> omega
        · unfold add32 wrapIdx at *
          split_ifs at * <;> omega

theorem FifoItems_drop {α : Type} (f g : fifo_desc_t α) (n : Nat)
    (hcap : g.ItemNb = f.ItemNb) (hB : g.Buffer = f.Buffer)
    (hc : FifoGetItemCount g.ReadCount g.WriteCount
        = FifoGetItemCount f.ReadCount f.WriteCount - n)
    (hidx : ∀ k, k < FifoGetItemCount f.ReadCount f.WriteCount - n →
        wrapIdx f.ItemNb (g.ReadIdx + k) = wrapIdx f.ItemNb (f.ReadIdx + (n + k))) :
    FifoItems g = (FifoItems f).drop n := by
  apply List.ext_getElem
  · simp [FifoItems, hc]
  · intro i h1 h2
    simp only [FifoItems, List.length_map, List.length_range] at h1
    simp only [FifoItems, List.getElem_map, List.getElem_range, List.getElem_drop, hcap, hB]
    rw [hidx i (by omega)]

theorem FifoConsumeItems_ok {α : Type} (f : fifo_desc_t α) (hwf : FifoWf f) (n : Nat)
    (hn : n ≤ FifoGetItemCount f.ReadCount f.WriteCount) :
    (FifoConsumeItems f n).1 = true ∧ FifoWf (FifoConsumeItems f n).2 ∧
      FifoItems (FifoConsumeItems f n).2 = (FifoItems f).drop n ∧
      (FifoConsumeItems f n).2.ItemNb = f.ItemNb ∧
      (FifoConsumeItems f n).2.ItemSize = f.ItemSize := by
  obtain ⟨hcap, hrc, hwc, hcnt, hridx, hwidx⟩ := hwf
  have hcc := count_consume hrc hwc hn
  generalize hc : FifoGetItemCount f.ReadCount f.WriteCount = c at *
  unfold FifoConsumeItems
  simp only [hc, ge_iff_le, hn, if_true]
  have hRl : f.ReadIdx + n < 4294967296 := by omega
  rw [add32_eq hRl]
  by_cases hro : f.ItemNb ≤ f.ReadIdx + n
  · simp only [hro, if_true]
    have hro1 : sub32 f.ItemNb f.ReadIdx = f.ItemNb - f.ReadIdx := sub32_eq (by omega) (by omega)
    have hn1 : sub32 n (f.ItemNb - f.ReadIdx) = n - (f.ItemNb - f.ReadIdx) :=
      sub32_eq (by omega) (by omega)
    have h0 : add32 0 (n - (f.ItemNb - f.ReadIdx)) = n - (f.ItemNb - f.ReadIdx) :=
      by rw [add32_eq (by omega)]; omega
    simp only [hro1, hn1, h0]
    refine ⟨trivial, ⟨hcap, add32_lt _ _, hwc, ?_, ?_, ?_⟩, ?_, trivial, trivial⟩
    · simp only [hcc]; omega
    · simp only; omega
    · simp only [hcc, hwidx]
      unfold wrapIdx
      split_ifs <;> omega
    · refine FifoItems_drop f _ n rfl rfl ?_ ?_
      · simp only [hcc, hc]
      · intro k hk
        simp only [hc] at hk
        simp only
        unfold wrapIdx
        split_ifs <;> omega
  · simp only [hro, if_false]
    refine ⟨trivial, ⟨hcap, add32_lt _ _, hwc, ?_, ?_, ?_⟩, ?_, trivial, trivial⟩
    · simp only [hcc]; omega
    · simp only; omega
    · simp only [hcc, hwidx]
      unfold wrapIdx
      split_ifs <;> omega
    · refine FifoItems_drop f _ n rfl rfl ?_ ?_
      · simp only [hcc, hc]
      · intro k hk
        simp only [hc] at hk
        simp only
        unfold wrapIdx
        split_ifs <;> omega

theorem FifoRead_ok {α : Type} (f : fifo_desc_t α) (hwf : FifoWf f) (dest : Nat → α) (n : Nat)
    (consume : Bool) (hn : n ≤ FifoGetItemCount f.ReadCount f.WriteCount) :
    FifoRead (some f) (some dest) n consume =
      (true, some (if consume then (FifoConsumeItems f n).2 else f),
        some (FifoReadDest f dest n)) := by
  obtain ⟨hcap, hrc, hwc, hcnt, hridx, hwidx⟩ := hwf
  have hd : (if add32 f.ReadIdx n ≥ f.ItemNb then
          memcpy (memcpy dest 0 (ptrAdd f.Buffer f.ReadIdx) (sub32 f.ItemNb f.ReadIdx))
            (sub32 f.ItemNb f.ReadIdx) (ptrAdd f.Buffer 0) (sub32 n (sub32 f.ItemNb f.ReadIdx))
        else memcpy dest 0 (ptrAdd f.Buffer f.ReadIdx) n) = FifoReadDest f dest n := by
    have hRl : f.ReadIdx + n < 4294967296 := by omega
    rw [add32_eq hRl]
    funext i
    by_cases hro : f.ItemNb ≤ f.ReadIdx + n
    · have hro1 : sub32 f.ItemNb f.ReadIdx = f.ItemNb - f.ReadIdx :=
        sub32_eq (by omega) (by omega)
      have hn1 : sub32 n (f.ItemNb - f.ReadIdx) = n - (f.ItemNb - f.ReadIdx) :=
        sub32_eq (by omega) (by omega)
      simp only [ge_iff_le, hro, if_true, hro1, hn1, memcpy, ptrAdd, FifoReadDest, wrapIdx]
      split_ifs <;> first | rfl | (congr 1; omega)
    · simp only [ge_iff_le, hro, if_false, memcpy, ptrAdd, FifoReadDest, wrapIdx]
      split_ifs <;> first | rfl | (congr 1; omega)
  unfold FifoRead
  simp only [ge_iff_le, hn, if_true]
  simp only [ge_iff_le] at hd
  rw [hd]
  cases consume <;> simp

theorem FifoReadDest_take {α : Type} (f : fifo_desc_t α) (dest : Nat → α) (n : Nat)
    (hn : n ≤ FifoGetItemCount f.ReadCount f.WriteCount) :
    (List.range n).map (FifoReadDest f dest n) = (FifoItems f).take n := by
  apply List.ext_getElem
  · simp [FifoItems, hn]
  · intro i h1 h2
    simp only [List.length_map, List.length_range] at h1
    simp [FifoItems, FifoReadDest, h1]

theorem FifoWf_create {α : Type} (mem : Nat → α) (cap itemSize : Nat) (h : cap ≤ 2147483648) :
    FifoWf (FifoCreate mem cap itemSize) := by
  refine ⟨h, by simp [FifoCreate], by simp [FifoCreate], ?_, Or.inl rfl, ?_⟩
  · simp [FifoCreate, FifoGetItemCount, sub32]
  · simp [FifoCreate, FifoGetItemCount, sub32, wrapIdx]

theorem FifoWf_flush {α : Type} (f : fifo_desc_t α) (h : FifoWf f) : FifoWf (FifoFlush f) := by
  refine ⟨h.cap, by simp [FifoFlush], by simp [FifoFlush], ?_, Or.inl rfl, ?_⟩
  · simp [FifoFlush, FifoGetItemCount, sub32]
  · simp [FifoFlush, FifoGetItemCount, sub32, wrapIdx]

theorem FifoItems_flush {α : Type} (f : fifo_desc_t α) : FifoItems (FifoFlush f) = [] := by
  simp [FifoItems, FifoFlush, FifoGetItemCount, sub32]

theorem FifoFreeSpace_eq {α : Type} (f : fifo_desc_t α)
    (hcnt : FifoGetItemCount f.ReadCount f.WriteCount ≤ f.ItemNb) (hcap : f.ItemNb < 4294967296) :
    FifoFreeSpace (some f) = f.ItemNb - FifoGetItemCount f.ReadCount f.WriteCount := by
  simp only [FifoFreeSpace, FifoGetFreeSpace]
  exact sub32_eq hcnt hcap

theorem FifoWrite_fail {α : Type} (f : fifo_desc_t α) (src : Nat → α) (n : Nat)
    (h : ¬ n ≤ FifoFreeSpace (some f)) : FifoWrite (some f) (some src) n = (false, some f) := by
  simp [FifoWrite, h]

theorem FifoRead_fail {α : Type} (f : fifo_desc_t α) (dest : Nat → α) (n : Nat) (c : Bool)
    (h : ¬ n ≤ FifoGetItemCount f.ReadCount f.WriteCount) :
    FifoRead (some f) (some dest) n c = (false, some f, some dest) := by
  simp [FifoRead, h]

theorem FifoConsumeItems_fail {α : Type} (f : fifo_desc_t α) (n : Nat)
    (h : ¬ n ≤ FifoGetItemCount f.ReadCount f.WriteCount) :
    FifoConsumeItems f n = (false, f) := by
  simp [FifoConsumeItems, h]

/-- One call of the interface keeps a fifo well formed and acts on its items as the
specification queue does. -/
theorem FifoApply_sim {α : Type} (f : fifo_desc_t α) (hwf : FifoWf f) (op : FifoOp α) :
    FifoWf (FifoApply f op) ∧ (FifoApply f op).ItemNb = f.ItemNb ∧
      (FifoApply f op).ItemSize = f.ItemSize ∧
      FifoItems (FifoApply f op) = QueueApply f.ItemNb (FifoItems f) op := by
  have hfree := FifoFreeSpace_eq f hwf.cnt (by have := hwf.cap; omega)
  cases op with
  | write src n =>
    by_cases hn : n ≤ FifoFreeSpace (some f)
    · obtain ⟨g, hg, hgwf, hgi, hgc, hgs⟩ := FifoWrite_ok f hwf src n hn
      have hq : (FifoItems f).length + n ≤ f.ItemNb := by
        rw [FifoItems_length]; have := hwf.cnt; omega
      simp [FifoApply, hg, hgwf, hgi, hgc, hgs, QueueApply, hq]
    · have hq : ¬ (FifoItems f).length + n ≤ f.ItemNb := by
        rw [FifoItems_length]; have := hwf.cnt; omega
      simp [FifoApply, FifoWrite_fail f src n hn, hwf, QueueApply, hq]
  | read dest n c =>
    by_cases hn : n ≤ FifoGetItemCount f.ReadCount f.WriteCount
    · obtain ⟨-, h2, h3, h4, h5⟩ := FifoConsumeItems_ok f hwf n hn
      have hq : n ≤ (FifoItems f).length := by rw [FifoItems_length]; exact hn
      cases c <;> simp [FifoApply, FifoRead_ok f hwf dest n _ hn, hwf, QueueApply, hq, h2, h3, h4, h5]
    · have hq : ¬ n ≤ (FifoItems f).length := by rw [FifoItems_length]; exact hn
      simp [FifoApply, FifoRead_fail f dest n c hn, hwf, QueueApply, hq]
  | consume n =>
    by_cases hn : n ≤ FifoGetItemCount f.ReadCount f.WriteCount
    · obtain ⟨-, h2, h3, h4, h5⟩ := FifoConsumeItems_ok f hwf n hn
      have hq : n ≤ (FifoItems f).length := by rw [FifoItems_length]; exact hn
      simp [FifoApply, FifoConsume, QueueApply, hq, h2, h3, h4, h5]
    · have hq : ¬ n ≤ (FifoItems f).length := by rw [FifoItems_length]; exact hn
      simp [FifoApply, FifoConsume, FifoConsumeItems_fail f n hn, hwf, QueueApply, hq]
  | flush =>
    refine ⟨FifoWf_flush f hwf, rfl, rfl, ?_⟩
    simp [FifoApply, FifoItems_flush, QueueApply]

theorem FifoApply_foldl_sim {α : Type} (ops : List (FifoOp α)) (f : fifo_desc_t α)
    (hwf : FifoWf f) :
    FifoWf (ops.foldl FifoApply f) ∧ (ops.foldl FifoApply f).ItemNb = f.ItemNb ∧
      FifoItems (ops.foldl FifoApply f) = ops.foldl (QueueApply f.ItemNb) (FifoItems f) := by
  induction ops generalizing f with
  | nil => exact ⟨hwf, rfl, rfl⟩
  | cons op ops ih =>
    obtain ⟨h1, h2, -, h4⟩ := FifoApply_sim f hwf op
    obtain ⟨i1, i2, i3⟩ := ih (FifoApply f op) h1
    refine ⟨i1, ?_, ?_⟩
    · simp only [List.foldl_cons]; rw [i2, h2]
    · simp only [List.foldl_cons]; rw [i3, h2, h4]

theorem FifoReachable_wf {α : Type} {cap itemSize : Nat} {f : fifo_desc_t α}
    (h : FifoReachable cap itemSize f) (hcap : cap ≤ 2147483648) :
    FifoWf f ∧ f.ItemNb = cap := by
  induction h with
  | create mem => exact ⟨FifoWf_create mem cap itemSize hcap, rfl⟩
  | step f op _ ih =>
    obtain ⟨h1, h2, -, -⟩ := FifoApply_sim f ih.1 op
    exact ⟨h1, h2.trans ih.2⟩

theorem FifoWrite_counts {α : Type} (f : fifo_desc_t α) (src : Nat → α) (n : Nat)
    (hn : n ≤ FifoFreeSpace (some f)) :
    ∃ g, FifoWrite (some f) (some src) n = (true, some g) ∧ g.ItemNb = f.ItemNb ∧
      g.ReadCount = f.ReadCount ∧ g.WriteCount = add32 f.WriteCount n := by
  have hn32 : n < 4294967296 := by
    have : FifoFreeSpace (some f) < 4294967296 := by
      simp only [FifoFreeSpace, FifoGetFreeSpace]; exact sub32_lt _ _
    omega
  unfold FifoWrite
  simp only [ge_iff_le, hn, if_true]
  split_ifs
  · refine ⟨_, rfl, rfl, rfl, ?_⟩
    simp only [add32_add32]
    unfold add32 sub32
    omega
  · exact ⟨_, rfl, rfl, rfl, rfl⟩

theorem FifoConsumeItems_counts {α : Type} (f : fifo_desc_t α) (n : Nat)
    (hn : n ≤ FifoGetItemCount f.ReadCount f.WriteCount) :
    (FifoConsumeItems f n).1 = true ∧ (FifoConsumeItems f n).2.ItemNb = f.ItemNb ∧
      (FifoConsumeItems f n).2.ReadCount = add32 f.ReadCount n ∧
      (FifoConsumeItems f n).2.WriteCount = f.WriteCount := by
  unfold FifoConsumeItems
  simp only [ge_iff_le, hn, if_true]
  split_ifs <;> exact ⟨rfl, rfl, rfl, rfl⟩

theorem FifoApply_counts {α : Type} {cap : Nat} (hcap : cap < 4294967296) (f : fifo_desc_t α)
    (h : FifoCounts cap f) (op : FifoOp α) : FifoCounts cap (FifoApply f op) := by
  obtain ⟨h1, h2, h3, h4⟩ := h
  have hfree := FifoFreeSpace_eq f (h1 ▸ h4) (h1 ▸ hcap)
  cases op with
  | write src n =>
    by_cases hn : n ≤ FifoFreeSpace (some f)
    · obtain ⟨g, hg, g1, g2, g3⟩ := FifoWrite_counts f src n hn
      simp only [FifoApply, hg, Option.getD_some]
      refine ⟨g1.trans h1, g2 ▸ h2, g3 ▸ add32_lt _ _, ?_⟩
      rw [g2, g3, count_write h2 h3 (by omega)]
      omega
    · simp only [FifoApply, FifoWrite_fail f src n hn, Option.getD_some]
      exact ⟨h1, h2, h3, h4⟩
  | read dest n c =>
    by_cases hn : n ≤ FifoGetItemCount f.ReadCount f.WriteCount
    · obtain ⟨-, g1, g2, g3⟩ := FifoConsumeItems_counts f n hn
      cases c
      · simp only [FifoApply, FifoRead, ge_iff_le, hn, if_true, Bool.false_eq_true, if_false,
          Option.getD_some]
        exact ⟨h1, h2, h3, h4⟩
      · simp only [FifoApply, FifoRead, ge_iff_le, hn, if_true, Option.getD_some]
        refine ⟨g1.trans h1, g2 ▸ add32_lt _ _, g3 ▸ h3, ?_⟩
        rw [g2, g3, count_consume h2 h3 hn]
        omega
    · simp only [FifoApply, FifoRead_fail f dest n c hn, Option.getD_some]
      exact ⟨h1, h2, h3, h4⟩
  | consume n =>
    by_cases hn : n ≤ FifoGetItemCount f.ReadCount f.WriteCount
    · obtain ⟨-, g1, g2, g3⟩ := FifoConsumeItems_counts f n hn
      simp only [FifoApply, FifoConsume, Option.getD_some]
      refine ⟨g1.trans h1, g2 ▸ add32_lt _ _, g3 ▸ h3, ?_⟩
      rw [g2, g3, count_consume h2 h3 hn]
      omega
    · simp only [FifoApply, FifoConsume, FifoConsumeItems_fail f n hn, Option.getD_some]
      exact ⟨h1, h2, h3, h4⟩
  | flush =>
    refine ⟨h1, by simp [FifoApply, FifoFlush], by simp [FifoApply, FifoFlush], ?_⟩
    simp [FifoApply, FifoFlush, FifoGetItemCount, sub32]

theorem FifoReachable_counts {α : Type} {cap itemSize : Nat} {f : fifo_desc_t α}
    (h : FifoReachable cap itemSize f) (hcap : cap < 4294967296) : FifoCounts cap f := by
  induction h with
  | create mem =>
    refine ⟨rfl, by simp [FifoCreate], by simp [FifoCreate], ?_⟩
    simp [FifoCreate, FifoGetItemCount, sub32]
  | step f op _ ih => exact FifoApply_counts hcap f ih op

/-- C5: in every fifo state reachable from FifoCreate(cap, itemSize), FifoItemCount is
at most cap and FifoFreeSpace is cap - FifoItemCount as natural numbers, so that
capacity - freeSpace = itemCount; after FifoFlush the free space is cap and the count 0. -/
theorem fifo_capacity_invariant {α : Type} (cap itemSize : Nat) (f : fifo_desc_t α)
    (hr : FifoReachable cap itemSize f) (hcap : cap < 4294967296) :
    FifoItemCount (some f) ≤ cap ∧
    FifoFreeSpace (some f) = cap - FifoItemCount (some f) ∧
    cap - FifoFreeSpace (some f) = FifoItemCount (some f) ∧
    FifoFreeSpace (some (FifoFlush f)) = cap ∧
    FifoItemCount (some (FifoFlush f)) = 0 := by
  obtain ⟨h1, h2, h3, h4⟩ := FifoReachable_counts hr hcap
  have hfree := FifoFreeSpace_eq f (h1 ▸ h4) (h1 ▸ hcap)
  rw [h1] at hfree
  have hfl : FifoItemCount (some (FifoFlush f)) = 0 := by
    simp [FifoItemCount, FifoFlush, FifoGetItemCount, sub32]
  have hfl2 : FifoFreeSpace (some (FifoFlush f)) = cap := by
    simp only [FifoFreeSpace, FifoGetFreeSpace, FifoFlush, h1]
    simp only [FifoGetItemCount, sub32]
    simp
    omega
  simp only [FifoItemCount] at *
  refine ⟨h4, hfree, by omega, hfl2, hfl⟩

/-- Success conditions of the calls of the interface on a reachable fifo when source and
destination are regions (not NULL). -/
theorem fifo_success_some {α : Type} (cap itemSize : Nat) (f : fifo_desc_t α)
    (hr : FifoReachable cap itemSize f) (hcap : cap < 4294967296) (src dest : Nat → α)
    (n : Nat) (consume : Bool) :
    ((FifoWrite (some f) (some src) n).1 = true ↔ FifoFreeSpace (some f) ≥ n) ∧
    ((FifoRead (some f) (some dest) n consume).1 = true ↔ FifoItemCount (some f) ≥ n) ∧
    ((FifoConsume (some f) n).1 = true ↔ FifoItemCount (some f) ≥ n) ∧
    ((FifoWrite (some f) (some src) n).1 = false →
      (FifoWrite (some f) (some src) n).2 = some f) ∧
    ((FifoRead (some f) (some dest) n consume).1 = false →
      (FifoRead (some f) (some dest) n consume).2.1 = some f) ∧
    ((FifoConsume (some f) n).1 = false → (FifoConsume (some f) n).2 = some f) ∧
    ((FifoWrite (some f) (some src) n).1 = true →
      FifoItemCount (FifoWrite (some f) (some src) n).2 = FifoItemCount (some f) + n) ∧
    ((FifoConsume (some f) n).1 = true →
      FifoItemCount (FifoConsume (some f) n).2 + n = FifoItemCount (some f)) ∧
    ((FifoRead (some f) (some dest) n true).1 = true →
      FifoItemCount (FifoRead (some f) (some dest) n true).2.1 + n = FifoItemCount (some f)) := by
  obtain ⟨h1, h2, h3, h4⟩ := FifoReachable_counts hr hcap
  have hfree := FifoFreeSpace_eq f (h1 ▸ h4) (h1 ▸ hcap)
  simp only [FifoItemCount, ge_iff_le]
  refine ⟨?_, ?_, ?_, ?_, ?_, ?_, ?_, ?_, ?_⟩
  · by_cases hn : n ≤ FifoFreeSpace (some f)
    · obtain ⟨g, hg, -⟩ := FifoWrite_counts f src n hn
      simp [hg, hn]
    · simp [FifoWrite_fail f src n hn, hn]
  · by_cases hn : n ≤ FifoGetItemCount f.ReadCount f.WriteCount
    · cases consume <;> simp [FifoRead, hn]
    · simp [FifoRead_fail f dest n consume hn, hn]
  · by_cases hn : n ≤ FifoGetItemCount f.ReadCount f.WriteCount
    · simp [FifoConsume, (FifoConsumeItems_counts f n hn).1, hn]
    · simp [FifoConsume, FifoConsumeItems_fail f n hn, hn]
  · by_cases hn : n ≤ FifoFreeSpace (some f)
    · obtain ⟨g, hg, -⟩ := FifoWrite_counts f src n hn
      simp [hg]
    · simp [FifoWrite_fail f src n hn]
  · by_cases hn : n ≤ FifoGetItemCount f.ReadCount f.WriteCount
    · cases consume <;> simp [FifoRead, hn]
    · simp [FifoRead_fail f dest n consume hn]
  · by_cases hn : n ≤ FifoGetItemCount f.ReadCount f.WriteCount
    · simp [FifoConsume, (FifoConsumeItems_counts f n hn).1]
    · simp [FifoConsume, FifoConsumeItems_fail f n hn]
  · by_cases hn : n ≤ FifoFreeSpace (some f)
    · obtain ⟨g, hg, g1, g2, g3⟩ := FifoWrite_counts f src n hn
      intro _
      simp only [hg, g2, g3]
      rw [count_write h2 h3 (by omega)]
    · simp [FifoWrite_fail f src n hn]
  · by_cases hn : n ≤ FifoGetItemCount f.ReadCount f.WriteCount
    · obtain ⟨-, g1, g2, g3⟩ := FifoConsumeItems_counts f n hn
      intro _
      simp only [FifoConsume, g2, g3]
      rw [count_consume h2 h3 hn]
      omega
    · simp [FifoConsume, FifoConsumeItems_fail f n hn]
  · by_cases hn : n ≤ FifoGetItemCount f.ReadCount f.WriteCount
    · obtain ⟨-, g1, g2, g3⟩ := FifoConsumeItems_counts f n hn
      intro _
      simp only [FifoRead, ge_iff_le, hn, if_true, g2, g3]
      rw [count_consume h2 h3 hn]
      omega
    · simp [FifoRead_fail f dest n true hn]


/-- C4 (amended): on a fifo reachable from FifoCreate, FifoWrite of n items returns true
iff the source is not NULL and FifoFreeSpace >= n, FifoRead of n items returns true iff
the destination is not NULL and FifoItemCount >= n, FifoConsume of n items returns true
iff FifoItemCount >= n; a call that returns false leaves the fifo descriptor (cursors,
totals, storage) and the destination unchanged; a successful write raises the item count
by n, a successful consume or consuming read lowers it by n. -/
theorem fifo_success_conditions {α : Type} (cap itemSize : Nat) (f : fifo_desc_t α)
    (hr : FifoReachable cap itemSize f) (hcap : cap < 4294967296)
    (src dest : Option (Nat → α)) (n : Nat) (consume : Bool) :
    ((FifoWrite (some f) src n).1 = true ↔ src.isSome = true ∧ FifoFreeSpace (some f) ≥ n) ∧
    ((FifoRead (some f) dest n consume).1 = true ↔
      dest.isSome = true ∧ FifoItemCount (some f) ≥ n) ∧
    ((FifoConsume (some f) n).1 = true ↔ FifoItemCount (some f) ≥ n) ∧
    ((FifoWrite (some f) src n).1 = false → (FifoWrite (some f) src n).2 = some f) ∧
    ((FifoRead (some f) dest n consume).1 = false →
      (FifoRead (some f) dest n consume).2 = (some f, dest)) ∧
    ((FifoConsume (some f) n).1 = false → (FifoConsume (some f) n).2 = some f) ∧
    ((FifoWrite (some f) src n).1 = true →
      FifoItemCount (FifoWrite (some f) src n).2 = FifoItemCount (some f) + n) ∧
    ((FifoConsume (some f) n).1 = true →
      FifoItemCount (FifoConsume (some f) n).2 + n = FifoItemCount (some f)) ∧
    ((FifoRead (some f) dest n true).1 = true →
      FifoItemCount (FifoRead (some f) dest n true).2.1 + n = FifoItemCount (some f)) := by
  have hC : ((FifoConsume (some f) n).1 = true ↔ FifoItemCount (some f) ≥ n) ∧
      ((FifoConsume (some f) n).1 = false → (FifoConsume (some f) n).2 = some f) ∧
      ((FifoConsume (some f) n).1 = true →
        FifoItemCount (FifoConsume (some f) n).2 + n = FifoItemCount (some f)) := by
    have h := fifo_success_some cap itemSize f hr hcap f.Buffer f.Buffer n consume
    exact ⟨h.2.2.1, h.2.2.2.2.2.1, h.2.2.2.2.2.2.2.1⟩
  have hW : ((FifoWrite (some f) src n).1 = true ↔
        src.isSome = true ∧ FifoFreeSpace (some f) ≥ n) ∧
      ((FifoWrite (some f) src n).1 = false → (FifoWrite (some f) src n).2 = some f) ∧
      ((FifoWrite (some f) src n).1 = true →
        FifoItemCount (FifoWrite (some f) src n).2 = FifoItemCount (some f) + n) := by
    cases src with
    | none => simp [FifoWrite]
    | some src =>
      have h := fifo_success_some cap itemSize f hr hcap src src n consume
      exact ⟨by simpa using h.1, h.2.2.2.1, h.2.2.2.2.2.2.1⟩
  have hR : ∀ c : Bool, ((FifoRead (some f) dest n c).1 = true ↔
        dest.isSome = true ∧ FifoItemCount (some f) ≥ n) ∧
      ((FifoRead (some f) dest n c).1 = false →
        (FifoRead (some f) dest n c).2 = (some f, dest)) := by
    intro c
    cases dest with
    | none => simp [FifoRead]
    | some dest =>
      have h := fifo_success_some cap itemSize f hr hcap dest dest n c
      refine ⟨by simpa using h.2.1, ?_⟩
      by_cases hn : n ≤ FifoGetItemCount f.ReadCount f.WriteCount
      · intro hf
        have := h.2.1.mpr hn
        rw [this] at hf
        exact absurd hf (by simp)
      · intro _
        rw [FifoRead_fail f dest n c hn]
  have hRt : (FifoRead (some f) dest n true).1 = true →
      FifoItemCount (FifoRead (some f) dest n true).2.1 + n = FifoItemCount (some f) := by
    cases dest with
    | none => simp [FifoRead]
    | some dest =>
      exact (fifo_success_some cap itemSize f hr hcap dest dest n consume).2.2.2.2.2.2.2.2
  exact ⟨hW.1, (hR consume).1, hC.1, hW.2.1, (hR consume).2, hC.2.1, hW.2.2, hC.2.2, hRt⟩

/-- C4 (counterexample): the fifo `smallFifo` has one free cell and holds three items,
yet FifoWrite of one item from a NULL source and FifoRead of two items into a NULL
destination return false; so do the byte-level functions. -/
theorem fifo_call_on_null_region_fails :
    FifoReachable 4 1 smallFifo ∧
    FifoFreeSpace (some smallFifo) = 1 ∧
    (FifoWrite (some smallFifo) none 1).1 = false ∧
    FifoItemCount (some smallFifo) = 3 ∧
    (FifoRead (some smallFifo) none 2 false).1 = false ∧
    (Bytes.FifoWrite (some smallFifo) none 1).map (fun r => r.1) = some false ∧
    (Bytes.FifoRead (some smallFifo) none 2 false).map (fun r => r.1) = some false :=
  ⟨.step _ _ (.create _), by decide, by decide, by decide, by decide, by decide, by decide⟩

/-- C4 (witness): the fifo `smallFifo` (three items in four cells), a call on two items
with a source and a call on two items with a NULL destination. -/
theorem fifo_success_conditions_witness :
    (FifoReachable 4 1 smallFifo ∧ (4 : Nat) < 4294967296) ∧
    ((FifoWrite (some smallFifo) (some (fun _ => 9)) 2).1 = true ↔
      (some (fun _ : Nat => 9)).isSome = true ∧ FifoFreeSpace (some smallFifo) ≥ 2) ∧
    ((FifoRead (some smallFifo) none 2 false).1 = true ↔
      (none : Option (Nat → Nat)).isSome = true ∧ FifoItemCount (some smallFifo) ≥ 2) ∧
    ((FifoWrite (some smallFifo) (some (fun _ => 9)) 2).1 = false →
      (FifoWrite (some smallFifo) (some (fun _ => 9)) 2).2 = some smallFifo) ∧
    ((FifoConsume (some smallFifo) 2).1 = true →
      FifoItemCount (FifoConsume (some smallFifo) 2).2 + 2 = FifoItemCount (some smallFifo)) :=
  ⟨⟨.step _ _ (.create _), by decide⟩,
   (fifo_success_conditions 4 1 smallFifo (.step _ _ (.create _)) (by decide)
      (some (fun _ => 9)) none 2 false).1,
   (fifo_success_conditions 4 1 smallFifo (.step _ _ (.create _)) (by decide)
      (some (fun _ => 9)) none 2 false).2.1,
   (fifo_success_conditions 4 1 smallFifo (.step _ _ (.create _)) (by decide)
      (some (fun _ => 9)) none 2 false).2.2.2.1,
   (fifo_success_conditions 4 1 smallFifo (.step _ _ (.create _)) (by decide)
      (some (fun _ => 9)) none 2 false).2.2.2.2.2.2.2.1⟩

/-! ## Ring buffer, byte level -/

theorem mul32_eq {a b : Nat} (h : a * b < 4294967296) : mul32 a b = a * b :=
  Nat.mod_eq_of_lt h

theorem cellsOf_memcpy (s : Nat) (b src : Nat → Nat) (o n : Nat) :
    cellsOf s (memcpy b (o * s) src (n * s)) = memcpy (cellsOf s b) o (cellsOf s src) n := by
  funext i
  unfold cellsOf memcpy
  by_cases h : o ≤ i ∧ i < o + n
  · rw [if_pos h]
    apply List.map_congr_left
    intro j hj
    have hj' : j < s := List.mem_range.mp hj
    have h1 : o * s ≤ i * s := Nat.mul_le_mul_right s h.1
    have h2 : (i + 1) * s ≤ (o + n) * s := Nat.mul_le_mul_right s (by omega)
    rw [Nat.add_mul, Nat.add_mul, Nat.one_mul] at h2
    rw [if_pos (by omega)]
    congr 1
    rw [Nat.sub_mul]
    omega
  · rw [if_neg h]
    apply List.map_congr_left
    intro j hj
    have hj' : j < s := List.mem_range.mp hj
    rw [if_neg]
    intro hc
    apply h
    by_contra hn
    by_cases h3 : o ≤ i
    · have h4 : o + n ≤ i := by omega
      have h5 : (o + n) * s ≤ i * s := Nat.mul_le_mul_right s h4
      rw [Nat.add_mul] at h5
      omega
    · have h5 : (i + 1) * s ≤ o * s := Nat.mul_le_mul_right s (by omega)
      rw [Nat.add_mul, Nat.one_mul] at h5
      omega

theorem cellsOf_ptrAdd (s : Nat) (b : Nat → Nat) (o : Nat) :
    cellsOf s (ptrAdd b (o * s)) = ptrAdd (cellsOf s b) o := by
  funext i
  unfold cellsOf ptrAdd
  apply List.map_congr_left
  intro j _
  congr 1
  rw [Nat.add_mul]
  omega

theorem FifoWf_itemView (f : fifo_desc_t Nat) : FifoWf (itemView f) ↔ FifoWf f :=
  ⟨fun h => ⟨h.cap, h.rc, h.wc, h.cnt, h.ridx, h.widx⟩,
   fun h => ⟨h.cap, h.rc, h.wc, h.cnt, h.ridx, h.widx⟩⟩

theorem cellsOf_memcpy_zero (s : Nat) (b src : Nat → Nat) (n : Nat) :
    cellsOf s (memcpy b 0 src (n * s)) = memcpy (cellsOf s b) 0 (cellsOf s src) n := by
  have := cellsOf_memcpy s b src 0 n
  rwa [Nat.zero_mul] at this

theorem cellsOf_ptrAdd_zero (s : Nat) (b : Nat → Nat) :
    cellsOf s (ptrAdd b 0) = ptrAdd (cellsOf s b) 0 := by
  have := cellsOf_ptrAdd s b 0
  rwa [Nat.zero_mul] at this

/-- On a well-formed fifo whose storage size fits 32 bits, the byte-level `FifoWrite` is
defined and is the item-level `FifoWrite` on the items of `ItemSize` bytes. -/
theorem byteFifoWrite_items (f : fifo_desc_t Nat) (hwf : FifoWf f)
    (hsz : f.ItemNb * f.ItemSize < 4294967296) (src : Nat → Nat) (n : Nat) :
    ∃ g, Bytes.FifoWrite (some f) (some src) n =
        some ((FifoWrite (some (itemView f)) (some (cellsOf f.ItemSize src)) n).1, some g) ∧
      (FifoWrite (some (itemView f)) (some (cellsOf f.ItemSize src)) n).2 = some (itemView g) ∧
      g.ItemSize = f.ItemSize := by
  obtain ⟨hcap, hrc, hwc, hcnt, hridx, hwidx⟩ := hwf
  have hmul : ∀ x, x ≤ f.ItemNb → mul32 x f.ItemSize = x * f.ItemSize := fun x hx =>
    mul32_eq (lt_of_le_of_lt (Nat.mul_le_mul_right _ hx) hsz)
  by_cases hn : n ≤ FifoFreeSpace (some f)
  · have hfree : FifoFreeSpace (some f) = f.ItemNb - FifoGetItemCount f.ReadCount f.WriteCount := by
      simp only [FifoFreeSpace, FifoGetFreeSpace]
      exact sub32_eq hcnt (by omega)
    have hn' := hn
    rw [hfree] at hn'
    have hn2 : n ≤ FifoGetFreeSpace f.ItemNb f.ReadCount f.WriteCount := hn
    have hWl : f.WriteIdx + n < 4294967296 := by
      rw [hwidx]; unfold wrapIdx; split_ifs <;> omega
    have hWc : f.WriteIdx ≤ f.ItemNb := by
      rw [hwidx]; unfold wrapIdx; split_ifs <;> omega
    have hst : FifoStorageSize f = f.ItemNb * f.ItemSize := mul32_eq hsz
    by_cases hro : f.ItemNb ≤ add32 f.WriteIdx n
    · have hro1 : sub32 f.ItemNb f.WriteIdx = f.ItemNb - f.WriteIdx := sub32_eq hWc (by omega)
      have hro2 : f.ItemNb - f.WriteIdx ≤ n := by
        rw [add32_eq hWl] at hro; omega
      have hn1 : sub32 n (f.ItemNb - f.WriteIdx) = n - (f.ItemNb - f.WriteIdx) :=
        sub32_eq hro2 (by omega)
      have hb1 : f.WriteIdx * f.ItemSize + (f.ItemNb - f.WriteIdx) * f.ItemSize
          ≤ f.ItemNb * f.ItemSize := by
        rw [← Nat.add_mul]; exact Nat.mul_le_mul_right _ (by omega)
      have hb2 : 0 + (n - (f.ItemNb - f.WriteIdx)) * f.ItemSize ≤ f.ItemNb * f.ItemSize := by
        rw [Nat.zero_add]; exact Nat.mul_le_mul_right _ (by omega)
      simp only [Bytes.FifoWrite, FifoWrite, itemView, FifoFreeSpace, ge_iff_le, hn2, hro, if_true, hro1, hn1,
        Bytes.storeBuffer, FifoStorageSize, hmul f.ItemNb (le_refl _), hmul f.WriteIdx hWc,
        hmul (f.ItemNb - f.WriteIdx) (by omega), hmul (n - (f.ItemNb - f.WriteIdx)) (by omega),
        hmul 0 (by omega), Nat.zero_mul, hb1, hb2, Option.some_bind, Option.map_some', itemView]
      refine ⟨_, rfl, ?_, rfl⟩
      simp only [cellsOf_memcpy_zero, cellsOf_memcpy, cellsOf_ptrAdd]
    · have hb1 : f.WriteIdx * f.ItemSize + n * f.ItemSize ≤ f.ItemNb * f.ItemSize := by
        rw [← Nat.add_mul]; exact Nat.mul_le_mul_right _ (by rw [add32_eq hWl] at hro; omega)
      simp only [Bytes.FifoWrite, FifoWrite, itemView, FifoFreeSpace, ge_iff_le, hn2, hro, if_true, if_false,
        Bytes.storeBuffer, FifoStorageSize, hmul f.ItemNb (le_refl _), hmul f.WriteIdx hWc,
        hmul n (by omega), hb1, Option.map_some', itemView]
      refine ⟨_, rfl, ?_, rfl⟩
      simp only [cellsOf_memcpy]
  · have hn2 : ¬ n ≤ FifoGetFreeSpace f.ItemNb f.ReadCount f.WriteCount := hn
    simp only [Bytes.FifoWrite, FifoWrite, itemView, FifoFreeSpace, ge_iff_le, hn2, if_false]
    exact ⟨f, rfl, rfl, rfl⟩

theorem itemView_consume (f : fifo_desc_t Nat) (n : Nat) :
    itemView (FifoConsumeItems f n).2 = (FifoConsumeItems (itemView f) n).2 := by
  unfold FifoConsumeItems itemView
  simp only []
  split_ifs <;> rfl

theorem FifoReadDest_memcpy {α : Type} (f : fifo_desc_t α) (hwf : FifoWf f) (dest : Nat → α)
    (n : Nat) :
    (if f.ItemNb ≤ f.ReadIdx + n then
        memcpy (memcpy dest 0 (ptrAdd f.Buffer f.ReadIdx) (f.ItemNb - f.ReadIdx))
          (f.ItemNb - f.ReadIdx) (ptrAdd f.Buffer 0) (n - (f.ItemNb - f.ReadIdx))
      else memcpy dest 0 (ptrAdd f.Buffer f.ReadIdx) n) = FifoReadDest f dest n := by
  obtain ⟨hcap, hrc, hwc, hcnt, hridx, hwidx⟩ := hwf
  funext i
  by_cases hro : f.ItemNb ≤ f.ReadIdx + n
  · simp only [hro, if_true, memcpy, ptrAdd, FifoReadDest, wrapIdx]
    split_ifs <;> first | rfl | (congr 1; omega)
  · simp only [hro, if_false, memcpy, ptrAdd, FifoReadDest, wrapIdx]
    split_ifs <;> first | rfl | (congr 1; omega)

/-- On a well-formed fifo whose storage size fits 32 bits, the byte-level `FifoRead` of
`n` items that the fifo holds is defined, returns true, and the items of `ItemSize` bytes
it leaves in the destination are the `n` oldest cells of the storage. -/
theorem byteFifoRead_items (f : fifo_desc_t Nat) (hwf : FifoWf f)
    (hsz : f.ItemNb * f.ItemSize < 4294967296) (dest : Nat → Nat) (n : Nat) (c : Bool)
    (hn : n ≤ FifoGetItemCount f.ReadCount f.WriteCount) :
    ∃ d, Bytes.FifoRead (some f) (some dest) n c =
        some (true, some (if c then (FifoConsumeItems f n).2 else f), some d) ∧
      cellsOf f.ItemSize d = FifoReadDest (itemView f) (cellsOf f.ItemSize dest) n := by
  have hdest := FifoReadDest_memcpy (itemView f) ((FifoWf_itemView f).mpr hwf)
    (cellsOf f.ItemSize dest) n
  obtain ⟨hcap, hrc, hwc, hcnt, hridx, hwidx⟩ := hwf
  have hmul : ∀ x, x ≤ f.ItemNb → mul32 x f.ItemSize = x * f.ItemSize := fun x hx =>
    mul32_eq (lt_of_le_of_lt (Nat.mul_le_mul_right _ hx) hsz)
  have hRl : f.ReadIdx + n < 4294967296 := by omega
  have hRc : f.ReadIdx ≤ f.ItemNb := by omega
  rw [← hdest]
  simp only [itemView]
  by_cases hro : f.ItemNb ≤ f.ReadIdx + n
  · have hro' : f.ItemNb ≤ add32 f.ReadIdx n := by rw [add32_eq hRl]; exact hro
    have hro1 : sub32 f.ItemNb f.ReadIdx = f.ItemNb - f.ReadIdx := sub32_eq hRc (by omega)
    have hro2 : f.ItemNb - f.ReadIdx ≤ n := by omega
    have hn1 : sub32 n (f.ItemNb - f.ReadIdx) = n - (f.ItemNb - f.ReadIdx) :=
      sub32_eq hro2 (by omega)
    have hb1 : f.ReadIdx * f.ItemSize + (f.ItemNb - f.ReadIdx) * f.ItemSize
        ≤ f.ItemNb * f.ItemSize := by
      rw [← Nat.add_mul]; exact Nat.mul_le_mul_right _ (by omega)
    have hb2 : 0 + (n - (f.ItemNb - f.ReadIdx)) * f.ItemSize ≤ f.ItemNb * f.ItemSize := by
      rw [Nat.zero_add]; exact Nat.mul_le_mul_right _ (by omega)
    simp only [Bytes.FifoRead, ge_iff_le, hn, hro, hro', if_true, hro1, hn1,
      Bytes.loadBuffer, FifoStorageSize, hmul f.ItemNb (le_refl _), hmul f.ReadIdx hRc,
      hmul (f.ItemNb - f.ReadIdx) (by omega), hmul (n - (f.ItemNb - f.ReadIdx)) (by omega),
      hmul 0 (by omega), Nat.zero_mul, hb1, hb2, Option.some_bind, Option.map_some']
    refine ⟨memcpy (memcpy dest 0 (ptrAdd f.Buffer (f.ReadIdx * f.ItemSize))
        ((f.ItemNb - f.ReadIdx) * f.ItemSize)) ((f.ItemNb - f.ReadIdx) * f.ItemSize)
        (ptrAdd f.Buffer 0) ((n - (f.ItemNb - f.ReadIdx)) * f.ItemSize), ?_, ?_⟩
    · cases c <;> simp
    · simp only [cellsOf_memcpy_zero, cellsOf_memcpy, cellsOf_ptrAdd, cellsOf_ptrAdd_zero]
  · have hro' : ¬ f.ItemNb ≤ add32 f.ReadIdx n := by rw [add32_eq hRl]; exact hro
    have hb1 : f.ReadIdx * f.ItemSize + n * f.ItemSize ≤ f.ItemNb * f.ItemSize := by
      rw [← Nat.add_mul]; exact Nat.mul_le_mul_right _ (by omega)
    simp only [Bytes.FifoRead, ge_iff_le, hn, hro, hro', if_true, if_false,
      Bytes.loadBuffer, FifoStorageSize, hmul f.ItemNb (le_refl _), hmul f.ReadIdx hRc,
      hmul n (by omega), hb1, Option.map_some']
    refine ⟨memcpy dest 0 (ptrAdd f.Buffer (f.ReadIdx * f.ItemSize)) (n * f.ItemSize), ?_, ?_⟩
    · cases c <;> simp
    · simp only [cellsOf_memcpy_zero, cellsOf_ptrAdd]

theorem byteFifoRead_fail (f : fifo_desc_t Nat) (dest : Nat → Nat) (n : Nat) (c : Bool)
    (h : ¬ n ≤ FifoGetItemCount f.ReadCount f.WriteCount) :
    Bytes.FifoRead (some f) (some dest) n c = some (false, some f, some dest) := by
  simp [Bytes.FifoRead, h]

/-- Whenever the byte-level `FifoWrite` is defined, it returns what the item-level
`FifoWrite` returns, and its descriptor has the same cursors and totals. -/
theorem byteFifoWrite_flag (f : fifo_desc_t Nat) (src : Option (Nat → Nat)) (n : Nat)
    (r : Bool × Option (fifo_desc_t Nat)) (h : Bytes.FifoWrite (some f) src n = some r) :
    r.1 = (FifoWrite (some f) src n).1 ∧
    r.2.map (fun g => (g.ItemNb, g.ItemSize, g.ReadCount, g.WriteCount, g.ReadIdx, g.WriteIdx))
      = (FifoWrite (some f) src n).2.map
          (fun g => (g.ItemNb, g.ItemSize, g.ReadCount, g.WriteCount, g.ReadIdx, g.WriteIdx)) := by
  cases src with
  | none =>
    simp only [Bytes.FifoWrite, Option.some.injEq] at h
    subst h
    simp [FifoWrite]
  | some src =>
    simp only [Bytes.FifoWrite, FifoWrite, Bytes.storeBuffer, FifoStorageSize] at h ⊢
    split_ifs at h ⊢ <;>
      simp only [Option.some_bind, Option.map_some', Option.some.injEq, Option.none_bind,
        Option.map_none', reduceCtorEq] at h
    · split_ifs at h
      · simp only [Option.map_some', Option.some.injEq] at h
        subst h
        simp
      · simp at h
    · subst h
      simp
    · subst h
      simp

/-- Whenever the byte-level `FifoRead` is defined, it returns what the item-level
`FifoRead` returns and leaves the same descriptor. -/
theorem byteFifoRead_flag (f : fifo_desc_t Nat) (dest : Option (Nat → Nat)) (n : Nat)
    (c : Bool) (r : Bool × Option (fifo_desc_t Nat) × Option (Nat → Nat))
    (h : Bytes.FifoRead (some f) dest n c = some r) :
    r.1 = (FifoRead (some f) dest n c).1 ∧ r.2.1 = (FifoRead (some f) dest n c).2.1 := by
  cases dest with
  | none =>
    simp only [Bytes.FifoRead, Option.some.injEq] at h
    subst h
    simp [FifoRead]
  | some dest =>
    simp only [Bytes.FifoRead, FifoRead, Bytes.loadBuffer, FifoStorageSize] at h ⊢
    split_ifs at h ⊢ <;>
      simp only [Option.some_bind, Option.map_some', Option.some.injEq, Option.none_bind,
        Option.map_none', reduceCtorEq] at h
    all_goals (subst h; simp)

theorem FifoConsumeItems_itemSize {α : Type} (f : fifo_desc_t α) (n : Nat) :
    (FifoConsumeItems f n).2.ItemSize = f.ItemSize := by
  unfold FifoConsumeItems
  simp only []
  split_ifs <;> rfl

/-- One defined call of the byte-level interface is the call of the item-level interface
on the items of `ItemSize` bytes. -/
theorem byteFifoApply_sim (f : fifo_desc_t Nat) (hwf : FifoWf f)
    (hsz : f.ItemNb * f.ItemSize < 4294967296) (op : FifoOp Nat) :
    ∃ g, Bytes.FifoApply f op = some g ∧
      itemView g = FifoApply (itemView f) (itemOp f.ItemSize op) ∧
      g.ItemSize = f.ItemSize := by
  cases op with
  | write src n =>
    obtain ⟨g, h1, h2, h3⟩ := byteFifoWrite_items f hwf hsz src n
    refine ⟨g, ?_, ?_, h3⟩
    · simp [Bytes.FifoApply, h1]
    · simp [FifoApply, itemOp, h2]
  | read dest n c =>
    by_cases hn : n ≤ FifoGetItemCount f.ReadCount f.WriteCount
    · obtain ⟨d, h1, -⟩ := byteFifoRead_items f hwf hsz dest n c hn
      have h2 := FifoRead_ok (itemView f) ((FifoWf_itemView f).mpr hwf)
        (cellsOf f.ItemSize dest) n c hn
      refine ⟨if c then (FifoConsumeItems f n).2 else f, ?_, ?_, ?_⟩
      · simp [Bytes.FifoApply, h1]
      · simp only [FifoApply, itemOp, h2, Option.getD_some]
        cases c
        · simp
        · simp [itemView_consume]
      · cases c
        · simp
        · simp [FifoConsumeItems_itemSize]
    · have h2 := FifoRead_fail (itemView f) (cellsOf f.ItemSize dest) n c hn
      refine ⟨f, ?_, ?_, rfl⟩
      · simp [Bytes.FifoApply, byteFifoRead_fail f dest n c hn]
      · simp [FifoApply, itemOp, h2]
  | consume n =>
    refine ⟨(FifoConsumeItems f n).2, ?_, ?_, FifoConsumeItems_itemSize f n⟩
    · simp [Bytes.FifoApply, FifoConsume]
    · simp [FifoApply, itemOp, FifoConsume, itemView_consume]
  | flush => exact ⟨FifoFlush f, rfl, rfl, rfl⟩

theorem byteFifoApply_wf (f g : fifo_desc_t Nat) (hwf : FifoWf f)
    (hsz : f.ItemNb * f.ItemSize < 4294967296) (op : FifoOp Nat)
    (h : Bytes.FifoApply f op = some g) :
    FifoWf g ∧ g.ItemNb = f.ItemNb ∧ g.ItemSize = f.ItemSize ∧
      FifoItems (itemView g) = QueueApply f.ItemNb (FifoItems (itemView f)) (itemOp f.ItemSize op) := by
  obtain ⟨g1, h1, h2, h3⟩ := byteFifoApply_sim f hwf hsz op
  rw [h] at h1
  obtain rfl := Option.some.inj h1
  obtain ⟨c1, c2, -, c4⟩ := FifoApply_sim (itemView f) ((FifoWf_itemView f).mpr hwf)
    (itemOp f.ItemSize op)
  rw [← h2] at c1 c2 c4
  exact ⟨(FifoWf_itemView g).mp c1, c2, h3, c4⟩

theorem byteFifoApply_foldl_sim (ops : List (FifoOp Nat)) (f : fifo_desc_t Nat)
    (hwf : FifoWf f) (hsz : f.ItemNb * f.ItemSize < 4294967296) :
    ∃ g, ops.foldlM Bytes.FifoApply f = some g ∧ FifoWf g ∧ g.ItemNb = f.ItemNb ∧
      g.ItemSize = f.ItemSize ∧
      FifoItems (itemView g) =
        (ops.map (itemOp f.ItemSize)).foldl (QueueApply f.ItemNb) (FifoItems (itemView f)) := by
  induction ops generalizing f with
  | nil => exact ⟨f, rfl, hwf, rfl, rfl, rfl⟩
  | cons op ops ih =>
    obtain ⟨g1, h1, -, -⟩ := byteFifoApply_sim f hwf hsz op
    obtain ⟨w1, w2, w3, w4⟩ := byteFifoApply_wf f g1 hwf hsz op h1
    obtain ⟨g, i1, i2, i3, i4, i5⟩ := ih g1 w1 (by rw [w2, w3]; exact hsz)
    refine ⟨g, ?_, i2, i3.trans w2, i4.trans w3, ?_⟩
    · simp [List.foldlM_cons, h1, i1]
    · simp only [List.map_cons, List.foldl_cons]
      rw [i5, w2, w3, w4]

theorem byteFifoReachable_wf {cap itemSize : Nat} {f : fifo_desc_t Nat}
    (h : Bytes.FifoReachable cap itemSize f) (hcap : cap ≤ 2147483648)
    (hsz : cap * itemSize < 4294967296) :
    FifoWf f ∧ f.ItemNb = cap ∧ f.ItemSize = itemSize := by
  induction h with
  | create mem => exact ⟨FifoWf_create mem cap itemSize hcap, rfl, rfl⟩
  | step f g op _ hop ih =>
    obtain ⟨i1, i2, i3⟩ := ih
    obtain ⟨w1, w2, w3, -⟩ := byteFifoApply_wf f g i1 (by rw [i2, i3]; exact hsz) op hop
    exact ⟨w1, w2.trans i2, w3.trans i3⟩

theorem cellsOf_bytes (s n : Nat) (d w : Nat → Nat)
    (h : (List.range n).map (cellsOf s d) = (List.range n).map (cellsOf s w)) :
    ∀ i, i < n * s → d i = w i := by
  intro i hi
  have hs : 0 < s := by
    rcases Nat.eq_zero_or_pos s with h0 | h0
    · subst h0; simp at hi
    · exact h0
  have hq : i / s < n := (Nat.div_lt_iff_lt_mul hs).mpr hi
  have hr : i % s < s := Nat.mod_lt _ hs
  have h1 : cellsOf s d (i / s) = cellsOf s w (i / s) :=
    (List.map_inj_left.mp h) (i / s) (List.mem_range.mpr hq)
  unfold cellsOf at h1
  have h2 := (List.map_inj_left.mp h1) (i % s) (List.mem_range.mpr hr)
  simp only [] at h2
  have e : i / s * s + i % s = i := by rw [Nat.mul_comm]; exact Nat.div_add_mod i s
  rwa [e] at h2

/-- C2 (amended): for every fifo created with a capacity of at most 2^31 items and a
storage size `cap * itemSize` below 2^32 bytes, every sequence of FifoWrite, FifoRead,
FifoConsume and FifoFlush calls is defined, a FifoRead of n items that follows succeeds
exactly when the bounded queue of the specification holds n items, and then leaves in the
destination the n oldest items written and not yet consumed, in the order they were
written (also when the stored data wraps around the end of the storage). -/
theorem fifo_read_returns_oldest_items (cap itemSize : Nat) (mem : Nat → Nat)
    (ops : List (FifoOp Nat)) (hcap : cap ≤ 2147483648)
    (hsize : cap * itemSize < 4294967296) (dest : Nat → Nat) (n : Nat) (consume : Bool) :
    ∃ f, ops.foldlM Bytes.FifoApply (FifoCreate mem cap itemSize) = some f ∧
      ∃ b g d, Bytes.FifoRead (some f) (some dest) n consume = some (b, g, some d) ∧
        (b = true ↔
          n ≤ ((ops.map (itemOp itemSize)).foldl (QueueApply cap) []).length) ∧
        (b = true → (List.range n).map (cellsOf itemSize d) =
          ((ops.map (itemOp itemSize)).foldl (QueueApply cap) []).take n) := by
  obtain ⟨f, hf, hwf, hc, hs, hi⟩ := byteFifoApply_foldl_sim ops (FifoCreate mem cap itemSize)
    (FifoWf_create mem cap itemSize hcap) hsize
  have h0 : FifoItems (itemView (FifoCreate mem cap itemSize)) = [] := by
    simp [FifoItems, itemView, FifoCreate, FifoGetItemCount, sub32]
  rw [h0] at hi
  have hcap' : (FifoCreate mem cap itemSize).ItemNb = cap := rfl
  have hs' : (FifoCreate mem cap itemSize).ItemSize = itemSize := rfl
  rw [hcap', hs'] at hi
  rw [hcap'] at hc
  rw [hs'] at hs
  refine ⟨f, hf, ?_⟩
  rw [← hi, FifoItems_length]
  show ∃ b g d, _ ∧ (b = true ↔ n ≤ FifoGetItemCount f.ReadCount f.WriteCount) ∧ _
  by_cases hn : n ≤ FifoGetItemCount f.ReadCount f.WriteCount
  · obtain ⟨d, h1, h2⟩ := byteFifoRead_items f hwf (by rw [hc, hs]; exact hsize) dest n consume hn
    refine ⟨true, _, d, h1, by simp [hn], fun _ => ?_⟩
    rw [← hs, h2]
    exact FifoReadDest_take (itemView f) _ n hn
  · exact ⟨false, _, dest, byteFifoRead_fail f dest n consume hn, by simp [hn], by simp⟩

/-- C3 (amended): for every reachable empty fifo of a capacity of at most 2^31 items and
a storage size `cap * itemSize` below 2^32 bytes (cursors at any position) and every block
w of n <= capacity items, FifoWrite(w) succeeds, FifoRead(n, consume=false) then returns
the `n * itemSize` bytes of w and leaves the fifo unchanged, and FifoRead(n, consume=true)
also returns w and leaves the fifo with the items, item count and free space it had before
the write. -/
theorem fifo_write_read_round_trip (cap itemSize : Nat) (f : fifo_desc_t Nat)
    (hr : Bytes.FifoReachable cap itemSize f) (hcap : cap ≤ 2147483648)
    (hsize : cap * itemSize < 4294967296)
    (hempty : FifoItemCount (some f) = 0) (w dest : Nat → Nat) (n : Nat) (hn : n ≤ cap) :
    ∃ g, Bytes.FifoWrite (some f) (some w) n = some (true, some g) ∧
      (∃ d, Bytes.FifoRead (some g) (some dest) n false = some (true, some g, some d) ∧
        ∀ i, i < n * itemSize → d i = w i) ∧
      (∃ g2 d, Bytes.FifoRead (some g) (some dest) n true = some (true, some g2, some d) ∧
        (∀ i, i < n * itemSize → d i = w i) ∧
        FifoItems (itemView g2) = FifoItems (itemView f) ∧
        FifoItemCount (some g2) = FifoItemCount (some f) ∧
        FifoFreeSpace (some g2) = FifoFreeSpace (some f)) := by
  obtain ⟨hwf, hc, hs⟩ := byteFifoReachable_wf hr hcap hsize
  have hsz : f.ItemNb * f.ItemSize < 4294967296 := by rw [hc, hs]; exact hsize
  have hwf' := (FifoWf_itemView f).mpr hwf
  have hcnt0 : FifoGetItemCount f.ReadCount f.WriteCount = 0 := hempty
  have hfree := FifoFreeSpace_eq f hwf.cnt (by have := hwf.cap; omega)
  have hitems : FifoItems (itemView f) = [] := by
    apply List.eq_nil_of_length_eq_zero
    rw [FifoItems_length]; exact hcnt0
  obtain ⟨g, hg1, hg2, hg3⟩ := byteFifoWrite_items f hwf hsz w n
  obtain ⟨g', hg', hgwf', hgi, hgc, -⟩ := FifoWrite_ok (itemView f) hwf' (cellsOf f.ItemSize w) n
    (by show n ≤ FifoFreeSpace (some f); omega)
  rw [hg'] at hg1 hg2
  obtain rfl : g' = itemView g := Option.some.inj hg2
  have hgwf := (FifoWf_itemView g).mp hgwf'
  have hgc' : g.ItemNb = f.ItemNb := hgc
  have hgsz : g.ItemNb * g.ItemSize < 4294967296 := by rw [hgc', hg3]; exact hsz
  rw [hitems, List.nil_append] at hgi
  have hgcnt : FifoGetItemCount g.ReadCount g.WriteCount = n := by
    have := FifoItems_length (itemView g)
    rw [hgi] at this
    simpa using this.symm
  have hread : ∀ c, ∃ d, Bytes.FifoRead (some g) (some dest) n c =
        some (true, some (if c then (FifoConsumeItems g n).2 else g), some d) ∧
      ∀ i, i < n * itemSize → d i = w i := by
    intro c
    obtain ⟨d, h1, h2⟩ := byteFifoRead_items g hgwf hgsz dest n c (by omega)
    refine ⟨d, h1, cellsOf_bytes itemSize n d w ?_⟩
    rw [hg3, hs] at h2
    rw [h2, FifoReadDest_take (itemView g) _ n (by show n ≤ FifoGetItemCount g.ReadCount g.WriteCount; omega),
      hgi, hs]
    exact List.take_of_length_le (by simp)
  refine ⟨g, hg1, ?_, ?_⟩
  · obtain ⟨d, h1, h2⟩ := hread false
    simp only [Bool.false_eq_true, if_false] at h1
    exact ⟨d, h1, h2⟩
  · obtain ⟨d, h1, h2⟩ := hread true
    simp only [if_true] at h1
    obtain ⟨-, c2, c3, c4, -⟩ := FifoConsumeItems_ok (itemView g) hgwf' n
      (by show n ≤ FifoGetItemCount g.ReadCount g.WriteCount; omega)
    rw [← itemView_consume] at c2 c3 c4
    have c2' := (FifoWf_itemView _).mp c2
    have h0 : FifoGetItemCount (FifoConsumeItems g n).2.ReadCount
        (FifoConsumeItems g n).2.WriteCount = 0 := by
      have := FifoItems_length (itemView (FifoConsumeItems g n).2)
      rw [c3, hgi] at this
      simpa using this.symm
    refine ⟨_, d, h1, h2, ?_, ?_, ?_⟩
    · rw [c3, hgi, hitems]
      exact List.drop_eq_nil_of_le (by simp)
    · show FifoGetItemCount _ _ = FifoGetItemCount _ _
      rw [h0, hcnt0]
    · have c4' : (FifoConsumeItems g n).2.ItemNb = g.ItemNb := c4
      rw [FifoFreeSpace_eq _ c2'.cnt (by have := c2'.cap; omega), hfree, h0, hcnt0, c4', hgc']

theorem byteFifoReachable_foldl {cap itemSize : Nat} (ops : List (FifoOp Nat))
    (f g : fifo_desc_t Nat) (h : Bytes.FifoReachable cap itemSize f)
    (hg : ops.foldlM Bytes.FifoApply f = some g) : Bytes.FifoReachable cap itemSize g := by
  induction ops generalizing f with
  | nil =>
    simp only [List.foldlM_nil] at hg
    obtain rfl := Option.some.inj hg
    exact h
  | cons op ops ih =>
    simp only [List.foldlM_cons] at hg
    cases h1 : Bytes.FifoApply f op with
    | none => simp [h1] at hg
    | some g1 =>
      simp only [h1] at hg
      exact ih g1 (.step f g1 op h h1) hg

theorem QueueApply_fill {α : Type} (cap N : Nat) (hN : N ≤ cap) (c : Nat → α) :
    QueueApply cap ([] : List α) (.write c N) = (List.range N).map c := by
  simp [QueueApply, hN]

theorem take_two_map_range {α : Type} (c : Nat → α) (N : Nat) (h : 2 ≤ N) :
    ((List.range N).map c).take 2 = [c 0, c 1] := by
  rw [← List.map_take, List.take_range, Nat.min_eq_left h]
  rfl

theorem QueueApply_fill_take {α : Type} (cap : Nat) (h : 2 ≤ cap) (c : Nat → α) :
    (([FifoOp.write c cap]).foldl (QueueApply cap) []).take 2 = [c 0, c 1] := by
  simp only [List.foldl_cons, List.foldl_nil]
  rw [QueueApply_fill cap cap (le_refl _) c, take_two_map_range _ _ h]

theorem QueueApply_skew {α : Type} (cap N : Nat) (hN : N ≤ cap) (h2 : 2 ≤ cap)
    (c a b : Nat → α) :
    ([FifoOp.write c N, .consume N, .write a 1, .write b 1, .consume 2].foldl
      (QueueApply cap) []) = [] := by
  have h1 : QueueApply cap ([] : List α) (.write c N) = (List.range N).map c := by
    simp [QueueApply, hN]
  have h2' : QueueApply cap ((List.range N).map c) (.consume N) = ([] : List α) := by
    simp [QueueApply]
  have h3 : QueueApply cap ([] : List α) (.write a 1) = [a 0] := by
    have : 1 ≤ cap := by omega
    simp [QueueApply, this, List.range_succ]
  have h4 : QueueApply cap [a 0] (.write b 1) = [a 0, b 0] := by
    simp [QueueApply, h2, List.range_succ]
  have h5 : QueueApply cap [a 0, b 0] (.consume 2) = ([] : List α) := by
    simp [QueueApply]
  simp only [List.foldl_cons, List.foldl_nil, h1, h2', h3, h4, h5]

set_option maxRecDepth 100000 in
/-- C2 (counterexample): on a fifo of 2^32 - 1 items of one byte the 32-bit sum
`ReadIdx + itemNb` wraps in the calls `wrapOps`; every call is defined, the queue of the
specification then holds the item 12, but a successful FifoRead of one item returns 11.
On a fifo of 2^30 + 1 items of four bytes the 32-bit byte count `ro_itemNb * ItemSize` is
4: after 2^30 + 1 items were written, a successful FifoRead of 2^30 + 1 items copies the
first item only and leaves the second item of the destination as it was. -/
theorem fifo_read_oldest_fails_beyond_32_bits :
    (wrapOps.map (itemOp 1)).foldl (QueueApply 4294967295) [] = [[12]] ∧
    ((wrapOps.foldlM Bytes.FifoApply (FifoCreate (fun _ => 0) 4294967295 1)).bind fun f =>
      (Bytes.FifoRead (some f) (some (fun _ => 0)) 1 false).map fun r =>
        (r.1, r.2.2.map fun d => (List.range 1).map (cellsOf 1 d)))
      = some (true, some [[11]]) ∧
    ((wideOps.map (itemOp 4)).foldl (QueueApply 1073741825) []).take 2
      = [[1, 1, 1, 1], [1, 1, 1, 1]] ∧
    ((wideOps.foldlM Bytes.FifoApply (FifoCreate (fun _ => 0) 1073741825 4)).bind fun f =>
      (Bytes.FifoRead (some f) (some (fun _ => 0)) 1073741825 false).map fun r =>
        (r.1, r.2.2.map fun d => (List.range 2).map (cellsOf 4 d)))
      = some (true, some [[1, 1, 1, 1], [0, 0, 0, 0]]) := by
  refine ⟨?_, by decide, ?_, by decide⟩
  · have h := QueueApply_skew 4294967295 4294967294 (by decide) (by decide)
      (cellsOf 1 (fun _ => 7)) (cellsOf 1 (fun _ => 10)) (cellsOf 1 (fun _ => 11))
    simp only [wrapOps, skewOps, List.map_append, List.map_cons, List.map_nil, itemOp,
      List.foldl_append]
    rw [h]
    decide
  · have e : wideOps.map (itemOp 4) = [FifoOp.write (cellsOf 4 (fun _ => 1)) 1073741825] := rfl
    rw [e, QueueApply_fill_take 1073741825 (by decide) (cellsOf 4 (fun _ => 1))]
    rfl

set_option maxRecDepth 100000 in
/-- C2 (witness): a fifo of four items of two bytes after the calls `smallOps`; the read
of four items returns the bytes 3 4, 5 6, 4 5, 6 7. -/
theorem fifo_read_returns_oldest_items_witness :
    ((4 : Nat) ≤ 2147483648 ∧ 4 * 2 < 4294967296) ∧
    (∃ f, smallOps.foldlM Bytes.FifoApply (FifoCreate (fun _ => 0) 4 2) = some f ∧
      ∃ b g d, Bytes.FifoRead (some f) (some (fun _ => 0)) 4 false = some (b, g, some d) ∧
        (b = true ↔ 4 ≤ ((smallOps.map (itemOp 2)).foldl (QueueApply 4) []).length) ∧
        (b = true → (List.range 4).map (cellsOf 2 d) =
          ((smallOps.map (itemOp 2)).foldl (QueueApply 4) []).take 4)) ∧
    ((smallOps.foldlM Bytes.FifoApply (FifoCreate (fun _ => 0) 4 2)).bind fun f =>
      (Bytes.FifoRead (some f) (some (fun _ => 0)) 4 false).map fun r =>
        (r.1, r.2.2.map fun d => (List.range 8).map d))
      = some (true, some [3, 4, 5, 6, 4, 5, 6, 7]) :=
  ⟨⟨by decide, by decide⟩,
   fifo_read_returns_oldest_items 4 2 (fun _ => 0) smallOps (by decide) (by decide)
     (fun _ => 0) 4 false,
   by decide⟩

theorem some_getD_of_isSome {α : Type} (o : Option α) (d : α) (h : o.isSome = true) :
    o = some (o.getD d) := by
  cases o with
  | none => simp at h
  | some a => rfl

set_option maxRecDepth 100000 in
theorem Reachable_skewFifo : Bytes.FifoReachable 4294967295 1 skewFifo :=
  byteFifoReachable_foldl skewOps _ _ (.create _) (some_getD_of_isSome _ _ (by decide))

set_option maxRecDepth 100000 in
theorem Reachable_pairEmptyFifo : Bytes.FifoReachable 4 2 pairEmptyFifo :=
  byteFifoReachable_foldl _ _ _ (.create _) (some_getD_of_isSome _ _ (by decide))

set_option maxRecDepth 100000 in
/-- C3 (counterexample): the empty fifo `skewFifo` of 2^32 - 1 items of one byte is
reachable by defined calls; a write of the two items 20, 21 succeeds and the FifoRead of
two items that follows returns 11, 20. The fresh fifo of 2^30 + 1 items of four bytes is
empty; the write of 2^30 + 1 items, every byte 1, succeeds, and the FifoRead of as many
items that follows succeeds and returns the first four bytes only. -/
theorem fifo_round_trip_fails_beyond_32_bits :
    Bytes.FifoReachable 4294967295 1 skewFifo ∧
    FifoItemCount (some skewFifo) = 0 ∧
    ((Bytes.FifoWrite (some skewFifo) (some (fun i => 20 + i)) 2).bind fun r =>
      (Bytes.FifoRead r.2 (some (fun _ => 0)) 2 false).map fun q =>
        (r.1, q.1, q.2.2.map fun d => (List.range 2).map d))
      = some (true, true, some [11, 20]) ∧
    Bytes.FifoReachable 1073741825 4 (FifoCreate (fun _ => 0) 1073741825 4) ∧
    FifoItemCount (some (FifoCreate (fun _ => (0 : Nat)) 1073741825 4)) = 0 ∧
    ((Bytes.FifoWrite (some (FifoCreate (fun _ => 0) 1073741825 4)) (some (fun _ => 1))
        1073741825).bind fun r =>
      (Bytes.FifoRead r.2 (some (fun _ => 0)) 1073741825 false).map fun q =>
        (r.1, q.1, q.2.2.map fun d => (List.range 8).map d))
      = some (true, true, some [1, 1, 1, 1, 0, 0, 0, 0]) :=
  ⟨Reachable_skewFifo, by decide, by decide, .create _, by decide, by decide⟩

set_option maxRecDepth 100000 in
/-- C3 (witness): the empty fifo `pairEmptyFifo` of four items of two bytes and a block of
four items. -/
theorem fifo_write_read_round_trip_witness :
    (Bytes.FifoReachable 4 2 pairEmptyFifo ∧ (4 : Nat) ≤ 2147483648 ∧ 4 * 2 < 4294967296 ∧
      FifoItemCount (some pairEmptyFifo) = 0 ∧ (4 : Nat) ≤ 4) ∧
    ∃ g, Bytes.FifoWrite (some pairEmptyFifo) (some (fun i => 20 + i)) 4 = some (true, some g) ∧
      (∃ d, Bytes.FifoRead (some g) (some (fun _ => 0)) 4 false = some (true, some g, some d) ∧
        ∀ i, i < 4 * 2 → d i = (fun i => 20 + i) i) ∧
      (∃ g2 d, Bytes.FifoRead (some g) (some (fun _ => 0)) 4 true = some (true, some g2, some d) ∧
        (∀ i, i < 4 * 2 → d i = (fun i => 20 + i) i) ∧
        FifoItems (itemView g2) = FifoItems (itemView pairEmptyFifo) ∧
        FifoItemCount (some g2) = FifoItemCount (some pairEmptyFifo) ∧
        FifoFreeSpace (some g2) = FifoFreeSpace (some pairEmptyFifo)) :=
  ⟨⟨Reachable_pairEmptyFifo, by decide, by decide, by decide, by decide⟩,
   fifo_write_read_round_trip 4 2 pairEmptyFifo Reachable_pairEmptyFifo
     (by decide) (by decide) (by decide) (fun i => 20 + i) (fun _ => 0) 4 (by decide)⟩

/-- C5 (witness): the fifo `smallFifo` (three items in four cells). -/
theorem fifo_capacity_invariant_witness :
    FifoReachable 4 1 smallFifo ∧ (4 : Nat) < 4294967296 ∧
    FifoItemCount (some smallFifo) ≤ 4 ∧
    FifoFreeSpace (some smallFifo) = 4 - FifoItemCount (some smallFifo) ∧
    4 - FifoFreeSpace (some smallFifo) = FifoItemCount (some smallFifo) ∧
    FifoFreeSpace (some (FifoFlush smallFifo)) = 4 ∧
    FifoItemCount (some (FifoFlush smallFifo)) = 0 :=
  ⟨.step _ _ (.create _), by decide,
   fifo_capacity_invariant 4 1 smallFifo (.step _ _ (.create _)) (by decide)⟩

/-! ## Ingress filter -/

theorem bcast_byte (r m : Nat) (hr : r < 256) (hm : m < 256) :
    (r ||| (255 - m % 256)) % 256 = r ||| (255 - m) := by
  rw [Nat.mod_eq_of_lt hm]
  apply Nat.mod_eq_of_lt
  exact Nat.or_lt_two_pow (n := 8) hr (by omega)

theorem ip_addr.eq_iff (a b : ip_addr) :
    a = b ↔ a.b0 = b.b0 ∧ a.b1 = b.b1 ∧ a.b2 = b.b2 ∧ a.b3 = b.b3 := by
  cases a; cases b; simp

theorem NetworkIsIpValid_iff (a r m : ip_addr) :
    NetworkIsIpValid a r m = true ↔
      a.b0 &&& m.b0 = r.b0 &&& m.b0 ∧ a.b1 &&& m.b1 = r.b1 &&& m.b1 ∧
      a.b2 &&& m.b2 = r.b2 &&& m.b2 ∧ a.b3 &&& m.b3 = r.b3 &&& m.b3 := by
  simp only [NetworkIsIpValid, ip_addr.zipWith, decide_eq_true_eq, ip_addr.mk.injEq]
  constructor
  · rintro ⟨h0, h1, h2, h3⟩; exact ⟨h0.symm, h1.symm, h2.symm, h3.symm⟩
  · rintro ⟨h0, h1, h2, h3⟩; exact ⟨h0.symm, h1.symm, h2.symm, h3.symm⟩

theorem NetworkIsIpBroadcast_iff (a r m : ip_addr) (hr : r.isBytes) (hm : m.isBytes) :
    NetworkIsIpBroadcast a r m = true ↔
      a.b0 = r.b0 ||| (255 - m.b0) ∧ a.b1 = r.b1 ||| (255 - m.b1) ∧
      a.b2 = r.b2 ||| (255 - m.b2) ∧ a.b3 = r.b3 ||| (255 - m.b3) := by
  obtain ⟨r0, r1, r2, r3⟩ := hr
  obtain ⟨m0, m1, m2, m3⟩ := hm
  simp only [NetworkIsIpBroadcast, ip_addr.zipWith, decide_eq_true_eq, ip_addr.eq_iff,
    bcast_byte _ _ r0 m0, bcast_byte _ _ r1 m1, bcast_byte _ _ r2 m2, bcast_byte _ _ r3 m3]
  constructor
  · rintro ⟨h0, h1, h2, h3⟩; exact ⟨h0.symm, h1.symm, h2.symm, h3.symm⟩
  · rintro ⟨h0, h1, h2, h3⟩; exact ⟨h0.symm, h1.symm, h2.symm, h3.symm⟩

/-- C10: for every IPv4 header and controller (ip, mask), NetworkAcceptIncIpPacket returns
true iff (src & mask) = (ip & mask) byte-wise and (dst = ip or dst = ip | ~mask); a frame
that is not accepted makes NetworkProcessIpPacket return success with the module state
(ARP table, ICMP state, port queues, messages handed to the driver) and the buffer
unchanged. -/
theorem accept_inc_ip_packet (s : network_module_info_t) (ctrlId : Nat)
    (ctrl : network_ctrl_info_t) (hctrl : s.pCtrlInfoList[ctrlId]? = some ctrl)
    (hip : ctrl.IpAddr.isBytes) (hmask : ctrl.SubnetMask.isBytes)
    (pBuffer : Nat → Nat) (buffSize : Nat) :
    (NetworkAcceptIncIpPacket s ctrlId (ptrAdd pBuffer ETH_HEADER_SIZE) = some true ∨
      NetworkAcceptIncIpPacket s ctrlId (ptrAdd pBuffer ETH_HEADER_SIZE) = some false) ∧
    (NetworkAcceptIncIpPacket s ctrlId (ptrAdd pBuffer ETH_HEADER_SIZE) = some true ↔
      ((pBuffer 26 &&& ctrl.SubnetMask.b0 = ctrl.IpAddr.b0 &&& ctrl.SubnetMask.b0 ∧
        pBuffer 27 &&& ctrl.SubnetMask.b1 = ctrl.IpAddr.b1 &&& ctrl.SubnetMask.b1 ∧
        pBuffer 28 &&& ctrl.SubnetMask.b2 = ctrl.IpAddr.b2 &&& ctrl.SubnetMask.b2 ∧
        pBuffer 29 &&& ctrl.SubnetMask.b3 = ctrl.IpAddr.b3 &&& ctrl.SubnetMask.b3) ∧
       ((pBuffer 30 = ctrl.IpAddr.b0 ∧ pBuffer 31 = ctrl.IpAddr.b1 ∧
         pBuffer 32 = ctrl.IpAddr.b2 ∧ pBuffer 33 = ctrl.IpAddr.b3) ∨
        (pBuffer 30 = ctrl.IpAddr.b0 ||| (255 - ctrl.SubnetMask.b0) ∧
         pBuffer 31 = ctrl.IpAddr.b1 ||| (255 - ctrl.SubnetMask.b1) ∧
         pBuffer 32 = ctrl.IpAddr.b2 ||| (255 - ctrl.SubnetMask.b2) ∧
         pBuffer 33 = ctrl.IpAddr.b3 ||| (255 - ctrl.SubnetMask.b3))))) ∧
    (NetworkAcceptIncIpPacket s ctrlId (ptrAdd pBuffer ETH_HEADER_SIZE) = some false →
      NetworkProcessIpPacket s ctrlId pBuffer buffSize = some (true, s, pBuffer)) := by
  have hv := NetworkIsIpValid_iff (ip_addr.ofMem (ptrAdd pBuffer ETH_HEADER_SIZE) 12)
    ctrl.IpAddr ctrl.SubnetMask
  have hb := NetworkIsIpBroadcast_iff (ip_addr.ofMem (ptrAdd pBuffer ETH_HEADER_SIZE) 16)
    ctrl.IpAddr ctrl.SubnetMask hip hmask
  have he := ip_addr.eq_iff (ip_addr.ofMem (ptrAdd pBuffer ETH_HEADER_SIZE) 16) ctrl.IpAddr
  have key : NetworkAcceptIncIpPacket s ctrlId (ptrAdd pBuffer ETH_HEADER_SIZE) = some true ↔
      NetworkIsIpValid (ip_addr.ofMem (ptrAdd pBuffer ETH_HEADER_SIZE) 12) ctrl.IpAddr
        ctrl.SubnetMask = true ∧
      (ip_addr.ofMem (ptrAdd pBuffer ETH_HEADER_SIZE) 16 = ctrl.IpAddr ∨
        NetworkIsIpBroadcast (ip_addr.ofMem (ptrAdd pBuffer ETH_HEADER_SIZE) 16) ctrl.IpAddr
          ctrl.SubnetMask = true) := by
    simp only [NetworkAcceptIncIpPacket, hctrl]
    by_cases hV : NetworkIsIpValid (ip_addr.ofMem (ptrAdd pBuffer ETH_HEADER_SIZE) 12)
        ctrl.IpAddr ctrl.SubnetMask = true <;>
    by_cases hB : NetworkIsIpBroadcast (ip_addr.ofMem (ptrAdd pBuffer ETH_HEADER_SIZE) 16)
        ctrl.IpAddr ctrl.SubnetMask = true <;>
    by_cases hE : ip_addr.ofMem (ptrAdd pBuffer ETH_HEADER_SIZE) 16 = ctrl.IpAddr <;>
    simp [hV, hB, hE]
  refine ⟨?_, ?_, ?_⟩
  · simp only [NetworkAcceptIncIpPacket, hctrl]
    split_ifs <;> simp
  · rw [key, hv, hb, he]
    simp only [ip_addr.ofMem, ptrAdd, ETH_HEADER_SIZE, Nat.reduceAdd]
  · intro h
    simp only [NetworkProcessIpPacket, h]


/-! ## Port queues -/

theorem set_self_of_getElem? {α : Type} (l : List α) (i : Nat) (a : α)
    (h : l[i]? = some a) : l.set i a = l := by
  induction l generalizing i with
  | nil => simp
  | cons x xs ih =>
    cases i with
    | zero => simp at h; simp [h]
    | succ j => simp at h; simp [ih j h]

theorem getElem?_set_same {α : Type} (l : List α) (i : Nat) (a b : α)
    (h : l[i]? = some b) : (l.set i a)[i]? = some a := by
  have hi : i < l.length := by
    rcases Nat.lt_or_ge i l.length with h1 | h1
    · exact h1
    · rw [List.getElem?_eq_none h1] at h; cases h
  simp [List.getElem?_set, hi]

theorem getElem?_set_other {α : Type} (l : List α) (i j : Nat) (a : α) (h : i ≠ j) :
    (l.set i a)[j]? = l[j]? := by
  simp [List.getElem?_set, h]

theorem setPort_self (s : network_module_info_t) (portId : Nat) (port : network_port_info_t)
    (h : s.pPortInfoList[portId]? = some port) : setPort s portId port = s := by
  simp [setPort, set_self_of_getElem? _ _ _ h]

theorem setPort_get (s : network_module_info_t) (portId : Nat) (p port : network_port_info_t)
    (h : s.pPortInfoList[portId]? = some port) :
    (setPort s portId p).pPortInfoList[portId]? = some p := by
  simp only [setPort]
  exact getElem?_set_same _ _ _ _ h

theorem FifoFreeSpace_wf {α : Type} (f : fifo_desc_t α) (h : FifoWf f) :
    FifoFreeSpace (some f) = f.ItemNb - FifoGetItemCount f.ReadCount f.WriteCount := by
  simp only [FifoFreeSpace, FifoGetFreeSpace]
  exact sub32_eq h.cnt (by have := h.cap; omega)

/-- C6: for a valid port and a buffer of n bytes (n <= 1472 when the transmit side is in
datagram mode), NetworkPortSendBuff returns true iff the transmit byte queue has at least
n free bytes and, in datagram mode, the transmit descriptor queue has a free slot; on
true exactly the n bytes and (datagram mode only) one descriptor of size n are appended;
on false the module state, hence both transmit queues, is unchanged. -/
theorem port_send_buff_admission (s : network_module_info_t) (portId : Nat)
    (port : network_port_info_t) (bf : fifo_desc_t Nat)
    (hport : s.pPortInfoList[portId]? = some port)
    (hvalid : NetworkPortValid s portId = true)
    (htx : port.pFifoTxMsg = some bf) (hbf : FifoWf bf)
    (hdesc : port.IsVirtualComTx = false → ∃ df, port.pFifoTxMsgDesc = some df ∧ FifoWf df)
    (pBuffer : Nat → Nat) (buffSize : Nat)
    (hsize : port.IsVirtualComTx = false → buffSize ≤ 1472) (pIpDest : Option ip_addr) :
    ∃ ret s1, NetworkPortSendBuff s portId (some pBuffer) buffSize pIpDest = some (ret, s1) ∧
      (ret = true ↔ buffSize ≤ FifoFreeSpace port.pFifoTxMsg ∧
        (port.IsVirtualComTx = false → 1 ≤ FifoFreeSpace port.pFifoTxMsgDesc)) ∧
      (ret = false → s1 = s) ∧
      (ret = true → ∃ port1 bf1, s1.pPortInfoList[portId]? = some port1 ∧
        port1.pFifoTxMsg = some bf1 ∧
        FifoItems bf1 = FifoItems bf ++ (List.range buffSize).map pBuffer ∧
        (port.IsVirtualComTx = true → port1.pFifoTxMsgDesc = port.pFifoTxMsgDesc) ∧
        (port.IsVirtualComTx = false → ∃ df df1, port.pFifoTxMsgDesc = some df ∧
          port1.pFifoTxMsgDesc = some df1 ∧
          FifoItems df1 = FifoItems df ++
            [{ MsgSize := buffSize, IpAddr := pIpDest.getD ip_addr.zero }])) := by
  have hself : ({ port with pFifoTxMsg := some bf } : network_port_info_t) = port := by
    cases port; simp at htx; simp [htx]
  have hff : ∀ h : ¬ buffSize ≤ FifoFreeSpace (some bf),
      FifoWrite (some bf) (some pBuffer) buffSize = (false, some bf) := by
    intro h; simp [FifoWrite, h]
  cases hv : port.IsVirtualComTx with
  | true =>
    simp only [hv] at hself
    simp only [NetworkPortSendBuff, hport, hvalid, hv, if_true, Bool.true_or,
      NetworkStoreSendData, htx]
    by_cases hn : buffSize ≤ FifoFreeSpace (some bf)
    · obtain ⟨g, hg, -, hgi, -, -⟩ := FifoWrite_ok bf hbf pBuffer buffSize hn
      simp only [hg, Bool.not_true, Bool.and_false, Bool.false_eq_true, if_false]
      refine ⟨_, _, rfl, by simp [hn], by simp,
        fun _ => ⟨_, g, setPort_get _ _ _ _ hport, rfl, hgi, fun _ => rfl, ?_⟩⟩
      intro h; cases h
    · simp only [hff hn, Bool.not_true, Bool.and_false, Bool.false_eq_true, if_false]
      refine ⟨_, _, rfl, by simp [hn], ?_, by simp⟩
      intro _
      rw [hself]
      exact setPort_self s portId port hport
  | false =>
    simp only [hv] at hself
    obtain ⟨df, hdf, hdwf⟩ := hdesc hv
    have hsz := hsize hv
    have hfd := FifoFreeSpace_wf df hdwf
    simp only [NetworkPortSendBuff, hport, hvalid, hv, if_true, Bool.false_or,
      NetworkStoreSendData, htx, hdf, hsz, decide_True, Bool.not_false, Bool.and_true]
    by_cases hd : FifoFreeSpace (some df) > 0
    · simp only [hd, decide_True, if_true]
      by_cases hn : buffSize ≤ FifoFreeSpace (some bf)
      · obtain ⟨g, hg, -, hgi, -, -⟩ := FifoWrite_ok bf hbf pBuffer buffSize hn
        obtain ⟨dg, hdg, -, hdgi, -, -⟩ := FifoWrite_ok df hdwf
          (fun _ => ({ MsgSize := buffSize,
                       IpAddr := pIpDest.getD ip_addr.zero } : network_msg_desc_t)) 1 (by omega)
        simp only [hg, hdg, if_true, Bool.and_self]
        refine ⟨_, _, rfl, ?_, by simp,
          fun _ => ⟨_, g, setPort_get _ _ _ _ hport, rfl, hgi, ?_, ?_⟩⟩
        · simp only [hn, true_and, true_iff]; intro _; omega
        · intro h; cases h
        · intro _
          refine ⟨df, dg, rfl, rfl, ?_⟩
          rw [hdgi]; rfl
      · simp only [hff hn, Bool.false_eq_true, if_false]
        refine ⟨_, _, rfl, by simp [hn], ?_, by simp⟩
        intro _
        convert setPort_self s portId port hport using 2
        cases port
        simp_all
    · simp only [hd, decide_False, Bool.false_eq_true, if_false]
      refine ⟨_, _, rfl, ?_, fun _ => rfl, by simp⟩
      simp only [Bool.false_eq_true, false_iff, not_and, Classical.not_imp]
      intro _
      exact ⟨trivial, by omega⟩


/-! ## Receive path -/

theorem storeIncPort_ids (port : network_port_info_t) (pBuffer : Nat → Nat) (buffSize : Nat)
    (pIpSrc : ip_addr) :
    (storeIncPort port pBuffer buffSize pIpSrc).2.pDesc = port.pDesc ∧
    (storeIncPort port pBuffer buffSize pIpSrc).2.InPortNb = port.InPortNb := by
  unfold storeIncPort
  dsimp only
  split_ifs <;> exact ⟨rfl, rfl⟩

theorem storeIncUpdate_ids (pBuffer : Nat → Nat) (buffSize destPort protocol : Nat)
    (pIpSrc : ip_addr) (port : network_port_info_t) :
    (storeIncUpdate pBuffer buffSize destPort protocol pIpSrc port).pDesc = port.pDesc ∧
    (storeIncUpdate pBuffer buffSize destPort protocol pIpSrc port).InPortNb = port.InPortNb := by
  unfold storeIncUpdate
  split
  · split_ifs
    · exact storeIncPort_ids _ _ _ _
    · exact ⟨rfl, rfl⟩
  · exact ⟨rfl, rfl⟩

/-- The loop of NetworkStoreIncMsg over the ports `i`, .., `i + k - 1`, each of which is
added or has another port number: it ends, and changes each of these ports as
`storeIncUpdate` tells and nothing else. -/
theorem NetworkStoreIncMsg_loop_spec (pBuffer : Nat → Nat) (buffSize destPort protocol : Nat)
    (pIpSrc : ip_addr) (k : Nat) :
    ∀ (i : Nat) (s : network_module_info_t) (st : Bool),
      (∀ j, i ≤ j → j < i + k → ∃ port, s.pPortInfoList[j]? = some port ∧
        (destPort = port.InPortNb → port.pDesc.isSome = true)) →
      ∃ st1 s1, NetworkStoreIncMsg.loop pBuffer buffSize destPort protocol pIpSrc i k s st
          = some (st1, s1) ∧
        s1.pInitDesc = s.pInitDesc ∧ s1.pCtrlInfoList = s.pCtrlInfoList ∧
        s1.pBuffer = s.pBuffer ∧ s1.Sent = s.Sent ∧ s1.Errors = s.Errors ∧
        s1.MacSet = s.MacSet ∧
        ∀ p, s1.pPortInfoList[p]? = (s.pPortInfoList[p]?).map (fun port =>
          if i ≤ p ∧ p < i + k then storeIncUpdate pBuffer buffSize destPort protocol pIpSrc port
          else port) := by
  induction k with
  | zero =>
    intro i s st _
    refine ⟨st, s, rfl, rfl, rfl, rfl, rfl, rfl, rfl, ?_⟩
    intro p
    have : ¬ (i ≤ p ∧ p < i) := by omega
    cases s.pPortInfoList[p]? <;> simp [this]
  | succ k ih =>
    intro i s st h
    obtain ⟨port, hport, hadd⟩ := h i (Nat.le_refl _) (by omega)
    -- the body at port i
    have hbody : ∃ st0, NetworkStoreIncMsg.body pBuffer buffSize destPort protocol pIpSrc i s st
        = some (st0, setPort s i
            (storeIncUpdate pBuffer buffSize destPort protocol pIpSrc port)) := by
      unfold NetworkStoreIncMsg.body storeIncUpdate
      simp only [hport]
      by_cases hd : destPort = port.InPortNb
      · have := hadd hd
        cases hdesc : port.pDesc with
        | none => rw [hdesc] at this; cases this
        | some desc =>
          by_cases hp : protocol = desc.Protocol
          · simp [hd, hp]
          · simp [hd, hp, setPort_self s i port hport]
      · cases hdesc : port.pDesc with
        | none => simp [hd, setPort_self s i port hport]
        | some desc => simp [hd, setPort_self s i port hport]
    obtain ⟨st0, hb⟩ := hbody
    have hrest : ∀ j, i + 1 ≤ j → j < i + 1 + k → ∃ port',
        (setPort s i (storeIncUpdate pBuffer buffSize destPort protocol pIpSrc
          port)).pPortInfoList[j]? = some port' ∧
        (destPort = port'.InPortNb → port'.pDesc.isSome = true) := by
      intro j h1 h2
      obtain ⟨pj, hpj, haj⟩ := h j (by omega) (by omega)
      refine ⟨pj, ?_, haj⟩
      simp only [setPort]
      rw [getElem?_set_other _ _ _ _ (by omega)]
      exact hpj
    obtain ⟨st1, s1, hl, e1, e2, e3, e4, e5, e6, hports⟩ := ih (i + 1) _ st0 hrest
    refine ⟨st1, s1, ?_, e1, e2, e3, e4, e5, e6, ?_⟩
    · simp only [NetworkStoreIncMsg.loop, hb, hl]
    · intro p
      rw [hports p]
      simp only [setPort]
      by_cases hpi : p = i
      · subst hpi
        rw [getElem?_set_same _ _ _ _ hport, hport]
        have h1 : ¬ (p + 1 ≤ p ∧ p < p + 1 + k) := by omega
        have h2 : p ≤ p ∧ p < p + (k + 1) := by omega
        simp [h1, h2]
      · rw [getElem?_set_other _ _ _ _ (fun h => hpi h.symm)]
        cases s.pPortInfoList[p]? with
        | none => rfl
        | some pp =>
          by_cases hr : i + 1 ≤ p ∧ p < i + 1 + k
          · have h2 : i ≤ p ∧ p < i + (k + 1) := by omega
            simp [hr, h2]
          · have h2 : ¬ (i ≤ p ∧ p < i + (k + 1)) := by omega
            simp [hr, h2]

theorem storeIncPort_datagram (port : network_port_info_t) (pBuffer : Nat → Nat) (n : Nat)
    (pIpSrc : ip_addr) (bf : fifo_desc_t Nat) (df : fifo_desc_t network_msg_desc_t)
    (hmode : port.IsVirtualComRx = false)
    (hrx : port.pFifoRxMsg = some bf) (hbf : FifoWf bf)
    (hrd : port.pFifoRxMsgDesc = some df) (hdf : FifoWf df) :
    (n ≤ FifoFreeSpace (some bf) ∧ 1 ≤ FifoFreeSpace (some df) →
      ∃ bf1 df1, (storeIncPort port pBuffer n pIpSrc).2.pFifoRxMsg = some bf1 ∧
        (storeIncPort port pBuffer n pIpSrc).2.pFifoRxMsgDesc = some df1 ∧
        FifoItems bf1 = FifoItems bf ++ (List.range n).map pBuffer ∧
        FifoItems df1 = FifoItems df ++ [{ MsgSize := n, IpAddr := pIpSrc }]) ∧
    (¬ (n ≤ FifoFreeSpace (some bf) ∧ 1 ≤ FifoFreeSpace (some df)) →
      (storeIncPort port pBuffer n pIpSrc).2 = port) := by
  constructor
  · rintro ⟨h1, h2⟩
    obtain ⟨g, hg, -, hgi, -, -⟩ := FifoWrite_ok bf hbf pBuffer n h1
    obtain ⟨dg, hdg, -, hdgi, -, -⟩ := FifoWrite_ok df hdf
      (fun _ => ({ MsgSize := n, IpAddr := pIpSrc } : network_msg_desc_t)) 1 h2
    have h2' : FifoFreeSpace (some df) > 0 := by omega
    refine ⟨g, dg, ?_, ?_, hgi, ?_⟩
    · simp [storeIncPort, hmode, hrx, hrd, h2', hg, hdg]
    · simp [storeIncPort, hmode, hrx, hrd, h2', hg, hdg]
    · rw [hdgi]; rfl
  · intro h
    by_cases h2 : FifoFreeSpace (some df) > 0
    · have h1 : ¬ n ≤ FifoFreeSpace (some bf) := fun h1 => h ⟨h1, by omega⟩
      have hf : FifoWrite (some bf) (some pBuffer) n = (false, some bf) := by
        simp [FifoWrite, h1]
      simp only [storeIncPort, hmode, hrx, hrd, h2, hf, decide_True, Bool.or_true, if_true,
        Bool.false_and, Bool.false_eq_true, if_false]
      cases port
      simp_all
    · simp [storeIncPort, hmode, hrd, h2]

theorem storeIncPort_stream (port : network_port_info_t) (pBuffer : Nat → Nat) (n : Nat)
    (pIpSrc : ip_addr) (bf : fifo_desc_t Nat)
    (hmode : port.IsVirtualComRx = true)
    (hrx : port.pFifoRxMsg = some bf) (hbf : FifoWf bf) :
    (n ≤ FifoFreeSpace (some bf) →
      ∃ bf1, (storeIncPort port pBuffer n pIpSrc).2.pFifoRxMsg = some bf1 ∧
        FifoItems bf1 = FifoItems bf ++ (List.range n).map pBuffer ∧
        (storeIncPort port pBuffer n pIpSrc).2.pFifoRxMsgDesc = port.pFifoRxMsgDesc) ∧
    (¬ n ≤ FifoFreeSpace (some bf) → (storeIncPort port pBuffer n pIpSrc).2 = port) := by
  constructor
  · intro h1
    obtain ⟨g, hg, -, hgi, -, -⟩ := FifoWrite_ok bf hbf pBuffer n h1
    refine ⟨g, ?_, hgi, ?_⟩
    · simp [storeIncPort, hmode, hrx, hg]
    · simp [storeIncPort, hmode, hrx, hg]
  · intro h1
    have hf : FifoWrite (some bf) (some pBuffer) n = (false, some bf) := by
      simp [FifoWrite, h1]
    simp only [storeIncPort, hmode, hrx, hf, Bool.true_or, if_true,
      Bool.false_and, Bool.false_eq_true, if_false]
    cases port
    simp_all

theorem NetworkStoreIncMsg_spec (s : network_module_info_t) (pBuffer : Nat → Nat)
    (buffSize destPort protocol : Nat) (pIpSrc : ip_addr)
    (hports : ∀ j, j < s.pInitDesc.PortNb → ∃ q, s.pPortInfoList[j]? = some q ∧
      (destPort = q.InPortNb → q.pDesc.isSome = true)) :
    ∃ st1 s1, NetworkStoreIncMsg s pBuffer buffSize destPort protocol pIpSrc = some (st1, s1) ∧
      s1.pInitDesc = s.pInitDesc ∧ s1.pCtrlInfoList = s.pCtrlInfoList ∧
      s1.pBuffer = s.pBuffer ∧ s1.Sent = s.Sent ∧ s1.Errors = s.Errors ∧
      s1.MacSet = s.MacSet ∧
      ∀ p port, p < s.pInitDesc.PortNb → s.pPortInfoList[p]? = some port →
        s1.pPortInfoList[p]? =
          some (storeIncUpdate pBuffer buffSize destPort protocol pIpSrc port) := by
  obtain ⟨st1, s1, h, e1, e2, e3, e4, e5, e6, hp⟩ :=
    NetworkStoreIncMsg_loop_spec pBuffer buffSize destPort protocol pIpSrc s.pInitDesc.PortNb
      0 s true (fun j _ hj => hports j (by omega))
  refine ⟨st1, s1, h, e1, e2, e3, e4, e5, e6, ?_⟩
  intro p port hlt hport
  rw [hp p, hport]
  have : 0 ≤ p ∧ p < 0 + s.pInitDesc.PortNb := by omega
  simp only [Option.map_some', this, and_self, if_true]

/-- C8: when an accepted UDP datagram of dataLen payload bytes from source S matches a port
in datagram receive mode, then, if the receive byte queue has dataLen free bytes and the
receive descriptor queue a free slot, exactly the dataLen bytes and one descriptor
(dataLen, S) are appended, and otherwise the port, hence both receive queues, is
unchanged (no partial deposit); in stream receive mode only the byte queue is required
and the descriptor queue is left as it is. -/
theorem store_inc_msg_no_partial_deposit (s : network_module_info_t) (pBuffer : Nat → Nat)
    (dataLen destPort : Nat) (pIpSrc : ip_addr) (p : Nat) (port : network_port_info_t)
    (desc : network_port_desc_t) (bf : fifo_desc_t Nat)
    (hports : ∀ j, j < s.pInitDesc.PortNb → ∃ q, s.pPortInfoList[j]? = some q ∧
      (destPort = q.InPortNb → q.pDesc.isSome = true))
    (hp : p < s.pInitDesc.PortNb) (hport : s.pPortInfoList[p]? = some port)
    (hdesc : port.pDesc = some desc) (hproto : desc.Protocol = IP_PROT_UDP)
    (hnum : port.InPortNb = destPort)
    (hrx : port.pFifoRxMsg = some bf) (hbf : FifoWf bf)
    (hrd : port.IsVirtualComRx = false → ∃ df, port.pFifoRxMsgDesc = some df ∧ FifoWf df) :
    ∃ st1 s1 port1,
      NetworkStoreIncMsg s pBuffer dataLen destPort IP_PROT_UDP pIpSrc = some (st1, s1) ∧
      s1.pPortInfoList[p]? = some port1 ∧
      (port.IsVirtualComRx = false →
        (dataLen ≤ FifoFreeSpace port.pFifoRxMsg ∧ 1 ≤ FifoFreeSpace port.pFifoRxMsgDesc →
          ∃ bf1 df df1, port1.pFifoRxMsg = some bf1 ∧ port.pFifoRxMsgDesc = some df ∧
            port1.pFifoRxMsgDesc = some df1 ∧
            FifoItems bf1 = FifoItems bf ++ (List.range dataLen).map pBuffer ∧
            FifoItems df1 = FifoItems df ++ [{ MsgSize := dataLen, IpAddr := pIpSrc }]) ∧
        (¬ (dataLen ≤ FifoFreeSpace port.pFifoRxMsg ∧ 1 ≤ FifoFreeSpace port.pFifoRxMsgDesc) →
          port1 = port)) ∧
      (port.IsVirtualComRx = true →
        (dataLen ≤ FifoFreeSpace port.pFifoRxMsg →
          ∃ bf1, port1.pFifoRxMsg = some bf1 ∧
            FifoItems bf1 = FifoItems bf ++ (List.range dataLen).map pBuffer ∧
            port1.pFifoRxMsgDesc = port.pFifoRxMsgDesc) ∧
        (¬ dataLen ≤ FifoFreeSpace port.pFifoRxMsg → port1 = port)) := by
  obtain ⟨st1, s1, h, -, -, -, -, -, -, hpp⟩ :=
    NetworkStoreIncMsg_spec s pBuffer dataLen destPort IP_PROT_UDP pIpSrc hports
  have hup : storeIncUpdate pBuffer dataLen destPort IP_PROT_UDP pIpSrc port
      = (storeIncPort port pBuffer dataLen pIpSrc).2 := by
    simp [storeIncUpdate, hdesc, hproto, hnum]
  refine ⟨st1, s1, _, h, hpp p port hp hport, ?_, ?_⟩
  · intro hmode
    obtain ⟨df, hdf, hdwf⟩ := hrd hmode
    have := storeIncPort_datagram port pBuffer dataLen pIpSrc bf df hmode hrx hbf hdf hdwf
    rw [hup, hrx, hdf]
    refine ⟨fun hh => ?_, this.2⟩
    obtain ⟨bf1, df1, a1, a2, a3, a4⟩ := this.1 hh
    exact ⟨bf1, df, df1, a1, rfl, a2, a3, a4⟩
  · intro hmode
    have := storeIncPort_stream port pBuffer dataLen pIpSrc bf hmode hrx hbf
    rw [hup, hrx]
    exact this


/-! ## ARP table -/

theorem NetworkGetArpEntry_loop_total (arr : List arp_entry_t) (ip : ip_addr) (k : Nat) :
    ∀ i, i + k ≤ arr.length →
      ∃ r, NetworkGetArpEntry.loop arr ip i k = some r ∧ ∀ idx, r = some idx → idx < arr.length := by
  induction k with
  | zero => intro i _; exact ⟨none, rfl, fun _ h => by cases h⟩
  | succ k ih =>
    intro i h
    have hi : i < arr.length := by omega
    obtain ⟨r, hr, hidx⟩ := ih (i + 1) (by omega)
    simp only [NetworkGetArpEntry.loop, List.getElem?_eq_getElem hi]
    split_ifs
    · exact ⟨some i, rfl, fun idx h => by cases h; exact hi⟩
    · exact ⟨r, hr, hidx⟩

theorem NetworkCreateArpEntry_loop_total (arr : List arp_entry_t) (k : Nat) :
    ∀ i, i + k ≤ arr.length →
      ∃ f, NetworkCreateArpEntry.loop arr i k = some f ∧ f ≤ i + k := by
  induction k with
  | zero => intro i _; exact ⟨i, rfl, by omega⟩
  | succ k ih =>
    intro i h
    have hi : i < arr.length := by omega
    obtain ⟨f, hf, hle⟩ := ih (i + 1) (by omega)
    simp only [NetworkCreateArpEntry.loop, List.getElem?_eq_getElem hi]
    split_ifs
    · exact ⟨i, rfl, by omega⟩
    · exact ⟨f, hf, by omega⟩

theorem setArp_total (s : network_module_info_t) (ctrlId idx : Nat) (e : arp_entry_t)
    (ctrl : network_ctrl_info_t) (h : s.pCtrlInfoList[ctrlId]? = some ctrl) :
    ∃ s1, setArp s ctrlId idx e = some s1 ∧ sameOutsideArp s s1 ∧ s1.Errors = s.Errors := by
  simp only [setArp, h]
  exact ⟨_, rfl, ⟨rfl, rfl, rfl, rfl, rfl⟩, rfl⟩

theorem NetworkCreateArpEntry_total (s : network_module_info_t) (ctrlId : Nat)
    (ctrl : network_ctrl_info_t) (desc : network_ctrl_desc_t)
    (hctrl : s.pCtrlInfoList[ctrlId]? = some ctrl) (hdesc : ctrl.pDesc = some desc)
    (hlen : desc.ArpEntryNb ≤ ctrl.pArpArray.length) :
    ∃ r s1, NetworkCreateArpEntry s ctrlId = some (r, s1) ∧ sameOutsideArp s s1 ∧
      s1.pCtrlInfoList = s.pCtrlInfoList ∧ ∀ idx, r = some idx → idx < ctrl.pArpArray.length := by
  obtain ⟨f, hf, hle⟩ := NetworkCreateArpEntry_loop_total ctrl.pArpArray desc.ArpEntryNb 0
    (by omega)
  simp only [NetworkCreateArpEntry, hctrl, hdesc, hf]
  split_ifs with h
  · exact ⟨_, _, rfl, ⟨rfl, rfl, rfl, rfl, rfl⟩, rfl, fun idx hh => by cases hh; omega⟩
  · refine ⟨_, _, rfl, ?_, ?_, fun idx hh => by cases hh⟩
    · unfold notifyError sameOutsideArp; split_ifs <;> exact ⟨rfl, rfl, rfl, rfl, rfl⟩
    · unfold notifyError; split_ifs <;> rfl

theorem NetworkStoreArp_total (s : network_module_info_t) (ctrlId : Nat)
    (ctrl : network_ctrl_info_t) (desc : network_ctrl_desc_t)
    (hctrl : s.pCtrlInfoList[ctrlId]? = some ctrl) (hdesc : ctrl.pDesc = some desc)
    (hlen : desc.ArpEntryNb ≤ ctrl.pArpArray.length)
    (ip : ip_addr) (mac : mac_addr) (hasDecay : Bool) :
    ∃ u, NetworkStoreArp s ctrlId ip mac hasDecay = some u ∧ sameOutsideArp s u.2 := by
  obtain ⟨r, hr, hidx⟩ := NetworkGetArpEntry_loop_total ctrl.pArpArray ip desc.ArpEntryNb 0
    (by omega)
  have hget : NetworkGetArpEntry s ctrlId ip = some r := by
    simp [NetworkGetArpEntry, hctrl, hdesc, hr]
  unfold NetworkStoreArp
  rw [hget]
  cases r with
  | none =>
    obtain ⟨c, s1, hc, hsame, hcl, hci⟩ := NetworkCreateArpEntry_total s ctrlId ctrl desc hctrl
      hdesc hlen
    simp only [hc]
    cases c with
    | none => exact ⟨_, rfl, hsame⟩
    | some idx =>
      have hi := hci idx rfl
      have hctrl1 : s1.pCtrlInfoList[ctrlId]? = some ctrl := by rw [hcl]; exact hctrl
      simp only [hctrl1, List.getElem?_eq_getElem hi]
      obtain ⟨s2, hs2, hsame2, -⟩ := setArp_total s1 ctrlId idx
        { ctrl.pArpArray[idx] with
            IpAddr := ip, MacAddr := mac,
            Status := { ctrl.pArpArray[idx].Status with
                          IsRequested := true, IsInitialised := true,
                          IsValid := true, HasDecay := hasDecay },
            DecayTimer := s1.pInitDesc.GenInterface.pFnTimerGetTime } ctrl hctrl1
      simp only [hs2]
      refine ⟨_, rfl, ?_⟩
      obtain ⟨a1, a2, a3, a4, a5⟩ := hsame
      obtain ⟨b1, b2, b3, b4, b5⟩ := hsame2
      exact ⟨b1.trans a1, b2.trans a2, b3.trans a3, b4.trans a4, b5.trans a5⟩
  | some idx =>
    have hi := hidx idx rfl
    simp only [hctrl, List.getElem?_eq_getElem hi]
    split_ifs
    · obtain ⟨s2, hs2, hsame2, -⟩ := setArp_total s ctrlId idx
        { ctrl.pArpArray[idx] with
            MacAddr := mac,
            Status := { ctrl.pArpArray[idx].Status with IsValid := true, HasDecay := hasDecay },
            DecayTimer := s.pInitDesc.GenInterface.pFnTimerGetTime } ctrl hctrl
      simp only [hs2]
      exact ⟨_, rfl, hsame2⟩
    · exact ⟨_, rfl, ⟨rfl, rfl, rfl, rfl, rfl⟩⟩

theorem NetworkUpdateArpTable_total (s : network_module_info_t) (ctrlId : Nat)
    (ctrl : network_ctrl_info_t) (desc : network_ctrl_desc_t)
    (hctrl : s.pCtrlInfoList[ctrlId]? = some ctrl) (hdesc : ctrl.pDesc = some desc)
    (hlen : desc.ArpEntryNb ≤ ctrl.pArpArray.length)
    (ip : ip_addr) (mac : mac_addr) (hasDecay : Bool) :
    ∃ u, NetworkUpdateArpTable s ctrlId ip mac hasDecay = some u ∧ sameOutsideArp s u.2 := by
  obtain ⟨r, hr, hidx⟩ := NetworkGetArpEntry_loop_total ctrl.pArpArray ip desc.ArpEntryNb 0
    (by omega)
  have hget : NetworkGetArpEntry s ctrlId ip = some r := by
    simp [NetworkGetArpEntry, hctrl, hdesc, hr]
  unfold NetworkUpdateArpTable
  rw [hget]
  cases r with
  | none => exact NetworkStoreArp_total s ctrlId ctrl desc hctrl hdesc hlen ip mac hasDecay
  | some idx =>
    have hi := hidx idx rfl
    simp only [hctrl, List.getElem?_eq_getElem hi]
    split_ifs
    · exact NetworkStoreArp_total s ctrlId ctrl desc hctrl hdesc hlen ip mac hasDecay
    · obtain ⟨s2, hs2, hsame2, -⟩ := setArp_total s ctrlId idx
        { ctrl.pArpArray[idx] with
            DecayTimer := s.pInitDesc.GenInterface.pFnTimerGetTime, MacAddr := mac } ctrl hctrl
      simp only [hs2]
      exact ⟨_, rfl, hsame2⟩
    · obtain ⟨s2, hs2, hsame2, -⟩ := setArp_total s ctrlId idx
        { ctrl.pArpArray[idx] with
            DecayTimer := s.pInitDesc.GenInterface.pFnTimerGetTime } ctrl hctrl
      simp only [hs2]
      exact ⟨_, rfl, hsame2⟩


/-! ## Transmit path -/

theorem frameOf_add (b : Nat → Nat) (m n : Nat) :
    frameOf b (m + n) = frameOf b m ++ (List.range n).map (fun j => b (m + j)) := by
  simp only [frameOf, List.range_add, List.map_append, List.map_map]
  rfl

theorem store16_rotr (m : Nat → Nat) (off v : Nat) (h : v < 65536) :
    store16 m off (UtilsRotrUint16 v 8) = storeBytes m off [v / 256, v % 256] := by
  unfold store16
  rw [UtilsRotrUint16_eight v h]
  have h1 : (v % 256 * 256 + v / 256) % 256 = v / 256 := by omega
  have h2 : (v % 256 * 256 + v / 256) / 256 % 256 = v % 256 := by omega
  rw [h1, h2]

theorem storeBytes_self (m : Nat → Nat) (off v : Nat) : storeBytes m off [v] off = v := by
  simp [storeBytes]

theorem storeBytes_above (m : Nat → Nat) (off : Nat) (bs : List Nat) (i : Nat)
    (h : off + bs.length ≤ i) : storeBytes m off bs i = m i := by
  unfold storeBytes
  rw [if_neg (by omega)]

theorem store16_above (m : Nat → Nat) (off v i : Nat) (h : off + 2 ≤ i) :
    store16 m off v i = m i := by
  unfold store16
  exact storeBytes_above _ _ _ _ (by simpa using h)

/-- The frame that `NetworkSendUdpPacket` hands to the driver for a destination with a
valid ARP entry that is not the broadcast address. -/
theorem NetworkSendUdpPacket_frame (s : network_module_info_t) (ctrlId : Nat)
    (ctrl : network_ctrl_info_t) (cd : network_ctrl_desc_t) (idx : Nat) (e : arp_entry_t)
    (pb : Nat → Nat) (D : ip_addr) (lp rp n : Nat)
    (hctrl : s.pCtrlInfoList[ctrlId]? = some ctrl) (hcd : ctrl.pDesc = some cd)
    (harp : NetworkGetArpEntry s ctrlId D = some (some idx))
    (hentry : ctrl.pArpArray[idx]? = some e) (hvalid : e.Status.IsValid = true)
    (hnb : NetworkIsIpBroadcast D ctrl.IpAddr ctrl.SubnetMask = false)
    (hlp : lp < 65536) (hrp : rp < 65536) (hn : n ≤ 1472) :
    ∃ b, NetworkSendUdpPacket s ctrlId pb (NetworkInitMsgInfo D lp rp n) =
        some (cd.ComInterface.MacCtrlSendMsg cd.MacCtrlId
            (udpFrame e.MacAddr ctrl.MacAddr ctrl.IpAddr D lp rp
              ((List.range n).map (fun j => pb (42 + j)))),
          { s with Sent := s.Sent ++ [(cd.MacCtrlId,
              udpFrame e.MacAddr ctrl.MacAddr ctrl.IpAddr D lp rp
                ((List.range n).map (fun j => pb (42 + j))))] }, b) := by
  have hsz : ((8 + 20) % 65536 + 14) % 65536 = 42 := by decide
  have hsz2 : (42 + n) % 65536 = 42 + n := by omega
  have hl1 : (n + 8) % 65536 = n + 8 := by omega
  have hl2 : (20 + n + 8) % 65536 = 28 + n := by omega
  simp only [NetworkSendUdpPacket, NetworkSendIpPacket, NetworkSendEthPacket, NetworkInitMsgInfo,
    hctrl, hcd, harp, hentry, hvalid, hnb, Bool.true_or, if_true, Bool.not_false, macSend,
    IPV4_HEADER_SIZE, ETH_HEADER_SIZE, UDP_HEADER_SIZE, IP_PROT_UDP, Nat.reduceAdd, hsz, hsz2,
    hl1, hl2, store16_rotr _ _ _ hlp, store16_rotr _ _ _ hrp,
    store16_rotr _ _ (n + 8) (by omega), store16_rotr _ _ (28 + n) (by omega),
    storeBytes_self, ihl_version_byte, ecn_dscp_byte]
  have hr : List.range 42 = [0, 1, 2, 3, 4, 5, 6, 7, 8, 9, 10, 11, 12, 13, 14, 15, 16, 17, 18, 19,
      20, 21, 22, 23, 24, 25, 26, 27, 28, 29, 30, 31, 32, 33, 34, 35, 36, 37, 38, 39, 40, 41] := by
    decide
  rw [show frameOf _ (42 + n) = udpFrame e.MacAddr ctrl.MacAddr ctrl.IpAddr D lp rp
      ((List.range n).map (fun j => pb (42 + j))) from ?_]
  · exact ⟨_, rfl⟩
  · rw [frameOf_add]
    unfold udpFrame
    simp only [List.length_map, List.length_range]
    congr 1
    · simp only [frameOf, hr, List.map, store16, storeBytes, mac_addr.toList, ip_addr.toList,
        List.length_cons, List.length_nil]
      simp
      omega
    · apply List.map_congr_left
      intro j _
      simp only [mac_addr.toList, ip_addr.toList]
      repeat first
        | rw [store16_above _ _ _ _ (by omega)]
        | rw [storeBytes_above _ _ _ _ (by simp only [List.length_cons, List.length_nil]; omega)]

theorem FifoReadDest_head {α : Type} (f : fifo_desc_t α) (dest : Nat → α) (x : α) (rest : List α)
    (h : FifoItems f = x :: rest) : FifoReadDest f dest 1 0 = x := by
  have hc : 1 ≤ FifoGetItemCount f.ReadCount f.WriteCount := by
    rw [← FifoItems_length, h]; simp
  have := FifoReadDest_take f dest 1 hc
  rw [h] at this
  simpa [List.range_succ] using this

/-- C1: for a datagram-mode transmit port whose head descriptor gives n <= 1472 payload
bytes and destination D (the port's peer address when the descriptor address is zero),
with D in the controller's subnet, not the subnet broadcast, a valid ARP entry with
MAC M, and a driver that accepts, one NetworkProcessSendMsg hands the driver exactly one
frame, of 42 + n bytes: M, controller MAC, 08 00; 45 00, big-endian 28 + n, 00 00, 40 00,
80, 11, 00 00, controller IP, D; big-endian local port, remote port and 8 + n, 00 00;
then the n oldest bytes of the transmit byte queue. -/
theorem process_send_msg_udp_frame (s : network_module_info_t) (portId : Nat)
    (port : network_port_info_t) (pd : network_port_desc_t) (ctrl : network_ctrl_info_t)
    (cd : network_ctrl_desc_t) (df : fifo_desc_t network_msg_desc_t) (bf : fifo_desc_t Nat)
    (n : Nat) (ip D : ip_addr) (rest : List network_msg_desc_t) (idx : Nat) (e : arp_entry_t)
    (pBuffer : Nat → Nat)
    (hport : s.pPortInfoList[portId]? = some port) (hmode : port.IsVirtualComTx = false)
    (hdf : port.pFifoTxMsgDesc = some df) (hdwf : FifoWf df)
    (hhead : FifoItems df = { MsgSize := n, IpAddr := ip } :: rest)
    (hD : D = if ip = ip_addr.zero then port.DstIpAddr else ip)
    (hn : n ≤ 1472)
    (hbf : port.pFifoTxMsg = some bf) (hbwf : FifoWf bf) (hcount : n ≤ FifoItemCount (some bf))
    (hpd : port.pDesc = some pd) (hctrl : s.pCtrlInfoList[pd.NetworkCtrlId]? = some ctrl)
    (hcd : ctrl.pDesc = some cd)
    (hsub : NetworkIsIpValid D ctrl.IpAddr ctrl.SubnetMask = true)
    (hnb : NetworkIsIpBroadcast D ctrl.IpAddr ctrl.SubnetMask = false)
    (harp : NetworkGetArpEntry s pd.NetworkCtrlId D = some (some idx))
    (hentry : ctrl.pArpArray[idx]? = some e) (hvalid : e.Status.IsValid = true)
    (hlp : port.InPortNb < 65536) (hrp : port.OutPortNb < 65536)
    (haccept : cd.ComInterface.MacCtrlSendMsg cd.MacCtrlId
      (udpFrame e.MacAddr ctrl.MacAddr ctrl.IpAddr D port.InPortNb port.OutPortNb
        ((FifoItems bf).take n)) = true) :
    ∃ s1 b1, NetworkProcessSendMsg s portId pBuffer = some (true, s1, b1) ∧
      s1.Sent = s.Sent ++ [(cd.MacCtrlId,
        udpFrame e.MacAddr ctrl.MacAddr ctrl.IpAddr D port.InPortNb port.OutPortNb
          ((FifoItems bf).take n))] ∧
      (udpFrame e.MacAddr ctrl.MacAddr ctrl.IpAddr D port.InPortNb port.OutPortNb
          ((FifoItems bf).take n)).length = 42 + n := by
  have hcntd : 1 ≤ FifoGetItemCount df.ReadCount df.WriteCount := by
    rw [← FifoItems_length, hhead]; simp
  have hrd := FifoRead_ok df hdwf
    (fun _ => ({ MsgSize := 0, IpAddr := ip_addr.zero } : network_msg_desc_t)) 1 false hcntd
  have hd0 := FifoReadDest_head df
    (fun _ => ({ MsgSize := 0, IpAddr := ip_addr.zero } : network_msg_desc_t)) _ _ hhead
  have hinfo : sendMsgInfo port = some (n, D) := by
    simp only [sendMsgInfo, hmode, hdf, hrd, hd0, hD]
    by_cases hz : ip = ip_addr.zero
    · simp [hz]
    · have hz2 : ip_addr.zero ≠ ip := fun h => hz h.symm
      simp [hz, hz2]
  have hmin : (if n < ETHERNET_MAX_DATA_SIZE then n else ETHERNET_MAX_DATA_SIZE) = n := by
    simp only [ETHERNET_MAX_DATA_SIZE]; split_ifs <;> omega
  have hcount2 : n ≤ FifoGetItemCount bf.ReadCount bf.WriteCount := hcount
  have hrb := FifoRead_ok bf hbwf (ptrAdd pBuffer NETWORK_HEADER_SIZE) n false hcount2
  have hpay : (List.range n).map (fun j =>
      ptrStore pBuffer NETWORK_HEADER_SIZE
        (FifoReadDest bf (ptrAdd pBuffer NETWORK_HEADER_SIZE) n) (42 + j))
      = (FifoItems bf).take n := by
    rw [← FifoReadDest_take bf (ptrAdd pBuffer NETWORK_HEADER_SIZE) n hcount2]
    apply List.map_congr_left
    intro j _
    simp [ptrStore, NETWORK_HEADER_SIZE]
  obtain ⟨b, hsend⟩ := NetworkSendUdpPacket_frame s pd.NetworkCtrlId ctrl cd idx e
    (ptrStore pBuffer NETWORK_HEADER_SIZE (FifoReadDest bf (ptrAdd pBuffer NETWORK_HEADER_SIZE) n))
    D port.InPortNb port.OutPortNb n hctrl hcd harp hentry hvalid hnb hlp hrp hn
  rw [hpay, haccept] at hsend
  have hlen : ((FifoItems bf).take n).length = n := by
    rw [List.length_take, FifoItems_length]; omega
  have hres : NetworkProcessSendMsg s portId pBuffer = some (true,
      setPort { s with Sent := s.Sent ++ [(cd.MacCtrlId,
          udpFrame e.MacAddr ctrl.MacAddr ctrl.IpAddr D port.InPortNb port.OutPortNb
            ((FifoItems bf).take n))] } portId (consumeTxMsg port n), b) := by
    simp only [NetworkProcessSendMsg, hport, hinfo, hmin, hpd, hctrl, hsub, if_true,
      NetworkInitMsgInfo, harp, hentry, hvalid, hnb, Bool.false_or, hbf, hrb]
    simp only [NetworkInitMsgInfo] at hsend
    rw [hsend]
  refine ⟨_, b, hres, ?_, ?_⟩
  · simp [setPort]
  · simp [udpFrame, mac_addr.toList, ip_addr.toList, hlen]
    omega


/-- C9 (amended): a UDP datagram received and accepted by a controller is delivered to
exactly the ports p with p.protocol = UDP and p.localPortNb = the datagram's destination
port, whatever controller the port is bound to (the deposit in each of them is that of
`storeIncPort`); every other port keeps its receive queues, and all its other fields,
unchanged. -/
theorem udp_delivery_by_port_number (s : network_module_info_t) (ctrlId : Nat)
    (ctrl : network_ctrl_info_t) (cd : network_ctrl_desc_t) (pBuffer : Nat → Nat)
    (buffSize : Nat)
    (hctrl : s.pCtrlInfoList[ctrlId]? = some ctrl) (hcd : ctrl.pDesc = some cd)
    (hlen : cd.ArpEntryNb ≤ ctrl.pArpArray.length)
    (haccept : NetworkAcceptIncIpPacket s ctrlId (ptrAdd pBuffer ETH_HEADER_SIZE) = some true)
    (hproto : pBuffer (ETH_HEADER_SIZE + 9) = IP_PROT_UDP)
    (hports : ∀ j, j < s.pInitDesc.PortNb → ∃ q, s.pPortInfoList[j]? = some q ∧
      ((NetworkDecodeUdpPacket pBuffer).2.2.1 = q.InPortNb → q.pDesc.isSome = true)) :
    ∃ st1 s1 b1, NetworkProcessIpPacket s ctrlId pBuffer buffSize = some (st1, s1, b1) ∧
      ∀ p port, p < s.pInitDesc.PortNb → s.pPortInfoList[p]? = some port →
        ((port.InPortNb = (NetworkDecodeUdpPacket pBuffer).2.2.1 ∧
            ∃ pd, port.pDesc = some pd ∧ pd.Protocol = IP_PROT_UDP) →
          s1.pPortInfoList[p]? = some (storeIncPort port
            (ptrAdd (NetworkDecodeUdpPacket pBuffer).1 (NetworkDecodeUdpPacket pBuffer).2.2.2)
            (NetworkDecodeUdpPacket pBuffer).2.1
            (ip_addr.ofMem (NetworkDecodeUdpPacket pBuffer).1 (ETH_HEADER_SIZE + 12))).2) ∧
        (¬ (port.InPortNb = (NetworkDecodeUdpPacket pBuffer).2.2.1 ∧
            ∃ pd, port.pDesc = some pd ∧ pd.Protocol = IP_PROT_UDP) →
          s1.pPortInfoList[p]? = some port) := by
  obtain ⟨u, hu, hsame⟩ := NetworkUpdateArpTable_total s ctrlId ctrl cd hctrl hcd hlen
    (ip_addr.ofMem pBuffer (ETH_HEADER_SIZE + 12)) (mac_addr.ofMem pBuffer 6) false
  obtain ⟨hp1, hp2, -⟩ := hsame
  have hports2 : ∀ j, j < u.2.pInitDesc.PortNb → ∃ q, u.2.pPortInfoList[j]? = some q ∧
      ((NetworkDecodeUdpPacket pBuffer).2.2.1 = q.InPortNb → q.pDesc.isSome = true) := by
    rw [hp1, hp2]; exact hports
  obtain ⟨st1, s1, hst, -, -, -, -, -, -, hpp⟩ := NetworkStoreIncMsg_spec u.2
    (ptrAdd (NetworkDecodeUdpPacket pBuffer).1 (NetworkDecodeUdpPacket pBuffer).2.2.2)
    (NetworkDecodeUdpPacket pBuffer).2.1 (NetworkDecodeUdpPacket pBuffer).2.2.1 IP_PROT_UDP
    (ip_addr.ofMem (NetworkDecodeUdpPacket pBuffer).1 (ETH_HEADER_SIZE + 12)) hports2
  have hne : ¬ (IP_PROT_UDP = IP_PROT_ICMP) := by decide
  refine ⟨st1, s1, (NetworkDecodeUdpPacket pBuffer).1, ?_, ?_⟩
  · simp only [NetworkProcessIpPacket, haccept, hu, hproto, hne, if_false, if_true, hst]
  · intro p port hp hport
    have := hpp p port (by rw [hp2]; exact hp) (by rw [hp1]; exact hport)
    rw [this]
    constructor
    · rintro ⟨h1, pd, h2, h3⟩
      simp [storeIncUpdate, h2, h1, h3]
    · intro hno
      unfold storeIncUpdate
      cases hpd : port.pDesc with
      | none => rfl
      | some pd =>
        simp only
        rw [if_neg]
        rintro ⟨h1, h2⟩
        exact hno ⟨h1.symm, pd, hpd, h2.symm⟩


set_option maxRecDepth 100000 in
/-- C7 (failing input): a port whose receive side is in datagram mode and whose transmit
side is in stream mode holds one message of 9 bytes; NetworkPortReadBuff with a buffer of
64 bytes returns true, reports the size 9 and the source 192.168.2.0 and removes the 9
bytes, but the descriptor stays in the receive descriptor queue. -/
theorem read_buff_keeps_descriptor_when_tx_is_stream :
    modeSummary mixedRxState = [(false, true)] ∧
    rxSummary mixedRxState = [(some 0, 9, 1)] ∧
    (NetworkPortReadBuff mixedRxState 0 (some (fun _ => 0)) (some 0) 64
      (some ip_addr.zero)).ret = true ∧
    (NetworkPortReadBuff mixedRxState 0 (some (fun _ => 0)) (some 0) 64
      (some ip_addr.zero)).pDataSize = some 9 ∧
    (NetworkPortReadBuff mixedRxState 0 (some (fun _ => 0)) (some 0) 64
      (some ip_addr.zero)).pSrcIp = some ⟨192, 168, 2, 0⟩ ∧
    rxSummary (NetworkPortReadBuff mixedRxState 0 (some (fun _ => 0)) (some 0) 64
      (some ip_addr.zero)).s = [(some 0, 0, 1)] := by
  decide

set_option maxRecDepth 100000 in
/-- C9 (counterexample): the only port is bound to controller 1, with local port 10101;
controller 0 accepts a UDP datagram for port 10101, and the 9 bytes and a descriptor
are stored in the receive queues of that port. -/
theorem udp_delivery_reaches_port_of_other_controller :
    crossState.map rxSummary = some [(some 1, 0, 0)] ∧
    (crossState.bind fun s =>
      NetworkAcceptIncIpPacket s 0 (ptrAdd (bufOf udp_rx_barray) ETH_HEADER_SIZE)) = some true ∧
    (crossState.bind fun s =>
      (NetworkProcessIpPacket s 0 (bufOf udp_rx_barray) 51).map fun r => (r.1, rxSummary r.2.1))
      = some (true, [(some 1, 9, 1)]) := by
  decide


/-! ## Instances on the module of test_network.c -/

theorem FifoWf_txBytes : FifoWf txBytes :=
  ⟨by decide, by decide, by decide, by decide, by decide, by decide⟩

theorem FifoWf_txDescs : FifoWf txDescs :=
  ⟨by decide, by decide, by decide, by decide, by decide, by decide⟩

theorem testState_ports (destPort : Nat) :
    ∀ j, j < testState.pInitDesc.PortNb → ∃ q, testState.pPortInfoList[j]? = some q ∧
      (destPort = q.InPortNb → q.pDesc.isSome = true) := by
  intro j hj
  have h1 : testState.pInitDesc.PortNb = 1 := by decide
  have h0 : j = 0 := by omega
  subst h0
  exact ⟨testPort, rfl, fun _ => rfl⟩

set_option maxRecDepth 100000 in
/-- C1 (witness): the first transmission of test_network.c; the frame is `udp_tx_byte`. -/
theorem process_send_msg_udp_frame_witness :
    ∃ s1 b1, NetworkProcessSendMsg txState 0 txState.pBuffer = some (true, s1, b1) ∧
      s1.Sent = txState.Sent ++ [(0, udp_tx_byte)] ∧ udp_tx_byte.length = 42 + 1 :=
  process_send_msg_udp_frame txState 0 txPort testPortDesc testCtrl testCtrlDesc txDescs txBytes
    1 ⟨192, 168, 2, 0⟩ ⟨192, 168, 2, 0⟩ [] 0
    { DecayTimer := 0, MacAddr := ⟨0x11, 0x22, 0x44, 0x55, 0x88, 0xaa⟩,
      IpAddr := ⟨192, 168, 2, 0⟩,
      Status := { IsInitialised := true, IsValid := true, IsRequested := true,
                  HasDecay := false } }
    txState.pBuffer rfl rfl rfl FifoWf_txDescs (by decide) (by decide) (by decide) rfl
    FifoWf_txBytes (by decide) rfl rfl rfl (by decide) (by decide) (by decide) (by decide)
    rfl (by decide) (by decide) rfl

set_option maxRecDepth 100000 in
/-- C6 (witness): one byte sent on the port of `testState`, whose queues are empty. -/
theorem port_send_buff_admission_witness :
    ∃ ret s1, NetworkPortSendBuff testState 0 (some (bufOf [0x55])) 1 none = some (ret, s1) ∧
      (ret = true ↔ 1 ≤ FifoFreeSpace testPort.pFifoTxMsg ∧
        (testPort.IsVirtualComTx = false → 1 ≤ FifoFreeSpace testPort.pFifoTxMsgDesc)) := by
  obtain ⟨ret, s1, h1, h2, -⟩ := port_send_buff_admission testState 0 testPort
    (FifoCreate (fun _ => 0) 1514 1) rfl (by decide) rfl (FifoWf_create _ _ _ (by decide))
    (fun _ => ⟨_, rfl, FifoWf_create _ _ _ (by decide)⟩) (bufOf [0x55]) 1 (fun _ => by decide)
    none
  exact ⟨ret, s1, h1, h2⟩

set_option maxRecDepth 100000 in
/-- C8 (witness): the nine data bytes of `udp_rx_barray` stored for port 10101 of
`testState`. -/
theorem store_inc_msg_no_partial_deposit_witness :
    ∃ st1 s1 port1,
      NetworkStoreIncMsg testState (ptrAdd (bufOf udp_rx_barray) 42) 9 10101 IP_PROT_UDP
        ⟨192, 168, 2, 0⟩ = some (st1, s1) ∧
      s1.pPortInfoList[0]? = some port1 := by
  obtain ⟨st1, s1, port1, h1, h2, -⟩ := store_inc_msg_no_partial_deposit testState
    (ptrAdd (bufOf udp_rx_barray) 42) 9 10101 ⟨192, 168, 2, 0⟩ 0 testPort testPortDesc
    (FifoCreate (fun _ => 0) 1514 1) (testState_ports 10101) (by decide) rfl rfl rfl rfl rfl
    (FifoWf_create _ _ _ (by decide)) (fun _ => ⟨_, rfl, FifoWf_create _ _ _ (by decide)⟩)
  exact ⟨st1, s1, port1, h1, h2⟩

set_option maxRecDepth 100000 in
/-- C9 (witness): the frame `udp_rx_barray` processed by the controller of `testState`. -/
theorem udp_delivery_by_port_number_witness :
    ∃ st1 s1 b1, NetworkProcessIpPacket testState 0 (bufOf udp_rx_barray) 51
      = some (st1, s1, b1) := by
  obtain ⟨st1, s1, b1, h1, -⟩ := udp_delivery_by_port_number testState 0 testCtrl testCtrlDesc
    (bufOf udp_rx_barray) 51 rfl rfl (by decide) (by decide) (by decide) (testState_ports _)
  exact ⟨st1, s1, b1, h1⟩

set_option maxRecDepth 100000 in
/-- C10 (witness): a frame whose source 192.168.3.0 is outside the subnet of the
controller of `testState` is dropped with the state unchanged. -/
theorem accept_inc_ip_packet_witness :
    NetworkProcessIpPacket testState 0 (bufOf udp_rx_foreign) 51
      = some (true, testState, bufOf udp_rx_foreign) :=
  (accept_inc_ip_packet testState 0 testCtrl rfl ⟨by decide, by decide, by decide, by decide⟩
    ⟨by decide, by decide, by decide, by decide⟩ (bufOf udp_rx_foreign) 51).2.2 (by decide)

/-! ## ARP table: the two search loops -/

theorem NetworkGetArpEntry_loop_some (arr : List arp_entry_t) (ip : ip_addr) (k : Nat) :
    ∀ i idx, NetworkGetArpEntry.loop arr ip i k = some (some idx) →
      i ≤ idx ∧ idx < i + k ∧ (∃ e, arr[idx]? = some e ∧ arpMatches ip e = true) ∧
      ∀ j, i ≤ j → j < idx → ∃ e, arr[j]? = some e ∧ arpMatches ip e = false := by
  induction k with
  | zero => intro i idx h; simp [NetworkGetArpEntry.loop] at h
  | succ k ih =>
    intro i idx h
    unfold NetworkGetArpEntry.loop at h
    cases he : arr[i]? with
    | none => simp [he] at h
    | some e =>
      simp only [he] at h
      by_cases hm : (e.Status.IsInitialised && decide (e.IpAddr = ip)) = true
      · rw [if_pos hm] at h
        cases h
        exact ⟨le_rfl, by omega, ⟨e, he, hm⟩, fun j h1 h2 => by omega⟩
      · rw [if_neg hm] at h
        obtain ⟨h1, h2, h3, h4⟩ := ih (i + 1) idx h
        refine ⟨by omega, by omega, h3, fun j hj1 hj2 => ?_⟩
        by_cases hji : j = i
        · subst hji
          exact ⟨e, he, by simpa [arpMatches] using hm⟩
        · exact h4 j (by omega) hj2

theorem NetworkGetArpEntry_loop_none (arr : List arp_entry_t) (ip : ip_addr) (k : Nat) :
    ∀ i, NetworkGetArpEntry.loop arr ip i k = some none →
      ∀ j, i ≤ j → j < i + k → ∃ e, arr[j]? = some e ∧ arpMatches ip e = false := by
  induction k with
  | zero => intro i _ j h1 h2; omega
  | succ k ih =>
    intro i h j hj1 hj2
    unfold NetworkGetArpEntry.loop at h
    cases he : arr[i]? with
    | none => simp [he] at h
    | some e =>
      simp only [he] at h
      by_cases hm : (e.Status.IsInitialised && decide (e.IpAddr = ip)) = true
      · rw [if_pos hm] at h; cases h
      · rw [if_neg hm] at h
        by_cases hji : j = i
        · subst hji
          exact ⟨e, he, by simpa [arpMatches] using hm⟩
        · exact ih (i + 1) h j (by omega) (by omega)

theorem NetworkGetArpEntry_loop_intro (arr : List arp_entry_t) (ip : ip_addr) (k : Nat) :
    ∀ i idx, i ≤ idx → idx < i + k → (∃ e, arr[idx]? = some e ∧ arpMatches ip e = true) →
      (∀ j, i ≤ j → j < idx → ∃ e, arr[j]? = some e ∧ arpMatches ip e = false) →
      NetworkGetArpEntry.loop arr ip i k = some (some idx) := by
  induction k with
  | zero => intro i idx h1 h2; omega
  | succ k ih =>
    intro i idx h1 h2 h3 h4
    unfold NetworkGetArpEntry.loop
    by_cases hii : idx = i
    · subst hii
      obtain ⟨e, he, hm⟩ := h3
      simp only [he]
      rw [if_pos (by simpa [arpMatches] using hm)]
    · obtain ⟨e, he, hm⟩ := h4 i le_rfl (by omega)
      simp only [he]
      rw [if_neg (by simpa [arpMatches] using hm)]
      exact ih (i + 1) idx (by omega) (by omega) h3 (fun j hj1 hj2 => h4 j (by omega) hj2)

theorem NetworkGetArpEntry_loop_none_intro (arr : List arp_entry_t) (ip : ip_addr) (k : Nat) :
    ∀ i, (∀ j, i ≤ j → j < i + k → ∃ e, arr[j]? = some e ∧ arpMatches ip e = false) →
      NetworkGetArpEntry.loop arr ip i k = some none := by
  induction k with
  | zero => intro i _; rfl
  | succ k ih =>
    intro i h
    unfold NetworkGetArpEntry.loop
    obtain ⟨e, he, hm⟩ := h i le_rfl (by omega)
    simp only [he]
    rw [if_neg (by simpa [arpMatches] using hm)]
    exact ih (i + 1) (fun j hj1 hj2 => h j (by omega) (by omega))

theorem NetworkCreateArpEntry_loop_spec (arr : List arp_entry_t) (k : Nat) :
    ∀ i f, NetworkCreateArpEntry.loop arr i k = some f →
      i ≤ f ∧ f ≤ i + k ∧
      (∀ j, i ≤ j → j < f → ∃ e, arr[j]? = some e ∧ e.Status.IsInitialised = true) ∧
      (f < i + k → ∃ e, arr[f]? = some e ∧ e.Status.IsInitialised = false) := by
  induction k with
  | zero =>
    intro i f h
    simp only [NetworkCreateArpEntry.loop, Option.some.injEq] at h
    subst h
    exact ⟨le_rfl, le_rfl, fun j h1 h2 => by omega, fun h => by omega⟩
  | succ k ih =>
    intro i f h
    unfold NetworkCreateArpEntry.loop at h
    cases he : arr[i]? with
    | none => simp [he] at h
    | some e =>
      simp only [he] at h
      by_cases hm : (!e.Status.IsInitialised) = true
      · rw [if_pos hm] at h
        cases h
        exact ⟨le_rfl, by omega, fun j h1 h2 => by omega, fun _ => ⟨e, he, by simpa using hm⟩⟩
      · rw [if_neg hm] at h
        obtain ⟨h1, h2, h3, h4⟩ := ih (i + 1) f h
        refine ⟨by omega, by omega, fun j hj1 hj2 => ?_, fun hf => h4 (by omega)⟩
        by_cases hji : j = i
        · subst hji
          exact ⟨e, he, by simpa using hm⟩
        · exact h3 j (by omega) hj2

theorem setCtrl_get (s : network_module_info_t) (ctrlId : Nat) (c ctrl : network_ctrl_info_t)
    (h : s.pCtrlInfoList[ctrlId]? = some ctrl) :
    (setCtrl s ctrlId c).pCtrlInfoList[ctrlId]? = some c := by
  simp only [setCtrl]
  exact getElem?_set_same _ _ _ _ h

theorem setCtrl_setCtrl (s : network_module_info_t) (ctrlId : Nat) (c c1 : network_ctrl_info_t) :
    setCtrl (setCtrl s ctrlId c) ctrlId c1 = setCtrl s ctrlId c1 := by
  simp [setCtrl, List.set_set]

theorem setArp_eq (s : network_module_info_t) (ctrlId idx : Nat) (e : arp_entry_t)
    (ctrl : network_ctrl_info_t) (h : s.pCtrlInfoList[ctrlId]? = some ctrl) :
    setArp s ctrlId idx e = some (setCtrl s ctrlId { ctrl with pArpArray := ctrl.pArpArray.set idx e }) := by
  simp only [setArp, h]

theorem NetworkGetArpEntry_eq (s : network_module_info_t) (ctrlId : Nat)
    (ctrl : network_ctrl_info_t) (cd : network_ctrl_desc_t)
    (hctrl : s.pCtrlInfoList[ctrlId]? = some ctrl) (hcd : ctrl.pDesc = some cd) (ip : ip_addr) :
    NetworkGetArpEntry s ctrlId ip = NetworkGetArpEntry.loop ctrl.pArpArray ip 0 cd.ArpEntryNb := by
  simp only [NetworkGetArpEntry, hctrl, hcd]

/-- Replacing the entry that the search finds by one that still holds the address keeps
the result of the search. -/
theorem NetworkGetArpEntry_loop_set (arr : List arp_entry_t) (ip : ip_addr) (k idx : Nat)
    (e1 : arp_entry_t) (h : NetworkGetArpEntry.loop arr ip 0 k = some (some idx))
    (h1 : arpMatches ip e1 = true) :
    NetworkGetArpEntry.loop (arr.set idx e1) ip 0 k = some (some idx) := by
  obtain ⟨h0, hk, ⟨e, he, _⟩, hbefore⟩ := NetworkGetArpEntry_loop_some arr ip k 0 idx h
  refine NetworkGetArpEntry_loop_intro _ ip k 0 idx h0 hk
    ⟨e1, getElem?_set_same _ _ _ _ he, h1⟩ (fun j hj1 hj2 => ?_)
  rw [getElem?_set_other _ _ _ _ (by omega)]
  exact hbefore j hj1 hj2

/-- Filling the first free slot with an entry that holds an address not yet in the table
makes the search find that slot. -/
theorem NetworkGetArpEntry_loop_fill (arr : List arp_entry_t) (ip : ip_addr) (k f : Nat)
    (e1 : arp_entry_t) (e : arp_entry_t) (h : NetworkGetArpEntry.loop arr ip 0 k = some none)
    (hfk : f < k) (he : arr[f]? = some e)
    (h1 : arpMatches ip e1 = true) :
    NetworkGetArpEntry.loop (arr.set f e1) ip 0 k = some (some f) := by
  have hnone := NetworkGetArpEntry_loop_none arr ip k 0 h
  refine NetworkGetArpEntry_loop_intro _ ip k 0 f (Nat.zero_le _) (by omega)
    ⟨e1, getElem?_set_same _ _ _ _ he, h1⟩ (fun j hj1 hj2 => ?_)
  rw [getElem?_set_other _ _ _ _ (by omega)]
  exact hnone j hj1 (by omega)

theorem NetworkRequestArp_spec (s : network_module_info_t) (ctrlId : Nat)
    (ctrl : network_ctrl_info_t) (cd : network_ctrl_desc_t) (X : ip_addr)
    (hctrl : s.pCtrlInfoList[ctrlId]? = some ctrl) (hcd : ctrl.pDesc = some cd)
    (hlen : cd.ArpEntryNb ≤ ctrl.pArpArray.length)
    (hroom : (∃ idx, NetworkGetArpEntry.loop ctrl.pArpArray X 0 cd.ArpEntryNb = some (some idx)) ∨
      (∃ j e, j < cd.ArpEntryNb ∧ ctrl.pArpArray[j]? = some e ∧ e.Status.IsInitialised = false)) :
    ∃ arr1 idx e1,
      NetworkRequestArp s ctrlId X =
        some (cd.ComInterface.MacCtrlSendMsg cd.MacCtrlId (frameOf (arpRequestBuffer ctrl X) 42),
          { setCtrl s ctrlId { ctrl with pArpArray := arr1 } with
              Sent := s.Sent ++ [(cd.MacCtrlId, frameOf (arpRequestBuffer ctrl X) 42)] }) ∧
      arr1.length = ctrl.pArpArray.length ∧
      NetworkGetArpEntry.loop arr1 X 0 cd.ArpEntryNb = some (some idx) ∧
      arr1[idx]? = some e1 ∧ e1.Status.IsValid = false ∧ arpMatches X e1 = true ∧
      (∀ j, j ≠ idx → arr1[j]? = ctrl.pArpArray[j]?) ∧
      (∀ i0 e0, NetworkGetArpEntry.loop ctrl.pArpArray X 0 cd.ArpEntryNb = some (some i0) →
        ctrl.pArpArray[i0]? = some e0 →
        idx = i0 ∧ e1 = { e0 with Status := { e0.Status with IsValid := false } }) := by
  obtain ⟨r, hr, hidx⟩ := NetworkGetArpEntry_loop_total ctrl.pArpArray X cd.ArpEntryNb 0
    (by omega)
  have hget : NetworkGetArpEntry s ctrlId X = some r := by
    rw [NetworkGetArpEntry_eq s ctrlId ctrl cd hctrl hcd, hr]
  cases r with
  | some idx =>
    have hi := hidx idx rfl
    obtain ⟨-, -, ⟨e, he, hm⟩, -⟩ := NetworkGetArpEntry_loop_some _ _ _ _ _ hr
    have hm1 : arpMatches X { e with Status := { e.Status with IsValid := false } } = true := hm
    refine ⟨ctrl.pArpArray.set idx { e with Status := { e.Status with IsValid := false } }, idx,
      { e with Status := { e.Status with IsValid := false } }, ?_, by simp,
      NetworkGetArpEntry_loop_set _ _ _ _ _ hr hm1, getElem?_set_same _ _ _ _ he, rfl, hm1,
      fun j hj => getElem?_set_other _ _ _ _ (fun h => hj h.symm), ?_⟩
    · simp only [NetworkRequestArp, hget, hctrl, hcd, he, setArp_eq s ctrlId idx _ ctrl hctrl,
        macSend, ETH_HEADER_SIZE, ARP_HEADER_SIZE, Nat.reduceAdd, arpRequestBuffer]
      rfl
    · intro i0 e0 h1 h2
      rw [hr] at h1
      cases h1
      rw [he] at h2
      cases h2
      exact ⟨rfl, rfl⟩
  | none =>
    have hroom2 : ∃ j e, j < cd.ArpEntryNb ∧ ctrl.pArpArray[j]? = some e ∧
        e.Status.IsInitialised = false := by
      rcases hroom with ⟨idx, h⟩ | h
      · rw [hr] at h; cases h
      · exact h
    obtain ⟨j, ej, hj, hej, hinit⟩ := hroom2
    obtain ⟨f, hf, -⟩ := NetworkCreateArpEntry_loop_total ctrl.pArpArray cd.ArpEntryNb 0 (by omega)
    obtain ⟨-, -, hbefore, hat⟩ := NetworkCreateArpEntry_loop_spec _ _ _ _ hf
    have hfk : f < cd.ArpEntryNb := by
      by_contra hge
      obtain ⟨e', he', hi'⟩ := hbefore j (Nat.zero_le _) (by omega)
      rw [hej] at he'
      cases he'
      rw [hinit] at hi'
      cases hi'
    obtain ⟨e, he, -⟩ := hat (by omega)
    have hcreate : NetworkCreateArpEntry s ctrlId = some (some f, s) := by
      simp only [NetworkCreateArpEntry, hctrl, hcd, hf, if_pos hfk]
    let e1 : arp_entry_t :=
      { e with IpAddr := X,
               Status := { e.Status with IsRequested := true, IsInitialised := true,
                                         IsValid := false, HasDecay := false },
               DecayTimer := 0 }
    have hm1 : arpMatches X e1 = true := by simp [arpMatches, e1]
    refine ⟨ctrl.pArpArray.set f e1, f, e1, ?_, by simp,
      NetworkGetArpEntry_loop_fill _ _ _ _ _ _ hr hfk he hm1, getElem?_set_same _ _ _ _ he, rfl,
      hm1, fun j hj => getElem?_set_other _ _ _ _ (fun h => hj h.symm), ?_⟩
    · have hc2 : ∀ c, (setCtrl s ctrlId c).pCtrlInfoList[ctrlId]? = some c :=
        fun c => setCtrl_get s ctrlId c ctrl hctrl
      have hgs : ∀ a, (ctrl.pArpArray.set f a)[f]? = some a :=
        fun a => getElem?_set_same _ _ _ _ he
      have hsa : ∀ c i a, setArp (setCtrl s ctrlId c) ctrlId i a
          = some (setCtrl s ctrlId { c with pArpArray := c.pArpArray.set i a }) := by
        intro c i a
        rw [setArp_eq _ ctrlId i a c (hc2 c), setCtrl_setCtrl]
      simp only [NetworkRequestArp, hget, hcreate, hctrl, he, setArp_eq s ctrlId f _ ctrl hctrl,
        hc2, hcd, hgs, hsa, macSend, ETH_HEADER_SIZE,
        ARP_HEADER_SIZE, Nat.reduceAdd, e1, List.set_set, arpRequestBuffer]
      rfl
    · intro i0 e0 h1
      rw [hr] at h1
      cases h1

/-! ## ARP request emission -/

theorem range_42 : List.range 42 = [0, 1, 2, 3, 4, 5, 6, 7, 8, 9, 10, 11, 12, 13, 14, 15, 16, 17,
    18, 19, 20, 21, 22, 23, 24, 25, 26, 27, 28, 29, 30, 31, 32, 33, 34, 35, 36, 37, 38, 39, 40,
    41] := by
  decide

theorem arpRequestBuffer_frame (ctrl : network_ctrl_info_t) (X : ip_addr) :
    frameOf (arpRequestBuffer ctrl X) 42 = arpRequestFrame ctrl.MacAddr ctrl.IpAddr X := by
  have h1 : UtilsRotrUint16 0x0806 8 = 0x0608 := by decide
  have h2 : UtilsRotrUint16 0x0001 8 = 0x0100 := by decide
  have h3 : UtilsRotrUint16 0x0800 8 = 0x0008 := by decide
  simp only [frameOf, range_42, arpRequestBuffer, h1, h2, h3, List.map, store16, storeBytes,
    mac_addr.toList, ip_addr.toList, List.length_cons, List.length_nil, arpRequestFrame]
  simp

/-- C13: for an IP X in the controller's subnet and an ARP table that can hold an entry for
X (X has an entry, or a slot is free), NetworkCtrlForceRequestARP hands the driver exactly
the 42-byte frame FF FF FF FF FF FF, controller MAC, 08 06, 00 01, 08 00, 06, 04, 00 01,
controller MAC, controller IP, 00 00 00 00 00 00, X, and returns the driver's result; for
an IP outside the subnet it returns false and leaves the state, hence the list of sent
frames, unchanged. -/
theorem force_request_arp_frame (s : network_module_info_t) (ctrlId : Nat)
    (ctrl : network_ctrl_info_t) (cd : network_ctrl_desc_t) (X : ip_addr)
    (hid : ctrlId < s.pInitDesc.CtrlNb)
    (hctrl : s.pCtrlInfoList[ctrlId]? = some ctrl) (hcd : ctrl.pDesc = some cd)
    (hlen : cd.ArpEntryNb ≤ ctrl.pArpArray.length) :
    (NetworkIsIpValid X ctrl.IpAddr ctrl.SubnetMask = true →
      ((∃ idx, NetworkGetArpEntry s ctrlId X = some (some idx)) ∨
        (∃ j e, j < cd.ArpEntryNb ∧ ctrl.pArpArray[j]? = some e ∧
          e.Status.IsInitialised = false)) →
      ∃ s1, NetworkCtrlForceRequestARP s ctrlId (some X) =
          some (cd.ComInterface.MacCtrlSendMsg cd.MacCtrlId
            (arpRequestFrame ctrl.MacAddr ctrl.IpAddr X), s1) ∧
        s1.Sent = s.Sent ++ [(cd.MacCtrlId, arpRequestFrame ctrl.MacAddr ctrl.IpAddr X)] ∧
        (arpRequestFrame ctrl.MacAddr ctrl.IpAddr X).length = 42) ∧
    (NetworkIsIpValid X ctrl.IpAddr ctrl.SubnetMask = false →
      NetworkCtrlForceRequestARP s ctrlId (some X) = some (false, s)) := by
  have hvalid : NetworkCtrlValid s ctrlId = true := by
    simp [NetworkCtrlValid, hid, hctrl, hcd]
  constructor
  · intro hsub hroom
    rw [NetworkGetArpEntry_eq s ctrlId ctrl cd hctrl hcd] at hroom
    obtain ⟨arr1, idx, e1, hreq, -⟩ := NetworkRequestArp_spec s ctrlId ctrl cd X hctrl hcd hlen
      hroom
    rw [arpRequestBuffer_frame] at hreq
    have hres : NetworkCtrlForceRequestARP s ctrlId (some X) = NetworkRequestArp s ctrlId X := by
      simp only [NetworkCtrlForceRequestARP, hctrl, hvalid, hsub, if_true]
    rw [hres, hreq]
    exact ⟨_, rfl, rfl, by simp [arpRequestFrame, mac_addr.toList, ip_addr.toList]⟩
  · intro hsub
    simp [NetworkCtrlForceRequestARP, hctrl, hvalid, hsub]

set_option maxRecDepth 100000 in
/-- C13 (witness): the request for 192.168.2.0 on the module of test_network.c is the frame
`arp_req_int`. -/
theorem force_request_arp_frame_witness :
    ∃ s1, NetworkCtrlForceRequestARP testState 0 (some ⟨192, 168, 2, 0⟩) =
        some (true, s1) ∧ s1.Sent = testState.Sent ++ [(0, arp_req_int)] := by
  obtain ⟨s1, h1, h2, -⟩ := (force_request_arp_frame testState 0 testCtrl testCtrlDesc
    ⟨192, 168, 2, 0⟩ (by decide) rfl rfl (by decide)).1 (by decide) (Or.inl ⟨0, by decide⟩)
  exact ⟨s1, h1, h2⟩

/-! ## ARP reply emission -/

theorem frameOf_congr (a b : Nat → Nat) (n : Nat) (h : ∀ i, i < n → a i = b i) :
    frameOf a n = frameOf b n := by
  unfold frameOf
  apply List.map_congr_left
  intro i hi
  exact h i (List.mem_range.mp hi)

/-- The buffer that `NetworkProcessArpPacket` builds for a request is the reply of
`arpReplyBytes`. -/
theorem arpReply_buffer (pBuffer : Nat → Nat) (mac : mac_addr) (ip : ip_addr) (i : Nat) :
    (let a := ETH_HEADER_SIZE
     let b := store16 pBuffer (a + 6) (SWAP16 ARP_REPLY)
     let b := storeBytes b 0 (mac_addr.ofMem b 6).toList
     let b := storeBytes b 6 mac.toList
     let b := storeBytes b (a + 18) (mac_addr.ofMem b (a + 8)).toList
     let b := storeBytes b (a + 8) mac.toList
     let b := storeBytes b (a + 24) (ip_addr.ofMem b (a + 14)).toList
     storeBytes b (a + 14) ip.toList) i = arpReplyBytes pBuffer mac ip i := by
  have hs : SWAP16 ARP_REPLY = 512 := by decide
  by_cases hi : i < 42
  · simp only [arpReplyBytes, hi, if_true, hs, ETH_HEADER_SIZE, Nat.reduceAdd]
    interval_cases i <;>
      simp [store16, storeBytes, mac_addr.toList, ip_addr.toList, mac_addr.ofMem, ip_addr.ofMem]
  · simp only [arpReplyBytes, hi, if_false, ETH_HEADER_SIZE, Nat.reduceAdd]
    repeat first
      | rw [store16_above _ _ _ _ (by omega)]
      | rw [storeBytes_above _ _ _ _ (by
          simp only [mac_addr.toList, ip_addr.toList, List.length_cons, List.length_nil]; omega)]

/-- C12: for a received ARP frame with opcode 1 whose sender IP is in the controller's
subnet and whose target IP is the controller IP, the controller hands the driver one frame
of the same length with Ethernet destination = the request's Ethernet source, Ethernet
source = controller MAC, opcode 2, sender = (controller MAC, controller IP), target = the
request's sender (MAC, IP) and every other byte unchanged, and returns the driver's
answer; an ARP request for another target IP sends nothing, changes nothing and returns
success. -/
theorem arp_request_is_answered (s : network_module_info_t) (ctrlId : Nat)
    (ctrl : network_ctrl_info_t) (cd : network_ctrl_desc_t) (pBuffer : Nat → Nat)
    (buffSize : Nat)
    (hctrl : s.pCtrlInfoList[ctrlId]? = some ctrl) (hcd : ctrl.pDesc = some cd)
    (hty : pBuffer 12 = 0x08 ∧ pBuffer 13 = 0x06)
    (hop : pBuffer 20 = 0x00 ∧ pBuffer 21 = 0x01) :
    (NetworkIsIpValid (ip_addr.ofMem pBuffer 28) ctrl.IpAddr ctrl.SubnetMask = true →
      ip_addr.ofMem pBuffer 38 = ctrl.IpAddr →
      ∃ b, NetworkProcessEthPacket s ctrlId pBuffer buffSize =
        some (cd.ComInterface.MacCtrlSendMsg cd.MacCtrlId
            (frameOf (arpReplyBytes pBuffer ctrl.MacAddr ctrl.IpAddr) buffSize),
          { s with Sent := s.Sent ++
              [(cd.MacCtrlId, frameOf (arpReplyBytes pBuffer ctrl.MacAddr ctrl.IpAddr) buffSize)] },
          b) ∧
        (frameOf (arpReplyBytes pBuffer ctrl.MacAddr ctrl.IpAddr) buffSize).length = buffSize) ∧
    (ip_addr.ofMem pBuffer 38 ≠ ctrl.IpAddr →
      NetworkProcessEthPacket s ctrlId pBuffer buffSize = some (true, s, pBuffer)) := by
  have hproto : SWAP16 (load16 pBuffer 12) = ETH_PROT_ARP := by
    simp only [load16, hty.1, hty.2]; decide
  have hoper : SWAP16 (load16 pBuffer 20) = ARP_REQUEST := by
    simp only [load16, hop.1, hop.2]; decide
  constructor
  · intro hsub htarget
    have hfr := frameOf_congr _ _ buffSize
      (fun i _ => arpReply_buffer pBuffer ctrl.MacAddr ctrl.IpAddr i)
    simp only [ETH_HEADER_SIZE, Nat.reduceAdd] at hfr
    suffices h : ∃ b, NetworkProcessEthPacket s ctrlId pBuffer buffSize =
        some (cd.ComInterface.MacCtrlSendMsg cd.MacCtrlId
            (frameOf (arpReplyBytes pBuffer ctrl.MacAddr ctrl.IpAddr) buffSize),
          { s with Sent := s.Sent ++
              [(cd.MacCtrlId, frameOf (arpReplyBytes pBuffer ctrl.MacAddr ctrl.IpAddr) buffSize)] },
          b) by
      obtain ⟨b, hb⟩ := h
      exact ⟨b, hb, by simp [frameOf]⟩
    simp only [NetworkProcessEthPacket, hproto, if_true, NetworkProcessArpPacket, hctrl,
      ETH_HEADER_SIZE, Nat.reduceAdd, hoper, hsub, htarget, hcd, macSend, hfr]
    exact ⟨_, rfl⟩
  · intro htarget
    simp only [NetworkProcessEthPacket, hproto, if_true, NetworkProcessArpPacket, hctrl,
      ETH_HEADER_SIZE, Nat.reduceAdd, hoper]
    rw [if_neg htarget]
    split_ifs <;> rfl

set_option maxRecDepth 100000 in
/-- C12 (witness): the frame `arp_req_ext` of test_network.c is answered by the frame
`arp_reply_int`. -/
theorem arp_request_is_answered_witness :
    ∃ b, NetworkProcessEthPacket testState 0 (bufOf arp_req_ext) 42 =
      some (true, { testState with Sent := testState.Sent ++ [(0, arp_reply_int)] }, b) := by
  obtain ⟨b, h, -⟩ := (arp_request_is_answered testState 0 testCtrl testCtrlDesc
    (bufOf arp_req_ext) 42 rfl rfl ⟨rfl, rfl⟩ ⟨rfl, rfl⟩).1 (by decide) (by decide)
  exact ⟨b, h⟩

/-! ## ARP round trip -/

/-- One transmit attempt on a datagram-mode port whose head message goes to a resolved
destination: the frame handed to the driver, whatever the driver answers. -/
theorem NetworkProcessSendMsg_frame (s : network_module_info_t) (portId : Nat)
    (port : network_port_info_t) (pd : network_port_desc_t) (ctrl : network_ctrl_info_t)
    (cd : network_ctrl_desc_t) (df : fifo_desc_t network_msg_desc_t) (bf : fifo_desc_t Nat)
    (n : Nat) (ip D : ip_addr) (rest : List network_msg_desc_t) (idx : Nat) (e : arp_entry_t)
    (pBuffer : Nat → Nat)
    (hport : s.pPortInfoList[portId]? = some port) (hmode : port.IsVirtualComTx = false)
    (hdf : port.pFifoTxMsgDesc = some df) (hdwf : FifoWf df)
    (hhead : FifoItems df = { MsgSize := n, IpAddr := ip } :: rest)
    (hD : D = if ip = ip_addr.zero then port.DstIpAddr else ip)
    (hn : n ≤ 1472)
    (hbf : port.pFifoTxMsg = some bf) (hbwf : FifoWf bf) (hcount : n ≤ FifoItemCount (some bf))
    (hpd : port.pDesc = some pd) (hctrl : s.pCtrlInfoList[pd.NetworkCtrlId]? = some ctrl)
    (hcd : ctrl.pDesc = some cd)
    (hsub : NetworkIsIpValid D ctrl.IpAddr ctrl.SubnetMask = true)
    (hnb : NetworkIsIpBroadcast D ctrl.IpAddr ctrl.SubnetMask = false)
    (harp : NetworkGetArpEntry s pd.NetworkCtrlId D = some (some idx))
    (hentry : ctrl.pArpArray[idx]? = some e) (hvalid : e.Status.IsValid = true)
    (hlp : port.InPortNb < 65536) (hrp : port.OutPortNb < 65536) :
    ∃ s1 b1, NetworkProcessSendMsg s portId pBuffer =
        some (cd.ComInterface.MacCtrlSendMsg cd.MacCtrlId
          (udpFrame e.MacAddr ctrl.MacAddr ctrl.IpAddr D port.InPortNb port.OutPortNb
            ((FifoItems bf).take n)), s1, b1) ∧
      s1.Sent = s.Sent ++ [(cd.MacCtrlId,
        udpFrame e.MacAddr ctrl.MacAddr ctrl.IpAddr D port.InPortNb port.OutPortNb
          ((FifoItems bf).take n))] ∧
      (cd.ComInterface.MacCtrlSendMsg cd.MacCtrlId
          (udpFrame e.MacAddr ctrl.MacAddr ctrl.IpAddr D port.InPortNb port.OutPortNb
            ((FifoItems bf).take n)) = true →
        s1.pPortInfoList = s.pPortInfoList.set portId (consumeTxMsg port n)) ∧
      (cd.ComInterface.MacCtrlSendMsg cd.MacCtrlId
          (udpFrame e.MacAddr ctrl.MacAddr ctrl.IpAddr D port.InPortNb port.OutPortNb
            ((FifoItems bf).take n)) = false →
        s1.pPortInfoList = s.pPortInfoList) := by
  have hcntd : 1 ≤ FifoGetItemCount df.ReadCount df.WriteCount := by
    rw [← FifoItems_length, hhead]; simp
  have hrd := FifoRead_ok df hdwf
    (fun _ => ({ MsgSize := 0, IpAddr := ip_addr.zero } : network_msg_desc_t)) 1 false hcntd
  have hd0 := FifoReadDest_head df
    (fun _ => ({ MsgSize := 0, IpAddr := ip_addr.zero } : network_msg_desc_t)) _ _ hhead
  have hinfo : sendMsgInfo port = some (n, D) := by
    simp only [sendMsgInfo, hmode, hdf, hrd, hd0, hD]
    by_cases hz : ip = ip_addr.zero
    · simp [hz]
    · have hz2 : ip_addr.zero ≠ ip := fun h => hz h.symm
      simp [hz, hz2]
  have hmin : (if n < ETHERNET_MAX_DATA_SIZE then n else ETHERNET_MAX_DATA_SIZE) = n := by
    simp only [ETHERNET_MAX_DATA_SIZE]; split_ifs <;> omega
  have hcount2 : n ≤ FifoGetItemCount bf.ReadCount bf.WriteCount := hcount
  have hrb := FifoRead_ok bf hbwf (ptrAdd pBuffer NETWORK_HEADER_SIZE) n false hcount2
  have hpay : (List.range n).map (fun j =>
      ptrStore pBuffer NETWORK_HEADER_SIZE
        (FifoReadDest bf (ptrAdd pBuffer NETWORK_HEADER_SIZE) n) (42 + j))
      = (FifoItems bf).take n := by
    rw [← FifoReadDest_take bf (ptrAdd pBuffer NETWORK_HEADER_SIZE) n hcount2]
    apply List.map_congr_left
    intro j _
    simp [ptrStore, NETWORK_HEADER_SIZE]
  obtain ⟨b, hsend⟩ := NetworkSendUdpPacket_frame s pd.NetworkCtrlId ctrl cd idx e
    (ptrStore pBuffer NETWORK_HEADER_SIZE (FifoReadDest bf (ptrAdd pBuffer NETWORK_HEADER_SIZE) n))
    D port.InPortNb port.OutPortNb n hctrl hcd harp hentry hvalid hnb hlp hrp hn
  rw [hpay] at hsend
  simp only [NetworkInitMsgInfo] at hsend
  cases hans : cd.ComInterface.MacCtrlSendMsg cd.MacCtrlId
      (udpFrame e.MacAddr ctrl.MacAddr ctrl.IpAddr D port.InPortNb port.OutPortNb
        ((FifoItems bf).take n)) with
  | true =>
    rw [hans] at hsend
    have hres : NetworkProcessSendMsg s portId pBuffer = some (true,
        setPort { s with Sent := s.Sent ++ [(cd.MacCtrlId,
            udpFrame e.MacAddr ctrl.MacAddr ctrl.IpAddr D port.InPortNb port.OutPortNb
              ((FifoItems bf).take n))] } portId (consumeTxMsg port n), b) := by
      simp only [NetworkProcessSendMsg, hport, hinfo, hmin, hpd, hctrl, hsub, if_true,
        NetworkInitMsgInfo, harp, hentry, hvalid, hnb, Bool.false_or, hbf, hrb]
      rw [hsend]
    exact ⟨_, b, hres, by simp [setPort], fun _ => by simp [setPort], fun h => (by cases h)⟩
  | false =>
    rw [hans] at hsend
    have hres : NetworkProcessSendMsg s portId pBuffer = some (false,
        { s with Sent := s.Sent ++ [(cd.MacCtrlId,
            udpFrame e.MacAddr ctrl.MacAddr ctrl.IpAddr D port.InPortNb port.OutPortNb
              ((FifoItems bf).take n))] }, b) := by
      simp only [NetworkProcessSendMsg, hport, hinfo, hmin, hpd, hctrl, hsub, if_true,
        NetworkInitMsgInfo, harp, hentry, hvalid, hnb, Bool.false_or, hbf, hrb]
      rw [hsend]
    exact ⟨_, b, hres, rfl, fun h => (by cases h), fun _ => rfl⟩

/-- `NetworkStoreArp` on an address whose entry is not valid completes that entry. -/
theorem NetworkStoreArp_complete (s : network_module_info_t) (ctrlId : Nat)
    (ctrl : network_ctrl_info_t) (cd : network_ctrl_desc_t) (X : ip_addr) (M : mac_addr)
    (hasDecay : Bool) (idx : Nat) (e : arp_entry_t)
    (hctrl : s.pCtrlInfoList[ctrlId]? = some ctrl) (hcd : ctrl.pDesc = some cd)
    (hget : NetworkGetArpEntry.loop ctrl.pArpArray X 0 cd.ArpEntryNb = some (some idx))
    (he : ctrl.pArpArray[idx]? = some e) (hinv : e.Status.IsValid = false) :
    NetworkStoreArp s ctrlId X M hasDecay = some (true, setCtrl s ctrlId
      { ctrl with pArpArray := (ctrl.pArpArray.set idx
          { e with MacAddr := M,
                   Status := { e.Status with IsValid := true, HasDecay := hasDecay },
                   DecayTimer := s.pInitDesc.GenInterface.pFnTimerGetTime }) }) := by
  simp only [NetworkStoreArp, NetworkGetArpEntry_eq s ctrlId ctrl cd hctrl hcd, hget, hctrl, he,
    hinv, Bool.not_false, if_true, setArp_eq s ctrlId idx _ ctrl hctrl]

set_option maxRecDepth 100000 in
/-- C11 (counterexample): X = 192.168.2.255 is in the subnet of the test controller and
has no entry; after NetworkCtrlForceRequestARP(X) and an ARP reply whose sender is
(X, 11:22:44:55:88:aa), NetworkCtrlIsArpValid(X) is true, and the next UDP message sent
to X leaves with the Ethernet destination ff:ff:ff:ff:ff:ff, not with the learned MAC. -/
theorem arp_round_trip_sends_broadcast_to_broadcast_address :
    NetworkIsIpValid bcastIp ⟨192, 168, 2, 101⟩ ⟨255, 255, 255, 0⟩ = true ∧
    NetworkGetArpEntry portState 0 bcastIp = some none ∧
    (bcastTripState.bind fun s => NetworkCtrlIsArpValid s 0 (some bcastIp)) = some true ∧
    (bcastTripState.bind fun s =>
      (NetworkProcessSendMsg s 0 s.pBuffer).map fun r => (r.1, r.2.1.Sent.getLast?))
      = some (true, some (0, udp_tx_bcast)) ∧
    udp_tx_bcast.take 6 ≠ (⟨0x11, 0x22, 0x44, 0x55, 0x88, 0xaa⟩ : mac_addr).toList := by
  decide

/-- C11 (amended): for an IP X of the controller's subnet, other than the subnet broadcast
address, with no entry in a table that has a free slot: after NetworkCtrlForceRequestARP(X)
the entry of X is not valid; after the controller then processes an ARP reply (type 08 06,
opcode 00 02) whose sender is (X, M), NetworkCtrlIsArpValid(X) returns true, and the next
transmit attempt of a datagram-mode port whose head message goes to X hands the driver a
UDP frame whose Ethernet destination is M. -/
theorem arp_round_trip (s : network_module_info_t) (ctrlId : Nat)
    (ctrl : network_ctrl_info_t) (cd : network_ctrl_desc_t) (X : ip_addr) (M : mac_addr)
    (reply : Nat → Nat) (buffSize : Nat)
    (portId : Nat) (port : network_port_info_t) (pd : network_port_desc_t)
    (df : fifo_desc_t network_msg_desc_t) (bf : fifo_desc_t Nat) (n : Nat) (ip : ip_addr)
    (rest : List network_msg_desc_t) (pb : Nat → Nat)
    (hid : ctrlId < s.pInitDesc.CtrlNb)
    (hctrl : s.pCtrlInfoList[ctrlId]? = some ctrl) (hcd : ctrl.pDesc = some cd)
    (hlen : cd.ArpEntryNb ≤ ctrl.pArpArray.length)
    (hsub : NetworkIsIpValid X ctrl.IpAddr ctrl.SubnetMask = true)
    (hnb : NetworkIsIpBroadcast X ctrl.IpAddr ctrl.SubnetMask = false)
    (hnone : NetworkGetArpEntry s ctrlId X = some none)
    (hfree : ∃ j e, j < cd.ArpEntryNb ∧ ctrl.pArpArray[j]? = some e ∧
      e.Status.IsInitialised = false)
    (hty : reply 12 = 0x08 ∧ reply 13 = 0x06) (hop : reply 20 = 0x00 ∧ reply 21 = 0x02)
    (hsmac : mac_addr.ofMem reply 22 = M) (hsip : ip_addr.ofMem reply 28 = X)
    (hport : s.pPortInfoList[portId]? = some port) (hmode : port.IsVirtualComTx = false)
    (hdf : port.pFifoTxMsgDesc = some df) (hdwf : FifoWf df)
    (hhead : FifoItems df = { MsgSize := n, IpAddr := ip } :: rest)
    (hD : X = if ip = ip_addr.zero then port.DstIpAddr else ip)
    (hn : n ≤ 1472)
    (hbf : port.pFifoTxMsg = some bf) (hbwf : FifoWf bf) (hcount : n ≤ FifoItemCount (some bf))
    (hpd : port.pDesc = some pd) (hpc : pd.NetworkCtrlId = ctrlId)
    (hlp : port.InPortNb < 65536) (hrp : port.OutPortNb < 65536) :
    ∃ r s1 s2 ans s3 b3,
      NetworkCtrlForceRequestARP s ctrlId (some X) = some (r, s1) ∧
      NetworkCtrlIsArpValid s1 ctrlId (some X) = some false ∧
      NetworkProcessEthPacket s1 ctrlId reply buffSize = some (true, s2, reply) ∧
      NetworkCtrlIsArpValid s2 ctrlId (some X) = some true ∧
      NetworkProcessSendMsg s2 portId pb = some (ans, s3, b3) ∧
      s3.Sent = s2.Sent ++ [(cd.MacCtrlId,
        udpFrame M ctrl.MacAddr ctrl.IpAddr X port.InPortNb port.OutPortNb
          ((FifoItems bf).take n))] ∧
      (udpFrame M ctrl.MacAddr ctrl.IpAddr X port.InPortNb port.OutPortNb
        ((FifoItems bf).take n)).take 6 = M.toList := by
  have hvalid : NetworkCtrlValid s ctrlId = true := by
    simp [NetworkCtrlValid, hid, hctrl, hcd]
  have hroom : (∃ i, NetworkGetArpEntry.loop ctrl.pArpArray X 0 cd.ArpEntryNb = some (some i)) ∨
      (∃ j e, j < cd.ArpEntryNb ∧ ctrl.pArpArray[j]? = some e ∧
        e.Status.IsInitialised = false) := by
    rw [NetworkGetArpEntry_eq s ctrlId ctrl cd hctrl hcd] at hnone
    exact Or.inr hfree
  -- the request
  obtain ⟨arr1, idx, e1, hreq, hlen1, hget1, he1, hinv1, hm1, -, -⟩ :=
    NetworkRequestArp_spec s ctrlId ctrl cd X hctrl hcd hlen hroom
  have hforce : NetworkCtrlForceRequestARP s ctrlId (some X) = NetworkRequestArp s ctrlId X := by
    simp only [NetworkCtrlForceRequestARP, hctrl, hvalid, hsub, if_true]
  generalize hs1 : ({ setCtrl s ctrlId { ctrl with pArpArray := arr1 } with
      Sent := s.Sent ++ [(cd.MacCtrlId, frameOf (arpRequestBuffer ctrl X) 42)] }
      : network_module_info_t) = s1 at hreq
  have hctrl1 : s1.pCtrlInfoList[ctrlId]? = some { ctrl with pArpArray := arr1 } := by
    rw [← hs1]; exact setCtrl_get s ctrlId _ ctrl hctrl
  have hid1 : ctrlId < s1.pInitDesc.CtrlNb := by rw [← hs1]; exact hid
  have hports1 : s1.pPortInfoList = s.pPortInfoList := by rw [← hs1]; rfl
  have hvalid1 : NetworkCtrlValid s1 ctrlId = true := by
    simp [NetworkCtrlValid, hid1, hctrl1, hcd]
  have hav1 : NetworkCtrlIsArpValid s1 ctrlId (some X) = some false := by
    simp only [NetworkCtrlIsArpValid, hvalid1, if_true, hctrl1,
      NetworkGetArpEntry_eq s1 ctrlId _ cd hctrl1 hcd, hget1, he1, hinv1]
  -- the reply
  have hproto : SWAP16 (load16 reply 12) = ETH_PROT_ARP := by
    simp only [load16, hty.1, hty.2]; decide
  have hoper : SWAP16 (load16 reply 20) = ARP_REPLY := by
    simp only [load16, hop.1, hop.2]; decide
  have hne : ¬ (ARP_REPLY = ARP_REQUEST) := by decide
  have hstore := NetworkStoreArp_complete s1 ctrlId { ctrl with pArpArray := arr1 } cd X M false
    idx e1 hctrl1 hcd hget1 he1 hinv1
  generalize hs2 : setCtrl s1 ctrlId _ = s2 at hstore
  have hrep : NetworkProcessEthPacket s1 ctrlId reply buffSize = some (true, s2, reply) := by
    simp only [NetworkProcessEthPacket, hproto, if_true, NetworkProcessArpPacket, hctrl1,
      ETH_HEADER_SIZE, Nat.reduceAdd, hoper, hne, if_false, hsip, hsub, hsmac, hstore]
  let e2 : arp_entry_t :=
    { e1 with MacAddr := M, Status := { e1.Status with IsValid := true, HasDecay := false },
              DecayTimer := s1.pInitDesc.GenInterface.pFnTimerGetTime }
  have hctrl2 : s2.pCtrlInfoList[ctrlId]? = some { ctrl with pArpArray := arr1.set idx e2 } := by
    rw [← hs2]; exact setCtrl_get s1 ctrlId _ _ hctrl1
  have hid2 : ctrlId < s2.pInitDesc.CtrlNb := by rw [← hs2]; exact hid1
  have hports2 : s2.pPortInfoList = s.pPortInfoList := by rw [← hs2]; exact hports1
  have hvalid2 : NetworkCtrlValid s2 ctrlId = true := by
    simp [NetworkCtrlValid, hid2, hctrl2, hcd]
  have hget2 : NetworkGetArpEntry.loop (arr1.set idx e2) X 0 cd.ArpEntryNb = some (some idx) :=
    NetworkGetArpEntry_loop_set _ _ _ _ _ hget1 hm1
  have he2 : (arr1.set idx e2)[idx]? = some e2 := getElem?_set_same _ _ _ _ he1
  have hav2 : NetworkCtrlIsArpValid s2 ctrlId (some X) = some true := by
    simp only [NetworkCtrlIsArpValid, hvalid2, if_true, hctrl2,
      NetworkGetArpEntry_eq s2 ctrlId _ cd hctrl2 hcd, hget2, he2, e2]
  -- the transmission
  subst hpc
  obtain ⟨s3, b3, hsend, hsent, -, -⟩ := NetworkProcessSendMsg_frame s2 portId port pd
    { ctrl with pArpArray := arr1.set idx e2 } cd df bf n ip X rest idx e2 pb
    (by rw [hports2]; exact hport) hmode hdf hdwf hhead hD hn hbf hbwf hcount hpd hctrl2 hcd hsub
    hnb (by rw [NetworkGetArpEntry_eq s2 _ _ cd hctrl2 hcd]; exact hget2) he2 rfl hlp hrp
  refine ⟨_, s1, s2, _, s3, b3, by rw [hforce]; exact hreq, hav1, hrep, hav2, hsend, hsent, ?_⟩
  simp [udpFrame, mac_addr.toList]

theorem FifoWf_pendingBytes : FifoWf pendingBytes :=
  ⟨by decide, by decide, by decide, by decide, by decide, by decide⟩

theorem FifoWf_pendingDescs : FifoWf pendingDescs :=
  ⟨by decide, by decide, by decide, by decide, by decide, by decide⟩

set_option maxRecDepth 100000 in
/-- C11 (witness): the exchange of test_network.c: request for 192.168.2.0, the reply
`arp_reply_ext`, and the pending byte 0x55 leaves in the frame `udp_tx_byte`, whose
Ethernet destination is 11:22:44:55:88:aa. -/
theorem arp_round_trip_witness :
    ∃ r s1 s2 ans s3 b3,
      NetworkCtrlForceRequestARP pendingState 0 (some ⟨192, 168, 2, 0⟩) = some (r, s1) ∧
      NetworkProcessEthPacket s1 0 (bufOf arp_reply_ext) 42 = some (true, s2, bufOf arp_reply_ext) ∧
      NetworkCtrlIsArpValid s2 0 (some ⟨192, 168, 2, 0⟩) = some true ∧
      NetworkProcessSendMsg s2 0 pendingState.pBuffer = some (ans, s3, b3) ∧
      s3.Sent = s2.Sent ++ [(0, udp_tx_byte)] := by
  obtain ⟨r, s1, s2, ans, s3, b3, h1, -, h3, h4, h5, h6, -⟩ := arp_round_trip pendingState 0
    pendingCtrl testCtrlDesc ⟨192, 168, 2, 0⟩ ⟨0x11, 0x22, 0x44, 0x55, 0x88, 0xaa⟩
    (bufOf arp_reply_ext) 42 0 pendingPort testPortDesc pendingDescs pendingBytes 1
    ⟨192, 168, 2, 0⟩ [] pendingState.pBuffer (by decide) rfl rfl (by decide) (by decide)
    (by decide) (by decide) ⟨0, arp_entry_t.zero, by decide, rfl, rfl⟩ ⟨rfl, rfl⟩ ⟨rfl, rfl⟩
    rfl rfl rfl rfl rfl FifoWf_pendingDescs (by decide) (by decide) (by decide) rfl
    FifoWf_pendingBytes (by decide) rfl rfl (by decide) (by decide)
  exact ⟨r, s1, s2, ans, s3, b3, h1, h3, h4, h5, h6⟩

/-! ## ARP decay sweep -/

theorem NetworkCtrlArpDecayProcess_loop_spec (isPassed : Nat → Bool) (k : Nat) :
    ∀ (arr : List arp_entry_t) (i : Nat), i + k ≤ arr.length →
      ∃ arr1, NetworkCtrlArpDecayProcess.loop isPassed arr i k = some arr1 ∧
        ∀ j, arr1[j]? =
          if i ≤ j ∧ j < i + k then (arr[j]?).map (decayUpdate isPassed) else arr[j]? := by
  induction k with
  | zero =>
    intro arr i _
    refine ⟨arr, rfl, fun j => ?_⟩
    rw [if_neg (by omega)]
  | succ k ih =>
    intro arr i h
    have hi : i < arr.length := by omega
    have hstep : (if (arr[i].Status.HasDecay && arr[i].Status.IsValid) = true then
          if isPassed (add32 arr[i].DecayTimer NETWORK_ARP_DECAY_TIME) = true then
            arr.set i arp_entry_t.zero
          else arr
        else arr) = arr.set i (decayUpdate isPassed arr[i]) := by
      unfold decayUpdate
      have hself : arr.set i arr[i] = arr :=
        set_self_of_getElem? arr i arr[i] (List.getElem?_eq_getElem hi)
      split_ifs <;> simp_all
    obtain ⟨arr1, h1, h2⟩ := ih (arr.set i (decayUpdate isPassed arr[i])) (i + 1)
      (by simp only [List.length_set]; omega)
    refine ⟨arr1, ?_, fun j => ?_⟩
    · simp only [NetworkCtrlArpDecayProcess.loop, List.getElem?_eq_getElem hi, hstep]
      exact h1
    · rw [h2 j]
      by_cases hj : j = i
      · subst hj
        rw [if_neg (by omega), if_pos (by omega), List.getElem?_eq_getElem hi]
        exact getElem?_set_same _ _ _ _ (List.getElem?_eq_getElem hi)
      · rw [getElem?_set_other _ _ _ _ (fun h => hj h.symm)]
        by_cases hr : i + 1 ≤ j ∧ j < i + 1 + k
        · rw [if_pos hr, if_pos (by omega)]
        · rw [if_neg hr, if_neg (by omega)]

/-- C14 (amended): for an ARP entry with lastSeen = t, in a decay sweep that runs (its
cooldown having elapsed) at clock value now with isPassed(d) meaning now >= d: when the
entry is valid and subject to decay and t + 60000 < 2^32, the sweep clears it iff
now >= t + 60000 (evicted at now = t + 60000, retained at now = t + 59999); an entry that
is not subject to decay or not valid is never cleared by the sweep. -/
theorem arp_decay_boundary (s : network_module_info_t) (ctrlId : Nat)
    (ctrl : network_ctrl_info_t) (cd : network_ctrl_desc_t) (now idx t : Nat) (e : arp_entry_t)
    (hid : ctrlId < s.pInitDesc.CtrlNb)
    (hctrl : s.pCtrlInfoList[ctrlId]? = some ctrl) (hcd : ctrl.pDesc = some cd)
    (hlen : cd.ArpEntryNb ≤ ctrl.pArpArray.length)
    (hclock : ∀ d, s.pInitDesc.GenInterface.pFnTimerIsPassed d = decide (d ≤ now))
    (hcool : ctrl.TimerDecayARP ≤ now)
    (hidx : idx < cd.ArpEntryNb) (he : ctrl.pArpArray[idx]? = some e)
    (ht : e.DecayTimer = t) :
    ∃ s1 c1, NetworkCtrlArpDecayProcess s ctrlId = some s1 ∧
      s1.pCtrlInfoList[ctrlId]? = some c1 ∧
      (e.Status.IsValid = true → e.Status.HasDecay = true → t + 60000 < 4294967296 →
        (t + 60000 ≤ now → c1.pArpArray[idx]? = some arp_entry_t.zero) ∧
        (now < t + 60000 → c1.pArpArray[idx]? = some e)) ∧
      (e.Status.HasDecay = false ∨ e.Status.IsValid = false → c1.pArpArray[idx]? = some e) := by
  have hvalid : NetworkCtrlValid s ctrlId = true := by
    simp [NetworkCtrlValid, hid, hctrl, hcd]
  obtain ⟨arr1, hloop, hspec⟩ := NetworkCtrlArpDecayProcess_loop_spec
    s.pInitDesc.GenInterface.pFnTimerIsPassed cd.ArpEntryNb ctrl.pArpArray 0 (by omega)
  have hres : NetworkCtrlArpDecayProcess s ctrlId = some (setCtrl s ctrlId
      { ctrl with
          TimerDecayARP := add32 s.pInitDesc.GenInterface.pFnTimerGetTime NETWORK_ARP_DECAY_COOLDOWN,
          pArpArray := arr1 }) := by
    simp only [NetworkCtrlArpDecayProcess, hvalid, if_true, hctrl, hclock, hcool, decide_True,
      hcd, hloop]
  refine ⟨_, _, hres, setCtrl_get s ctrlId _ ctrl hctrl, ?_, ?_⟩
  · intro hv hd hwrap
    have hadd : add32 e.DecayTimer NETWORK_ARP_DECAY_TIME = t + 60000 := by
      rw [ht]; exact add32_eq hwrap
    constructor
    · intro hpast
      show arr1[idx]? = _
      rw [hspec idx, if_pos ⟨Nat.zero_le _, by omega⟩, he]
      simp [decayUpdate, hv, hd, hadd, hclock, hpast]
    · intro hbefore
      show arr1[idx]? = _
      rw [hspec idx, if_pos ⟨Nat.zero_le _, by omega⟩, he]
      have : ¬ (t + 60000 ≤ now) := by omega
      simp [decayUpdate, hv, hd, hadd, hclock, this]
  · intro hno
    show arr1[idx]? = _
    rw [hspec idx, if_pos ⟨Nat.zero_le _, by omega⟩, he]
    rcases hno with h | h <;> simp [decayUpdate, h]

set_option maxRecDepth 100000 in
/-- C14 (counterexample): an entry subject to decay with lastSeen = t = 4294907296 is
valid when the clock reads now = t + 59999 = 4294967295, and the sweep that runs at that
clock value clears it: t + 60000 wraps to 0 in 32 bits, and now >= 0. -/
theorem arp_decay_evicts_early_when_deadline_wraps :
    firstArpEntry (decayState 4294907296 4294967295) =
      some { DecayTimer := 4294907296, MacAddr := ⟨0x11, 0x22, 0x44, 0x55, 0x88, 0xaa⟩,
             IpAddr := ⟨192, 168, 2, 0⟩,
             Status := { IsInitialised := true, IsValid := true, IsRequested := true,
                         HasDecay := true } } ∧
    4294967295 = 4294907296 + 59999 ∧
    (decayState 4294907296 4294967295).pInitDesc.GenInterface.pFnTimerGetTime = 4294967295 ∧
    ((NetworkCtrlArpDecayProcess (decayState 4294907296 4294967295) 0).bind firstArpEntry)
      = some arp_entry_t.zero := by
  decide

set_option maxRecDepth 100000 in
/-- C14 (witness): the entry of test_network.c, entered at clock 0, is cleared by the
sweep at clock 60000 and kept by the sweep at clock 59999. -/
theorem arp_decay_boundary_witness :
    (∃ s1 c1, NetworkCtrlArpDecayProcess (decayState 0 60000) 0 = some s1 ∧
      s1.pCtrlInfoList[0]? = some c1 ∧ c1.pArpArray[0]? = some arp_entry_t.zero) ∧
    (∃ s1 c1, NetworkCtrlArpDecayProcess (decayState 0 59999) 0 = some s1 ∧
      s1.pCtrlInfoList[0]? = some c1 ∧ c1.pArpArray[0]? ≠ some arp_entry_t.zero) := by
  constructor
  · obtain ⟨s1, c1, h1, h2, h3, -⟩ := arp_decay_boundary (decayState 0 60000) 0
      ((decayState 0 60000).pCtrlInfoList.getD 0 network_ctrl_info_t.zero) testCtrlDesc 60000 0 0
      { DecayTimer := 0, MacAddr := ⟨0x11, 0x22, 0x44, 0x55, 0x88, 0xaa⟩,
        IpAddr := ⟨192, 168, 2, 0⟩,
        Status := { IsInitialised := true, IsValid := true, IsRequested := true,
                    HasDecay := true } }
      (by decide) rfl rfl (by decide) (fun _ => rfl) (by decide) (by decide) (by decide) rfl
    exact ⟨s1, c1, h1, h2, (h3 rfl rfl (by decide)).1 (by decide)⟩
  · obtain ⟨s1, c1, h1, h2, h3, -⟩ := arp_decay_boundary (decayState 0 59999) 0
      ((decayState 0 59999).pCtrlInfoList.getD 0 network_ctrl_info_t.zero) testCtrlDesc 59999 0 0
      { DecayTimer := 0, MacAddr := ⟨0x11, 0x22, 0x44, 0x55, 0x88, 0xaa⟩,
        IpAddr := ⟨192, 168, 2, 0⟩,
        Status := { IsInitialised := true, IsValid := true, IsRequested := true,
                    HasDecay := true } }
      (by decide) rfl rfl (by decide) (fun _ => rfl) (by decide) (by decide) (by decide) rfl
    refine ⟨s1, c1, h1, h2, ?_⟩
    rw [(h3 rfl rfl (by decide)).2 (by decide)]
    decide

/-! ## ICMP echo request emission -/

theorem range_34 : List.range 34 = [0, 1, 2, 3, 4, 5, 6, 7, 8, 9, 10, 11, 12, 13, 14, 15, 16, 17,
    18, 19, 20, 21, 22, 23, 24, 25, 26, 27, 28, 29, 30, 31, 32, 33] := by
  decide

set_option maxRecDepth 100000 in
/-- C16 (counterexample): 192.168.2.255 has a valid ARP entry with MAC 11:22:44:55:88:aa,
and NetworkCtrlSendPingIcmp(192.168.2.255) hands the driver a frame whose Ethernet
destination is ff:ff:ff:ff:ff:ff. -/
theorem send_ping_icmp_to_broadcast_address_ignores_arp_entry :
    (bcastArpState.bind firstArpEntry) =
      some { DecayTimer := 0, MacAddr := ⟨0x11, 0x22, 0x44, 0x55, 0x88, 0xaa⟩, IpAddr := bcastIp,
             Status := { IsInitialised := true, IsValid := true, IsRequested := true,
                         HasDecay := false } } ∧
    (bcastArpState.bind fun s => NetworkCtrlIsArpValid s 0 (some bcastIp)) = some true ∧
    (bcastArpState.bind fun s =>
      (NetworkCtrlSendPingIcmp s 0 (some bcastIp)).map fun r => (r.1, r.2.Sent.getLast?))
      = some (true, some (0, icmp_req_bcast)) ∧
    icmp_req_bcast ≠ icmpEchoFrame ⟨0x11, 0x22, 0x44, 0x55, 0x88, 0xaa⟩
      ⟨0x01, 0x23, 0x45, 0x67, 0x89, 0xab⟩ ⟨192, 168, 2, 101⟩ bcastIp := by
  decide

/-- The controller entry after `NetworkSendIcmpEchoRequest`: reply flag reset, send time
recorded. -/
theorem NetworkSendIcmpEchoRequest_spec (s : network_module_info_t) (ctrlId : Nat)
    (ctrl : network_ctrl_info_t) (cd : network_ctrl_desc_t) (D : ip_addr)
    (hctrl : s.pCtrlInfoList[ctrlId]? = some ctrl) (hcd : ctrl.pDesc = some cd)
    (hnb : NetworkIsIpBroadcast D ctrl.IpAddr ctrl.SubnetMask = false)
    (r : Option Nat) (hget : NetworkGetArpEntry s ctrlId D = some r) :
    (∀ idx e, r = some idx → ctrl.pArpArray[idx]? = some e → e.Status.IsValid = true →
      NetworkSendIcmpEchoRequest s ctrlId D =
        some (cd.ComInterface.MacCtrlSendMsg cd.MacCtrlId
            (icmpEchoFrame e.MacAddr ctrl.MacAddr ctrl.IpAddr D),
          { setCtrl s ctrlId { ctrl with
                IcmpReplyReceived := false,
                IcmpReplyDelay := s.pInitDesc.GenInterface.pFnTimerGetTime } with
            Sent := s.Sent ++ [(cd.MacCtrlId,
              icmpEchoFrame e.MacAddr ctrl.MacAddr ctrl.IpAddr D)] })) ∧
    ((∀ idx e, r = some idx → ctrl.pArpArray[idx]? = some e → e.Status.IsValid = false) →
      (∀ idx, r = some idx → idx < ctrl.pArpArray.length) →
      NetworkSendIcmpEchoRequest s ctrlId D =
        some (false, setCtrl s ctrlId { ctrl with
                IcmpReplyReceived := false,
                IcmpReplyDelay := s.pInitDesc.GenInterface.pFnTimerGetTime })) := by
  have hc2 : ∀ c, (setCtrl s ctrlId c).pCtrlInfoList[ctrlId]? = some c :=
    fun c => setCtrl_get s ctrlId c ctrl hctrl
  have hget2 : ∀ c : network_ctrl_info_t, c.pDesc = ctrl.pDesc → c.pArpArray = ctrl.pArpArray →
      NetworkGetArpEntry (setCtrl s ctrlId c) ctrlId D = some r := by
    intro c h1 h2
    rw [← hget]
    simp only [NetworkGetArpEntry, hc2, hctrl, h1, h2]
  have hpi : ∀ c, (setCtrl s ctrlId c).pInitDesc = s.pInitDesc := fun _ => rfl
  have hsz : ((0 + 8) % 65536 + 20) % 65536 = 28 := by decide
  have hsz2 : ((28 + 14) % 65536 + 14) % 65536 = 56 := by decide
  have hsz3 : (28 + 14) % 65536 = 42 := by decide
  have hl : (20 + 14 + (0 + 8) % 65536) % 65536 = 42 := by decide
  constructor
  · intro idx e hr he hv
    subst hr
    simp only [NetworkSendIcmpEchoRequest, hctrl, hc2, setCtrl_setCtrl, NetworkInitMsgInfo,
      NetworkSendIpPacket, NetworkSendEthPacket, hget2, he, hv, hnb, hpi]
    simp only [hcd,
      Bool.true_or, if_true, Bool.not_false, macSend, IPV4_HEADER_SIZE, ETH_HEADER_SIZE,
      ICMP_HEADER_SIZE, NETWORK_ICMP_DATA_SIZE, IP_PROT_ICMP, Nat.reduceAdd, hsz, hsz2,
      hsz3, hl, store16_rotr _ _ 42 (by decide), storeBytes_self, ihl_version_byte,
      ecn_dscp_byte]
    rw [show frameOf _ 56 = icmpEchoFrame e.MacAddr ctrl.MacAddr ctrl.IpAddr D from ?hf]
    case hf =>
      rw [show (56 : Nat) = 34 + 22 from rfl, frameOf_add]
      unfold icmpEchoFrame
      congr 1
    all_goals rfl
  · intro hinv hlt
    cases r with
    | none =>
      simp only [NetworkSendIcmpEchoRequest, hctrl, hc2, setCtrl_setCtrl, NetworkInitMsgInfo,
        NetworkSendIpPacket, NetworkSendEthPacket, hget2, hnb, hpi]
      rfl
    | some idx =>
      have hi := hlt idx rfl
      have he : ctrl.pArpArray[idx]? = some ctrl.pArpArray[idx] := List.getElem?_eq_getElem hi
      have hv := hinv idx _ rfl he
      simp only [NetworkSendIcmpEchoRequest, hctrl, hc2, setCtrl_setCtrl, NetworkInitMsgInfo,
        NetworkSendIpPacket, NetworkSendEthPacket, hget2, hnb, hpi, he, hv]
      rfl

/-- C16 (amended): for a destination IP D that is not the subnet broadcast address: if D
has a valid ARP entry with MAC M, NetworkCtrlSendPingIcmp(D) hands the driver exactly the
56-byte frame M, controller MAC, 08 00; 45 00 00 2A 00 00 40 00 80 01 00 00, controller
IP, D; 08 00 D2 DC 01 00 01 00; fourteen bytes 05, and returns the driver's result; if D
has no valid ARP entry it returns false and sends nothing. -/
theorem send_ping_icmp_frame (s : network_module_info_t) (ctrlId : Nat)
    (ctrl : network_ctrl_info_t) (cd : network_ctrl_desc_t) (D : ip_addr)
    (hid : ctrlId < s.pInitDesc.CtrlNb)
    (hctrl : s.pCtrlInfoList[ctrlId]? = some ctrl) (hcd : ctrl.pDesc = some cd)
    (hlen : cd.ArpEntryNb ≤ ctrl.pArpArray.length)
    (hnb : NetworkIsIpBroadcast D ctrl.IpAddr ctrl.SubnetMask = false) :
    (∀ idx e, NetworkGetArpEntry s ctrlId D = some (some idx) →
      ctrl.pArpArray[idx]? = some e → e.Status.IsValid = true →
      ∃ s1, NetworkCtrlSendPingIcmp s ctrlId (some D) =
          some (cd.ComInterface.MacCtrlSendMsg cd.MacCtrlId
            (icmpEchoFrame e.MacAddr ctrl.MacAddr ctrl.IpAddr D), s1) ∧
        s1.Sent = s.Sent ++ [(cd.MacCtrlId, icmpEchoFrame e.MacAddr ctrl.MacAddr ctrl.IpAddr D)] ∧
        (icmpEchoFrame e.MacAddr ctrl.MacAddr ctrl.IpAddr D).length = 56) ∧
    ((∀ idx e, NetworkGetArpEntry s ctrlId D = some (some idx) →
        ctrl.pArpArray[idx]? = some e → e.Status.IsValid = false) →
      ∃ s1, NetworkCtrlSendPingIcmp s ctrlId (some D) = some (false, s1) ∧ s1.Sent = s.Sent) := by
  have hvalid : NetworkCtrlValid s ctrlId = true := by
    simp [NetworkCtrlValid, hid, hctrl, hcd]
  have hping : NetworkCtrlSendPingIcmp s ctrlId (some D) = NetworkSendIcmpEchoRequest s ctrlId D := by
    simp only [NetworkCtrlSendPingIcmp, hvalid, if_true]
  obtain ⟨r, hr, hidx⟩ := NetworkGetArpEntry_loop_total ctrl.pArpArray D cd.ArpEntryNb 0
    (by omega)
  have hget : NetworkGetArpEntry s ctrlId D = some r := by
    rw [NetworkGetArpEntry_eq s ctrlId ctrl cd hctrl hcd, hr]
  obtain ⟨h1, h2⟩ := NetworkSendIcmpEchoRequest_spec s ctrlId ctrl cd D hctrl hcd hnb r hget
  constructor
  · intro idx e hg he hv
    rw [hget] at hg
    cases hg
    rw [hping, h1 idx e rfl he hv]
    exact ⟨_, rfl, rfl, by simp [icmpEchoFrame, mac_addr.toList, ip_addr.toList]⟩
  · intro hinv
    rw [hping, h2 (fun idx e hx he => hinv idx e (by rw [hget, hx]) he) hidx]
    exact ⟨_, rfl, rfl⟩

set_option maxRecDepth 100000 in
/-- C16 (witness): the echo request of test_network.c to 192.168.2.0 is the frame
`icmp_req_int`. -/
theorem send_ping_icmp_frame_witness :
    ∃ s1, NetworkCtrlSendPingIcmp testState 0 (some ⟨192, 168, 2, 0⟩) = some (true, s1) ∧
      s1.Sent = testState.Sent ++ [(0, icmp_req_int)] := by
  obtain ⟨s1, h1, h2, -⟩ := (send_ping_icmp_frame testState 0 testCtrl testCtrlDesc
    ⟨192, 168, 2, 0⟩ (by decide) rfl rfl (by decide) (by decide)).1 0
    { DecayTimer := 0, MacAddr := ⟨0x11, 0x22, 0x44, 0x55, 0x88, 0xaa⟩,
      IpAddr := ⟨192, 168, 2, 0⟩,
      Status := { IsInitialised := true, IsValid := true, IsRequested := true,
                  HasDecay := false } } (by decide) (by decide) rfl
  exact ⟨s1, h1, h2⟩

/-! ## ARP table update on reception -/

theorem NetworkStoreArp_ctrl (s : network_module_info_t) (ctrlId : Nat)
    (ctrl : network_ctrl_info_t) (cd : network_ctrl_desc_t)
    (hctrl : s.pCtrlInfoList[ctrlId]? = some ctrl) (hcd : ctrl.pDesc = some cd)
    (hlen : cd.ArpEntryNb ≤ ctrl.pArpArray.length)
    (ip : ip_addr) (mac : mac_addr) (hasDecay : Bool) :
    ∃ u arr1, NetworkStoreArp s ctrlId ip mac hasDecay = some u ∧ sameOutsideArp s u.2 ∧
      u.2.pCtrlInfoList = s.pCtrlInfoList.set ctrlId { ctrl with pArpArray := arr1 } ∧
      arr1.length = ctrl.pArpArray.length := by
  have hself : s.pCtrlInfoList = s.pCtrlInfoList.set ctrlId { ctrl with pArpArray := ctrl.pArpArray } :=
    (set_self_of_getElem? _ _ _ hctrl).symm
  obtain ⟨r, hr, hidx⟩ := NetworkGetArpEntry_loop_total ctrl.pArpArray ip cd.ArpEntryNb 0
    (by omega)
  have hget : NetworkGetArpEntry s ctrlId ip = some r := by
    rw [NetworkGetArpEntry_eq s ctrlId ctrl cd hctrl hcd, hr]
  unfold NetworkStoreArp
  rw [hget]
  cases r with
  | none =>
    obtain ⟨c, s1, hc, hsame, hcl, hci⟩ := NetworkCreateArpEntry_total s ctrlId ctrl cd hctrl
      hcd hlen
    simp only [hc]
    cases c with
    | none => exact ⟨_, ctrl.pArpArray, rfl, hsame, by rw [hcl]; exact hself, rfl⟩
    | some idx =>
      have hi := hci idx rfl
      have hctrl1 : s1.pCtrlInfoList[ctrlId]? = some ctrl := by rw [hcl]; exact hctrl
      simp only [hctrl1, List.getElem?_eq_getElem hi, setArp_eq s1 ctrlId idx _ ctrl hctrl1]
      refine ⟨_, ctrl.pArpArray.set idx
        { ctrl.pArpArray[idx] with
            IpAddr := ip, MacAddr := mac,
            Status := { ctrl.pArpArray[idx].Status with
                          IsRequested := true, IsInitialised := true,
                          IsValid := true, HasDecay := hasDecay },
            DecayTimer := s1.pInitDesc.GenInterface.pFnTimerGetTime }, rfl, ?_, ?_, by simp⟩
      · obtain ⟨a1, a2, a3, a4, a5⟩ := hsame
        exact ⟨a1, a2, a3, a4, a5⟩
      · simp only [setCtrl, hcl]
  | some idx =>
    have hi := hidx idx rfl
    simp only [hctrl, List.getElem?_eq_getElem hi, setArp_eq s ctrlId idx _ ctrl hctrl]
    split_ifs
    · exact ⟨_, ctrl.pArpArray.set idx
        { ctrl.pArpArray[idx] with
            MacAddr := mac,
            Status := { ctrl.pArpArray[idx].Status with IsValid := true, HasDecay := hasDecay },
            DecayTimer := s.pInitDesc.GenInterface.pFnTimerGetTime },
        rfl, ⟨rfl, rfl, rfl, rfl, rfl⟩, rfl, by simp⟩
    · exact ⟨_, ctrl.pArpArray, rfl, ⟨rfl, rfl, rfl, rfl, rfl⟩, hself, rfl⟩

theorem NetworkUpdateArpTable_ctrl (s : network_module_info_t) (ctrlId : Nat)
    (ctrl : network_ctrl_info_t) (cd : network_ctrl_desc_t)
    (hctrl : s.pCtrlInfoList[ctrlId]? = some ctrl) (hcd : ctrl.pDesc = some cd)
    (hlen : cd.ArpEntryNb ≤ ctrl.pArpArray.length)
    (ip : ip_addr) (mac : mac_addr) (hasDecay : Bool) :
    ∃ u arr1, NetworkUpdateArpTable s ctrlId ip mac hasDecay = some u ∧ sameOutsideArp s u.2 ∧
      u.2.pCtrlInfoList = s.pCtrlInfoList.set ctrlId { ctrl with pArpArray := arr1 } ∧
      arr1.length = ctrl.pArpArray.length := by
  obtain ⟨r, hr, hidx⟩ := NetworkGetArpEntry_loop_total ctrl.pArpArray ip cd.ArpEntryNb 0
    (by omega)
  have hget : NetworkGetArpEntry s ctrlId ip = some r := by
    rw [NetworkGetArpEntry_eq s ctrlId ctrl cd hctrl hcd, hr]
  unfold NetworkUpdateArpTable
  rw [hget]
  cases r with
  | none => exact NetworkStoreArp_ctrl s ctrlId ctrl cd hctrl hcd hlen ip mac hasDecay
  | some idx =>
    have hi := hidx idx rfl
    simp only [hctrl, List.getElem?_eq_getElem hi, setArp_eq s ctrlId idx _ ctrl hctrl]
    split_ifs
    · exact NetworkStoreArp_ctrl s ctrlId ctrl cd hctrl hcd hlen ip mac hasDecay
    · exact ⟨_, ctrl.pArpArray.set idx
        { ctrl.pArpArray[idx] with
            DecayTimer := s.pInitDesc.GenInterface.pFnTimerGetTime, MacAddr := mac },
        rfl, ⟨rfl, rfl, rfl, rfl, rfl⟩, rfl, by simp⟩
    · exact ⟨_, ctrl.pArpArray.set idx
        { ctrl.pArpArray[idx] with
            DecayTimer := s.pInitDesc.GenInterface.pFnTimerGetTime },
        rfl, ⟨rfl, rfl, rfl, rfl, rfl⟩, rfl, by simp⟩

/-- After `NetworkUpdateArpTable` the controller entry differs only in its ARP table. -/
theorem NetworkUpdateArpTable_get (s : network_module_info_t) (ctrlId : Nat)
    (ctrl : network_ctrl_info_t) (cd : network_ctrl_desc_t)
    (hctrl : s.pCtrlInfoList[ctrlId]? = some ctrl) (hcd : ctrl.pDesc = some cd)
    (hlen : cd.ArpEntryNb ≤ ctrl.pArpArray.length)
    (ip : ip_addr) (mac : mac_addr) (hasDecay : Bool) :
    ∃ u arr1, NetworkUpdateArpTable s ctrlId ip mac hasDecay = some u ∧ sameOutsideArp s u.2 ∧
      u.2.pCtrlInfoList[ctrlId]? = some { ctrl with pArpArray := arr1 } := by
  obtain ⟨u, arr1, h1, h2, h3, -⟩ := NetworkUpdateArpTable_ctrl s ctrlId ctrl cd hctrl hcd hlen
    ip mac hasDecay
  exact ⟨u, arr1, h1, h2, by rw [h3]; exact getElem?_set_same _ _ _ _ hctrl⟩

/-! ## ICMP echo reply emission -/

theorem NetworkIcmpChecksum_congr (a b : Nat → Nat) (n : Nat)
    (h : ∀ j, j < 2 * n → a j = b j) : NetworkIcmpChecksum a n = NetworkIcmpChecksum b n := by
  have hf : ∀ k, k ≤ n →
      (List.range k).foldl (fun acc i => add32 acc (SWAP16 (load16 a (2 * i)))) 0 =
      (List.range k).foldl (fun acc i => add32 acc (SWAP16 (load16 b (2 * i)))) 0 := by
    intro k
    induction k with
    | zero => intro _; rfl
    | succ k ih =>
      intro hk
      rw [List.range_succ, List.foldl_append, List.foldl_append, ih (by omega)]
      simp only [List.foldl_cons, List.foldl_nil, load16]
      rw [h (2 * k) (by omega), h (2 * k + 1) (by omega)]
  unfold NetworkIcmpChecksum
  rw [hf n le_rfl]

/-- The buffer that `NetworkProcessIcmpEchoRequest` builds from the buffer `B` in which
type, code and checksum were zeroed: the five stores that follow the checksum. -/
theorem icmpReply_buffer (B : Nat → Nat) (mac : mac_addr) (ip : ip_addr) (cks i : Nat)
    (hc : cks < 65536) (h34 : B 34 = 0) (h35 : B 35 = 0) :
    (let b := store16 B 36 (SWAP16 cks)
     let b := storeBytes b 30 (ip_addr.ofMem b 26).toList
     let b := storeBytes b 26 ip.toList
     let b := storeBytes b 0 (mac_addr.ofMem b 6).toList
     storeBytes b 6 mac.toList) i = icmpReplyBytes B mac ip cks i := by
  have e1 : (cks % 256 * 256 + cks / 256) % 256 = cks / 256 := by omega
  have e2 : (cks % 256 * 256 + cks / 256) / 256 % 256 = cks % 256 := by omega
  have hs1 : SWAP16 cks % 256 = cks / 256 := by rw [SWAP16_eq cks hc]; exact e1
  have hs2 : SWAP16 cks / 256 % 256 = cks % 256 := by rw [SWAP16_eq cks hc]; exact e2
  by_cases hi : i < 38
  · simp only [icmpReplyBytes, hi, if_true]
    interval_cases i <;>
      simp [store16, storeBytes, mac_addr.toList, ip_addr.toList, mac_addr.ofMem, ip_addr.ofMem,
        hs1, hs2, h34, h35]
  · simp only [icmpReplyBytes, hi, if_false]
    repeat first
      | rw [store16_above _ _ _ _ (by omega)]
      | rw [storeBytes_above _ _ _ _ (by
          simp only [mac_addr.toList, ip_addr.toList, List.length_cons, List.length_nil]; omega)]

theorem NetworkIcmpChecksum_lt (a : Nat → Nat) (n : Nat) : NetworkIcmpChecksum a n < 65536 := by
  unfold NetworkIcmpChecksum
  exact Nat.mod_lt _ (by decide)

theorem icmpReplyBytes_congr (B req : Nat → Nat) (mac : mac_addr) (ip : ip_addr) (cks L i : Nat)
    (hL : 38 ≤ L) (h : ∀ j, j < L → ¬ (34 ≤ j ∧ j < 38) → B j = req j) (hi : i < L) :
    icmpReplyBytes B mac ip cks i = icmpReplyBytes req mac ip cks i := by
  unfold icmpReplyBytes
  by_cases h38 : i < 38
  · simp only [h38, if_true]
    rw [h 6 (by omega) (by omega), h 7 (by omega) (by omega), h 8 (by omega) (by omega),
      h 9 (by omega) (by omega), h 10 (by omega) (by omega), h 11 (by omega) (by omega),
      h 12 (by omega) (by omega), h 13 (by omega) (by omega), h 14 (by omega) (by omega),
      h 15 (by omega) (by omega), h 16 (by omega) (by omega), h 17 (by omega) (by omega),
      h 18 (by omega) (by omega), h 19 (by omega) (by omega), h 20 (by omega) (by omega),
      h 21 (by omega) (by omega), h 22 (by omega) (by omega), h 23 (by omega) (by omega),
      h 24 (by omega) (by omega), h 25 (by omega) (by omega), h 26 (by omega) (by omega),
      h 27 (by omega) (by omega), h 28 (by omega) (by omega), h 29 (by omega) (by omega)]
  · simp only [h38, if_false]
    exact h i hi (by omega)

/-- The words that `NetworkProcessIcmpEchoRequest` sums are those of `icmpReplyMessage`. -/
theorem icmpReplyMessage_region (pBuffer B1 : Nat → Nat) (T : Nat)
    (h1 : ∀ j, j < T - 20 → B1 (34 + j) = if j < 4 then 0 else pBuffer (34 + j))
    (h2 : (T - 20) % 2 = 1 → B1 (34 + (T - 20)) = 0) :
    ∀ j, j < 2 * ((icmpReplyMessage pBuffer T).length / 2) →
      ptrAdd B1 34 j = bufOf (icmpReplyMessage pBuffer T) j := by
  intro j hj
  unfold icmpReplyMessage at hj ⊢
  simp only [ptrAdd, bufOf]
  by_cases hodd : (T - 20) % 2 = 1
  · simp only [hodd, if_true] at hj ⊢
    simp only [List.length_append, List.length_map, List.length_range, List.length_cons,
      List.length_nil] at hj
    by_cases hjn : j < T - 20
    · rw [h1 j hjn, List.getD_eq_getElem?_getD, List.getElem?_append_left (by simpa using hjn)]
      simp [hjn]
    · have hje : j = T - 20 := by omega
      subst hje
      rw [h2 hodd, List.getD_eq_getElem?_getD, List.getElem?_append_right (by simp)]
      simp
  · simp only [hodd, if_false] at hj ⊢
    simp only [List.length_map, List.length_range] at hj
    have hjn : j < T - 20 := by omega
    rw [h1 j hjn, List.getD_eq_getElem?_getD]
    simp [hjn]

theorem NetworkProcessIcmpEchoRequest_spec (s : network_module_info_t) (ctrlId : Nat)
    (ctrl : network_ctrl_info_t) (cd : network_ctrl_desc_t) (pBuffer : Nat → Nat) (L T : Nat)
    (hctrl : s.pCtrlInfoList[ctrlId]? = some ctrl) (hcd : ctrl.pDesc = some cd)
    (hb16 : pBuffer 16 < 256) (hb17 : pBuffer 17 < 256)
    (hT : T = pBuffer 16 * 256 + pBuffer 17) (hL : L = T + 14) (hT24 : 24 ≤ T) :
    ∃ b, NetworkProcessIcmpEchoRequest s ctrlId pBuffer L =
      some (cd.ComInterface.MacCtrlSendMsg cd.MacCtrlId
          (frameOf (icmpReplyBytes pBuffer ctrl.MacAddr ctrl.IpAddr (icmpReplyChecksum pBuffer T)) L),
        { s with Sent := s.Sent ++ [(cd.MacCtrlId,
            frameOf (icmpReplyBytes pBuffer ctrl.MacAddr ctrl.IpAddr
              (icmpReplyChecksum pBuffer T)) L)] }, b) := by
  have hb0 : ∀ j, store16 (storeBytes (storeBytes pBuffer 34 [0]) 35 [0]) 36 0 j =
      if 34 ≤ j ∧ j < 38 then 0 else pBuffer j := by
    intro j
    simp only [store16, storeBytes, List.length_cons, List.length_nil]
    by_cases h1 : j = 34
    · subst h1; simp
    · by_cases h2 : j = 35
      · subst h2; simp
      · by_cases h3 : j = 36
        · subst h3; simp
        · by_cases h4 : j = 37
          · subst h4; simp
          · rw [if_neg (by omega), if_neg (by omega), if_neg (by omega), if_neg (by omega)]
  have hload : SWAP16 (load16 (store16 (storeBytes (storeBytes pBuffer 34 [0]) 35 [0]) 36 0) 16)
      = T := by
    simp only [load16, hb0]
    rw [if_neg (by omega), if_neg (by omega), Nat.mod_eq_of_lt hb16, Nat.mod_eq_of_lt hb17,
      SWAP16_eq _ (by omega)]
    omega
  have hsize : (T + 65536 - 20) % 65536 = T - 20 := by omega
  -- the buffer after `NetworkIcmpLength` and the number of words
  obtain ⟨B1, hlen, hB1a, hB1b, hB1c⟩ : ∃ B1,
      NetworkIcmpLength (store16 (storeBytes (storeBytes pBuffer 34 [0]) 35 [0]) 36 0) 34
        (load16 (store16 (storeBytes (storeBytes pBuffer 34 [0]) 35 [0]) 36 0) 16)
        = ((icmpReplyMessage pBuffer T).length / 2, B1) ∧
      (∀ j, j < L → B1 j = if 34 ≤ j ∧ j < 38 then 0 else pBuffer j) ∧
      ((T - 20) % 2 = 1 → B1 (34 + (T - 20)) = 0) ∧
      True := by
    unfold NetworkIcmpLength
    rw [hload]
    simp only [IPV4_HEADER_SIZE, hsize]
    by_cases hodd : (T - 20) % 2 = 1
    · have hpos : (T - 20) % 2 > 0 := by omega
      rw [if_pos hpos]
      refine ⟨storeBytes (store16 (storeBytes (storeBytes pBuffer 34 [0]) 35 [0]) 36 0)
        (34 + (T - 20)) [0], ?_, ?_, ?_, trivial⟩
      · have hm : (icmpReplyMessage pBuffer T).length = T - 20 + 1 := by
          simp only [icmpReplyMessage, hodd, if_true, List.length_append, List.length_map,
            List.length_range, List.length_cons, List.length_nil]
        have hmod : (T - 20 + 1) % 65536 = T - 20 + 1 := by omega
        rw [hm, hmod]
      · intro j hj
        have hne : ¬ (34 + (T - 20) ≤ j ∧ j < 34 + (T - 20) + [0].length) := by
          simp only [List.length_cons, List.length_nil]; omega
        rw [storeBytes, if_neg hne]
        exact hb0 j
      · intro _
        exact storeBytes_self _ _ _
    · have hpos : ¬ (T - 20) % 2 > 0 := by omega
      rw [if_neg hpos]
      refine ⟨store16 (storeBytes (storeBytes pBuffer 34 [0]) 35 [0]) 36 0, ?_,
        fun j _ => hb0 j, fun h => absurd h hodd, trivial⟩
      have hm : (icmpReplyMessage pBuffer T).length = T - 20 := by
        simp only [icmpReplyMessage, hodd, if_false, List.length_map, List.length_range]
      rw [hm]
  have hL38 : 38 ≤ L := by omega
  have h34 : B1 34 = 0 := by rw [hB1a 34 (by omega), if_pos (by omega)]
  have h35 : B1 35 = 0 := by rw [hB1a 35 (by omega), if_pos (by omega)]
  have hcks : NetworkIcmpChecksum (ptrAdd B1 34) ((icmpReplyMessage pBuffer T).length / 2)
      = icmpReplyChecksum pBuffer T := by
    unfold icmpReplyChecksum
    apply NetworkIcmpChecksum_congr
    apply icmpReplyMessage_region pBuffer B1 T
    · intro j hj
      rw [hB1a (34 + j) (by omega)]
      by_cases h4 : j < 4
      · rw [if_pos (by omega), if_pos h4]
      · rw [if_neg (by omega), if_neg h4]
    · exact hB1b
  have hfr := frameOf_congr _ _ L (fun i hi =>
    (icmpReply_buffer B1 ctrl.MacAddr ctrl.IpAddr (icmpReplyChecksum pBuffer T) i
      (NetworkIcmpChecksum_lt _ _) h34 h35).trans
    (icmpReplyBytes_congr B1 pBuffer ctrl.MacAddr ctrl.IpAddr (icmpReplyChecksum pBuffer T) L i
      hL38 (fun j hj hn => by rw [hB1a j hj, if_neg hn]) hi))
  simp only [] at hfr
  simp only [NetworkProcessIcmpEchoRequest, hctrl, hcd, macSend, ETH_HEADER_SIZE,
    IPV4_HEADER_SIZE, ICMP_ECHO_REPLY, Nat.reduceAdd, hlen, hcks, hfr]
  exact ⟨_, rfl⟩

/-! ## ICMP echo round trip -/

set_option maxRecDepth 100000 in
/-- C17 (failing input): the echo request is sent when the clock reads 4294967295 and the
reply `icmp_reply_ext` is processed when the clock, having wrapped, reads 0, one tick
later. Before the reply NetworkCtrlCheckPingReply returns false; after it, it returns true
and reports the delay 0, where (T1 - T0) mod 2^32 is 1. With the clock values 100 and 142
of an ordinary exchange the delay is 42. -/
theorem echo_round_trip_delay_is_one_short_after_clock_wrap :
    ((pingSentState 4294967295 0).map fun s => NetworkCtrlCheckPingReply s 0 (some 7))
      = some (false, some 7) ∧
    ((pingTripState 4294967295 0).map fun s => NetworkCtrlCheckPingReply s 0 (some 7))
      = some (true, some 0) ∧
    (0 + 4294967296 - 4294967295) % 4294967296 = 1 ∧
    UtilsDiffUint32 4294967295 0 = 0 ∧
    ((pingTripState 100 142).map fun s => NetworkCtrlCheckPingReply s 0 (some 7))
      = some (true, some 42) := by
  decide

/-- C18: when an accepted ICMP echo reply is processed while the reply-received flag of the
controller is already set, whatever the clock value, the reply delay and the flag are
unchanged, and NetworkCtrlCheckPingReply still returns true with the same delay. -/
theorem duplicate_echo_reply_is_ignored (s : network_module_info_t) (ctrlId : Nat)
    (ctrl : network_ctrl_info_t) (cd : network_ctrl_desc_t) (pBuffer : Nat → Nat) (L : Nat)
    (hid : ctrlId < s.pInitDesc.CtrlNb)
    (hctrl : s.pCtrlInfoList[ctrlId]? = some ctrl) (hcd : ctrl.pDesc = some cd)
    (hlen : cd.ArpEntryNb ≤ ctrl.pArpArray.length)
    (hrecv : ctrl.IcmpReplyReceived = true)
    (haccept : NetworkAcceptIncIpPacket s ctrlId (ptrAdd pBuffer ETH_HEADER_SIZE) = some true)
    (hproto : pBuffer 23 = IP_PROT_ICMP) (htype : pBuffer 34 = ICMP_ECHO_REPLY) :
    ∃ s1 c1, NetworkProcessIpPacket s ctrlId pBuffer L = some (true, s1, pBuffer) ∧
      s1.pCtrlInfoList[ctrlId]? = some c1 ∧
      c1.IcmpReplyReceived = ctrl.IcmpReplyReceived ∧
      c1.IcmpReplyDelay = ctrl.IcmpReplyDelay ∧
      (∀ d, NetworkCtrlCheckPingReply s ctrlId (some d) = (true, some ctrl.IcmpReplyDelay)) ∧
      (∀ d, NetworkCtrlCheckPingReply s1 ctrlId (some d) = (true, some ctrl.IcmpReplyDelay)) := by
  obtain ⟨u, arr1, hu, hsame, hctrl1⟩ := NetworkUpdateArpTable_get s ctrlId ctrl cd hctrl hcd hlen
    (ip_addr.ofMem pBuffer (ETH_HEADER_SIZE + 12)) (mac_addr.ofMem pBuffer 6) false
  have hne : ¬ (ICMP_ECHO_REPLY = ICMP_ECHO_REQUEST) := by decide
  have hres : NetworkProcessIpPacket s ctrlId pBuffer L = some (true, u.2, pBuffer) := by
    simp only [NetworkProcessIpPacket, haccept, hu, ETH_HEADER_SIZE, Nat.reduceAdd, hproto,
      if_true, NetworkProcessIcmpPacket, IPV4_HEADER_SIZE, htype, hne, if_false,
      NetworkProcessIcmpEchoReply, hctrl1, hrecv, Bool.not_true]
    rfl
  have hvalid : NetworkCtrlValid s ctrlId = true := by
    simp [NetworkCtrlValid, hid, hctrl, hcd]
  have hvalid1 : NetworkCtrlValid u.2 ctrlId = true := by
    simp [NetworkCtrlValid, hsame.2.1, hid, hctrl1, hcd]
  refine ⟨u.2, _, hres, hctrl1, rfl, rfl, fun d => ?_, fun d => ?_⟩
  · simp [NetworkCtrlCheckPingReply, hvalid, hctrl, hrecv]
  · simp [NetworkCtrlCheckPingReply, hvalid1, hctrl1, hrecv]

set_option maxRecDepth 100000 in
/-- C18 (witness): a second reply `icmp_reply_ext`, processed at clock 500 after the
exchange at clocks 100 and 142, leaves the delay at 42. -/
theorem duplicate_echo_reply_is_ignored_witness :
    ∃ s1, NetworkProcessIpPacket repliedState 0 (bufOf icmp_reply_ext) 56
        = some (true, s1, bufOf icmp_reply_ext) ∧
      NetworkCtrlCheckPingReply repliedState 0 (some 7) = (true, some 42) ∧
      NetworkCtrlCheckPingReply s1 0 (some 7) = (true, some 42) := by
  obtain ⟨s1, c1, h1, -, -, -, h5, h6⟩ := duplicate_echo_reply_is_ignored repliedState 0
    (repliedState.pCtrlInfoList.getD 0 network_ctrl_info_t.zero) testCtrlDesc
    (bufOf icmp_reply_ext) 56 (by decide) rfl rfl (by decide) (by decide) (by decide)
    (by decide) (by decide)
  exact ⟨s1, h1, h5 7, h6 7⟩

/-! ## Payload size limit -/

/-- What `NetworkPortSendBuff` does when the size test passes and the queues have room. -/
theorem NetworkPortSendBuff_accepts (s : network_module_info_t) (portId : Nat)
    (port : network_port_info_t) (bf : fifo_desc_t Nat)
    (hport : s.pPortInfoList[portId]? = some port)
    (hvalid : NetworkPortValid s portId = true)
    (htx : port.pFifoTxMsg = some bf) (hbf : FifoWf bf)
    (hdesc : port.IsVirtualComTx = false →
      ∃ df, port.pFifoTxMsgDesc = some df ∧ FifoWf df ∧ 1 ≤ FifoFreeSpace (some df))
    (pBuffer : Nat → Nat) (n : Nat)
    (hsize : port.IsVirtualComTx = false → n ≤ 1472) (hroom : n ≤ FifoFreeSpace (some bf))
    (pIpDest : Option ip_addr) :
    ∃ s1 port1 bf1, NetworkPortSendBuff s portId (some pBuffer) n pIpDest = some (true, s1) ∧
      s1.pPortInfoList[portId]? = some port1 ∧ port1.pFifoTxMsg = some bf1 ∧
      FifoItems bf1 = FifoItems bf ++ (List.range n).map pBuffer := by
  obtain ⟨g, hg, -, hgi, -, -⟩ := FifoWrite_ok bf hbf pBuffer n hroom
  cases hv : port.IsVirtualComTx with
  | true =>
    simp only [NetworkPortSendBuff, hport, hvalid, hv, if_true, Bool.true_or,
      NetworkStoreSendData, htx, hg, Bool.not_true, Bool.and_false, Bool.false_eq_true, if_false]
    exact ⟨_, _, g, rfl, setPort_get _ _ _ _ hport, rfl, hgi⟩
  | false =>
    obtain ⟨df, hdf, hdwf, hdroom⟩ := hdesc hv
    have hsz := hsize hv
    obtain ⟨dg, hdg, -, -, -, -⟩ := FifoWrite_ok df hdwf
      (fun _ => ({ MsgSize := n, IpAddr := pIpDest.getD ip_addr.zero } : network_msg_desc_t)) 1
      hdroom
    have hd : FifoFreeSpace (some df) > 0 := by omega
    simp only [NetworkPortSendBuff, hport, hvalid, hv, if_true, Bool.false_or,
      NetworkStoreSendData, htx, hdf, hsz, decide_True, Bool.not_false, Bool.and_true, hd, hg,
      hdg, Bool.and_self]
    exact ⟨_, _, g, rfl, setPort_get _ _ _ _ hport, rfl, hgi⟩

/-- C20: on a port whose transmit side is in datagram mode, with empty transmit queues and
a byte capacity of at least 1473, NetworkPortSendBuff with buffSize = 1472 returns true
(the 1472 bytes are queued) and with buffSize = 1473 returns false and leaves the module
state, hence the transmit queues, unchanged; on a port whose transmit side is in stream
mode a buffer of more than 1472 bytes is accepted, and queued, whenever the byte queue has
room for it. -/
theorem send_buff_boundary_1472 (s : network_module_info_t) (portId : Nat)
    (port : network_port_info_t) (bf : fifo_desc_t Nat)
    (hport : s.pPortInfoList[portId]? = some port)
    (hvalid : NetworkPortValid s portId = true)
    (htx : port.pFifoTxMsg = some bf) (hbf : FifoWf bf)
    (pBuffer : Nat → Nat) (pIpDest : Option ip_addr) :
    (port.IsVirtualComTx = false →
      ∀ df, port.pFifoTxMsgDesc = some df → FifoWf df →
        FifoItemCount (some bf) = 0 → FifoItemCount (some df) = 0 →
        1473 ≤ bf.ItemNb → 1 ≤ df.ItemNb →
        (∃ s1 port1 bf1,
          NetworkPortSendBuff s portId (some pBuffer) 1472 pIpDest = some (true, s1) ∧
          s1.pPortInfoList[portId]? = some port1 ∧ port1.pFifoTxMsg = some bf1 ∧
          FifoItems bf1 = FifoItems bf ++ (List.range 1472).map pBuffer) ∧
        NetworkPortSendBuff s portId (some pBuffer) 1473 pIpDest = some (false, s)) ∧
    (port.IsVirtualComTx = true →
      ∀ n, 1472 < n → n ≤ FifoFreeSpace (some bf) →
        ∃ s1 port1 bf1,
          NetworkPortSendBuff s portId (some pBuffer) n pIpDest = some (true, s1) ∧
          s1.pPortInfoList[portId]? = some port1 ∧ port1.pFifoTxMsg = some bf1 ∧
          FifoItems bf1 = FifoItems bf ++ (List.range n).map pBuffer) := by
  constructor
  · intro hv df hdf hdwf hbe hde hcap hdcap
    have hfb : FifoFreeSpace (some bf) = bf.ItemNb := by
      rw [FifoFreeSpace_wf bf hbf]
      have : FifoGetItemCount bf.ReadCount bf.WriteCount = 0 := hbe
      omega
    have hfd : FifoFreeSpace (some df) = df.ItemNb := by
      rw [FifoFreeSpace_wf df hdwf]
      have : FifoGetItemCount df.ReadCount df.WriteCount = 0 := hde
      omega
    constructor
    · exact NetworkPortSendBuff_accepts s portId port bf hport hvalid htx hbf
        (fun _ => ⟨df, hdf, hdwf, by omega⟩) pBuffer 1472 (fun _ => le_rfl) (by omega) pIpDest
    · have hbig : ¬ (1473 ≤ ETHERNET_MAX_DATA_SIZE) := by decide
      simp only [NetworkPortSendBuff, hport, hvalid, hv, if_true, Bool.false_or, hbig,
        decide_False, Bool.false_eq_true, if_false]
  · intro hv n _ hroom
    exact NetworkPortSendBuff_accepts s portId port bf hport hvalid htx hbf
      (fun h => by rw [hv] at h; cases h) pBuffer n (fun h => by rw [hv] at h; cases h) hroom
      pIpDest

set_option maxRecDepth 100000 in
/-- C20 (witness): the port of test_network.c (datagram mode, transmit queues of 1514
bytes and 20 descriptors, both empty) takes 1472 bytes and refuses 1473. -/
theorem send_buff_boundary_1472_witness :
    (∃ s1, NetworkPortSendBuff testState 0 (some (fun _ => 0x55)) 1472 none = some (true, s1)) ∧
    NetworkPortSendBuff testState 0 (some (fun _ => 0x55)) 1473 none = some (false, testState) := by
  obtain ⟨⟨s1, -, -, h1, -⟩, h2⟩ := (send_buff_boundary_1472 testState 0 testPort
    (FifoCreate (fun _ => 0) 1514 1) rfl (by decide) rfl (FifoWf_create _ _ _ (by decide))
    (fun _ => 0x55) none).1 rfl _ rfl (FifoWf_create _ _ _ (by decide)) (by decide) (by decide)
    (by decide) (by decide)
  exact ⟨⟨s1, h1⟩, h2⟩

/-! ## Stream mode reception -/

theorem load16_store16 (m : Nat → Nat) (off v : Nat) (hv : v < 65536) :
    load16 (store16 m off v) off = v := by
  simp only [load16, store16, storeBytes, List.length_cons, List.length_nil]
  rw [if_pos (by omega), if_pos (by omega)]
  simp
  omega

/-- The fields that `NetworkDecodeUdpPacket` reads from a frame: the destination port and
the data size are the big-endian values at offsets 36 and 38, and the bytes from offset 38
on are left as they are. -/
theorem NetworkDecodeUdpPacket_spec (pBuffer : Nat → Nat)
    (h36 : pBuffer 36 < 256) (h37 : pBuffer 37 < 256) (h38 : pBuffer 38 < 256)
    (h39 : pBuffer 39 < 256) :
    (NetworkDecodeUdpPacket pBuffer).2.2.1 = pBuffer 36 * 256 + pBuffer 37 ∧
    (NetworkDecodeUdpPacket pBuffer).2.1 = (pBuffer 38 * 256 + pBuffer 39 + 65536 - 8) % 65536 ∧
    (NetworkDecodeUdpPacket pBuffer).2.2.2 = 42 ∧
    (∀ j, 38 ≤ j → (NetworkDecodeUdpPacket pBuffer).1 j = pBuffer j) ∧
    (∀ j, j < 34 → (NetworkDecodeUdpPacket pBuffer).1 j = pBuffer j) := by
  have hb1 : ∀ v j, 36 ≤ j → store16 pBuffer 34 v j = pBuffer j :=
    fun v j hj => store16_above _ _ _ _ (by omega)
  have hl36 : load16 (store16 pBuffer 34 (UtilsRotrUint16 (load16 pBuffer 34) 8)) 36
      = pBuffer 36 + 256 * pBuffer 37 := by
    simp only [load16, hb1 _ 36 le_rfl, hb1 _ 37 (by omega), Nat.mod_eq_of_lt h36,
      Nat.mod_eq_of_lt h37]
  have hr36 : UtilsRotrUint16 (pBuffer 36 + 256 * pBuffer 37) 8 = pBuffer 36 * 256 + pBuffer 37 := by
    rw [UtilsRotrUint16_eight _ (by omega)]
    omega
  have hr38 : UtilsRotrUint16 (pBuffer 38 + 256 * pBuffer 39) 8 = pBuffer 38 * 256 + pBuffer 39 := by
    rw [UtilsRotrUint16_eight _ (by omega)]
    omega
  simp only [NetworkDecodeUdpPacket, ETH_HEADER_SIZE, IPV4_HEADER_SIZE, UDP_HEADER_SIZE,
    Nat.reduceAdd, hl36, hr36]
  refine ⟨load16_store16 _ _ _ (by omega), ?_, trivial, ?_, ?_⟩
  · have h1 : load16 (store16 (store16 pBuffer 34 (UtilsRotrUint16 (load16 pBuffer 34) 8)) 36
        (pBuffer 36 * 256 + pBuffer 37)) 38 = pBuffer 38 + 256 * pBuffer 39 := by
      simp only [load16]
      rw [store16_above _ _ _ _ (by omega), store16_above _ _ _ _ (by omega),
        store16_above _ _ _ _ (by omega), store16_above _ _ _ _ (by omega),
        Nat.mod_eq_of_lt h38, Nat.mod_eq_of_lt h39]
    rw [h1, hr38]
  · intro j hj
    rw [store16_above _ _ _ _ (by omega), store16_above _ _ _ _ (by omega)]
  · intro j hj
    simp only [store16, storeBytes, List.length_cons, List.length_nil]
    rw [if_neg (by omega), if_neg (by omega)]

theorem NetworkPortReadByte_stream (s : network_module_info_t) (portId : Nat)
    (port : network_port_info_t) (bf : fifo_desc_t Nat)
    (hport : s.pPortInfoList[portId]? = some port)
    (hvalid : NetworkPortValid s portId = true) (hmode : port.IsVirtualComRx = true)
    (hrx : port.pFifoRxMsg = some bf) (hbf : FifoWf bf)
    (buf : Nat → Nat) (x : Nat) (rest : List Nat) (hitems : FifoItems bf = x :: rest) :
    (NetworkPortReadByte s portId (some buf)).ret = true ∧
    ∃ b port1 bf1, (NetworkPortReadByte s portId (some buf)).pBuffer = some b ∧ b 0 = x ∧
      (NetworkPortReadByte s portId (some buf)).s.pPortInfoList[portId]? = some port1 ∧
      port1.pFifoRxMsg = some bf1 ∧ FifoItems bf1 = rest ∧
      port1.pFifoRxMsgDesc = port.pFifoRxMsgDesc := by
  have hc : 1 ≤ FifoGetItemCount bf.ReadCount bf.WriteCount := by
    rw [← FifoItems_length, hitems]; simp
  have hrd := FifoRead_ok bf hbf buf 1 true hc
  obtain ⟨-, -, hdrop, -, -⟩ := FifoConsumeItems_ok bf hbf 1 hc
  have hres : NetworkPortReadByte s portId (some buf) =
      { ret := true,
        s := setPort s portId { port with pFifoRxMsg := some (FifoConsumeItems bf 1).2 },
        pBuffer := some (FifoReadDest bf buf 1), pDataSize := none, pSrcIp := none } := by
    simp only [NetworkPortReadByte, hport, hvalid, hmode, Bool.and_self, if_true, hrx, hrd]
  rw [hres]
  refine ⟨rfl, _, _, _, rfl, FifoReadDest_head bf buf x rest hitems,
    setPort_get _ _ _ _ hport, rfl, ?_, rfl⟩
  rw [hdrop, hitems]
  rfl

theorem NetworkPortReadBuff_stream (s : network_module_info_t) (portId : Nat)
    (port : network_port_info_t) (bf : fifo_desc_t Nat)
    (hport : s.pPortInfoList[portId]? = some port)
    (hvalid : NetworkPortValid s portId = true) (hmode : port.IsVirtualComRx = true)
    (hrx : port.pFifoRxMsg = some bf) (hbf : FifoWf bf) (hcap : bf.ItemNb < 65536)
    (buf : Nat → Nat) (d0 buffSize : Nat) (pSrcIp : Option ip_addr) :
    (NetworkPortReadBuff s portId (some buf) (some d0) buffSize pSrcIp).ret = true ∧
    (NetworkPortReadBuff s portId (some buf) (some d0) buffSize pSrcIp).pDataSize
      = some (min buffSize (FifoItems bf).length) ∧
    (NetworkPortReadBuff s portId (some buf) (some d0) buffSize pSrcIp).pSrcIp = pSrcIp ∧
    ∃ b port1 bf1,
      (NetworkPortReadBuff s portId (some buf) (some d0) buffSize pSrcIp).pBuffer = some b ∧
      (List.range (min buffSize (FifoItems bf).length)).map b
        = (FifoItems bf).take (min buffSize (FifoItems bf).length) ∧
      (NetworkPortReadBuff s portId (some buf) (some d0) buffSize pSrcIp).s.pPortInfoList[portId]?
        = some port1 ∧
      port1.pFifoRxMsg = some bf1 ∧
      FifoItems bf1 = (FifoItems bf).drop (min buffSize (FifoItems bf).length) := by
  have hcnt : FifoGetItemCount bf.ReadCount bf.WriteCount ≤ bf.ItemNb := hbf.cnt
  generalize hc : FifoGetItemCount bf.ReadCount bf.WriteCount = c at hcnt
  have hlen : (FifoItems bf).length = c := by rw [FifoItems_length, hc]
  have hmod : FifoItemCount (some bf) % 65536 = c := by
    show FifoGetItemCount bf.ReadCount bf.WriteCount % 65536 = c
    rw [hc]; omega
  have hsel : (if c > buffSize then buffSize else c) = min buffSize c := by
    split_ifs <;> omega
  have hm : min buffSize c ≤ FifoGetItemCount bf.ReadCount bf.WriteCount := by rw [hc]; omega
  have hrd := FifoRead_ok bf hbf buf (min buffSize c) true hm
  obtain ⟨-, -, hdrop, -, -⟩ := FifoConsumeItems_ok bf hbf (min buffSize c) hm
  have htake := FifoReadDest_take bf buf (min buffSize c) hm
  have hres : NetworkPortReadBuff s portId (some buf) (some d0) buffSize pSrcIp =
      { ret := true,
        s := setPort s portId
          (if !port.IsVirtualComTx then
            { port with pFifoRxMsg := some (FifoConsumeItems bf (min buffSize c)).2,
                        pFifoRxMsgDesc := (FifoConsume port.pFifoRxMsgDesc 1).2 }
          else { port with pFifoRxMsg := some (FifoConsumeItems bf (min buffSize c)).2 }),
        pBuffer := some (FifoReadDest bf buf (min buffSize c)),
        pDataSize := some (min buffSize c), pSrcIp := pSrcIp } := by
    simp only [NetworkPortReadBuff, hport, hvalid, hmode, if_true, Bool.not_true,
      Bool.false_eq_true, if_false, hrx, hmod, and_false, hsel, hrd]
    rw [if_neg (by simp)]
  rw [hlen, hres]
  refine ⟨rfl, rfl, rfl, _, _, _, rfl, htake, setPort_get _ _ _ _ hport, ?_, hdrop⟩
  split_ifs <;> rfl

theorem storeIncPort_stream_wf (port : network_port_info_t) (pBuffer : Nat → Nat) (n : Nat)
    (pIpSrc : ip_addr) (bf : fifo_desc_t Nat)
    (hmode : port.IsVirtualComRx = true)
    (hrx : port.pFifoRxMsg = some bf) (hbf : FifoWf bf) (h1 : n ≤ FifoFreeSpace (some bf)) :
    ∃ bf1, (storeIncPort port pBuffer n pIpSrc).2 = { port with pFifoRxMsg := some bf1 } ∧
      FifoWf bf1 ∧ FifoItems bf1 = FifoItems bf ++ (List.range n).map pBuffer ∧
      bf1.ItemNb = bf.ItemNb := by
  obtain ⟨g, hg, hwf, hgi, hnb, -⟩ := FifoWrite_ok bf hbf pBuffer n h1
  refine ⟨g, ?_, hwf, hgi, hnb⟩
  simp [storeIncPort, hmode, hrx, hg]

theorem NetworkProcessIpPacket_stream (s : network_module_info_t) (ctrlId portId : Nat)
    (ctrl : network_ctrl_info_t) (cd : network_ctrl_desc_t) (port : network_port_info_t)
    (pd : network_port_desc_t) (bf : fifo_desc_t Nat) (pBuffer : Nat → Nat) (buffSize n : Nat)
    (hctrl : s.pCtrlInfoList[ctrlId]? = some ctrl) (hcd : ctrl.pDesc = some cd)
    (hlen : cd.ArpEntryNb ≤ ctrl.pArpArray.length)
    (hport : s.pPortInfoList[portId]? = some port)
    (hvalid : NetworkPortValid s portId = true)
    (hpd : port.pDesc = some pd) (hprot : pd.Protocol = IP_PROT_UDP)
    (hmode : port.IsVirtualComRx = true)
    (hrx : port.pFifoRxMsg = some bf) (hbf : FifoWf bf)
    (haccept : NetworkAcceptIncIpPacket s ctrlId (ptrAdd pBuffer ETH_HEADER_SIZE) = some true)
    (hproto : pBuffer 23 = IP_PROT_UDP)
    (h36 : pBuffer 36 < 256) (h37 : pBuffer 37 < 256) (h38 : pBuffer 38 < 256)
    (h39 : pBuffer 39 < 256)
    (hdst : port.InPortNb = pBuffer 36 * 256 + pBuffer 37)
    (hn : n = (pBuffer 38 * 256 + pBuffer 39 + 65536 - 8) % 65536)
    (hroom : n ≤ FifoFreeSpace (some bf))
    (hports : ∀ j, j < s.pInitDesc.PortNb → ∃ q, s.pPortInfoList[j]? = some q ∧
      (pBuffer 36 * 256 + pBuffer 37 = q.InPortNb → q.pDesc.isSome = true)) :
    ∃ st1 s1 b1 bf1, NetworkProcessIpPacket s ctrlId pBuffer buffSize = some (st1, s1, b1) ∧
      s1.pPortInfoList[portId]? = some { port with pFifoRxMsg := some bf1 } ∧
      FifoItems bf1 = FifoItems bf ++ (List.range n).map (fun j => pBuffer (42 + j)) ∧
      FifoWf bf1 ∧ bf1.ItemNb = bf.ItemNb ∧ NetworkPortValid s1 portId = true := by
  obtain ⟨hd1, hd2, hd3, hd4, -⟩ := NetworkDecodeUdpPacket_spec pBuffer h36 h37 h38 h39
  obtain ⟨u, hu, hsame⟩ := NetworkUpdateArpTable_total s ctrlId ctrl cd hctrl hcd hlen
    (ip_addr.ofMem pBuffer (ETH_HEADER_SIZE + 12)) (mac_addr.ofMem pBuffer 6) false
  obtain ⟨hp1, hp2, -⟩ := hsame
  have hports2 : ∀ j, j < u.2.pInitDesc.PortNb → ∃ q, u.2.pPortInfoList[j]? = some q ∧
      ((NetworkDecodeUdpPacket pBuffer).2.2.1 = q.InPortNb → q.pDesc.isSome = true) := by
    rw [hp1, hp2, hd1]; exact hports
  obtain ⟨st1, s1, hst, hinit, -, -, -, -, -, hpp⟩ := NetworkStoreIncMsg_spec u.2
    (ptrAdd (NetworkDecodeUdpPacket pBuffer).1 (NetworkDecodeUdpPacket pBuffer).2.2.2)
    (NetworkDecodeUdpPacket pBuffer).2.1 (NetworkDecodeUdpPacket pBuffer).2.2.1 IP_PROT_UDP
    (ip_addr.ofMem (NetworkDecodeUdpPacket pBuffer).1 (ETH_HEADER_SIZE + 12)) hports2
  have hlt : portId < s.pInitDesc.PortNb := by
    simp only [NetworkPortValid, Bool.and_eq_true, decide_eq_true_eq] at hvalid
    exact hvalid.1
  have hne : ¬ (IP_PROT_UDP = IP_PROT_ICMP) := by decide
  have hsize : (NetworkDecodeUdpPacket pBuffer).2.1 = n := by rw [hd2, hn]
  obtain ⟨bf1, hs1, hwf1, hitems1, hnb1⟩ := storeIncPort_stream_wf port
    (ptrAdd (NetworkDecodeUdpPacket pBuffer).1 (NetworkDecodeUdpPacket pBuffer).2.2.2) n
    (ip_addr.ofMem (NetworkDecodeUdpPacket pBuffer).1 (ETH_HEADER_SIZE + 12)) bf hmode hrx hbf
    hroom
  have hget : s1.pPortInfoList[portId]? = some { port with pFifoRxMsg := some bf1 } := by
    rw [hpp portId port (by rw [hp2]; exact hlt) (by rw [hp1]; exact hport)]
    simp only [storeIncUpdate, hpd, hd1, hdst, hprot, and_self, if_true, hsize, hs1]
  refine ⟨st1, s1, (NetworkDecodeUdpPacket pBuffer).1, bf1, ?_, hget, ?_, hwf1, hnb1, ?_⟩
  · simp only [NetworkProcessIpPacket, haccept, hu, ETH_HEADER_SIZE, Nat.reduceAdd, hproto, hne,
      if_false, if_true]
    simp only [ETH_HEADER_SIZE, Nat.reduceAdd] at hst
    rw [hst]
  · rw [hitems1]
    refine congrArg _ ?_
    apply List.map_congr_left
    intro j _
    show (NetworkDecodeUdpPacket pBuffer).1 ((NetworkDecodeUdpPacket pBuffer).2.2.2 + j) = _
    rw [hd3, hd4 (42 + j) (by omega)]
  · simp only [NetworkPortValid, hinit, hp2, hget, Bool.and_eq_true, decide_eq_true_eq, hpd,
      Option.isSome_some, and_true]
    exact hlt

theorem streamState_ports (destPort : Nat) :
    ∀ j, j < streamState.pInitDesc.PortNb → ∃ q, streamState.pPortInfoList[j]? = some q ∧
      (destPort = q.InPortNb → q.pDesc.isSome = true) := by
  intro j hj
  have h1 : streamState.pInitDesc.PortNb = 1 := by decide
  have h0 : j = 0 := by omega
  subst h0
  exact ⟨streamPort, rfl, fun _ => rfl⟩

set_option maxRecDepth 100000 in
/-- C19: on a valid UDP port whose receive side is in stream mode, with a well-formed
receive byte queue of a capacity that fits the 16-bit size field of the port descriptor:
an accepted UDP frame for the port number of the port, whose n = UDP length - 8 payload
bytes fit the free space, is processed by appending these n bytes, in order, to the
receive byte queue, the receive descriptor queue and the mode staying as they are (the
port is again as the hypotheses ask, so that the next datagram is appended behind);
NetworkPortReadByte returns true, puts the oldest byte in the buffer and removes it from
the queue; NetworkPortReadBuff returns true, reports the size m = min(buffSize, count),
puts the m oldest bytes in arrival order in the buffer, removes exactly these from the
queue, and leaves the source address behind `pSrcIp` as it was. On the module of
`test_network_virtual_port_com`, after the frame `udp_com_rx_barray` carrying
"Hessian matrix": the queue holds 14 bytes and no descriptor, read-byte gives 0x48 (H),
then read-buffer with 64 bytes of room gives the 13 bytes "essian matrix", the size 13,
no source address, and leaves the queue empty. -/
theorem stream_mode_receive (s : network_module_info_t) (ctrlId portId : Nat)
    (ctrl : network_ctrl_info_t) (cd : network_ctrl_desc_t) (port : network_port_info_t)
    (pd : network_port_desc_t) (bf : fifo_desc_t Nat) (pBuffer : Nat → Nat) (buffSize n : Nat)
    (hctrl : s.pCtrlInfoList[ctrlId]? = some ctrl) (hcd : ctrl.pDesc = some cd)
    (hlen : cd.ArpEntryNb ≤ ctrl.pArpArray.length)
    (hport : s.pPortInfoList[portId]? = some port)
    (hvalid : NetworkPortValid s portId = true)
    (hpd : port.pDesc = some pd) (hprot : pd.Protocol = IP_PROT_UDP)
    (hmode : port.IsVirtualComRx = true)
    (hrx : port.pFifoRxMsg = some bf) (hbf : FifoWf bf) (hcap : bf.ItemNb < 65536)
    (haccept : NetworkAcceptIncIpPacket s ctrlId (ptrAdd pBuffer ETH_HEADER_SIZE) = some true)
    (hproto : pBuffer 23 = IP_PROT_UDP)
    (h36 : pBuffer 36 < 256) (h37 : pBuffer 37 < 256) (h38 : pBuffer 38 < 256)
    (h39 : pBuffer 39 < 256)
    (hdst : port.InPortNb = pBuffer 36 * 256 + pBuffer 37)
    (hn : n = (pBuffer 38 * 256 + pBuffer 39 + 65536 - 8) % 65536)
    (hroom : n ≤ FifoFreeSpace (some bf))
    (hports : ∀ j, j < s.pInitDesc.PortNb → ∃ q, s.pPortInfoList[j]? = some q ∧
      (pBuffer 36 * 256 + pBuffer 37 = q.InPortNb → q.pDesc.isSome = true)) :
    (∃ st1 s1 b1 port1 bf1,
      NetworkProcessIpPacket s ctrlId pBuffer buffSize = some (st1, s1, b1) ∧
      s1.pPortInfoList[portId]? = some port1 ∧ port1.pFifoRxMsg = some bf1 ∧
      FifoItems bf1 = FifoItems bf ++ (List.range n).map (fun j => pBuffer (42 + j)) ∧
      port1.pFifoRxMsgDesc = port.pFifoRxMsgDesc ∧
      NetworkPortValid s1 portId = true ∧ port1.pDesc = some pd ∧
      port1.InPortNb = port.InPortNb ∧ port1.IsVirtualComRx = true ∧
      FifoWf bf1 ∧ bf1.ItemNb = bf.ItemNb) ∧
    (∀ (buf : Nat → Nat) (x : Nat) (rest : List Nat), FifoItems bf = x :: rest →
      (NetworkPortReadByte s portId (some buf)).ret = true ∧
      ∃ b port1 bf1, (NetworkPortReadByte s portId (some buf)).pBuffer = some b ∧ b 0 = x ∧
        (NetworkPortReadByte s portId (some buf)).s.pPortInfoList[portId]? = some port1 ∧
        port1.pFifoRxMsg = some bf1 ∧ FifoItems bf1 = rest ∧
        port1.pFifoRxMsgDesc = port.pFifoRxMsgDesc) ∧
    (∀ (buf : Nat → Nat) (d0 cap : Nat) (pSrcIp : Option ip_addr),
      (NetworkPortReadBuff s portId (some buf) (some d0) cap pSrcIp).ret = true ∧
      (NetworkPortReadBuff s portId (some buf) (some d0) cap pSrcIp).pDataSize
        = some (min cap (FifoItems bf).length) ∧
      (NetworkPortReadBuff s portId (some buf) (some d0) cap pSrcIp).pSrcIp = pSrcIp ∧
      ∃ b port1 bf1,
        (NetworkPortReadBuff s portId (some buf) (some d0) cap pSrcIp).pBuffer = some b ∧
        (List.range (min cap (FifoItems bf).length)).map b
          = (FifoItems bf).take (min cap (FifoItems bf).length) ∧
        (NetworkPortReadBuff s portId (some buf) (some d0) cap pSrcIp).s.pPortInfoList[portId]?
          = some port1 ∧
        port1.pFifoRxMsg = some bf1 ∧
        FifoItems bf1 = (FifoItems bf).drop (min cap (FifoItems bf).length)) ∧
    (modeSummary streamState = [(true, true)] ∧
      rxSummary streamRxState = [(some 0, 14, 0)] ∧
      (NetworkPortReadByte streamRxState 0 (some (fun _ => 0))).ret = true ∧
      ((NetworkPortReadByte streamRxState 0 (some (fun _ => 0))).pBuffer.map fun b => b 0)
        = some 0x48 ∧
      (NetworkPortReadBuff streamReadState 0 (some (fun _ => 0)) (some 0) 64 none).ret = true ∧
      (NetworkPortReadBuff streamReadState 0 (some (fun _ => 0)) (some 0) 64 none).pDataSize
        = some 13 ∧
      (NetworkPortReadBuff streamReadState 0 (some (fun _ => 0)) (some 0) 64 none).pSrcIp
        = none ∧
      ((NetworkPortReadBuff streamReadState 0 (some (fun _ => 0)) (some 0) 64 none).pBuffer.map
        fun b => (List.range 13).map b)
        = some [0x65, 0x73, 0x73, 0x69, 0x61, 0x6E, 0x20, 0x6D, 0x61, 0x74, 0x72, 0x69, 0x78] ∧
      rxSummary (NetworkPortReadBuff streamReadState 0 (some (fun _ => 0)) (some 0) 64 none).s
        = [(some 0, 0, 0)]) := by
  refine ⟨?_, ?_, ?_, by decide⟩
  · obtain ⟨st1, s1, b1, bf1, h1, h2, h3, h4, h5, h6⟩ := NetworkProcessIpPacket_stream s ctrlId
      portId ctrl cd port pd bf pBuffer buffSize n hctrl hcd hlen hport hvalid hpd hprot hmode
      hrx hbf haccept hproto h36 h37 h38 h39 hdst hn hroom hports
    exact ⟨st1, s1, b1, _, bf1, h1, h2, rfl, h3, rfl, h6, hpd, rfl, hmode, h4, h5⟩
  · intro buf x rest hitems
    exact NetworkPortReadByte_stream s portId port bf hport hvalid hmode hrx hbf buf x rest
      hitems
  · intro buf d0 cap pSrcIp
    exact NetworkPortReadBuff_stream s portId port bf hport hvalid hmode hrx hbf hcap buf d0
      cap pSrcIp

set_option maxRecDepth 100000 in
/-- C19 (witness): the port of `test_network_virtual_port_com` receives the frame
`udp_com_rx_barray`; the fourteen bytes "Hessian matrix" are appended to its empty
receive byte queue. -/
theorem stream_mode_receive_witness :
    ∃ st1 s1 b1 port1 bf1,
      NetworkProcessIpPacket streamState 0 (bufOf udp_com_rx_barray) 56 = some (st1, s1, b1) ∧
      s1.pPortInfoList[0]? = some port1 ∧ port1.pFifoRxMsg = some bf1 ∧
      FifoItems bf1 = [0x48, 0x65, 0x73, 0x73, 0x69, 0x61, 0x6E, 0x20, 0x6D, 0x61, 0x74, 0x72,
        0x69, 0x78] := by
  obtain ⟨st1, s1, b1, port1, bf1, h1, h2, h3, h4, -⟩ := (stream_mode_receive streamState 0 0
    pendingCtrl testCtrlDesc streamPort secPortDesc (FifoCreate (fun _ => 0) 1514 1)
    (bufOf udp_com_rx_barray) 56 14 rfl rfl (by decide) rfl (by decide) rfl rfl rfl rfl
    (FifoWf_create _ _ _ (by decide)) (by decide) (by decide) (by decide) (by decide)
    (by decide) (by decide) (by decide) (by decide) (by decide) (by decide)
    (streamState_ports _)).1
  exact ⟨st1, s1, b1, port1, bf1, h1, h2, h3, h4⟩

/-! ## Counter difference and timer comparison -/

/-- `UtilsDiffUint32` when the counter did not wrap: the plain difference. -/
theorem UtilsDiffUint32_no_wrap (old cur : Nat) (hc : cur < 4294967296) (h : old ≤ cur) :
    UtilsDiffUint32 old cur = (cur + 4294967296 - old) % 4294967296 := by
  unfold UtilsDiffUint32 sub32
  rw [if_pos h]
  have : old % 4294967296 = old := Nat.mod_eq_of_lt (by omega)
  rw [this]

/-- `UtilsDiffUint32` when the counter wrapped: one less than the roll-over difference. -/
theorem UtilsDiffUint32_wrap (old cur : Nat) (ho : old < 4294967296) (h : cur < old) :
    UtilsDiffUint32 old cur + 1 = (cur + 4294967296 - old) % 4294967296 := by
  unfold UtilsDiffUint32 sub32
  rw [if_neg (by omega)]
  omega

/-- C25 (failing input): the counter read `old` = 1, wrapped, and reads `cur` = 0, which is
4294967295 ticks later; `UtilsDiffUint32` returns 4294967294. From 4294967295 to 0, one
tick, it returns 0. When the counter did not wrap the result is the difference
(142 - 100 = 42). -/
theorem utils_diff_uint32_is_one_short_after_wrap :
    UtilsDiffUint32 1 0 = 4294967294 ∧
    (0 + 4294967296 - 1) % 4294967296 = 4294967295 ∧
    UtilsDiffUint32 4294967295 0 = 0 ∧
    (0 + 4294967296 - 4294967295) % 4294967296 = 1 ∧
    UtilsDiffUint32 100 142 = 42 := by
  decide

/-- The comparison of Timer.c in terms of the distance modulo 2^32. -/
theorem timerPassed_iff (now d : Nat) (hn : now < 4294967296) (hd : d < 4294967296) :
    timerPassed now d = true ↔
      ((now + 4294967296 - d) % 4294967296 < 2147483648 ∨ d = now + 2147483648) := by
  unfold timerPassed sub32
  simp only []
  by_cases h1 : now ≤ d
  · rw [if_pos h1]
    by_cases h2 : (d + 4294967296 - now % 4294967296) % 4294967296 < 0x80000000
    · rw [if_pos h2, decide_eq_true_eq]
      omega
    · rw [if_neg h2, decide_eq_true_eq]
      omega
  · rw [if_neg h1]
    by_cases h2 : (now + 4294967296 - d % 4294967296) % 4294967296 < 0x80000000
    · rw [if_pos h2, decide_eq_true_eq]
      omega
    · rw [if_neg h2, decide_eq_true_eq]
      omega

/-- C26 (counterexample): the reference counter reads 0 and the deadline is 2147483648
(2^31): the distance (now - d) mod 2^32 is 2^31, which is not less than 2^31, and
`TimerRefIsPassed` and `TimerIsPassed` return true. With the counter at 2^31 and the
deadline 0 the distance is 2^31 as well, and both return false. -/
theorem timer_is_passed_at_distance_two_pow_31 :
    TimerRefIsPassed (timerAt 0) 2147483648 = some true ∧
    TimerIsPassed (timerAt 0) 0 2147483648 = some true ∧
    (0 + 4294967296 - 2147483648) % 4294967296 = 2147483648 ∧
    TimerRefIsPassed (timerAt 2147483648) 0 = some false ∧
    TimerIsPassed (timerAt 2147483648) 0 0 = some false ∧
    (2147483648 + 4294967296 - 0) % 4294967296 = 2147483648 := by
  decide

/-- C26 (amended): for a reference timer (and a timer of valid id) whose counter reads
`now`, and a deadline `d`, both 32-bit values, `TimerRefIsPassed(d)` and
`TimerIsPassed(id, d)` return true iff the distance (now - d) mod 2^32 is less than 2^31,
or d = now + 2^31 (the distance is exactly 2^31 and now is below d). -/
theorem timer_is_passed_modular (t : timer_module_info_t) (desc : timer_init_desc_t)
    (timerId now tnow d : Nat)
    (hdesc : t.pDesc = some desc) (hid : timerId < desc.TimerNb)
    (hn : now < 4294967296) (htn : tnow < 4294967296) (hd : d < 4294967296)
    (href : t.pTimerInfoList[t.RefTimerId]? = some { Counter := now })
    (htimer : t.pTimerInfoList[timerId]? = some { Counter := tnow }) :
    (∃ b, TimerRefIsPassed t d = some b ∧
      (b = true ↔
        ((now + 4294967296 - d) % 4294967296 < 2147483648 ∨ d = now + 2147483648))) ∧
    (∃ b, TimerIsPassed t timerId d = some b ∧
      (b = true ↔
        ((tnow + 4294967296 - d) % 4294967296 < 2147483648 ∨ d = tnow + 2147483648))) := by
  constructor
  · refine ⟨timerPassed now d, ?_, timerPassed_iff now d hn hd⟩
    simp only [TimerRefIsPassed, TimerRefGetTime, href]
  · refine ⟨timerPassed tnow d, ?_, timerPassed_iff tnow d htn hd⟩
    simp only [TimerIsPassed, TimerGetTime, hdesc, hid, if_true, htimer]

/-- C26 (witness): the counter reads 4294967295 and the deadline 1000 lies 1001 ticks
ahead, behind the wrap: not passed; the deadline 4294967000 is passed. -/
theorem timer_is_passed_modular_witness :
    TimerRefIsPassed (timerAt 4294967295) 1000 = some false ∧
    TimerRefIsPassed (timerAt 4294967295) 4294967000 = some true := by
  have h1 := (timer_is_passed_modular (timerAt 4294967295) { TimerNb := 1 } 0 4294967295
    4294967295 1000 rfl (by decide) (by decide) (by decide) (by decide) rfl rfl).1
  have h2 := (timer_is_passed_modular (timerAt 4294967295) { TimerNb := 1 } 0 4294967295
    4294967295 4294967000 rfl (by decide) (by decide) (by decide) (by decide) rfl rfl).1
  obtain ⟨b1, e1, i1⟩ := h1
  obtain ⟨b2, e2, i2⟩ := h2
  refine ⟨?_, ?_⟩
  · rw [e1]
    cases b1 with
    | false => rfl
    | true => exact absurd (i1.mp rfl) (by decide)
  · rw [e2]
    cases b2 with
    | true => rfl
    | false => exact absurd (i2.mpr (by decide)) (by decide)

/-! ## ARP table exhaustion -/

theorem NetworkCreateArpEntry_loop_full (arr : List arp_entry_t) (k : Nat) :
    ∀ i, (∀ j, i ≤ j → j < i + k → ∃ e, arr[j]? = some e ∧ e.Status.IsInitialised = true) →
      NetworkCreateArpEntry.loop arr i k = some (i + k) := by
  induction k with
  | zero => intro i _; rfl
  | succ k ih =>
    intro i h
    obtain ⟨e, he, hinit⟩ := h i le_rfl (by omega)
    unfold NetworkCreateArpEntry.loop
    simp only [he, hinit, Bool.not_true, Bool.false_eq_true, if_false]
    rw [ih (i + 1) (fun j h1 h2 => h j (by omega) (by omega))]
    congr 1
    omega

/-- `NetworkCreateArpEntry` on a table without a free slot: no entry, and the error is
notified. -/
theorem NetworkCreateArpEntry_full (s : network_module_info_t) (ctrlId : Nat)
    (ctrl : network_ctrl_info_t) (cd : network_ctrl_desc_t)
    (hctrl : s.pCtrlInfoList[ctrlId]? = some ctrl) (hcd : ctrl.pDesc = some cd)
    (hfull : ∀ j, j < cd.ArpEntryNb →
      ∃ e, ctrl.pArpArray[j]? = some e ∧ e.Status.IsInitialised = true) :
    NetworkCreateArpEntry s ctrlId = some (none, notifyError s) := by
  have hl := NetworkCreateArpEntry_loop_full ctrl.pArpArray cd.ArpEntryNb 0
    (fun j _ h2 => hfull j (by omega))
  simp only [NetworkCreateArpEntry, hctrl, hcd, hl, Nat.zero_add, lt_irrefl, if_false]

theorem notifyError_fields (s : network_module_info_t) :
    (notifyError s).pCtrlInfoList = s.pCtrlInfoList ∧
    (notifyError s).pPortInfoList = s.pPortInfoList ∧
    (notifyError s).pInitDesc = s.pInitDesc ∧
    (notifyError s).pBuffer = s.pBuffer ∧
    (notifyError s).Sent = s.Sent ∧
    (notifyError s).Errors =
      (if s.pInitDesc.GenInterface.pFnErrorNotify then s.Errors ++ [s.pInitDesc.ErrorCode]
       else s.Errors) := by
  unfold notifyError
  split_ifs <;> exact ⟨rfl, rfl, rfl, rfl, rfl, rfl⟩

/-- C24: when every slot of the ARP table of a valid controller is initialised and no slot
holds the in-subnet address X, NetworkCtrlForceRequestARP(X) and
NetworkCtrlAddArpEntry(X, mac, decay) return false; the module state after each call is
the state before with, when the error callback is configured, one call of it with the
module error code: no frame is handed to the driver and the controller list, hence the ARP
table, is unchanged. -/
theorem arp_table_full_is_reported (s : network_module_info_t) (ctrlId : Nat)
    (ctrl : network_ctrl_info_t) (cd : network_ctrl_desc_t) (X : ip_addr) (mac : mac_addr)
    (decay : Bool)
    (hid : ctrlId < s.pInitDesc.CtrlNb)
    (hctrl : s.pCtrlInfoList[ctrlId]? = some ctrl) (hcd : ctrl.pDesc = some cd)
    (hfull : ∀ j, j < cd.ArpEntryNb →
      ∃ e, ctrl.pArpArray[j]? = some e ∧ e.Status.IsInitialised = true)
    (hno : ∀ j e, j < cd.ArpEntryNb → ctrl.pArpArray[j]? = some e → e.IpAddr ≠ X)
    (hsub : NetworkIsIpValid X ctrl.IpAddr ctrl.SubnetMask = true) :
    NetworkCtrlForceRequestARP s ctrlId (some X) = some (false, notifyError s) ∧
    NetworkCtrlAddArpEntry s ctrlId (some X) (some mac) decay = some (false, notifyError s) ∧
    (notifyError s).Sent = s.Sent ∧
    (notifyError s).pCtrlInfoList = s.pCtrlInfoList ∧
    (notifyError s).pPortInfoList = s.pPortInfoList ∧
    (notifyError s).Errors =
      (if s.pInitDesc.GenInterface.pFnErrorNotify then s.Errors ++ [s.pInitDesc.ErrorCode]
       else s.Errors) := by
  have hvalid : NetworkCtrlValid s ctrlId = true := by
    simp [NetworkCtrlValid, hid, hctrl, hcd]
  have hget : NetworkGetArpEntry s ctrlId X = some none := by
    rw [NetworkGetArpEntry_eq s ctrlId ctrl cd hctrl hcd]
    apply NetworkGetArpEntry_loop_none_intro
    intro j _ hj
    obtain ⟨e, he, -⟩ := hfull j (by omega)
    refine ⟨e, he, ?_⟩
    have := hno j e (by omega) he
    simp [arpMatches, this]
  have hcreate := NetworkCreateArpEntry_full s ctrlId ctrl cd hctrl hcd hfull
  obtain ⟨h1, h2, -, -, h5, h6⟩ := notifyError_fields s
  refine ⟨?_, ?_, h5, h1, h2, h6⟩
  · simp only [NetworkCtrlForceRequestARP, hctrl, hvalid, hsub, if_true, NetworkRequestArp, hget,
      hcreate]
  · simp only [NetworkCtrlAddArpEntry, hctrl, hvalid, hsub, if_true, NetworkUpdateArpTable, hget,
      NetworkStoreArp, hcreate]

set_option maxRecDepth 100000 in
/-- C24 (witness): the one-entry table of `fullState` holds 192.168.2.0; a request for
192.168.2.7 and an insertion of 192.168.2.7 fail, and each reports the error code 0x42. -/
theorem arp_table_full_is_reported_witness :
    NetworkCtrlForceRequestARP fullState 0 (some ⟨192, 168, 2, 7⟩)
      = some (false, notifyError fullState) ∧
    NetworkCtrlAddArpEntry fullState 0 (some ⟨192, 168, 2, 7⟩)
      (some ⟨0x11, 0x22, 0x44, 0x55, 0x88, 0xbb⟩) true = some (false, notifyError fullState) ∧
    (notifyError fullState).Errors = [0x42] ∧ (notifyError fullState).Sent = [] := by
  obtain ⟨h1, h2, -, -, -, -⟩ := arp_table_full_is_reported fullState 0 fullCtrl tinyCtrlDesc
    ⟨192, 168, 2, 7⟩ ⟨0x11, 0x22, 0x44, 0x55, 0x88, 0xbb⟩ true (by decide) rfl rfl
    (fun j hj => by
      have h0 : j = 0 := by
        have : tinyCtrlDesc.ArpEntryNb = 1 := rfl
        omega
      subst h0
      exact ⟨_, rfl, by decide⟩)
    (fun j e hj he => by
      have h0 : j = 0 := by
        have : tinyCtrlDesc.ArpEntryNb = 1 := rfl
        omega
      subst h0
      have he2 : fullCtrl.pArpArray[0]? =
          some (fullCtrl.pArpArray.getD 0 arp_entry_t.zero) := rfl
      rw [he2] at he
      cases he
      decide)
    (by decide)
  exact ⟨h1, h2, by decide, by decide⟩

/-! ## ARP learning from inbound traffic -/

/-- `NetworkCreateArpEntry` on a table with a free slot: the first free slot, and no
error. -/
theorem NetworkCreateArpEntry_free (s : network_module_info_t) (ctrlId : Nat)
    (ctrl : network_ctrl_info_t) (cd : network_ctrl_desc_t)
    (hctrl : s.pCtrlInfoList[ctrlId]? = some ctrl) (hcd : ctrl.pDesc = some cd)
    (hlen : cd.ArpEntryNb ≤ ctrl.pArpArray.length)
    (hfree : ∃ j e, j < cd.ArpEntryNb ∧ ctrl.pArpArray[j]? = some e ∧
      e.Status.IsInitialised = false) :
    ∃ f e0, NetworkCreateArpEntry s ctrlId = some (some f, s) ∧ f < cd.ArpEntryNb ∧
      ctrl.pArpArray[f]? = some e0 ∧ e0.Status.IsInitialised = false := by
  obtain ⟨f, hf, hle⟩ := NetworkCreateArpEntry_loop_total ctrl.pArpArray cd.ArpEntryNb 0
    (by omega)
  obtain ⟨-, -, hbelow, hat⟩ := NetworkCreateArpEntry_loop_spec ctrl.pArpArray cd.ArpEntryNb 0 f hf
  have hlt : f < cd.ArpEntryNb := by
    rcases Nat.lt_or_ge f cd.ArpEntryNb with h | h
    · exact h
    · obtain ⟨j, e, hj, he, hinit⟩ := hfree
      obtain ⟨e', he', hinit'⟩ := hbelow j (Nat.zero_le _) (by omega)
      rw [he] at he'
      cases he'
      rw [hinit] at hinit'
      cases hinit'
  obtain ⟨e0, he0, hi0⟩ := hat (by omega)
  refine ⟨f, e0, ?_, hlt, he0, hi0⟩
  simp only [NetworkCreateArpEntry, hctrl, hcd, hf, hlt, if_true]

/-- `NetworkUpdateArpTable` for an address without entry, in a table with a free slot: the
first free slot receives the address, valid, with the decay flag given. -/
theorem NetworkUpdateArpTable_new (s : network_module_info_t) (ctrlId : Nat)
    (ctrl : network_ctrl_info_t) (cd : network_ctrl_desc_t) (S : ip_addr) (M : mac_addr)
    (hasDecay : Bool)
    (hctrl : s.pCtrlInfoList[ctrlId]? = some ctrl) (hcd : ctrl.pDesc = some cd)
    (hlen : cd.ArpEntryNb ≤ ctrl.pArpArray.length)
    (hnone : NetworkGetArpEntry.loop ctrl.pArpArray S 0 cd.ArpEntryNb = some none)
    (hfree : ∃ j e, j < cd.ArpEntryNb ∧ ctrl.pArpArray[j]? = some e ∧
      e.Status.IsInitialised = false) :
    ∃ f e0, f < cd.ArpEntryNb ∧ ctrl.pArpArray[f]? = some e0 ∧
      NetworkUpdateArpTable s ctrlId S M hasDecay = some (true, setCtrl s ctrlId
        { ctrl with pArpArray := (ctrl.pArpArray.set f
            { e0 with IpAddr := S, MacAddr := M,
                      Status := { e0.Status with IsRequested := true, IsInitialised := true,
                                                 IsValid := true, HasDecay := hasDecay },
                      DecayTimer := s.pInitDesc.GenInterface.pFnTimerGetTime }) }) ∧
      NetworkGetArpEntry.loop (ctrl.pArpArray.set f
            { e0 with IpAddr := S, MacAddr := M,
                      Status := { e0.Status with IsRequested := true, IsInitialised := true,
                                                 IsValid := true, HasDecay := hasDecay },
                      DecayTimer := s.pInitDesc.GenInterface.pFnTimerGetTime }) S 0 cd.ArpEntryNb
        = some (some f) := by
  obtain ⟨f, e0, hcreate, hlt, he0, -⟩ := NetworkCreateArpEntry_free s ctrlId ctrl cd hctrl hcd
    hlen hfree
  refine ⟨f, e0, hlt, he0, ?_, ?_⟩
  · simp only [NetworkUpdateArpTable, NetworkStoreArp,
      NetworkGetArpEntry_eq s ctrlId ctrl cd hctrl hcd, hnone, hcreate, hctrl, he0,
      setArp_eq s ctrlId f _ ctrl hctrl]
  · exact NetworkGetArpEntry_loop_fill _ _ _ _ _ e0 hnone hlt he0 (by simp [arpMatches])

/-- `NetworkUpdateArpTable` for an address whose entry is valid: the timer is set to the
clock and the MAC address to the one given. -/
theorem NetworkUpdateArpTable_refresh (s : network_module_info_t) (ctrlId : Nat)
    (ctrl : network_ctrl_info_t) (cd : network_ctrl_desc_t) (X : ip_addr) (M : mac_addr)
    (hasDecay : Bool) (idx : Nat) (e : arp_entry_t)
    (hctrl : s.pCtrlInfoList[ctrlId]? = some ctrl) (hcd : ctrl.pDesc = some cd)
    (hget : NetworkGetArpEntry.loop ctrl.pArpArray X 0 cd.ArpEntryNb = some (some idx))
    (he : ctrl.pArpArray[idx]? = some e) (hvalid : e.Status.IsValid = true) :
    NetworkUpdateArpTable s ctrlId X M hasDecay = some (true, setCtrl s ctrlId
      { ctrl with pArpArray := (ctrl.pArpArray.set idx
          { e with DecayTimer := s.pInitDesc.GenInterface.pFnTimerGetTime, MacAddr := M }) }) := by
  simp only [NetworkUpdateArpTable, NetworkGetArpEntry_eq s ctrlId ctrl cd hctrl hcd, hget, hctrl,
    he, hvalid, Bool.not_true, Bool.false_eq_true, if_false]
  by_cases hm : e.MacAddr = M
  · have : ({ e with DecayTimer := s.pInitDesc.GenInterface.pFnTimerGetTime } : arp_entry_t)
        = { e with DecayTimer := s.pInitDesc.GenInterface.pFnTimerGetTime, MacAddr := M } := by
      rw [← hm]
    simp only [ne_eq, hm, not_true_eq_false, if_false, setArp_eq s ctrlId idx _ ctrl hctrl, this]
  · simp only [ne_eq, hm, not_false_eq_true, if_true, setArp_eq s ctrlId idx _ ctrl hctrl]

/-- `NetworkProcessIcmpPacket` returns, and leaves the ARP table of the controller as it
is. -/
theorem NetworkProcessIcmpPacket_table (s : network_module_info_t) (ctrlId : Nat)
    (ctrl : network_ctrl_info_t) (cd : network_ctrl_desc_t) (pBuffer : Nat → Nat) (buffSize : Nat)
    (hctrl : s.pCtrlInfoList[ctrlId]? = some ctrl) (hcd : ctrl.pDesc = some cd) :
    ∃ st s1 b1 c1, NetworkProcessIcmpPacket s ctrlId pBuffer buffSize = some (st, s1, b1) ∧
      s1.pCtrlInfoList[ctrlId]? = some c1 ∧ c1.pArpArray = ctrl.pArpArray ∧
      c1.pDesc = ctrl.pDesc := by
  unfold NetworkProcessIcmpPacket
  simp only []
  split_ifs
  · simp only [NetworkProcessIcmpEchoRequest, hctrl, hcd, macSend]
    exact ⟨_, _, _, ctrl, rfl, hctrl, rfl, hcd⟩
  · simp only [NetworkProcessIcmpEchoReply, hctrl]
    split_ifs
    · exact ⟨_, _, _, _, rfl, setCtrl_get s ctrlId _ ctrl hctrl, rfl, rfl⟩
    · exact ⟨_, _, _, ctrl, rfl, hctrl, rfl, rfl⟩
  · exact ⟨_, _, _, ctrl, rfl, hctrl, rfl, rfl⟩

/-- `NetworkProcessIpPacket` on an accepted packet: the ARP table after the call is the one
that `NetworkUpdateArpTable` leaves. -/
theorem NetworkProcessIpPacket_table (s : network_module_info_t) (ctrlId : Nat)
    (pBuffer : Nat → Nat) (buffSize : Nat) (u : Bool × network_module_info_t)
    (cu : network_ctrl_info_t) (cd : network_ctrl_desc_t)
    (haccept : NetworkAcceptIncIpPacket s ctrlId (ptrAdd pBuffer ETH_HEADER_SIZE) = some true)
    (hu : NetworkUpdateArpTable s ctrlId (ip_addr.ofMem pBuffer 26) (mac_addr.ofMem pBuffer 6)
      false = some u)
    (hcu : u.2.pCtrlInfoList[ctrlId]? = some cu) (hcd : cu.pDesc = some cd)
    (hports : pBuffer 23 = IP_PROT_UDP →
      ∀ j, j < u.2.pInitDesc.PortNb → ∃ q, u.2.pPortInfoList[j]? = some q ∧
        ((NetworkDecodeUdpPacket pBuffer).2.2.1 = q.InPortNb → q.pDesc.isSome = true)) :
    ∃ st s1 b1 c1, NetworkProcessIpPacket s ctrlId pBuffer buffSize = some (st, s1, b1) ∧
      s1.pCtrlInfoList[ctrlId]? = some c1 ∧ c1.pArpArray = cu.pArpArray ∧
      c1.pDesc = cu.pDesc := by
  simp only [NetworkProcessIpPacket, haccept, ETH_HEADER_SIZE, Nat.reduceAdd, hu]
  by_cases h1 : pBuffer 23 = IP_PROT_ICMP
  · rw [if_pos h1]
    exact NetworkProcessIcmpPacket_table u.2 ctrlId cu cd pBuffer buffSize hcu hcd
  · rw [if_neg h1]
    by_cases h2 : pBuffer 23 = IP_PROT_UDP
    · rw [if_pos h2]
      obtain ⟨st1, s1, hst, -, hcl, -⟩ := NetworkStoreIncMsg_spec u.2
        (ptrAdd (NetworkDecodeUdpPacket pBuffer).1 (NetworkDecodeUdpPacket pBuffer).2.2.2)
        (NetworkDecodeUdpPacket pBuffer).2.1 (NetworkDecodeUdpPacket pBuffer).2.2.1 IP_PROT_UDP
        (ip_addr.ofMem (NetworkDecodeUdpPacket pBuffer).1 (ETH_HEADER_SIZE + 12)) (hports h2)
      simp only [ETH_HEADER_SIZE, Nat.reduceAdd] at hst
      rw [hst]
      exact ⟨_, _, _, cu, rfl, by rw [hcl]; exact hcu, rfl, rfl⟩
    · rw [if_neg h2]
      exact ⟨_, _, _, cu, rfl, hcu, rfl, rfl⟩

/-- The decay sweep, whatever the clock says, leaves an entry that is not subject to decay
as it is. -/
theorem NetworkCtrlArpDecayProcess_keeps (s : network_module_info_t) (ctrlId : Nat)
    (ctrl : network_ctrl_info_t) (cd : network_ctrl_desc_t) (idx : Nat) (e : arp_entry_t)
    (hctrl : s.pCtrlInfoList[ctrlId]? = some ctrl) (hcd : ctrl.pDesc = some cd)
    (hlen : cd.ArpEntryNb ≤ ctrl.pArpArray.length)
    (he : ctrl.pArpArray[idx]? = some e) (hno : e.Status.HasDecay = false) :
    ∃ s1 c1, NetworkCtrlArpDecayProcess s ctrlId = some s1 ∧
      s1.pCtrlInfoList[ctrlId]? = some c1 ∧ c1.pArpArray[idx]? = some e := by
  unfold NetworkCtrlArpDecayProcess
  by_cases hv : NetworkCtrlValid s ctrlId = true
  · rw [if_pos hv]
    simp only [hctrl]
    by_cases hp : s.pInitDesc.GenInterface.pFnTimerIsPassed ctrl.TimerDecayARP = true
    · obtain ⟨arr1, hloop, hspec⟩ := NetworkCtrlArpDecayProcess_loop_spec
        s.pInitDesc.GenInterface.pFnTimerIsPassed cd.ArpEntryNb ctrl.pArpArray 0 (by omega)
      rw [if_pos hp]
      simp only [hcd, hloop]
      refine ⟨_, _, rfl, setCtrl_get s ctrlId _ ctrl hctrl, ?_⟩
      show arr1[idx]? = _
      rw [hspec idx, he]
      split_ifs <;> simp [decayUpdate, hno]
    · rw [if_neg hp]
      exact ⟨_, ctrl, rfl, hctrl, he⟩
  · rw [if_neg hv]
    exact ⟨_, ctrl, rfl, hctrl, he⟩

set_option maxRecDepth 100000 in
/-- C29 (counterexample): the controller of `portState`, whose ARP table is empty, accepts
the UDP frame `udp_rx_barray` from 192.168.2.0 when the clock reads 1000: the table then
holds a valid entry for 192.168.2.0 with the MAC 11:22:44:55:88:aa and lastSeen = 1000,
but with subjectToDecay = false; the decay sweeps that run at the clock values 61000 (60 s
later) and 4000000 leave the entry in place. -/
theorem learned_arp_entry_has_decay_off :
    firstArpEntry (learnedState 1000) =
      some { DecayTimer := 1000, MacAddr := ⟨0x11, 0x22, 0x44, 0x55, 0x88, 0xaa⟩,
             IpAddr := ⟨192, 168, 2, 0⟩,
             Status := { IsInitialised := true, IsValid := true, IsRequested := true,
                         HasDecay := false } } ∧
    learnedThenSwept 1000 61000 = firstArpEntry (learnedState 1000) ∧
    learnedThenSwept 1000 4000000 = firstArpEntry (learnedState 1000) ∧
    ((NetworkCtrlArpDecayProcess (atClock (learnedState 1000) 61000) 0).map fun s =>
      s.pCtrlInfoList.map fun c => c.TimerDecayARP) = some [62000] := by
  decide

/-- C29 (amended): after the controller accepts an inbound IPv4 packet from a source S
that had no ARP entry (the table having a free slot), the ARP table holds, in the first
free slot, a valid entry for S with the Ethernet source MAC of the frame, lastSeen = now
and subjectToDecay = false, so that the decay sweep, whatever the clock reads, leaves the
entry of the learned peer in place. -/
theorem learned_arp_entry_is_not_subject_to_decay (s : network_module_info_t) (ctrlId : Nat)
    (ctrl : network_ctrl_info_t) (cd : network_ctrl_desc_t) (pBuffer : Nat → Nat)
    (buffSize : Nat) (S : ip_addr) (M : mac_addr)
    (hctrl : s.pCtrlInfoList[ctrlId]? = some ctrl) (hcd : ctrl.pDesc = some cd)
    (hlen : cd.ArpEntryNb ≤ ctrl.pArpArray.length)
    (haccept : NetworkAcceptIncIpPacket s ctrlId (ptrAdd pBuffer ETH_HEADER_SIZE) = some true)
    (hS : ip_addr.ofMem pBuffer 26 = S) (hM : mac_addr.ofMem pBuffer 6 = M)
    (hnone : NetworkGetArpEntry s ctrlId S = some none)
    (hfree : ∃ j e, j < cd.ArpEntryNb ∧ ctrl.pArpArray[j]? = some e ∧
      e.Status.IsInitialised = false)
    (hports : pBuffer 23 = IP_PROT_UDP →
      ∀ j, j < s.pInitDesc.PortNb → ∃ q, s.pPortInfoList[j]? = some q ∧
        ((NetworkDecodeUdpPacket pBuffer).2.2.1 = q.InPortNb → q.pDesc.isSome = true)) :
    ∃ st s1 b1 c1 f e1,
      NetworkProcessIpPacket s ctrlId pBuffer buffSize = some (st, s1, b1) ∧
      s1.pCtrlInfoList[ctrlId]? = some c1 ∧
      NetworkGetArpEntry s1 ctrlId S = some (some f) ∧ c1.pArpArray[f]? = some e1 ∧
      e1.IpAddr = S ∧ e1.MacAddr = M ∧
      e1.DecayTimer = s.pInitDesc.GenInterface.pFnTimerGetTime ∧
      e1.Status.IsInitialised = true ∧ e1.Status.IsValid = true ∧
      e1.Status.HasDecay = false ∧
      (∀ s2, s2.pCtrlInfoList[ctrlId]? = some c1 →
        ∃ s3 c3, NetworkCtrlArpDecayProcess s2 ctrlId = some s3 ∧
          s3.pCtrlInfoList[ctrlId]? = some c3 ∧ c3.pArpArray[f]? = some e1) := by
  rw [NetworkGetArpEntry_eq s ctrlId ctrl cd hctrl hcd] at hnone
  obtain ⟨f, e0, hf, he0, hupd, hget1⟩ := NetworkUpdateArpTable_new s ctrlId ctrl cd S M false
    hctrl hcd hlen hnone hfree
  rw [← hS, ← hM] at hupd
  obtain ⟨st, s1, b1, c1, hres, hc1, harr, hdesc⟩ := NetworkProcessIpPacket_table s ctrlId pBuffer
    buffSize _ _ cd haccept hupd (setCtrl_get s ctrlId _ ctrl hctrl) hcd hports
  have hcd1 : c1.pDesc = some cd := by rw [hdesc]; exact hcd
  have hlen1 : cd.ArpEntryNb ≤ c1.pArpArray.length := by
    rw [harr]; simpa using hlen
  have he1 : c1.pArpArray[f]? = some
      { e0 with IpAddr := S, MacAddr := M,
                Status := { e0.Status with IsRequested := true, IsInitialised := true,
                                           IsValid := true, HasDecay := false },
                DecayTimer := s.pInitDesc.GenInterface.pFnTimerGetTime } := by
    rw [harr, hS, hM]
    exact getElem?_set_same _ _ _ _ he0
  refine ⟨st, s1, b1, c1, f, _, hres, hc1, ?_, he1, rfl, rfl, rfl, rfl, rfl, rfl, ?_⟩
  · rw [NetworkGetArpEntry_eq s1 ctrlId c1 cd hc1 hcd1, harr, hS, hM]
    exact hget1
  · intro s2 hs2
    exact NetworkCtrlArpDecayProcess_keeps s2 ctrlId c1 cd f _ hs2 hcd1 hlen1 he1 rfl

set_option maxRecDepth 100000 in
/-- C29 (witness): the frame `udp_rx_barray` accepted by the controller of `portState`
when the clock reads 1000. -/
theorem learned_arp_entry_is_not_subject_to_decay_witness :
    ∃ (st : Bool) (s1 : network_module_info_t) (b1 : Nat → Nat) (c1 : network_ctrl_info_t)
        (f : Nat) (e1 : arp_entry_t),
      NetworkProcessIpPacket (atClock portState 1000) 0 (bufOf udp_rx_barray) 51
        = some (st, s1, b1) ∧
      s1.pCtrlInfoList[0]? = some c1 ∧ c1.pArpArray[f]? = some e1 ∧
      e1.IpAddr = ⟨192, 168, 2, 0⟩ ∧ e1.MacAddr = ⟨0x11, 0x22, 0x44, 0x55, 0x88, 0xaa⟩ ∧
      e1.DecayTimer = 1000 ∧ e1.Status.IsValid = true ∧ e1.Status.HasDecay = false := by
  obtain ⟨st, s1, b1, c1, f, e1, h1, h2, -, h4, h5, h6, h7, -, h9, h10, -⟩ :=
    learned_arp_entry_is_not_subject_to_decay (atClock portState 1000) 0 pendingCtrl testCtrlDesc
      (bufOf udp_rx_barray) 51 ⟨192, 168, 2, 0⟩ ⟨0x11, 0x22, 0x44, 0x55, 0x88, 0xaa⟩
      rfl rfl (by decide) (by decide) (by decide) (by decide) (by decide)
      ⟨0, arp_entry_t.zero, by decide, by decide, rfl⟩
      (fun _ j hj => by
        have h1 : (atClock portState 1000).pInitDesc.PortNb = 1 := by decide
        have h0 : j = 0 := by omega
        subst h0
        exact ⟨portState.pPortInfoList.getD 0 network_port_info_t.zero, rfl, fun _ => rfl⟩)
  exact ⟨st, s1, b1, c1, f, e1, h1, h2, h4, h5, h6, h7, h9, h10⟩

/-! ## Refresh of a valid ARP entry -/

set_option maxRecDepth 100000 in
/-- C30 (counterexample): in `testState` the entry of 192.168.2.0 is valid, with the MAC
11:22:44:55:88:aa and lastSeen = 0. When the clock reads 500 the controller processes the
ARP reply `arp_reply_moved`, whose sender is 192.168.2.0 at 11:22:44:55:88:bb: it returns
true and the entry keeps the MAC 11:22:44:55:88:aa and lastSeen = 0. The IPv4 frame
`udp_rx_moved` from the same sender, processed at the same clock value, sets the MAC to
11:22:44:55:88:bb and lastSeen to 500. -/
theorem arp_reply_leaves_valid_entry_untouched :
    firstArpEntry (atClock testState 500) =
      some { DecayTimer := 0, MacAddr := ⟨0x11, 0x22, 0x44, 0x55, 0x88, 0xaa⟩,
             IpAddr := ⟨192, 168, 2, 0⟩,
             Status := { IsInitialised := true, IsValid := true, IsRequested := true,
                         HasDecay := false } } ∧
    ((NetworkProcessEthPacket (atClock testState 500) 0 (bufOf arp_reply_moved) 42).map
      fun r => r.1) = some true ∧
    ((NetworkProcessEthPacket (atClock testState 500) 0 (bufOf arp_reply_moved) 42).bind
      fun r => firstArpEntry r.2.1) =
      some { DecayTimer := 0, MacAddr := ⟨0x11, 0x22, 0x44, 0x55, 0x88, 0xaa⟩,
             IpAddr := ⟨192, 168, 2, 0⟩,
             Status := { IsInitialised := true, IsValid := true, IsRequested := true,
                         HasDecay := false } } ∧
    ((NetworkProcessEthPacket (atClock testState 500) 0 (bufOf udp_rx_moved) 51).bind
      fun r => firstArpEntry r.2.1) =
      some { DecayTimer := 500, MacAddr := ⟨0x11, 0x22, 0x44, 0x55, 0x88, 0xbb⟩,
             IpAddr := ⟨192, 168, 2, 0⟩,
             Status := { IsInitialised := true, IsValid := true, IsRequested := true,
                         HasDecay := false } } := by
  decide

/-- C30 (amended): for an IP X whose ARP entry is valid, every later IPv4 packet from X
that the controller accepts, with Ethernet source MAC M', leaves the entry valid with
mac = M' and lastSeen = now, the rest of the entry and of the table being as before; an
ARP reply whose sender is X is processed with success and leaves the module state, hence
the mac and lastSeen of the valid entry, as they were. -/
theorem valid_arp_entry_refresh (s : network_module_info_t) (ctrlId : Nat)
    (ctrl : network_ctrl_info_t) (cd : network_ctrl_desc_t) (X : ip_addr) (idx : Nat)
    (e : arp_entry_t)
    (hctrl : s.pCtrlInfoList[ctrlId]? = some ctrl) (hcd : ctrl.pDesc = some cd)
    (hget : NetworkGetArpEntry s ctrlId X = some (some idx))
    (he : ctrl.pArpArray[idx]? = some e) (hvalid : e.Status.IsValid = true) :
    (∀ (pBuffer : Nat → Nat) (buffSize : Nat),
      NetworkAcceptIncIpPacket s ctrlId (ptrAdd pBuffer ETH_HEADER_SIZE) = some true →
      ip_addr.ofMem pBuffer 26 = X →
      (pBuffer 23 = IP_PROT_UDP →
        ∀ j, j < s.pInitDesc.PortNb → ∃ q, s.pPortInfoList[j]? = some q ∧
          ((NetworkDecodeUdpPacket pBuffer).2.2.1 = q.InPortNb → q.pDesc.isSome = true)) →
      ∃ st s1 b1 c1, NetworkProcessIpPacket s ctrlId pBuffer buffSize = some (st, s1, b1) ∧
        s1.pCtrlInfoList[ctrlId]? = some c1 ∧
        c1.pArpArray = ctrl.pArpArray.set idx
          { e with DecayTimer := s.pInitDesc.GenInterface.pFnTimerGetTime,
                   MacAddr := mac_addr.ofMem pBuffer 6 } ∧
        NetworkGetArpEntry s1 ctrlId X = some (some idx) ∧
        c1.pArpArray[idx]? = some
          { e with DecayTimer := s.pInitDesc.GenInterface.pFnTimerGetTime,
                   MacAddr := mac_addr.ofMem pBuffer 6 }) ∧
    (∀ (reply : Nat → Nat) (buffSize : Nat),
      reply 12 = 0x08 ∧ reply 13 = 0x06 → reply 20 = 0x00 ∧ reply 21 = 0x02 →
      ip_addr.ofMem reply 28 = X →
      NetworkProcessEthPacket s ctrlId reply buffSize = some (true, s, reply)) := by
  have hget0 := hget
  rw [NetworkGetArpEntry_eq s ctrlId ctrl cd hctrl hcd] at hget
  constructor
  · intro pBuffer buffSize haccept hX hports
    have hupd := NetworkUpdateArpTable_refresh s ctrlId ctrl cd X (mac_addr.ofMem pBuffer 6)
      false idx e hctrl hcd hget he hvalid
    rw [← hX] at hupd
    obtain ⟨st, s1, b1, c1, hres, hc1, harr, hdesc⟩ := NetworkProcessIpPacket_table s ctrlId
      pBuffer buffSize _ _ cd haccept hupd (setCtrl_get s ctrlId _ ctrl hctrl) hcd hports
    have hcd1 : c1.pDesc = some cd := by rw [hdesc]; exact hcd
    obtain ⟨-, -, ⟨e', he', hm⟩, -⟩ := NetworkGetArpEntry_loop_some _ _ _ _ _ hget
    rw [he] at he'
    cases he'
    have hm1 : arpMatches X
        { e with DecayTimer := s.pInitDesc.GenInterface.pFnTimerGetTime,
                 MacAddr := mac_addr.ofMem pBuffer 6 } = true := hm
    refine ⟨st, s1, b1, c1, hres, hc1, harr, ?_, ?_⟩
    · rw [NetworkGetArpEntry_eq s1 ctrlId c1 cd hc1 hcd1, harr]
      exact NetworkGetArpEntry_loop_set _ _ _ _ _ hget hm1
    · rw [harr]
      exact getElem?_set_same _ _ _ _ he
  · intro reply buffSize hty hop hX
    have hproto : SWAP16 (load16 reply 12) = ETH_PROT_ARP := by
      simp only [load16, hty.1, hty.2]; decide
    have hoper : SWAP16 (load16 reply 20) = ARP_REPLY := by
      simp only [load16, hop.1, hop.2]; decide
    have hne : ¬ (ARP_REPLY = ARP_REQUEST) := by decide
    have hstore : NetworkStoreArp s ctrlId X (mac_addr.ofMem reply 22) false = some (true, s) := by
      simp only [NetworkStoreArp, hget0, hctrl, he, hvalid, Bool.not_true, Bool.false_eq_true,
        if_false]
    simp only [NetworkProcessEthPacket, hproto, if_true, NetworkProcessArpPacket, hctrl,
      ETH_HEADER_SIZE, Nat.reduceAdd, hoper, hne, if_false, hX, hstore]
    split_ifs <;> rfl

set_option maxRecDepth 100000 in
/-- C30 (witness): the entry of 192.168.2.0 in `testState` at clock 500: the frame
`udp_rx_moved` refreshes it, the reply `arp_reply_moved` leaves the state as it is. -/
theorem valid_arp_entry_refresh_witness :
    (∃ (st : Bool) (s1 : network_module_info_t) (b1 : Nat → Nat) (c1 : network_ctrl_info_t),
      NetworkProcessIpPacket (atClock testState 500) 0 (bufOf udp_rx_moved) 51
        = some (st, s1, b1) ∧
      s1.pCtrlInfoList[0]? = some c1 ∧
      c1.pArpArray[0]? = some
        { DecayTimer := 500, MacAddr := ⟨0x11, 0x22, 0x44, 0x55, 0x88, 0xbb⟩,
          IpAddr := ⟨192, 168, 2, 0⟩,
          Status := { IsInitialised := true, IsValid := true, IsRequested := true,
                      HasDecay := false } }) ∧
    NetworkProcessEthPacket (atClock testState 500) 0 (bufOf arp_reply_moved) 42
      = some (true, atClock testState 500, bufOf arp_reply_moved) := by
  have h := valid_arp_entry_refresh (atClock testState 500) 0 testCtrl testCtrlDesc
    ⟨192, 168, 2, 0⟩ 0 (testCtrl.pArpArray.getD 0 arp_entry_t.zero) rfl rfl (by decide) rfl
    (by decide)
  refine ⟨?_, h.2 (bufOf arp_reply_moved) 42 (by decide) (by decide) (by decide)⟩
  obtain ⟨st, s1, b1, c1, h1, h2, -, -, h5⟩ := h.1 (bufOf udp_rx_moved) 51 (by decide)
    (by decide)
    (fun _ j hj => by
      have h1 : (atClock testState 500).pInitDesc.PortNb = 1 := by decide
      have h0 : j = 0 := by omega
      subst h0
      exact ⟨testPort, rfl, fun _ => rfl⟩)
  exact ⟨st, s1, b1, c1, h1, h2, by rw [h5]; decide⟩

/-! ## Transmit attempt: the head message -/

theorem sendMsgInfo_head (port : network_port_info_t) (n0 : Nat) (D : ip_addr)
    (h : headMessage port n0 D) : sendMsgInfo port = some (n0, D) := by
  rcases h with ⟨hmode, df, ip, rest, hdf, hdwf, hhead, hD⟩ | ⟨hmode, hn, hD⟩
  · have hcntd : 1 ≤ FifoGetItemCount df.ReadCount df.WriteCount := by
      rw [← FifoItems_length, hhead]; simp
    have hrd := FifoRead_ok df hdwf
      (fun _ => ({ MsgSize := 0, IpAddr := ip_addr.zero } : network_msg_desc_t)) 1 false hcntd
    have hd0 := FifoReadDest_head df
      (fun _ => ({ MsgSize := 0, IpAddr := ip_addr.zero } : network_msg_desc_t)) _ _ hhead
    simp only [sendMsgInfo, hmode, hdf, hrd, hd0, hD]
    by_cases hz : ip = ip_addr.zero
    · simp [hz]
    · have hz2 : ip_addr.zero ≠ ip := fun h => hz h.symm
      simp [hz, hz2]
  · simp only [sendMsgInfo, hmode, hn, hD, Bool.not_true, Bool.false_eq_true, if_false]

/-- The two `FifoConsume` calls that remove a message of `n` bytes from the transmit
side. -/
theorem consumeTxMsg_spec (port : network_port_info_t) (n : Nat) (bf : fifo_desc_t Nat)
    (hbf : port.pFifoTxMsg = some bf) (hbwf : FifoWf bf)
    (hcount : n ≤ FifoItemCount (some bf)) :
    (∃ bf1, (consumeTxMsg port n).pFifoTxMsg = some bf1 ∧ FifoWf bf1 ∧
      FifoItems bf1 = (FifoItems bf).drop n ∧ bf1.ItemNb = bf.ItemNb) ∧
    (port.IsVirtualComTx = true →
      (consumeTxMsg port n).pFifoTxMsgDesc = port.pFifoTxMsgDesc) ∧
    (port.IsVirtualComTx = false → ∀ df, port.pFifoTxMsgDesc = some df → FifoWf df →
      1 ≤ (FifoItems df).length →
      ∃ df1, (consumeTxMsg port n).pFifoTxMsgDesc = some df1 ∧ FifoWf df1 ∧
        FifoItems df1 = (FifoItems df).drop 1 ∧ df1.ItemNb = df.ItemNb) ∧
    (consumeTxMsg port n).pDesc = port.pDesc ∧
    (consumeTxMsg port n).DstIpAddr = port.DstIpAddr ∧
    (consumeTxMsg port n).CounterARP = port.CounterARP ∧
    (consumeTxMsg port n).TimerRequestARP = port.TimerRequestARP ∧
    (consumeTxMsg port n).IsVirtualComTx = port.IsVirtualComTx ∧
    (consumeTxMsg port n).InPortNb = port.InPortNb ∧
    (consumeTxMsg port n).OutPortNb = port.OutPortNb := by
  have hc : n ≤ FifoGetItemCount bf.ReadCount bf.WriteCount := hcount
  obtain ⟨-, hwf1, hdrop, hnb, -⟩ := FifoConsumeItems_ok bf hbwf n hc
  cases hm : port.IsVirtualComTx with
  | true =>
    refine ⟨⟨(FifoConsumeItems bf n).2, ?_, hwf1, hdrop, hnb⟩, fun _ => ?_,
      fun h => (by cases h), ?_, ?_, ?_, ?_, ?_, ?_, ?_⟩ <;>
      simp [consumeTxMsg, hm, hbf, FifoConsume]
  | false =>
    refine ⟨⟨(FifoConsumeItems bf n).2, ?_, hwf1, hdrop, hnb⟩, fun h => (by cases h),
      fun _ df hdf hdwf hlen => ?_, ?_, ?_, ?_, ?_, ?_, ?_, ?_⟩
    · simp [consumeTxMsg, hm, hbf, FifoConsume]
    · have hc1 : 1 ≤ FifoGetItemCount df.ReadCount df.WriteCount := by
        rw [← FifoItems_length]; exact hlen
      obtain ⟨-, hdwf1, hddrop, hdnb, -⟩ := FifoConsumeItems_ok df hdwf 1 hc1
      refine ⟨(FifoConsumeItems df 1).2, ?_, hdwf1, hddrop, hdnb⟩
      simp [consumeTxMsg, hm, hdf, FifoConsume]
    all_goals simp [consumeTxMsg, hm]

/-- The frame that `NetworkSendUdpPacket` hands to the driver when the destination is the
subnet broadcast address. -/
theorem NetworkSendUdpPacket_frame_bcast (s : network_module_info_t) (ctrlId : Nat)
    (ctrl : network_ctrl_info_t) (cd : network_ctrl_desc_t) (r : Option Nat)
    (pb : Nat → Nat) (D : ip_addr) (lp rp n : Nat)
    (hctrl : s.pCtrlInfoList[ctrlId]? = some ctrl) (hcd : ctrl.pDesc = some cd)
    (harp : NetworkGetArpEntry s ctrlId D = some r)
    (hb : NetworkIsIpBroadcast D ctrl.IpAddr ctrl.SubnetMask = true)
    (hlp : lp < 65536) (hrp : rp < 65536) (hn : n ≤ 1472) :
    ∃ b, NetworkSendUdpPacket s ctrlId pb (NetworkInitMsgInfo D lp rp n) =
        some (cd.ComInterface.MacCtrlSendMsg cd.MacCtrlId
            (udpFrame macBroadcast ctrl.MacAddr ctrl.IpAddr D lp rp
              ((List.range n).map (fun j => pb (42 + j)))),
          { s with Sent := s.Sent ++ [(cd.MacCtrlId,
              udpFrame macBroadcast ctrl.MacAddr ctrl.IpAddr D lp rp
                ((List.range n).map (fun j => pb (42 + j))))] }, b) := by
  have hsz : ((8 + 20) % 65536 + 14) % 65536 = 42 := by decide
  have hsz2 : (42 + n) % 65536 = 42 + n := by omega
  have hl1 : (n + 8) % 65536 = n + 8 := by omega
  have hl2 : (20 + n + 8) % 65536 = 28 + n := by omega
  simp only [NetworkSendUdpPacket, NetworkSendIpPacket, NetworkSendEthPacket, NetworkInitMsgInfo,
    hctrl, hcd, harp, hb, Bool.or_true, if_true, Bool.not_true, Bool.false_eq_true, if_false,
    macSend,
    IPV4_HEADER_SIZE, ETH_HEADER_SIZE, UDP_HEADER_SIZE, IP_PROT_UDP, Nat.reduceAdd, hsz, hsz2,
    hl1, hl2, store16_rotr _ _ _ hlp, store16_rotr _ _ _ hrp,
    store16_rotr _ _ (n + 8) (by omega), store16_rotr _ _ (28 + n) (by omega),
    storeBytes_self, ihl_version_byte, ecn_dscp_byte]
  rw [show frameOf _ (42 + n) = udpFrame macBroadcast ctrl.MacAddr ctrl.IpAddr D lp rp
      ((List.range n).map (fun j => pb (42 + j))) from ?_]
  · exact ⟨_, rfl⟩
  · rw [frameOf_add]
    unfold udpFrame
    simp only [List.length_map, List.length_range]
    congr 1
    · simp only [frameOf, range_42, List.map, store16, storeBytes, mac_addr.toList,
        ip_addr.toList, macBroadcast, List.length_cons, List.length_nil]
      simp
      omega
    · apply List.map_congr_left
      intro j _
      simp only [mac_addr.toList, ip_addr.toList]
      repeat first
        | rw [store16_above _ _ _ _ (by omega)]
        | rw [storeBytes_above _ _ _ _ (by simp only [List.length_cons, List.length_nil]; omega)]

/-- One transmit attempt for a head message whose destination is resolved (the subnet
broadcast address, or an address with a valid ARP entry): the frame handed to the driver,
and the queues after the answer of the driver. -/
theorem NetworkProcessSendMsg_sends (s : network_module_info_t) (portId : Nat)
    (port : network_port_info_t) (pd : network_port_desc_t) (ctrl : network_ctrl_info_t)
    (cd : network_ctrl_desc_t) (bf : fifo_desc_t Nat) (n0 n : Nat) (D : ip_addr)
    (r : Option Nat) (dmac : mac_addr) (pBuffer : Nat → Nat)
    (hport : s.pPortInfoList[portId]? = some port)
    (hinfo : sendMsgInfo port = some (n0, D))
    (hn : n = if n0 < 1472 then n0 else 1472)
    (hbf : port.pFifoTxMsg = some bf) (hbwf : FifoWf bf) (hcount : n ≤ FifoItemCount (some bf))
    (hpd : port.pDesc = some pd) (hctrl : s.pCtrlInfoList[pd.NetworkCtrlId]? = some ctrl)
    (hcd : ctrl.pDesc = some cd)
    (hsub : NetworkIsIpValid D ctrl.IpAddr ctrl.SubnetMask = true)
    (harp : NetworkGetArpEntry s pd.NetworkCtrlId D = some r)
    (hres : (NetworkIsIpBroadcast D ctrl.IpAddr ctrl.SubnetMask = true ∧ dmac = macBroadcast) ∨
      (NetworkIsIpBroadcast D ctrl.IpAddr ctrl.SubnetMask = false ∧
        ∃ idx e, r = some idx ∧ ctrl.pArpArray[idx]? = some e ∧ e.Status.IsValid = true ∧
          dmac = e.MacAddr))
    (hlp : port.InPortNb < 65536) (hrp : port.OutPortNb < 65536) :
    ∃ s1 b1, NetworkProcessSendMsg s portId pBuffer =
        some (cd.ComInterface.MacCtrlSendMsg cd.MacCtrlId
          (udpFrame dmac ctrl.MacAddr ctrl.IpAddr D port.InPortNb port.OutPortNb
            ((FifoItems bf).take n)), s1, b1) ∧
      s1.Sent = s.Sent ++ [(cd.MacCtrlId,
        udpFrame dmac ctrl.MacAddr ctrl.IpAddr D port.InPortNb port.OutPortNb
          ((FifoItems bf).take n))] ∧
      s1.pCtrlInfoList = s.pCtrlInfoList ∧ s1.pInitDesc = s.pInitDesc ∧
      s1.Errors = s.Errors ∧
      (cd.ComInterface.MacCtrlSendMsg cd.MacCtrlId
          (udpFrame dmac ctrl.MacAddr ctrl.IpAddr D port.InPortNb port.OutPortNb
            ((FifoItems bf).take n)) = true →
        s1.pPortInfoList = s.pPortInfoList.set portId (consumeTxMsg port n)) ∧
      (cd.ComInterface.MacCtrlSendMsg cd.MacCtrlId
          (udpFrame dmac ctrl.MacAddr ctrl.IpAddr D port.InPortNb port.OutPortNb
            ((FifoItems bf).take n)) = false →
        s1.pPortInfoList = s.pPortInfoList) := by
  have hn1 : n ≤ 1472 := by rw [hn]; split_ifs <;> omega
  have hmin : (if n0 < ETHERNET_MAX_DATA_SIZE then n0 else ETHERNET_MAX_DATA_SIZE) = n := by
    simp only [ETHERNET_MAX_DATA_SIZE]; exact hn.symm
  have hcount2 : n ≤ FifoGetItemCount bf.ReadCount bf.WriteCount := hcount
  have hrb := FifoRead_ok bf hbwf (ptrAdd pBuffer NETWORK_HEADER_SIZE) n false hcount2
  have hpay : (List.range n).map (fun j =>
      ptrStore pBuffer NETWORK_HEADER_SIZE
        (FifoReadDest bf (ptrAdd pBuffer NETWORK_HEADER_SIZE) n) (42 + j))
      = (FifoItems bf).take n := by
    rw [← FifoReadDest_take bf (ptrAdd pBuffer NETWORK_HEADER_SIZE) n hcount2]
    apply List.map_congr_left
    intro j _
    simp [ptrStore, NETWORK_HEADER_SIZE]
  -- the condition that lets the message go, and the frame
  have hgo : ∃ b, NetworkSendUdpPacket s pd.NetworkCtrlId
        (ptrStore pBuffer NETWORK_HEADER_SIZE
          (FifoReadDest bf (ptrAdd pBuffer NETWORK_HEADER_SIZE) n))
        (NetworkInitMsgInfo D port.InPortNb port.OutPortNb n) =
        some (cd.ComInterface.MacCtrlSendMsg cd.MacCtrlId
            (udpFrame dmac ctrl.MacAddr ctrl.IpAddr D port.InPortNb port.OutPortNb
              ((FifoItems bf).take n)),
          { s with Sent := s.Sent ++ [(cd.MacCtrlId,
              udpFrame dmac ctrl.MacAddr ctrl.IpAddr D port.InPortNb port.OutPortNb
                ((FifoItems bf).take n))] }, b) := by
    rcases hres with ⟨hb, hdm⟩ | ⟨hnb, idx, e, hr, he, hv, hdm⟩
    · obtain ⟨b, hsend⟩ := NetworkSendUdpPacket_frame_bcast s pd.NetworkCtrlId ctrl cd r
        (ptrStore pBuffer NETWORK_HEADER_SIZE
          (FifoReadDest bf (ptrAdd pBuffer NETWORK_HEADER_SIZE) n))
        D port.InPortNb port.OutPortNb n hctrl hcd harp hb hlp hrp hn1
      rw [hpay] at hsend
      exact ⟨b, by rw [hdm]; exact hsend⟩
    · obtain ⟨b, hsend⟩ := NetworkSendUdpPacket_frame s pd.NetworkCtrlId ctrl cd idx e
        (ptrStore pBuffer NETWORK_HEADER_SIZE
          (FifoReadDest bf (ptrAdd pBuffer NETWORK_HEADER_SIZE) n))
        D port.InPortNb port.OutPortNb n hctrl hcd (by rw [harp, hr]) he hv hnb hlp hrp hn1
      rw [hpay] at hsend
      exact ⟨b, by rw [hdm]; exact hsend⟩
  obtain ⟨b, hsend⟩ := hgo
  simp only [NetworkInitMsgInfo] at hsend
  cases hans : cd.ComInterface.MacCtrlSendMsg cd.MacCtrlId
      (udpFrame dmac ctrl.MacAddr ctrl.IpAddr D port.InPortNb port.OutPortNb
        ((FifoItems bf).take n)) with
  | true =>
    rw [hans] at hsend
    have hres2 : NetworkProcessSendMsg s portId pBuffer = some (true,
        setPort { s with Sent := s.Sent ++ [(cd.MacCtrlId,
            udpFrame dmac ctrl.MacAddr ctrl.IpAddr D port.InPortNb port.OutPortNb
              ((FifoItems bf).take n))] } portId (consumeTxMsg port n), b) := by
      simp only [NetworkProcessSendMsg, hport, hinfo, hmin, hpd, hctrl, hsub, if_true,
        NetworkInitMsgInfo, harp]
      rw [if_pos (by
        rcases hres with ⟨hb, -⟩ | ⟨-, idx, e, hr, he, hv, -⟩
        · rw [hb]; rfl
        · rw [hr]; simp only [he, hv, Bool.or_true])]
      simp only [hbf, hrb]
      rw [hsend]
    exact ⟨_, b, hres2, by simp [setPort], rfl, rfl, rfl, fun _ => by simp [setPort],
      fun h => (by cases h)⟩
  | false =>
    rw [hans] at hsend
    have hres2 : NetworkProcessSendMsg s portId pBuffer = some (false,
        { s with Sent := s.Sent ++ [(cd.MacCtrlId,
            udpFrame dmac ctrl.MacAddr ctrl.IpAddr D port.InPortNb port.OutPortNb
              ((FifoItems bf).take n))] }, b) := by
      simp only [NetworkProcessSendMsg, hport, hinfo, hmin, hpd, hctrl, hsub, if_true,
        NetworkInitMsgInfo, harp]
      rw [if_pos (by
        rcases hres with ⟨hb, -⟩ | ⟨-, idx, e, hr, he, hv, -⟩
        · rw [hb]; rfl
        · rw [hr]; simp only [he, hv, Bool.or_true])]
      simp only [hbf, hrb]
      rw [hsend]
    exact ⟨_, b, hres2, rfl, rfl, rfl, rfl, fun h => (by cases h), fun _ => rfl⟩

/-! ## Transmit attempt: the answer of the driver -/

/-- C22: in a transmit attempt for a head message (n bytes, n at most 1472) whose
destination D is in the subnet and resolved (the subnet broadcast address, or an address
with a valid ARP entry), NetworkProcessSendMsg hands the driver the UDP frame and returns
the answer of the driver: when the driver rejects the frame it returns false and the port
list, hence the transmit byte queue and descriptor queue, is unchanged, so that the same
message is at the head on the next sweep; when the driver accepts it returns true, the n
bytes are removed from the byte queue and, in datagram mode, one descriptor from the
descriptor queue (in stream mode the descriptor queue is left as it is). -/
theorem driver_rejection_keeps_message (s : network_module_info_t) (portId : Nat)
    (port : network_port_info_t) (pd : network_port_desc_t) (ctrl : network_ctrl_info_t)
    (cd : network_ctrl_desc_t) (bf : fifo_desc_t Nat) (n0 n : Nat) (D : ip_addr)
    (r : Option Nat) (dmac : mac_addr) (pBuffer : Nat → Nat)
    (hport : s.pPortInfoList[portId]? = some port)
    (hhead : headMessage port n0 D)
    (hn : n = if n0 < 1472 then n0 else 1472)
    (hbf : port.pFifoTxMsg = some bf) (hbwf : FifoWf bf) (hcount : n ≤ FifoItemCount (some bf))
    (hpd : port.pDesc = some pd) (hctrl : s.pCtrlInfoList[pd.NetworkCtrlId]? = some ctrl)
    (hcd : ctrl.pDesc = some cd)
    (hsub : NetworkIsIpValid D ctrl.IpAddr ctrl.SubnetMask = true)
    (harp : NetworkGetArpEntry s pd.NetworkCtrlId D = some r)
    (hres : (NetworkIsIpBroadcast D ctrl.IpAddr ctrl.SubnetMask = true ∧ dmac = macBroadcast) ∨
      (NetworkIsIpBroadcast D ctrl.IpAddr ctrl.SubnetMask = false ∧
        ∃ idx e, r = some idx ∧ ctrl.pArpArray[idx]? = some e ∧ e.Status.IsValid = true ∧
          dmac = e.MacAddr))
    (hlp : port.InPortNb < 65536) (hrp : port.OutPortNb < 65536) :
    ∃ s1 b1, NetworkProcessSendMsg s portId pBuffer =
        some (cd.ComInterface.MacCtrlSendMsg cd.MacCtrlId
          (udpFrame dmac ctrl.MacAddr ctrl.IpAddr D port.InPortNb port.OutPortNb
            ((FifoItems bf).take n)), s1, b1) ∧
      s1.Sent = s.Sent ++ [(cd.MacCtrlId,
        udpFrame dmac ctrl.MacAddr ctrl.IpAddr D port.InPortNb port.OutPortNb
          ((FifoItems bf).take n))] ∧
      (cd.ComInterface.MacCtrlSendMsg cd.MacCtrlId
          (udpFrame dmac ctrl.MacAddr ctrl.IpAddr D port.InPortNb port.OutPortNb
            ((FifoItems bf).take n)) = false →
        s1.pPortInfoList = s.pPortInfoList ∧ s1.pCtrlInfoList = s.pCtrlInfoList) ∧
      (cd.ComInterface.MacCtrlSendMsg cd.MacCtrlId
          (udpFrame dmac ctrl.MacAddr ctrl.IpAddr D port.InPortNb port.OutPortNb
            ((FifoItems bf).take n)) = true →
        ∃ port1 bf1, s1.pPortInfoList[portId]? = some port1 ∧
          port1.pFifoTxMsg = some bf1 ∧ FifoItems bf1 = (FifoItems bf).drop n ∧
          (port.IsVirtualComTx = true → port1.pFifoTxMsgDesc = port.pFifoTxMsgDesc) ∧
          (port.IsVirtualComTx = false →
            ∃ df df1, port.pFifoTxMsgDesc = some df ∧ port1.pFifoTxMsgDesc = some df1 ∧
              FifoItems df1 = (FifoItems df).drop 1)) := by
  obtain ⟨s1, b1, hres1, hsent, hcl, -, -, hacc, hrej⟩ := NetworkProcessSendMsg_sends s portId port
    pd ctrl cd bf n0 n D r dmac pBuffer hport (sendMsgInfo_head port n0 D hhead) hn hbf hbwf
    hcount hpd hctrl hcd hsub harp hres hlp hrp
  obtain ⟨⟨bf1, hb1, -, hdrop, -⟩, hstream, hdgram, -⟩ := consumeTxMsg_spec port n bf hbf hbwf hcount
  refine ⟨s1, b1, hres1, hsent, fun h => ⟨hrej h, hcl⟩, fun h => ?_⟩
  refine ⟨consumeTxMsg port n, bf1, ?_, hb1, hdrop, hstream, fun hm => ?_⟩
  · rw [hacc h]
    exact getElem?_set_same _ _ _ _ hport
  · rcases hhead with ⟨-, df, ip, rest, hdf, hdwf, hhd, -⟩ | ⟨hm2, -⟩
    · obtain ⟨df1, hd1, -, hddrop, -⟩ := hdgram hm df hdf hdwf (by rw [hhd]; simp)
      exact ⟨df, df1, hdf, hd1, hddrop⟩
    · rw [hm] at hm2
      cases hm2

set_option maxRecDepth 100000 in
/-- C22 (witness): on the rejecting driver the byte 0x55 queued for the resolved peer
192.168.2.0 is offered in the frame `udp_tx_byte`; the attempt returns false and the port
list is unchanged. -/
theorem driver_rejection_keeps_message_witness :
    ∃ s1 b1, NetworkProcessSendMsg rejectState 0 rejectState.pBuffer = some (false, s1, b1) ∧
      s1.Sent = [(0, udp_tx_byte)] ∧ s1.pPortInfoList = rejectState.pPortInfoList ∧
      txSummary s1 = [(1, 1)] := by
  obtain ⟨s1, b1, h1, h2, h3, -⟩ := driver_rejection_keeps_message rejectState 0 rejectPort
    testPortDesc rejectCtrl deafCtrlDesc (rejectPort.pFifoTxMsg.getD (FifoCreate (fun _ => 0) 0 1))
    1 1 ⟨192, 168, 2, 0⟩ (some 0) ⟨0x11, 0x22, 0x44, 0x55, 0x88, 0xaa⟩ rejectState.pBuffer rfl
    (Or.inl ⟨rfl, rejectPort.pFifoTxMsgDesc.getD (FifoCreate (fun _ => ⟨0, ip_addr.zero⟩) 0 1),
      ⟨192, 168, 2, 0⟩, [], rfl,
      ⟨by decide, by decide, by decide, by decide, by decide, by decide⟩, by decide, by decide⟩)
    (by decide) rfl ⟨by decide, by decide, by decide, by decide, by decide, by decide⟩
    (by decide) rfl rfl rfl (by decide) (by decide)
    (Or.inr ⟨by decide, 0, rejectCtrl.pArpArray.getD 0 arp_entry_t.zero, rfl, rfl, by decide,
      by decide⟩)
    (by decide) (by decide)
  have hans : deafCtrlDesc.ComInterface.MacCtrlSendMsg deafCtrlDesc.MacCtrlId
      (udpFrame ⟨0x11, 0x22, 0x44, 0x55, 0x88, 0xaa⟩ rejectCtrl.MacAddr rejectCtrl.IpAddr
        ⟨192, 168, 2, 0⟩ rejectPort.InPortNb rejectPort.OutPortNb
        ((FifoItems (rejectPort.pFifoTxMsg.getD (FifoCreate (fun _ => 0) 0 1))).take 1))
      = false := rfl
  rw [hans] at h1
  refine ⟨s1, b1, h1, ?_, (h3 hans).1, ?_⟩
  · rw [h2]; decide
  · simp only [txSummary, (h3 hans).1]; decide

/-! ## Transmit sweep -/

theorem NetworkCtrlTxProcess_loop_add (a : Nat) :
    ∀ (b i : Nat) (s : network_module_info_t),
      NetworkCtrlTxProcess.loop i (a + b) s =
        (NetworkCtrlTxProcess.loop i a s).bind (NetworkCtrlTxProcess.loop (i + a) b) := by
  induction a with
  | zero =>
    intro b i s
    simp [NetworkCtrlTxProcess.loop]
  | succ a ih =>
    intro b i s
    have h1 : a + 1 + b = (a + b) + 1 := by omega
    rw [h1]
    simp only [NetworkCtrlTxProcess.loop]
    cases hb : NetworkCtrlTxProcess.body s i with
    | none => rfl
    | some s1 =>
      simp only []
      rw [ih b (i + 1) s1]
      have h2 : i + 1 + a = i + (a + 1) := by omega
      rw [h2]

theorem NetworkCtrlTxProcess_body_idle (s : network_module_info_t) (j : Nat)
    (h : txIdle s j) : NetworkCtrlTxProcess.body s j = some s := by
  unfold NetworkCtrlTxProcess.body
  rcases h with h | h
  · simp [h]
  · simp [h]

theorem NetworkCtrlTxProcess_loop_idle (k : Nat) :
    ∀ (i : Nat) (s : network_module_info_t), (∀ j, i ≤ j → j < i + k → txIdle s j) →
      NetworkCtrlTxProcess.loop i k s = some s := by
  induction k with
  | zero => intro i s _; rfl
  | succ k ih =>
    intro i s h
    simp only [NetworkCtrlTxProcess.loop,
      NetworkCtrlTxProcess_body_idle s i (h i le_rfl (by omega))]
    exact ih (i + 1) s (fun j h1 h2 => h j (by omega) (by omega))

theorem txIdle_congr (s s1 : network_module_info_t) (j : Nat)
    (h1 : s1.pInitDesc.PortNb = s.pInitDesc.PortNb)
    (h2 : s1.pPortInfoList[j]? = s.pPortInfoList[j]?) (h : txIdle s j) : txIdle s1 j := by
  unfold txIdle NetworkPortIsTxEmpty NetworkPortValid at *
  rw [h1, h2]
  exact h

/-- A transmit sweep in which the port `portId` alone has something to send is the loop
body at that port. -/
theorem NetworkCtrlTxProcess_single (s s1 : network_module_info_t) (ctrlId portId : Nat)
    (hv : NetworkCtrlValid s ctrlId = true) (hlt : portId < s.pInitDesc.PortNb)
    (hothers : ∀ j, j < s.pInitDesc.PortNb → j ≠ portId → txIdle s j)
    (hbody : NetworkCtrlTxProcess.body s portId = some s1)
    (hnb : s1.pInitDesc.PortNb = s.pInitDesc.PortNb)
    (hports : ∀ j, j ≠ portId → s1.pPortInfoList[j]? = s.pPortInfoList[j]?) :
    NetworkCtrlTxProcess s ctrlId = some s1 := by
  unfold NetworkCtrlTxProcess
  rw [if_pos hv]
  have hsplit : s.pInitDesc.PortNb = portId + (1 + (s.pInitDesc.PortNb - portId - 1)) := by
    omega
  rw [hsplit, NetworkCtrlTxProcess_loop_add,
    NetworkCtrlTxProcess_loop_idle portId 0 s (fun j _ h2 => hothers j (by omega) (by omega))]
  simp only [Option.some_bind, Nat.zero_add]
  rw [NetworkCtrlTxProcess_loop_add]
  simp only [NetworkCtrlTxProcess.loop, hbody, Option.some_bind]
  exact NetworkCtrlTxProcess_loop_idle _ _ s1 (fun j h1 h2 =>
    txIdle_congr s s1 j hnb (hports j (by omega)) (hothers j (by omega) (by omega)))

/-- C23: when the destination D of the head message (n bytes, n at most 1472) of a port is
not in the subnet of the controller of the port, the transmit attempt hands no frame to
the driver, removes exactly the n bytes from the transmit byte queue and, in datagram
mode, exactly one descriptor (in stream mode the descriptor queue is left as it is), and
returns false; the transmit sweep of a valid controller, in which this port is the one
with data pending, ends in that state with, when the error callback is configured, one
call of it with the module error code. -/
theorem out_of_subnet_message_is_dropped (s : network_module_info_t) (ctrlId portId : Nat)
    (port : network_port_info_t) (pd : network_port_desc_t) (ctrl : network_ctrl_info_t)
    (bf : fifo_desc_t Nat) (n0 n : Nat) (D : ip_addr) (pBuffer : Nat → Nat)
    (hport : s.pPortInfoList[portId]? = some port)
    (hhead : headMessage port n0 D)
    (hn : n = if n0 < 1472 then n0 else 1472)
    (hbf : port.pFifoTxMsg = some bf) (hbwf : FifoWf bf) (hcount : n ≤ FifoItemCount (some bf))
    (hpd : port.pDesc = some pd) (hctrl : s.pCtrlInfoList[pd.NetworkCtrlId]? = some ctrl)
    (hnsub : NetworkIsIpValid D ctrl.IpAddr ctrl.SubnetMask = false)
    (hcv : NetworkCtrlValid s ctrlId = true)
    (hpv : NetworkPortValid s portId = true)
    (hpending : NetworkPortIsTxEmpty s portId = false)
    (hothers : ∀ j, j < s.pInitDesc.PortNb → j ≠ portId → txIdle s j) :
    ∃ port1 bf1,
      NetworkProcessSendMsg s portId pBuffer = some (false, setPort s portId port1, pBuffer) ∧
      (setPort s portId port1).Sent = s.Sent ∧
      (setPort s portId port1).pPortInfoList[portId]? = some port1 ∧
      port1.pFifoTxMsg = some bf1 ∧ FifoItems bf1 = (FifoItems bf).drop n ∧
      (port.IsVirtualComTx = true → port1.pFifoTxMsgDesc = port.pFifoTxMsgDesc) ∧
      (port.IsVirtualComTx = false →
        ∃ df df1, port.pFifoTxMsgDesc = some df ∧ port1.pFifoTxMsgDesc = some df1 ∧
          FifoItems df1 = (FifoItems df).drop 1) ∧
      NetworkCtrlTxProcess s ctrlId = some (notifyError (setPort s portId port1)) ∧
      (notifyError (setPort s portId port1)).Sent = s.Sent ∧
      (notifyError (setPort s portId port1)).pPortInfoList[portId]? = some port1 ∧
      (notifyError (setPort s portId port1)).Errors =
        (if s.pInitDesc.GenInterface.pFnErrorNotify then s.Errors ++ [s.pInitDesc.ErrorCode]
         else s.Errors) := by
  have hmin : (if n0 < ETHERNET_MAX_DATA_SIZE then n0 else ETHERNET_MAX_DATA_SIZE) = n := by
    simp only [ETHERNET_MAX_DATA_SIZE]; exact hn.symm
  have hinfo := sendMsgInfo_head port n0 D hhead
  obtain ⟨⟨bf1, hb1, -, hdrop, -⟩, hstream, hdgram, -⟩ := consumeTxMsg_spec port n bf hbf hbwf hcount
  have hsend : ∀ pb, NetworkProcessSendMsg s portId pb =
      some (false, setPort s portId (consumeTxMsg port n), pb) := by
    intro pb
    simp only [NetworkProcessSendMsg, hport, hinfo, hmin, hpd, hctrl, hnsub, Bool.false_eq_true,
      if_false]
  have hget : (setPort s portId (consumeTxMsg port n)).pPortInfoList[portId]?
      = some (consumeTxMsg port n) := setPort_get _ _ _ _ hport
  have hlt : portId < s.pInitDesc.PortNb := by
    simp only [NetworkPortValid, Bool.and_eq_true, decide_eq_true_eq] at hpv
    exact hpv.1
  have hbody : NetworkCtrlTxProcess.body s portId =
      some (notifyError (setPort s portId (consumeTxMsg port n))) := by
    simp only [NetworkCtrlTxProcess.body, hpv, hpending, Bool.not_true, Bool.not_false,
      Bool.false_eq_true, if_false, if_true, hsend s.pBuffer]
    rfl
  obtain ⟨e1, e2, e3, -, e5, e6⟩ := notifyError_fields (setPort s portId (consumeTxMsg port n))
  have hsweep := NetworkCtrlTxProcess_single s _ ctrlId portId hcv hlt hothers hbody
    (by rw [e3]; rfl)
    (fun j hj => by
      rw [e2]
      exact getElem?_set_other _ _ _ _ (fun h => hj h.symm))
  refine ⟨consumeTxMsg port n, bf1, hsend pBuffer, rfl, hget, hb1, hdrop, hstream, fun hm => ?_,
    hsweep, by rw [e5]; rfl, by rw [e2]; exact hget, by rw [e6]; rfl⟩
  rcases hhead with ⟨-, df, ip, rest, hdf, hdwf, hhd, -⟩ | ⟨hm2, -⟩
  · obtain ⟨df1, hd1, -, hddrop, -⟩ := hdgram hm df hdf hdwf (by rw [hhd]; simp)
    exact ⟨df, df1, hdf, hd1, hddrop⟩
  · rw [hm] at hm2
    cases hm2

set_option maxRecDepth 100000 in
/-- C23 (witness): the byte 0x55 queued for 192.168.3.1 on the controller 192.168.2.101/24
(error callback configured, code 0x42): the sweep sends nothing, empties both transmit
queues and reports 0x42. -/
theorem out_of_subnet_message_is_dropped_witness :
    txSummary strayState = [(1, 1)] ∧
    ∃ s1, NetworkCtrlTxProcess strayState 0 = some s1 ∧ s1.Sent = [] ∧ s1.Errors = [0x42] ∧
      txSummary s1 = [(0, 0)] := by
  obtain ⟨port1, bf1, -, -, -, h4, h5, -, h7, h8, h9, h10, h11⟩ :=
    out_of_subnet_message_is_dropped strayState 0 0 strayPort testPortDesc fullCtrl
      (strayPort.pFifoTxMsg.getD (FifoCreate (fun _ => 0) 0 1)) 1 1 ⟨192, 168, 3, 1⟩
      strayState.pBuffer rfl
      (Or.inl ⟨rfl, strayPort.pFifoTxMsgDesc.getD (FifoCreate (fun _ => ⟨0, ip_addr.zero⟩) 0 1),
        ⟨192, 168, 3, 1⟩, [], rfl,
        ⟨by decide, by decide, by decide, by decide, by decide, by decide⟩, by decide,
        by decide⟩)
      (by decide) rfl ⟨by decide, by decide, by decide, by decide, by decide, by decide⟩
      (by decide) rfl rfl (by decide) (by decide) (by decide) (by decide)
      (fun j hj hne => by
        have h1 : strayState.pInitDesc.PortNb = 1 := by decide
        omega)
  obtain ⟨df, df1, hdf, hdf1, hdrop1⟩ := h7 rfl
  have hdf0 : df = strayPort.pFifoTxMsgDesc.getD (FifoCreate (fun _ => ⟨0, ip_addr.zero⟩) 0 1) := by
    have : strayPort.pFifoTxMsgDesc = some
        (strayPort.pFifoTxMsgDesc.getD (FifoCreate (fun _ => ⟨0, ip_addr.zero⟩) 0 1)) := rfl
    rw [this] at hdf
    cases hdf
    rfl
  refine ⟨by decide, _, h8, ?_, ?_, ?_⟩
  · rw [h9]; decide
  · rw [h11]; decide
  · have hl : (notifyError (setPort strayState 0 port1)).pPortInfoList = [port1] := by
      apply List.ext_getElem?
      intro i
      rcases i with _ | i
      · exact h10
      · have hlen : (notifyError (setPort strayState 0 port1)).pPortInfoList.length = 1 := by
          rw [(notifyError_fields _).2.1]
          simp only [setPort, List.length_set]
          decide
        rw [List.getElem?_eq_none (by omega)]
        rfl
    simp only [txSummary, hl, List.map, h4, hdf1, FifoItemCount]
    rw [← FifoItems_length, ← FifoItems_length, h5, hdrop1, hdf0]
    decide

/-! ## Per-message destination -/

/-- `NetworkPortSendBuff` on a datagram-mode port with room: the bytes and the descriptor,
which holds the destination given (all zeros for a null pointer), are appended. -/
theorem NetworkPortSendBuff_datagram (s : network_module_info_t) (portId : Nat)
    (port : network_port_info_t) (bf : fifo_desc_t Nat) (df : fifo_desc_t network_msg_desc_t)
    (buf : Nat → Nat) (n : Nat) (dest : Option ip_addr)
    (hport : s.pPortInfoList[portId]? = some port)
    (hvalid : NetworkPortValid s portId = true)
    (hmode : port.IsVirtualComTx = false)
    (htx : port.pFifoTxMsg = some bf) (hbf : FifoWf bf)
    (hdf : port.pFifoTxMsgDesc = some df) (hdwf : FifoWf df)
    (hsize : n ≤ 1472) (hroom : n ≤ FifoFreeSpace (some bf))
    (hdroom : 1 ≤ FifoFreeSpace (some df)) :
    ∃ bf1 df1, NetworkPortSendBuff s portId (some buf) n dest =
        some (true, setPort s portId
          { port with pFifoTxMsg := some bf1, pFifoTxMsgDesc := some df1 }) ∧
      FifoItems bf1 = FifoItems bf ++ (List.range n).map buf ∧
      FifoItems df1 = FifoItems df ++ [{ MsgSize := n, IpAddr := dest.getD ip_addr.zero }] := by
  obtain ⟨g, hg, -, hgi, -, -⟩ := FifoWrite_ok bf hbf buf n hroom
  obtain ⟨dg, hdg, -, hdgi, -, -⟩ := FifoWrite_ok df hdwf
    (fun _ => ({ MsgSize := n, IpAddr := dest.getD ip_addr.zero } : network_msg_desc_t)) 1
    hdroom
  have hd : FifoFreeSpace (some df) > 0 := by omega
  refine ⟨g, dg, ?_, hgi, ?_⟩
  · simp only [NetworkPortSendBuff, hport, hvalid, hmode, if_true, Bool.false_or,
      NetworkStoreSendData, htx, hdf, hsize, decide_True, Bool.not_false, Bool.and_true, hd, hg,
      hdg, Bool.and_self]
  · rw [hdgi]; rfl

/-- On a stream-mode port `NetworkPortSendBuff` does not look at the destination. -/
theorem NetworkPortSendBuff_stream (s : network_module_info_t) (portId : Nat)
    (port : network_port_info_t) (buf : Nat → Nat) (n : Nat) (dest : Option ip_addr)
    (hport : s.pPortInfoList[portId]? = some port) (hmode : port.IsVirtualComTx = true) :
    NetworkPortSendBuff s portId (some buf) n dest =
      NetworkPortSendBuff s portId (some buf) n none := by
  simp only [NetworkPortSendBuff, hport, NetworkStoreSendData, hmode, Bool.true_or, if_true,
    Bool.not_true, Bool.and_false, Bool.false_eq_true, if_false]

theorem udpFrame_dst (dm sm : mac_addr) (si di : ip_addr) (lp rp : Nat) (pl : List Nat) :
    ((udpFrame dm sm si di lp rp pl).drop 30).take 4 = di.toList := by
  simp [udpFrame, mac_addr.toList, ip_addr.toList]

/-- C21: on a valid port whose transmit side is in datagram mode, NetworkPortSendBuff
records the destination given with the message (all zeros for a null pointer) in the
descriptor of the message and leaves the peer address of the port as it is; the transmit
attempt for a head descriptor (n, ip) whose destination is resolved sends a UDP frame
whose IPv4 destination is ip when ip is not all zeros, and the peer address of the port
otherwise, and leaves the peer address of the port as it is. On a port whose transmit side
is in stream mode NetworkPortSendBuff does the same whatever the destination argument, and
the transmit attempt sends the frame to the peer address of the port. -/
theorem per_message_destination (s : network_module_info_t) (portId : Nat)
    (port : network_port_info_t) (pd : network_port_desc_t) (ctrl : network_ctrl_info_t)
    (cd : network_ctrl_desc_t) (bf : fifo_desc_t Nat) (pBuffer : Nat → Nat)
    (hport : s.pPortInfoList[portId]? = some port)
    (hvalid : NetworkPortValid s portId = true)
    (hbf : port.pFifoTxMsg = some bf) (hbwf : FifoWf bf)
    (hpd : port.pDesc = some pd) (hctrl : s.pCtrlInfoList[pd.NetworkCtrlId]? = some ctrl)
    (hcd : ctrl.pDesc = some cd)
    (hlp : port.InPortNb < 65536) (hrp : port.OutPortNb < 65536) :
    (port.IsVirtualComTx = false →
      ∀ df, port.pFifoTxMsgDesc = some df → FifoWf df →
        (∀ (buf : Nat → Nat) (n : Nat) (dest : Option ip_addr),
          n ≤ 1472 → n ≤ FifoFreeSpace (some bf) → 1 ≤ FifoFreeSpace (some df) →
          ∃ s1 port1 df1, NetworkPortSendBuff s portId (some buf) n dest = some (true, s1) ∧
            s1.pPortInfoList[portId]? = some port1 ∧ port1.pFifoTxMsgDesc = some df1 ∧
            FifoItems df1 =
              FifoItems df ++ [{ MsgSize := n, IpAddr := dest.getD ip_addr.zero }] ∧
            port1.DstIpAddr = port.DstIpAddr) ∧
        (∀ (n : Nat) (ip D : ip_addr) (rest : List network_msg_desc_t) (r : Option Nat)
            (dmac : mac_addr),
          FifoItems df = { MsgSize := n, IpAddr := ip } :: rest →
          n ≤ 1472 → n ≤ FifoItemCount (some bf) →
          D = (if ip = ip_addr.zero then port.DstIpAddr else ip) →
          NetworkIsIpValid D ctrl.IpAddr ctrl.SubnetMask = true →
          NetworkGetArpEntry s pd.NetworkCtrlId D = some r →
          ((NetworkIsIpBroadcast D ctrl.IpAddr ctrl.SubnetMask = true ∧ dmac = macBroadcast) ∨
            (NetworkIsIpBroadcast D ctrl.IpAddr ctrl.SubnetMask = false ∧
              ∃ idx e, r = some idx ∧ ctrl.pArpArray[idx]? = some e ∧
                e.Status.IsValid = true ∧ dmac = e.MacAddr)) →
          ∃ ans s1 b1 port1, NetworkProcessSendMsg s portId pBuffer = some (ans, s1, b1) ∧
            s1.Sent = s.Sent ++ [(cd.MacCtrlId,
              udpFrame dmac ctrl.MacAddr ctrl.IpAddr D port.InPortNb port.OutPortNb
                ((FifoItems bf).take n))] ∧
            ((udpFrame dmac ctrl.MacAddr ctrl.IpAddr D port.InPortNb port.OutPortNb
                ((FifoItems bf).take n)).drop 30).take 4 = D.toList ∧
            s1.pPortInfoList[portId]? = some port1 ∧ port1.DstIpAddr = port.DstIpAddr)) ∧
    (port.IsVirtualComTx = true →
      (∀ (buf : Nat → Nat) (n : Nat) (dest : Option ip_addr),
        NetworkPortSendBuff s portId (some buf) n dest =
          NetworkPortSendBuff s portId (some buf) n none) ∧
      (∀ (n : Nat) (r : Option Nat) (dmac : mac_addr),
        n = (if FifoItemCount (some bf) % 65536 < 1472 then FifoItemCount (some bf) % 65536
             else 1472) →
        n ≤ FifoItemCount (some bf) →
        NetworkIsIpValid port.DstIpAddr ctrl.IpAddr ctrl.SubnetMask = true →
        NetworkGetArpEntry s pd.NetworkCtrlId port.DstIpAddr = some r →
        ((NetworkIsIpBroadcast port.DstIpAddr ctrl.IpAddr ctrl.SubnetMask = true ∧
            dmac = macBroadcast) ∨
          (NetworkIsIpBroadcast port.DstIpAddr ctrl.IpAddr ctrl.SubnetMask = false ∧
            ∃ idx e, r = some idx ∧ ctrl.pArpArray[idx]? = some e ∧
              e.Status.IsValid = true ∧ dmac = e.MacAddr)) →
        ∃ ans s1 b1 port1, NetworkProcessSendMsg s portId pBuffer = some (ans, s1, b1) ∧
          s1.Sent = s.Sent ++ [(cd.MacCtrlId,
            udpFrame dmac ctrl.MacAddr ctrl.IpAddr port.DstIpAddr port.InPortNb port.OutPortNb
              ((FifoItems bf).take n))] ∧
          ((udpFrame dmac ctrl.MacAddr ctrl.IpAddr port.DstIpAddr port.InPortNb port.OutPortNb
              ((FifoItems bf).take n)).drop 30).take 4 = port.DstIpAddr.toList ∧
          s1.pPortInfoList[portId]? = some port1 ∧ port1.DstIpAddr = port.DstIpAddr)) := by
  -- what a transmit attempt leaves of the port, whatever the driver answers
  have hafter : ∀ (n0 n : Nat) (D : ip_addr) (r : Option Nat) (dmac : mac_addr),
      headMessage port n0 D → n = (if n0 < 1472 then n0 else 1472) →
      n ≤ FifoItemCount (some bf) →
      NetworkIsIpValid D ctrl.IpAddr ctrl.SubnetMask = true →
      NetworkGetArpEntry s pd.NetworkCtrlId D = some r →
      ((NetworkIsIpBroadcast D ctrl.IpAddr ctrl.SubnetMask = true ∧ dmac = macBroadcast) ∨
        (NetworkIsIpBroadcast D ctrl.IpAddr ctrl.SubnetMask = false ∧
          ∃ idx e, r = some idx ∧ ctrl.pArpArray[idx]? = some e ∧
            e.Status.IsValid = true ∧ dmac = e.MacAddr)) →
      ∃ ans s1 b1 port1, NetworkProcessSendMsg s portId pBuffer = some (ans, s1, b1) ∧
        s1.Sent = s.Sent ++ [(cd.MacCtrlId,
          udpFrame dmac ctrl.MacAddr ctrl.IpAddr D port.InPortNb port.OutPortNb
            ((FifoItems bf).take n))] ∧
        ((udpFrame dmac ctrl.MacAddr ctrl.IpAddr D port.InPortNb port.OutPortNb
            ((FifoItems bf).take n)).drop 30).take 4 = D.toList ∧
        s1.pPortInfoList[portId]? = some port1 ∧ port1.DstIpAddr = port.DstIpAddr := by
    intro n0 n D r dmac hhead hn hcount hsub harp hres
    obtain ⟨s1, b1, hres1, hsent, -, -, -, hacc, hrej⟩ := NetworkProcessSendMsg_sends s portId
      port pd ctrl cd bf n0 n D r dmac pBuffer hport (sendMsgInfo_head port n0 D hhead) hn hbf
      hbwf hcount hpd hctrl hcd hsub harp hres hlp hrp
    obtain ⟨-, -, -, -, hdst, -⟩ := consumeTxMsg_spec port n bf hbf hbwf hcount
    cases hans : cd.ComInterface.MacCtrlSendMsg cd.MacCtrlId
        (udpFrame dmac ctrl.MacAddr ctrl.IpAddr D port.InPortNb port.OutPortNb
          ((FifoItems bf).take n)) with
    | true =>
      exact ⟨_, s1, b1, consumeTxMsg port n, hres1, hsent, udpFrame_dst _ _ _ _ _ _ _,
        by rw [hacc hans]; exact getElem?_set_same _ _ _ _ hport, hdst⟩
    | false =>
      exact ⟨_, s1, b1, port, hres1, hsent, udpFrame_dst _ _ _ _ _ _ _,
        by rw [hrej hans]; exact hport, rfl⟩
  constructor
  · intro hmode df hdf hdwf
    constructor
    · intro buf n dest hsize hroom hdroom
      obtain ⟨bf1, df1, hres, -, hitems⟩ := NetworkPortSendBuff_datagram s portId port bf df buf n
        dest hport hvalid hmode hbf hbwf hdf hdwf hsize hroom hdroom
      exact ⟨_, _, df1, hres, setPort_get _ _ _ _ hport, rfl, hitems, rfl⟩
    · intro n ip D rest r dmac hhead hn hcount hD hsub harp hres
      have hn2 : n = (if n < 1472 then n else 1472) := by split_ifs <;> omega
      exact hafter n n D r dmac (Or.inl ⟨hmode, df, ip, rest, hdf, hdwf, hhead, hD⟩) hn2 hcount
        hsub harp hres
  · intro hmode
    constructor
    · intro buf n dest
      exact NetworkPortSendBuff_stream s portId port buf n dest hport hmode
    · intro n r dmac hn hcount hsub harp hres
      exact hafter (FifoItemCount (some bf) % 65536) n port.DstIpAddr r dmac
        (Or.inr ⟨hmode, by rw [hbf], rfl⟩) hn hcount hsub harp hres

set_option maxRecDepth 100000 in
/-- C21 (witness): on the datagram-mode port of test_network.c, a byte sent with the
destination 192.168.2.7 is queued with a descriptor that holds 192.168.2.7, and the byte
queued for 192.168.2.0 leaves in the frame `udp_tx_byte`, whose IPv4 destination is
192.168.2.0. -/
theorem per_message_destination_witness :
    (∃ s1 port1 df1, NetworkPortSendBuff txState 0 (some (fun _ => 0x66)) 1
        (some ⟨192, 168, 2, 7⟩) = some (true, s1) ∧
      s1.pPortInfoList[0]? = some port1 ∧ port1.pFifoTxMsgDesc = some df1 ∧
      FifoItems df1 = [{ MsgSize := 1, IpAddr := ⟨192, 168, 2, 0⟩ },
        { MsgSize := 1, IpAddr := ⟨192, 168, 2, 7⟩ }] ∧
      port1.DstIpAddr = txPort.DstIpAddr) ∧
    (∃ ans s1 b1, NetworkProcessSendMsg txState 0 txState.pBuffer = some (ans, s1, b1) ∧
      s1.Sent = [(0, udp_tx_byte)] ∧ (udp_tx_byte.drop 30).take 4 = [192, 168, 2, 0]) := by
  have h := (per_message_destination txState 0 txPort testPortDesc testCtrl testCtrlDesc txBytes
    txState.pBuffer rfl (by decide) rfl FifoWf_txBytes rfl rfl rfl (by decide) (by decide)).1
    rfl txDescs rfl FifoWf_txDescs
  constructor
  · obtain ⟨s1, port1, df1, h1, h2, h3, h4, h5⟩ := h.1 (fun _ => 0x66) 1 (some ⟨192, 168, 2, 7⟩)
      (by decide) (by decide) (by decide)
    refine ⟨s1, port1, df1, h1, h2, h3, ?_, h5⟩
    rw [h4]
    decide
  · obtain ⟨ans, s1, b1, port1, h1, h2, -, -, -⟩ := h.2 1 ⟨192, 168, 2, 0⟩ ⟨192, 168, 2, 0⟩ []
      (some 0) ⟨0x11, 0x22, 0x44, 0x55, 0x88, 0xaa⟩ (by decide) (by decide) (by decide)
      (by decide) (by decide) (by decide)
      (Or.inr ⟨by decide, 0, testCtrl.pArpArray.getD 0 arp_entry_t.zero, rfl, rfl, by decide,
        by decide⟩)
    refine ⟨ans, s1, b1, h1, ?_, by decide⟩
    rw [h2]
    decide

/-! ## ARP request group -/

/-- `NetworkRequestArp` returns, touches nothing but the ARP table, the trace of driver
calls and the trace of error calls, and leaves the address without a valid entry. -/
theorem NetworkRequestArp_unresolved (s : network_module_info_t) (ctrlId : Nat)
    (ctrl : network_ctrl_info_t) (cd : network_ctrl_desc_t) (X : ip_addr)
    (hctrl : s.pCtrlInfoList[ctrlId]? = some ctrl) (hcd : ctrl.pDesc = some cd)
    (hlen : cd.ArpEntryNb ≤ ctrl.pArpArray.length) :
    ∃ ans s1 arr1 r1, NetworkRequestArp s ctrlId X = some (ans, s1) ∧
      s1.pPortInfoList = s.pPortInfoList ∧ s1.pInitDesc = s.pInitDesc ∧
      s1.pBuffer = s.pBuffer ∧
      s1.pCtrlInfoList = s.pCtrlInfoList.set ctrlId { ctrl with pArpArray := arr1 } ∧
      arr1.length = ctrl.pArpArray.length ∧
      NetworkGetArpEntry.loop arr1 X 0 cd.ArpEntryNb = some r1 ∧
      (r1 = none ∨ ∃ idx e, r1 = some idx ∧ arr1[idx]? = some e ∧
        e.Status.IsValid = false) := by
  obtain ⟨r, hr, -⟩ := NetworkGetArpEntry_loop_total ctrl.pArpArray X cd.ArpEntryNb 0 (by omega)
  obtain ⟨f, hf, hle⟩ := NetworkCreateArpEntry_loop_total ctrl.pArpArray cd.ArpEntryNb 0
    (by omega)
  obtain ⟨-, -, hbelow, hat⟩ := NetworkCreateArpEntry_loop_spec ctrl.pArpArray cd.ArpEntryNb 0 f hf
  by_cases hroom : (∃ idx, NetworkGetArpEntry.loop ctrl.pArpArray X 0 cd.ArpEntryNb
        = some (some idx)) ∨
      (∃ j e, j < cd.ArpEntryNb ∧ ctrl.pArpArray[j]? = some e ∧ e.Status.IsInitialised = false)
  · obtain ⟨arr1, idx, e1, hreq, hlen1, hget1, he1, hinv1, -, -, -⟩ :=
      NetworkRequestArp_spec s ctrlId ctrl cd X hctrl hcd hlen hroom
    exact ⟨_, _, arr1, some idx, hreq, rfl, rfl, rfl, rfl, hlen1, hget1,
      Or.inr ⟨idx, e1, rfl, he1, hinv1⟩⟩
  · have hnone : r = none := by
      cases r with
      | none => rfl
      | some idx => exact absurd (Or.inl ⟨idx, hr⟩) hroom
    subst hnone
    have hfull : ∀ j, j < cd.ArpEntryNb →
        ∃ e, ctrl.pArpArray[j]? = some e ∧ e.Status.IsInitialised = true := by
      intro j hj
      have hfk : ¬ f < cd.ArpEntryNb := by
        intro hlt
        obtain ⟨e, he, hi⟩ := hat (by omega)
        exact hroom (Or.inr ⟨f, e, hlt, he, hi⟩)
      exact hbelow j (Nat.zero_le _) (by omega)
    have hcreate := NetworkCreateArpEntry_full s ctrlId ctrl cd hctrl hcd hfull
    obtain ⟨e1, e2, e3, e4, -, -⟩ := notifyError_fields s
    refine ⟨false, notifyError s, ctrl.pArpArray, none, ?_, e2, e3, e4, ?_, rfl, hr, Or.inl rfl⟩
    · simp only [NetworkRequestArp, NetworkGetArpEntry_eq s ctrlId ctrl cd hctrl hcd, hr, hcreate]
    · rw [e1]
      exact (set_self_of_getElem? _ _ _ hctrl).symm

theorem consumeTxMsg_counter (port : network_port_info_t) (n c t : Nat) :
    consumeTxMsg { port with CounterARP := c, TimerRequestARP := t } n =
      { consumeTxMsg port n with CounterARP := c, TimerRequestARP := t } := by
  cases hm : port.IsVirtualComTx <;> simp [consumeTxMsg, hm]

/-- One transmit attempt for a head message whose destination has no valid ARP entry,
when there is no entry at all or the timer says that the ARP timer of the port is passed:
the counter is stepped, or the message removed, and an ARP request is made. -/
theorem NetworkProcessSendMsg_requests (s : network_module_info_t) (portId : Nat)
    (pc : network_port_info_t) (pd : network_port_desc_t) (ctrl : network_ctrl_info_t)
    (cd : network_ctrl_desc_t) (n0 n : Nat) (D : ip_addr) (r : Option Nat)
    (pBuffer : Nat → Nat)
    (hport : s.pPortInfoList[portId]? = some pc)
    (hinfo : sendMsgInfo pc = some (n0, D))
    (hn : n = if n0 < 1472 then n0 else 1472)
    (hpd : pc.pDesc = some pd) (hctrl : s.pCtrlInfoList[pd.NetworkCtrlId]? = some ctrl)
    (hcd : ctrl.pDesc = some cd) (hlen : cd.ArpEntryNb ≤ ctrl.pArpArray.length)
    (hsub : NetworkIsIpValid D ctrl.IpAddr ctrl.SubnetMask = true)
    (hnb : NetworkIsIpBroadcast D ctrl.IpAddr ctrl.SubnetMask = false)
    (hget : NetworkGetArpEntry.loop ctrl.pArpArray D 0 cd.ArpEntryNb = some r)
    (hun : r = none ∨ ∃ idx e, r = some idx ∧ ctrl.pArpArray[idx]? = some e ∧
      e.Status.IsValid = false)
    (hcool : s.pInitDesc.GenInterface.pFnTimerIsPassed pc.TimerRequestARP = true) :
    ∃ s1 arr1 r1, NetworkProcessSendMsg s portId pBuffer = some (true, s1, pBuffer) ∧
      s1.pPortInfoList = s.pPortInfoList.set portId
        (if pc.CounterARP < 3 then
          { pc with CounterARP := (pc.CounterARP + 1) % 256,
                    TimerRequestARP := add32 s.pInitDesc.GenInterface.pFnTimerGetTime 2000 }
         else consumeTxMsg { pc with CounterARP := 0 } n) ∧
      s1.pCtrlInfoList = s.pCtrlInfoList.set pd.NetworkCtrlId { ctrl with pArpArray := arr1 } ∧
      arr1.length = ctrl.pArpArray.length ∧
      NetworkGetArpEntry.loop arr1 D 0 cd.ArpEntryNb = some r1 ∧
      (r1 = none ∨ ∃ idx e, r1 = some idx ∧ arr1[idx]? = some e ∧
        e.Status.IsValid = false) := by
  have hmin : (if n0 < ETHERNET_MAX_DATA_SIZE then n0 else ETHERNET_MAX_DATA_SIZE) = n := by
    simp only [ETHERNET_MAX_DATA_SIZE]; exact hn.symm
  have harp : NetworkGetArpEntry s pd.NetworkCtrlId D = some r := by
    rw [NetworkGetArpEntry_eq _ _ ctrl cd hctrl hcd]; exact hget
  obtain ⟨pDesc, rx, rxd, tx, txd, timer, inp, outp, cnt, vrx, vtx, dst⟩ := pc
  simp only at hpd hcool
  subst hpd
  generalize hq : (if cnt < 3 then
      ({ pDesc := some pd, pFifoRxMsg := rx, pFifoRxMsgDesc := rxd, pFifoTxMsg := tx,
         pFifoTxMsgDesc := txd,
         TimerRequestARP := add32 s.pInitDesc.GenInterface.pFnTimerGetTime 2000,
         InPortNb := inp, OutPortNb := outp, CounterARP := (cnt + 1) % 256,
         IsVirtualComRx := vrx, IsVirtualComTx := vtx, DstIpAddr := dst }
        : network_port_info_t)
    else consumeTxMsg
      { pDesc := some pd, pFifoRxMsg := rx, pFifoRxMsgDesc := rxd, pFifoTxMsg := tx,
        pFifoTxMsgDesc := txd, TimerRequestARP := timer, InPortNb := inp, OutPortNb := outp,
        CounterARP := 0, IsVirtualComRx := vrx, IsVirtualComTx := vtx, DstIpAddr := dst } n) = q
  have hctrl2 : (setPort s portId q).pCtrlInfoList[pd.NetworkCtrlId]? = some ctrl := hctrl
  obtain ⟨ans, s1, arr1, r1, hreq, hp1, -, -, hc1, hlen1, hget1, hun1⟩ :=
    NetworkRequestArp_unresolved (setPort s portId q) pd.NetworkCtrlId ctrl cd D hctrl2 hcd hlen
  refine ⟨s1, arr1, r1, ?_, hp1, hc1, hlen1, hget1, hun1⟩
  simp only [NetworkProcessSendMsg, hport, hinfo, hmin, hctrl, hsub, if_true,
    NetworkInitMsgInfo, harp, hnb, Bool.false_or, NETWORK_ARP_REQ_GROUP_NB,
    NETWORK_ARP_REQUEST_COOLDOWN]
  rcases hun with hr | ⟨idx, e, hr, he, hinv⟩
  · subst hr
    simp only [Bool.false_eq_true, if_false, Option.isNone_none, Bool.true_or, if_true, hq, hreq]
  · subst hr
    simp only [he, hinv, Bool.false_eq_true, if_false, Option.isNone_some, Bool.false_or,
      Bool.not_false, Bool.true_and, hcool, if_true, hq, hreq]

/-- One transmit attempt for a head message whose destination has no valid ARP entry,
made when the timer says that the ARP timer of the port is passed: with the counter below
3 the message stays, the counter goes up by one and the timer is set to the clock plus
2000; with the counter at 3 or more the message is removed and the counter reset. In both
cases the destination still has no valid entry. -/
theorem arp_attempt_step (s : network_module_info_t) (portId : Nat)
    (port : network_port_info_t) (n0 n : Nat) (D : ip_addr) (c t now : Nat)
    (isPassed : Nat → Bool) (pBuffer : Nat → Nat)
    (hpend : arpPending s portId port D c t)
    (hinfo : sendMsgInfo port = some (n0, D))
    (hn : n = if n0 < 1472 then n0 else 1472)
    (hcool : isPassed t = true) :
    ∃ s1, NetworkProcessSendMsg (withClock s now isPassed) portId pBuffer
        = some (true, s1, pBuffer) ∧
      (c < 3 → arpPending s1 portId port D (c + 1) (add32 now 2000)) ∧
      (3 ≤ c → arpPending s1 portId (consumeTxMsg port n) D 0 t) := by
  obtain ⟨pd, ctrl, cd, r, hport, hpd, hctrl, hcd, hlen, hsub, hnb, hget, hun⟩ := hpend
  obtain ⟨s1, arr1, r1, hres, hp1, hc1, hlen1, hget1, hun1⟩ :=
    NetworkProcessSendMsg_requests (withClock s now isPassed) portId
      { port with CounterARP := c, TimerRequestARP := t } pd ctrl cd n0 n D r pBuffer hport
      hinfo hn hpd hctrl hcd hlen hsub hnb hget hun hcool
  have hcq : s1.pCtrlInfoList[pd.NetworkCtrlId]? = some { ctrl with pArpArray := arr1 } := by
    rw [hc1]; exact getElem?_set_same _ _ _ _ hctrl
  have hp2 : s1.pPortInfoList = s.pPortInfoList.set portId
      (if c < 3 then
        ({ port with CounterARP := (c + 1) % 256, TimerRequestARP := add32 now 2000 }
          : network_port_info_t)
       else consumeTxMsg { port with CounterARP := 0, TimerRequestARP := t } n) := hp1
  refine ⟨s1, hres, fun hlt => ?_, fun hge => ?_⟩
  · have hpq : s1.pPortInfoList[portId]?
        = some { port with CounterARP := c + 1, TimerRequestARP := add32 now 2000 } := by
      have h1 : (c + 1) % 256 = c + 1 := by omega
      rw [hp2, getElem?_set_same _ _ _ _ hport, if_pos hlt, h1]
    exact ⟨pd, _, cd, r1, hpq, hpd, hcq, hcd, by rw [hlen1]; exact hlen, hsub, hnb, hget1, hun1⟩
  · have hpq : s1.pPortInfoList[portId]?
        = some { consumeTxMsg port n with CounterARP := 0, TimerRequestARP := t } := by
      rw [hp2, getElem?_set_same _ _ _ _ hport, if_neg (by omega)]
      exact congrArg some (consumeTxMsg_counter port n 0 t)
    have hpd2 : (consumeTxMsg port n).pDesc = some pd := by
      rw [← hpd]
      cases hm : port.IsVirtualComTx <;> simp [consumeTxMsg, hm]
    exact ⟨pd, _, cd, r1, hpq, hpd2, hcq, hcd, by rw [hlen1]; exact hlen, hsub, hnb, hget1, hun1⟩

set_option maxRecDepth 100000 in
/-- C27 (counterexample): the byte 0x55 waits on the port of test_network.c for
192.168.2.0, which is in the subnet, is not the broadcast address and never gets an ARP
entry that is valid; the ARP counter is 0. Transmit attempts are made at the clock values
0, 2000, 4000 and 6000, each when the cooldown of 2000 has elapsed. After the third
attempt the counter is 3 and the message is still queued (1 byte, 1 descriptor); the
fourth attempt removes it and resets the counter. Each of the four attempts hands the
driver the ARP request `arp_req_int`. -/
theorem third_arp_attempt_keeps_message :
    arpCounters pendingState = [0] ∧ txSummary pendingState = [(1, 1)] ∧
    arpCounters (attemptAt pendingState 0) = [1] ∧
    txSummary (attemptAt pendingState 0) = [(1, 1)] ∧
    arpCounters (attemptAt (attemptAt pendingState 0) 2000) = [2] ∧
    txSummary (attemptAt (attemptAt pendingState 0) 2000) = [(1, 1)] ∧
    arpCounters (attemptAt (attemptAt (attemptAt pendingState 0) 2000) 4000) = [3] ∧
    txSummary (attemptAt (attemptAt (attemptAt pendingState 0) 2000) 4000) = [(1, 1)] ∧
    arpCounters (attemptAt (attemptAt (attemptAt (attemptAt pendingState 0) 2000) 4000) 6000)
      = [0] ∧
    txSummary (attemptAt (attemptAt (attemptAt (attemptAt pendingState 0) 2000) 4000) 6000)
      = [(0, 0)] ∧
    (attemptAt (attemptAt (attemptAt (attemptAt pendingState 0) 2000) 4000) 6000).Sent
      = [(0, arp_req_int), (0, arp_req_int), (0, arp_req_int), (0, arp_req_int)] := by
  decide

theorem arpPending_port (s : network_module_info_t) (portId : Nat)
    (port : network_port_info_t) (D : ip_addr) (c t : Nat)
    (h : arpPending s portId port D c t) :
    s.pPortInfoList[portId]? = some { port with CounterARP := c, TimerRequestARP := t } := by
  obtain ⟨_, _, _, _, h1, -⟩ := h
  exact h1

/-- C27 (amended): for a port whose head message is addressed to an in-subnet,
non-broadcast destination that has no valid ARP entry, starting with the ARP counter of
the port at 0 and with every transmit attempt made when the timer says that the ARP timer
of the port (the clock of the previous attempt plus 2000) is passed: the first three
attempts keep the message queued, both transmit queues being as before, and bring the
counter to 1, 2 and 3; the fourth attempt, made with the counter at 3, removes the head
message (its n bytes and, in datagram mode, its descriptor) and resets the counter to 0.
Every attempt returns true. -/
theorem arp_group_cap (s : network_module_info_t) (portId : Nat)
    (port : network_port_info_t) (pd : network_port_desc_t) (ctrl : network_ctrl_info_t)
    (cd : network_ctrl_desc_t) (bf : fifo_desc_t Nat) (n0 n : Nat) (D : ip_addr)
    (r : Option Nat) (pBuffer : Nat → Nat) (t1 t2 t3 t4 : Nat) (p1 p2 p3 p4 : Nat → Bool)
    (hport : s.pPortInfoList[portId]? = some port)
    (hhead : headMessage port n0 D)
    (hn : n = if n0 < 1472 then n0 else 1472)
    (hbf : port.pFifoTxMsg = some bf) (hbwf : FifoWf bf) (hcount : n ≤ FifoItemCount (some bf))
    (hpd : port.pDesc = some pd) (hctrl : s.pCtrlInfoList[pd.NetworkCtrlId]? = some ctrl)
    (hcd : ctrl.pDesc = some cd) (hlen : cd.ArpEntryNb ≤ ctrl.pArpArray.length)
    (hsub : NetworkIsIpValid D ctrl.IpAddr ctrl.SubnetMask = true)
    (hnb : NetworkIsIpBroadcast D ctrl.IpAddr ctrl.SubnetMask = false)
    (harp : NetworkGetArpEntry s pd.NetworkCtrlId D = some r)
    (hun : r = none ∨ ∃ idx e, r = some idx ∧ ctrl.pArpArray[idx]? = some e ∧
      e.Status.IsValid = false)
    (hc0 : port.CounterARP = 0)
    (h1 : p1 port.TimerRequestARP = true) (h2 : p2 (add32 t1 2000) = true)
    (h3 : p3 (add32 t2 2000) = true) (h4 : p4 (add32 t3 2000) = true) :
    ∃ s1 s2 s3 s4 q1 q2 q3 q4 bf4,
      NetworkProcessSendMsg (withClock s t1 p1) portId pBuffer = some (true, s1, pBuffer) ∧
      s1.pPortInfoList[portId]? = some q1 ∧ q1.CounterARP = 1 ∧
      q1.pFifoTxMsg = port.pFifoTxMsg ∧ q1.pFifoTxMsgDesc = port.pFifoTxMsgDesc ∧
      NetworkProcessSendMsg (withClock s1 t2 p2) portId pBuffer = some (true, s2, pBuffer) ∧
      s2.pPortInfoList[portId]? = some q2 ∧ q2.CounterARP = 2 ∧
      q2.pFifoTxMsg = port.pFifoTxMsg ∧ q2.pFifoTxMsgDesc = port.pFifoTxMsgDesc ∧
      NetworkProcessSendMsg (withClock s2 t3 p3) portId pBuffer = some (true, s3, pBuffer) ∧
      s3.pPortInfoList[portId]? = some q3 ∧ q3.CounterARP = 3 ∧
      q3.pFifoTxMsg = port.pFifoTxMsg ∧ q3.pFifoTxMsgDesc = port.pFifoTxMsgDesc ∧
      NetworkProcessSendMsg (withClock s3 t4 p4) portId pBuffer = some (true, s4, pBuffer) ∧
      s4.pPortInfoList[portId]? = some q4 ∧ q4.CounterARP = 0 ∧
      q4.pFifoTxMsg = some bf4 ∧ FifoItems bf4 = (FifoItems bf).drop n ∧
      (port.IsVirtualComTx = true → q4.pFifoTxMsgDesc = port.pFifoTxMsgDesc) ∧
      (port.IsVirtualComTx = false →
        ∃ df df4, port.pFifoTxMsgDesc = some df ∧ q4.pFifoTxMsgDesc = some df4 ∧
          FifoItems df4 = (FifoItems df).drop 1) := by
  have hinfo := sendMsgInfo_head port n0 D hhead
  have hself : ({ port with CounterARP := 0, TimerRequestARP := port.TimerRequestARP }
      : network_port_info_t) = port := by
    cases port
    simp only at hc0
    subst hc0
    rfl
  have hp0 : arpPending s portId port D 0 port.TimerRequestARP :=
    ⟨pd, ctrl, cd, r, by rw [hself]; exact hport, hpd, hctrl, hcd, hlen, hsub, hnb,
      by rw [← NetworkGetArpEntry_eq s _ ctrl cd hctrl hcd]; exact harp, hun⟩
  obtain ⟨s1, hr1, hk1, -⟩ := arp_attempt_step s portId port n0 n D 0 port.TimerRequestARP t1 p1
    pBuffer hp0 hinfo hn h1
  have hp1 := hk1 (by omega)
  obtain ⟨s2, hr2, hk2, -⟩ := arp_attempt_step s1 portId port n0 n D 1 (add32 t1 2000) t2 p2
    pBuffer hp1 hinfo hn h2
  have hp2 := hk2 (by omega)
  obtain ⟨s3, hr3, hk3, -⟩ := arp_attempt_step s2 portId port n0 n D 2 (add32 t2 2000) t3 p3
    pBuffer hp2 hinfo hn h3
  have hp3 := hk3 (by omega)
  obtain ⟨s4, hr4, -, hd4⟩ := arp_attempt_step s3 portId port n0 n D 3 (add32 t3 2000) t4 p4
    pBuffer hp3 hinfo hn h4
  have hp4 := hd4 (le_refl 3)
  obtain ⟨⟨bf1, hb1, -, hdrop, -⟩, hstream, hdgram, -⟩ := consumeTxMsg_spec port n bf hbf hbwf hcount
  refine ⟨s1, s2, s3, s4, _, _, _, _, bf1, hr1, arpPending_port _ _ _ _ _ _ hp1, rfl, rfl, rfl,
    hr2, arpPending_port _ _ _ _ _ _ hp2, rfl, rfl, rfl,
    hr3, arpPending_port _ _ _ _ _ _ hp3, rfl, rfl, rfl,
    hr4, arpPending_port _ _ _ _ _ _ hp4, rfl, hb1, hdrop, hstream, fun hm => ?_⟩
  rcases hhead with ⟨-, df, ip, rest, hdf, hdwf, hhd, -⟩ | ⟨hm2, -⟩
  · obtain ⟨df1, hd1, -, hddrop, -⟩ := hdgram hm df hdf hdwf (by rw [hhd]; simp)
    exact ⟨df, df1, hdf, hd1, hddrop⟩
  · rw [hm] at hm2
    cases hm2

set_option maxRecDepth 100000 in
/-- C27 (witness): the byte queued in `pendingState` for 192.168.2.0, with attempts at the
clock values 0, 2000, 4000 and 6000 of the timer of test_network.c. -/
theorem arp_group_cap_witness :
    ∃ (s1 s2 s3 s4 : network_module_info_t) (q3 q4 : network_port_info_t),
      NetworkProcessSendMsg (withClock pendingState 0 (fun d => decide (0 ≥ d))) 0
        pendingState.pBuffer = some (true, s1, pendingState.pBuffer) ∧
      NetworkProcessSendMsg (withClock s1 2000 (fun d => decide (2000 ≥ d))) 0
        pendingState.pBuffer = some (true, s2, pendingState.pBuffer) ∧
      NetworkProcessSendMsg (withClock s2 4000 (fun d => decide (4000 ≥ d))) 0
        pendingState.pBuffer = some (true, s3, pendingState.pBuffer) ∧
      NetworkProcessSendMsg (withClock s3 6000 (fun d => decide (6000 ≥ d))) 0
        pendingState.pBuffer = some (true, s4, pendingState.pBuffer) ∧
      s3.pPortInfoList[0]? = some q3 ∧ q3.CounterARP = 3 ∧
      q3.pFifoTxMsg = pendingPort.pFifoTxMsg ∧
      q3.pFifoTxMsgDesc = pendingPort.pFifoTxMsgDesc ∧
      s4.pPortInfoList[0]? = some q4 ∧ q4.CounterARP = 0 := by
  obtain ⟨s1, s2, s3, s4, q1, q2, q3, q4, bf4, e1, -, -, -, -, e2, -, -, -, -, e3, a1, a2, a3, a4,
      e4, b2, b3, -⟩ :=
    arp_group_cap pendingState 0 pendingPort testPortDesc pendingCtrl testCtrlDesc pendingBytes
      1 1 ⟨192, 168, 2, 0⟩ none pendingState.pBuffer 0 2000 4000 6000
      (fun d => decide (0 ≥ d)) (fun d => decide (2000 ≥ d)) (fun d => decide (4000 ≥ d))
      (fun d => decide (6000 ≥ d)) rfl
      (Or.inl ⟨rfl, pendingDescs, ⟨192, 168, 2, 0⟩, [], rfl, FifoWf_pendingDescs, by decide,
        by decide⟩)
      (by decide) rfl FifoWf_pendingBytes (by decide) rfl rfl rfl (by decide) (by decide)
      (by decide) (by decide) (Or.inl rfl) (by decide) (by decide) (by decide) (by decide)
      (by decide)
  exact ⟨s1, s2, s3, s4, q3, q4, e1, e2, e3, e4, a1, a2, a3, a4, b2, b3⟩

/-! ## ARP counter of a port -/

set_option maxRecDepth 100000 in
/-- C28 (counterexample): on the port of test_network.c the byte 0x55 waits for
A = 192.168.2.0; two ARP requests are counted (attempts at the clock values 0 and 2000),
then A answers and the byte is sent in the frame `udp_tx_byte`: the counter is still 2.
A byte is then queued for B = 192.168.2.7, which has no ARP entry: its first attempt
brings the counter to 3 and its second attempt drops it. From a counter of 0 the same
message is still queued after its second attempt, with the counter at 2. -/
theorem arp_requests_for_one_peer_count_against_the_next :
    afterPeerA.Sent = [(0, arp_req_int), (0, arp_req_int), (0, udp_tx_byte)] ∧
    arpCounters afterPeerA = [2] ∧ txSummary afterPeerA = [(0, 0)] ∧
    txSummary (queuedForB afterPeerA) = [(1, 1)] ∧
    arpCounters (attemptAt (queuedForB afterPeerA) 4000) = [3] ∧
    txSummary (attemptAt (queuedForB afterPeerA) 4000) = [(1, 1)] ∧
    arpCounters (attemptAt (attemptAt (queuedForB afterPeerA) 4000) 6000) = [0] ∧
    txSummary (attemptAt (attemptAt (queuedForB afterPeerA) 4000) 6000) = [(0, 0)] ∧
    arpCounters (queuedForB portState) = [0] ∧
    txSummary (queuedForB portState) = [(1, 1)] ∧
    arpCounters (attemptAt (attemptAt (queuedForB portState) 4000) 6000) = [2] ∧
    txSummary (attemptAt (attemptAt (queuedForB portState) 4000) 6000) = [(1, 1)] := by
  decide

/-- C28 (amended): the ARP attempt counter belongs to the port, not to the destination.
A transmit attempt that sends the head message (destination resolved, driver accepting)
leaves the counter as it is. A transmit attempt for a head message whose destination B is
in the subnet, is not the broadcast address and has no valid ARP entry, made when the
timer says that the ARP timer of the port is passed, with the counter at c: when c is
below 3 it keeps both transmit queues and sets the counter to c + 1; when c is 3 (or
more) it removes the n bytes of the message and resets the counter to 0. So the requests
counted for A do count against B: B's message is dropped at the attempt made with the
counter at 3, which is its fourth attempt only when the counter was 0. -/
theorem arp_counter_is_per_port (s : network_module_info_t) (portId : Nat)
    (port : network_port_info_t) (pd : network_port_desc_t) (ctrl : network_ctrl_info_t)
    (cd : network_ctrl_desc_t) (bf : fifo_desc_t Nat) (pBuffer : Nat → Nat)
    (hport : s.pPortInfoList[portId]? = some port)
    (hbf : port.pFifoTxMsg = some bf) (hbwf : FifoWf bf)
    (hpd : port.pDesc = some pd) (hctrl : s.pCtrlInfoList[pd.NetworkCtrlId]? = some ctrl)
    (hcd : ctrl.pDesc = some cd) (hlen : cd.ArpEntryNb ≤ ctrl.pArpArray.length)
    (hlp : port.InPortNb < 65536) (hrp : port.OutPortNb < 65536) :
    (∀ (n0 n : Nat) (A : ip_addr) (r : Option Nat) (dmac : mac_addr),
      headMessage port n0 A → n = (if n0 < 1472 then n0 else 1472) →
      n ≤ FifoItemCount (some bf) →
      NetworkIsIpValid A ctrl.IpAddr ctrl.SubnetMask = true →
      NetworkGetArpEntry s pd.NetworkCtrlId A = some r →
      ((NetworkIsIpBroadcast A ctrl.IpAddr ctrl.SubnetMask = true ∧ dmac = macBroadcast) ∨
        (NetworkIsIpBroadcast A ctrl.IpAddr ctrl.SubnetMask = false ∧
          ∃ idx e, r = some idx ∧ ctrl.pArpArray[idx]? = some e ∧
            e.Status.IsValid = true ∧ dmac = e.MacAddr)) →
      cd.ComInterface.MacCtrlSendMsg cd.MacCtrlId
        (udpFrame dmac ctrl.MacAddr ctrl.IpAddr A port.InPortNb port.OutPortNb
          ((FifoItems bf).take n)) = true →
      ∃ s1 b1 port1, NetworkProcessSendMsg s portId pBuffer = some (true, s1, b1) ∧
        s1.pPortInfoList[portId]? = some port1 ∧ port1.CounterARP = port.CounterARP) ∧
    (∀ (n0 n : Nat) (B : ip_addr) (r : Option Nat),
      headMessage port n0 B → n = (if n0 < 1472 then n0 else 1472) →
      n ≤ FifoItemCount (some bf) →
      NetworkIsIpValid B ctrl.IpAddr ctrl.SubnetMask = true →
      NetworkIsIpBroadcast B ctrl.IpAddr ctrl.SubnetMask = false →
      NetworkGetArpEntry s pd.NetworkCtrlId B = some r →
      (r = none ∨ ∃ idx e, r = some idx ∧ ctrl.pArpArray[idx]? = some e ∧
        e.Status.IsValid = false) →
      s.pInitDesc.GenInterface.pFnTimerIsPassed port.TimerRequestARP = true →
      ∃ s1 port1, NetworkProcessSendMsg s portId pBuffer = some (true, s1, pBuffer) ∧
        s1.pPortInfoList[portId]? = some port1 ∧
        (port.CounterARP < 3 →
          port1.CounterARP = (port.CounterARP + 1) % 256 ∧
          port1.pFifoTxMsg = port.pFifoTxMsg ∧ port1.pFifoTxMsgDesc = port.pFifoTxMsgDesc) ∧
        (3 ≤ port.CounterARP →
          port1.CounterARP = 0 ∧
          ∃ bf1, port1.pFifoTxMsg = some bf1 ∧ FifoItems bf1 = (FifoItems bf).drop n)) := by
  constructor
  · intro n0 n A r dmac hhead hn hcount hsub harp hres hacc
    obtain ⟨s1, b1, hres1, -, -, -, -, hset, -⟩ := NetworkProcessSendMsg_sends s portId port pd
      ctrl cd bf n0 n A r dmac pBuffer hport (sendMsgInfo_head port n0 A hhead) hn hbf hbwf
      hcount hpd hctrl hcd hsub harp hres hlp hrp
    obtain ⟨-, -, -, -, -, hcnt, -⟩ := consumeTxMsg_spec port n bf hbf hbwf hcount
    rw [hacc] at hres1
    exact ⟨s1, b1, consumeTxMsg port n, hres1,
      by rw [hset hacc]; exact getElem?_set_same _ _ _ _ hport, hcnt⟩
  · intro n0 n B r hhead hn hcount hsub hnb harp hun hcool
    obtain ⟨s1, arr1, r1, hres, hp1, -⟩ := NetworkProcessSendMsg_requests s portId port pd ctrl
      cd n0 n B r pBuffer hport (sendMsgInfo_head port n0 B hhead) hn hpd hctrl hcd hlen hsub hnb
      (by rw [← NetworkGetArpEntry_eq s _ ctrl cd hctrl hcd]; exact harp) hun hcool
    refine ⟨s1, _, hres, by rw [hp1]; exact getElem?_set_same _ _ _ _ hport, fun hlt => ?_,
      fun hge => ?_⟩
    · rw [if_pos hlt]
      exact ⟨rfl, rfl, rfl⟩
    · rw [if_neg (by omega)]
      have hbf0 : ({ port with CounterARP := 0 } : network_port_info_t).pFifoTxMsg = some bf :=
        hbf
      obtain ⟨⟨bf1, hb1, -, hdrop, -⟩, -, -, -, -, hcnt, -⟩ :=
        consumeTxMsg_spec { port with CounterARP := 0 } n bf hbf0 hbwf hcount
      exact ⟨hcnt, bf1, hb1, hdrop⟩

set_option maxRecDepth 100000 in
/-- C28 (witness): in `txState` the byte queued for the resolved peer 192.168.2.0 is sent
and the counter of the port stays as it is; in `pendingState`, where 192.168.2.0 has no
ARP entry and the counter is 0, the attempt keeps the byte and sets the counter to 1. -/
theorem arp_counter_is_per_port_witness :
    (∃ s1 b1 port1, NetworkProcessSendMsg txState 0 txState.pBuffer = some (true, s1, b1) ∧
      s1.pPortInfoList[0]? = some port1 ∧ port1.CounterARP = txPort.CounterARP) ∧
    (∃ s1 port1, NetworkProcessSendMsg pendingState 0 pendingState.pBuffer
        = some (true, s1, pendingState.pBuffer) ∧
      s1.pPortInfoList[0]? = some port1 ∧ port1.CounterARP = 1 ∧
      port1.pFifoTxMsg = pendingPort.pFifoTxMsg) := by
  have ha := (arp_counter_is_per_port txState 0 txPort testPortDesc testCtrl testCtrlDesc txBytes
    txState.pBuffer rfl rfl FifoWf_txBytes rfl rfl rfl (by decide) (by decide) (by decide)).1
  have hb := (arp_counter_is_per_port pendingState 0 pendingPort testPortDesc pendingCtrl
    testCtrlDesc pendingBytes pendingState.pBuffer rfl rfl FifoWf_pendingBytes rfl rfl rfl
    (by decide) (by decide) (by decide)).2
  constructor
  · exact ha 1 1 ⟨192, 168, 2, 0⟩ (some 0) ⟨0x11, 0x22, 0x44, 0x55, 0x88, 0xaa⟩
      (Or.inl ⟨rfl, txDescs, ⟨192, 168, 2, 0⟩, [], rfl, FifoWf_txDescs, by decide, by decide⟩)
      (by decide) (by decide) (by decide) (by decide)
      (Or.inr ⟨by decide, 0, testCtrl.pArpArray.getD 0 arp_entry_t.zero, rfl, rfl, by decide,
        by decide⟩)
      rfl
  · obtain ⟨s1, port1, h1, h2, h3, -⟩ := hb 1 1 ⟨192, 168, 2, 0⟩ none
      (Or.inl ⟨rfl, pendingDescs, ⟨192, 168, 2, 0⟩, [], rfl, FifoWf_pendingDescs, by decide,
        by decide⟩)
      (by decide) (by decide) (by decide) (by decide) (by decide) (Or.inl rfl) (by decide)
    obtain ⟨h4, h5, -⟩ := h3 (by decide)
    exact ⟨s1, port1, h1, h2, by rw [h4]; decide, h5⟩

/-! ## Internet checksum -/

theorem SWAP16_load16 (m : Nat → Nat) (i : Nat) : SWAP16 (load16 m (2 * i)) = wordBE m i := by
  have h : load16 m (2 * i) < 65536 := by unfold load16; omega
  rw [SWAP16_eq _ h]
  unfold load16 wordBE
  omega

theorem wordBE_lt (m : Nat → Nat) (i : Nat) : wordBE m i < 65536 := by
  unfold wordBE; omega

theorem wordBE_sum_le (m : Nat → Nat) (n : Nat) :
    ((List.range n).map (wordBE m)).sum ≤ n * 65535 := by
  induction n with
  | zero => simp
  | succ n ih =>
    rw [List.range_succ, List.map_append, List.sum_append]
    have := wordBE_lt m n
    simp only [List.map_cons, List.map_nil, List.sum_cons, List.sum_nil]
    omega

/-- The loop of `NetworkIcmpChecksum` adds the big-endian words; on at most 65535 words
the 32-bit accumulator does not wrap. -/
theorem checksum_loop_sum (m : Nat → Nat) (n : Nat) (hn : n ≤ 65535) :
    (List.range n).foldl (fun acc i => add32 acc (SWAP16 (load16 m (2 * i)))) 0 =
      ((List.range n).map (wordBE m)).sum := by
  induction n with
  | zero => rfl
  | succ n ih =>
    rw [List.range_succ, List.foldl_append, ih (by omega), List.map_append, List.sum_append]
    simp only [List.foldl_cons, List.foldl_nil, List.map_cons, List.map_nil, List.sum_cons,
      List.sum_nil, SWAP16_load16]
    have h1 := wordBE_sum_le m n
    have h2 := wordBE_lt m n
    have h3 : n * 65535 ≤ 65534 * 65535 := Nat.mul_le_mul_right _ (by omega)
    rw [add32_eq (by omega)]
    omega

/-- What `NetworkIcmpChecksum` returns against the Internet checksum: equal when the
first fold leaves no carry, one above it when the first fold carries again. -/
theorem NetworkIcmpChecksum_vs_internet (m : Nat → Nat) (n : Nat) (hn : n ≤ 65535) :
    NetworkIcmpChecksum m n =
      if foldCarry (((List.range n).map (wordBE m)).sum) < 65536 then internetChecksum m n
      else internetChecksum m n + 1 := by
  unfold NetworkIcmpChecksum internetChecksum
  simp only []
  rw [checksum_loop_sum m n hn]
  have h1 := wordBE_sum_le m n
  have h3 : n * 65535 ≤ 65535 * 65535 := Nat.mul_le_mul_right _ hn
  generalize ((List.range n).map (wordBE m)).sum = S at *
  have hS : S < 4294967296 := by omega
  have e1 : S &&& 0xffff = S % 65536 := Nat.and_pow_two_sub_one_eq_mod S 16
  have e2 : S >>> 16 = S / 65536 := by rw [Nat.shiftRight_eq_div_pow]
  rw [e1, e2, Nat.mod_eq_of_lt hS]
  unfold foldCarry add32
  split <;> omega

set_option maxRecDepth 100000 in
/-- C31: on the three words FFFF, FFFF, 0001 (sum 0x1FFFF) `NetworkIcmpChecksum` folds
the carry once, is left with 0x10000, and returns FFFF, while the Internet checksum of
these words, with the carry folded twice, is FFFE; the echo request `icmp_req_carry`
makes the module answer with an ICMP message whose checksum field is FFFF, while the
Internet checksum of that message is FFFE; on the echo request of the test vectors the
two agree (DADC in the reply to `icmp_req_ext`). -/
theorem icmp_checksum_folds_the_carry_once :
    NetworkIcmpChecksum (bufOf carry_twice_barray) 3 = 0xFFFF ∧
    internetChecksum (bufOf carry_twice_barray) 3 = 0xFFFE ∧
    ((NetworkProcessIpPacket testState 0 (bufOf icmp_req_carry) 46).bind fun r =>
      r.2.1.Sent.getLast?.map fun f => f.2.drop 34)
      = some [0x00, 0x00, 0xFF, 0xFF, 0x01, 0x00, 0x01, 0x00, 0xFF, 0xFF, 0xFE, 0x00] ∧
    internetChecksum
      (bufOf [0x00, 0x00, 0x00, 0x00, 0x01, 0x00, 0x01, 0x00, 0xFF, 0xFF, 0xFE, 0x00]) 6
      = 0xFFFE ∧
    icmpReplyChecksum (bufOf icmp_req_ext) 42 = 0xDADC ∧
    internetChecksum (bufOf (icmpReplyMessage (bufOf icmp_req_ext) 42)) 11 = 0xDADC := by
  decide

theorem icmpReplyMessage_words (pBuffer : Nat → Nat) (T : Nat) (hT : T ≤ 65535) :
    (icmpReplyMessage pBuffer T).length / 2 ≤ 65535 := by
  have h : (icmpReplyMessage pBuffer T).length ≤ T - 20 + 1 := by
    unfold icmpReplyMessage
    simp only []
    split <;> simp
  omega

set_option maxRecDepth 100000 in
/-- C15: for an accepted IPv4 frame with protocol 1 and ICMP type 8, of length L and IP
total length T = L - 14 (T at least 24, so that the frame holds the ICMP checksum field),
the controller hands the driver one L-byte frame equal to the request except that Ethernet
destination = the request's Ethernet source, Ethernet source = controller MAC, IP source =
controller IP, IP destination = the request's IP source, ICMP type = 0, code = 0, and a
checksum field that holds, big-endian, the Internet checksum of the T - 20 ICMP bytes with
type, code and checksum zeroed (padded with one zero byte when odd) when the first fold of
the sum of their words leaves no carry, and that checksum plus one when it leaves one. The
request `icmp_req_carry` is answered by `icmp_reply_carry`, whose checksum field is FF FF
where the Internet checksum of the message is FFFE; the request `icmp_req_ext` of the test
is answered by `icmp_reply_int`, whose checksum DA DC is the Internet checksum. -/
theorem echo_reply_checksum_misses_second_fold (s : network_module_info_t) (ctrlId : Nat)
    (ctrl : network_ctrl_info_t) (cd : network_ctrl_desc_t) (pBuffer : Nat → Nat) (L T : Nat)
    (hctrl : s.pCtrlInfoList[ctrlId]? = some ctrl) (hcd : ctrl.pDesc = some cd)
    (hlen : cd.ArpEntryNb ≤ ctrl.pArpArray.length)
    (haccept : NetworkAcceptIncIpPacket s ctrlId (ptrAdd pBuffer ETH_HEADER_SIZE) = some true)
    (hproto : pBuffer 23 = IP_PROT_ICMP) (htype : pBuffer 34 = ICMP_ECHO_REQUEST)
    (hb16 : pBuffer 16 < 256) (hb17 : pBuffer 17 < 256)
    (hT : T = pBuffer 16 * 256 + pBuffer 17) (hL : L = T + 14) (hT24 : 24 ≤ T) :
    (∃ s1 b1 cks, NetworkProcessIpPacket s ctrlId pBuffer L =
        some (cd.ComInterface.MacCtrlSendMsg cd.MacCtrlId
          (frameOf (icmpReplyBytes pBuffer ctrl.MacAddr ctrl.IpAddr cks) L), s1, b1) ∧
      s1.Sent = s.Sent ++ [(cd.MacCtrlId,
        frameOf (icmpReplyBytes pBuffer ctrl.MacAddr ctrl.IpAddr cks) L)] ∧
      (frameOf (icmpReplyBytes pBuffer ctrl.MacAddr ctrl.IpAddr cks) L).length = L ∧
      cks =
        if foldCarry (((List.range ((icmpReplyMessage pBuffer T).length / 2)).map
            (wordBE (bufOf (icmpReplyMessage pBuffer T)))).sum) < 65536 then
          internetChecksum (bufOf (icmpReplyMessage pBuffer T))
            ((icmpReplyMessage pBuffer T).length / 2)
        else
          internetChecksum (bufOf (icmpReplyMessage pBuffer T))
            ((icmpReplyMessage pBuffer T).length / 2) + 1) ∧
    ((NetworkProcessIpPacket testState 0 (bufOf icmp_req_carry) 46).map fun r =>
      (r.1, r.2.1.Sent)) = some (true, [(0, icmp_reply_carry)]) ∧
    internetChecksum (bufOf (icmpReplyMessage (bufOf icmp_req_carry) 32)) 6 = 0xFFFE ∧
    ((NetworkProcessIpPacket testState 0 (bufOf icmp_req_ext) 56).map fun r =>
      (r.1, r.2.1.Sent)) = some (true, [(0, icmp_reply_int)]) ∧
    internetChecksum (bufOf (icmpReplyMessage (bufOf icmp_req_ext) 42)) 11 = 0xDADC := by
  refine ⟨?_, by decide, by decide, by decide, by decide⟩
  obtain ⟨u, arr1, hu, hsame, hctrl1⟩ := NetworkUpdateArpTable_get s ctrlId ctrl cd hctrl hcd hlen
    (ip_addr.ofMem pBuffer (ETH_HEADER_SIZE + 12)) (mac_addr.ofMem pBuffer 6) false
  obtain ⟨b, hb⟩ := NetworkProcessIcmpEchoRequest_spec u.2 ctrlId { ctrl with pArpArray := arr1 }
    cd pBuffer L T hctrl1 hcd hb16 hb17 hT hL hT24
  have hres : NetworkProcessIpPacket s ctrlId pBuffer L =
      NetworkProcessIcmpEchoRequest u.2 ctrlId pBuffer L := by
    simp only [NetworkProcessIpPacket, haccept, hu, ETH_HEADER_SIZE, Nat.reduceAdd, hproto,
      if_true, NetworkProcessIcmpPacket, IPV4_HEADER_SIZE, htype]
  rw [hres, hb]
  refine ⟨_, b, icmpReplyChecksum pBuffer T, rfl, ?_, by simp [frameOf], ?_⟩
  · show u.2.Sent ++ _ = _
    rw [hsame.2.2.2.1]
  · exact NetworkIcmpChecksum_vs_internet _ _ (icmpReplyMessage_words pBuffer T (by omega))

set_option maxRecDepth 100000 in
/-- C15 (witness): the request `icmp_req_carry` is accepted by the test controller and
answered by the frame `icmp_reply_carry`, whose checksum field FF FF is one above the
Internet checksum FFFE of the message. -/
theorem echo_reply_checksum_misses_second_fold_witness :
    ∃ s1 b1, NetworkProcessIpPacket testState 0 (bufOf icmp_req_carry) 46 = some (true, s1, b1) ∧
      s1.Sent = testState.Sent ++ [(0, icmp_reply_carry)] := by
  obtain ⟨s1, b1, cks, h1, h2, -, h4⟩ := (echo_reply_checksum_misses_second_fold testState 0
    testCtrl testCtrlDesc (bufOf icmp_req_carry) 46 32 rfl rfl (by decide) (by decide)
    (by decide) (by decide) (by decide) (by decide) (by decide) (by decide) (by decide)).1
  have hc : cks = 65535 := h4.trans (by decide)
  subst hc
  exact ⟨s1, b1, h1, h2⟩

/-! ## Echo reply without echo request -/

/-- What `NetworkCtrlAdd` leaves in the controller entry when it returns true. -/
theorem NetworkCtrlAdd_fresh (s0 : network_module_info_t) (ctrlId : Nat)
    (cd : network_ctrl_desc_t) (s : network_module_info_t)
    (hadd : NetworkCtrlAdd s0 ctrlId (some cd) = some (true, s)) :
    ctrlId < s0.pInitDesc.CtrlNb ∧ s.pInitDesc = s0.pInitDesc ∧ s.Sent = s0.Sent ∧
    s.pPortInfoList = s0.pPortInfoList ∧ s.Errors = s0.Errors ∧ s.pBuffer = s0.pBuffer ∧
    ∃ c0, s0.pCtrlInfoList[ctrlId]? = some c0 ∧
      s.pCtrlInfoList = s0.pCtrlInfoList.set ctrlId
        { pDesc := some cd, pArpArray := List.replicate cd.ArpEntryNb arp_entry_t.zero,
          TimerDecayARP := 0, IcmpReplyDelay := 0, IcmpReplyReceived := false,
          IpAddr := cd.DefaultIpAddr, SubnetMask := cd.DefaultSubnetMask,
          MacAddr := cd.DefaultMacAddr } := by
  unfold NetworkCtrlAdd at hadd
  simp only at hadd
  by_cases hid : ctrlId < s0.pInitDesc.CtrlNb
  · rw [if_pos hid] at hadd
    cases hc : s0.pCtrlInfoList[ctrlId]? with
    | none => rw [hc] at hadd; exact absurd hadd (by simp)
    | some c0 =>
      rw [hc] at hadd
      simp only [Option.some.injEq, Prod.mk.injEq, true_and] at hadd
      subst hadd
      exact ⟨hid, rfl, rfl, rfl, rfl, rfl, c0, rfl, rfl⟩
  · rw [if_neg hid] at hadd
    simp at hadd

/-- C37: on a controller as NetworkCtrlAdd leaves it (no echo request was sent: the trace
of the driver is the one before the add, and NetworkCtrlCheckPingReply returns false),
processing one accepted ICMP echo reply when the clock reads t makes
NetworkCtrlCheckPingReply return true and report the delay t. -/
theorem echo_reply_latches_without_request (s0 s : network_module_info_t) (ctrlId : Nat)
    (cd : network_ctrl_desc_t) (t : Nat) (isPassed : Nat → Bool) (pBuffer : Nat → Nat) (L : Nat)
    (hadd : NetworkCtrlAdd s0 ctrlId (some cd) = some (true, s))
    (ht : t < 4294967296)
    (heth : SWAP16 (load16 pBuffer 12) = ETH_PROT_IPV4)
    (haccept : NetworkAcceptIncIpPacket s ctrlId (ptrAdd pBuffer ETH_HEADER_SIZE) = some true)
    (hproto : pBuffer 23 = IP_PROT_ICMP) (htype : pBuffer 34 = ICMP_ECHO_REPLY) :
    s.Sent = s0.Sent ∧
    (∀ d, NetworkCtrlCheckPingReply s ctrlId (some d) = (false, some d)) ∧
    ∃ s1, NetworkProcessEthPacket (withClock s t isPassed) ctrlId pBuffer L
        = some (true, s1, pBuffer) ∧
      s1.Sent = s0.Sent ∧
      ∀ d, NetworkCtrlCheckPingReply s1 ctrlId (some d) = (true, some t) := by
  obtain ⟨hid, hinit, hsent, -, -, -, c0, hc0, hlist⟩ := NetworkCtrlAdd_fresh s0 ctrlId cd s hadd
  have hctrl : s.pCtrlInfoList[ctrlId]? = some
      { pDesc := some cd, pArpArray := List.replicate cd.ArpEntryNb arp_entry_t.zero,
        TimerDecayARP := 0, IcmpReplyDelay := 0, IcmpReplyReceived := false,
        IpAddr := cd.DefaultIpAddr, SubnetMask := cd.DefaultSubnetMask,
        MacAddr := cd.DefaultMacAddr } := by
    rw [hlist]; exact getElem?_set_same _ _ _ _ hc0
  have hctrlW : (withClock s t isPassed).pCtrlInfoList[ctrlId]? = some
      { pDesc := some cd, pArpArray := List.replicate cd.ArpEntryNb arp_entry_t.zero,
        TimerDecayARP := 0, IcmpReplyDelay := 0, IcmpReplyReceived := false,
        IpAddr := cd.DefaultIpAddr, SubnetMask := cd.DefaultSubnetMask,
        MacAddr := cd.DefaultMacAddr } := hctrl
  have hacceptW : NetworkAcceptIncIpPacket (withClock s t isPassed) ctrlId
      (ptrAdd pBuffer ETH_HEADER_SIZE) = some true := haccept
  obtain ⟨u, arr1, hu, hsame, hctrl1⟩ := NetworkUpdateArpTable_get (withClock s t isPassed) ctrlId
    _ cd hctrlW rfl (by simp)
    (ip_addr.ofMem pBuffer (ETH_HEADER_SIZE + 12)) (mac_addr.ofMem pBuffer 6) false
  have hne : ¬ (ICMP_ECHO_REPLY = ICMP_ECHO_REQUEST) := by decide
  have hne2 : ¬ (ETH_PROT_IPV4 = ETH_PROT_ARP) := by decide
  have hclock : u.2.pInitDesc.GenInterface.pFnTimerGetTime = t := by
    rw [hsame.2.1]; rfl
  have hdiff : UtilsDiffUint32 0 t = t := by
    unfold UtilsDiffUint32
    simp [sub32_eq (Nat.zero_le t) ht]
  have hres : NetworkProcessEthPacket (withClock s t isPassed) ctrlId pBuffer L =
      some (true, setCtrl u.2 ctrlId
        { pDesc := some cd, pArpArray := arr1,
          TimerDecayARP := 0, IcmpReplyDelay := t, IcmpReplyReceived := true,
          IpAddr := cd.DefaultIpAddr, SubnetMask := cd.DefaultSubnetMask,
          MacAddr := cd.DefaultMacAddr }, pBuffer) := by
    simp only [NetworkProcessEthPacket, heth, hne2, if_false, if_true,
      NetworkProcessIpPacket, hacceptW, hu, ETH_HEADER_SIZE, Nat.reduceAdd, hproto,
      NetworkProcessIcmpPacket, IPV4_HEADER_SIZE, htype, hne,
      NetworkProcessIcmpEchoReply, hctrl1, Bool.not_false, hclock, hdiff]
  have hvalid : NetworkCtrlValid s ctrlId = true := by
    simp [NetworkCtrlValid, hinit, hid, hctrl]
  refine ⟨hsent, fun d => ?_, _, hres, ?_, fun d => ?_⟩
  · simp [NetworkCtrlCheckPingReply, hvalid, hctrl]
  · show u.2.Sent = s0.Sent
    rw [hsame.2.2.2.1]; exact hsent
  · have hv1 : NetworkCtrlValid (setCtrl u.2 ctrlId
        { pDesc := some cd, pArpArray := arr1,
          TimerDecayARP := 0, IcmpReplyDelay := t, IcmpReplyReceived := true,
          IpAddr := cd.DefaultIpAddr, SubnetMask := cd.DefaultSubnetMask,
          MacAddr := cd.DefaultMacAddr }) ctrlId = true := by
      have hi : (setCtrl u.2 ctrlId
        { pDesc := some cd, pArpArray := arr1,
          TimerDecayARP := 0, IcmpReplyDelay := t, IcmpReplyReceived := true,
          IpAddr := cd.DefaultIpAddr, SubnetMask := cd.DefaultSubnetMask,
          MacAddr := cd.DefaultMacAddr }).pInitDesc.CtrlNb = s0.pInitDesc.CtrlNb := by
        show u.2.pInitDesc.CtrlNb = _
        rw [hsame.2.1, ← hinit]; rfl
      simp [NetworkCtrlValid, hi, hid, setCtrl_get _ _ _ _ hctrl1]
    simp [NetworkCtrlCheckPingReply, hv1, setCtrl_get _ _ _ _ hctrl1]

set_option maxRecDepth 100000 in
/-- C37 (witness): the controller of test_network.c right after NetworkCtrlAdd, then the
frame `icmp_reply_ext` processed when the clock reads 142. -/
theorem echo_reply_latches_without_request_witness :
    NetworkCtrlAdd (NetworkInit (testInitDesc 0 1 1)) 0 (some testCtrlDesc)
      = some (true, baseState) ∧
    baseState.Sent = [] ∧
    ∃ s1, NetworkProcessEthPacket (withClock baseState 142 fun _ => false) 0
        (bufOf icmp_reply_ext) 56 = some (true, s1, bufOf icmp_reply_ext) ∧
      NetworkCtrlCheckPingReply s1 0 (some 7) = (true, some 142) := by
  obtain ⟨h1, -, s1, h3, -, h5⟩ := echo_reply_latches_without_request
    (NetworkInit (testInitDesc 0 1 1)) baseState 0 testCtrlDesc 142 (fun _ => false)
    (bufOf icmp_reply_ext) 56 rfl (by decide) (by decide) (by decide) (by decide) (by decide)
  exact ⟨rfl, h1, s1, h3, h5 7⟩

/-! ## Explicit add on a valid entry -/

/-- A controller that is in range and has a descriptor is valid. -/
theorem NetworkCtrlValid_of (s : network_module_info_t) (ctrlId : Nat)
    (c : network_ctrl_info_t) (cd : network_ctrl_desc_t) (hid : ctrlId < s.pInitDesc.CtrlNb)
    (hc : s.pCtrlInfoList[ctrlId]? = some c) (hcd : c.pDesc = some cd) :
    NetworkCtrlValid s ctrlId = true := by
  simp [NetworkCtrlValid, hid, hc, hcd]

/-- C38: NetworkCtrlAddArpEntry(X, M, hasDecay) on a valid controller, for an in-subnet
address X whose entry is valid, returns true; the entry of X then holds the MAC address M
and the clock value as lastSeen, and keeps its status flags, the decay flag among them,
and its address, whatever hasDecay is; the other entries are unchanged. -/
theorem add_arp_entry_on_valid_entry_keeps_decay_flag (s : network_module_info_t)
    (ctrlId : Nat) (ctrl : network_ctrl_info_t) (cd : network_ctrl_desc_t) (X : ip_addr)
    (M : mac_addr) (hasDecay : Bool) (idx : Nat) (e : arp_entry_t)
    (hid : ctrlId < s.pInitDesc.CtrlNb)
    (hctrl : s.pCtrlInfoList[ctrlId]? = some ctrl) (hcd : ctrl.pDesc = some cd)
    (hsub : NetworkIsIpValid X ctrl.IpAddr ctrl.SubnetMask = true)
    (hget : NetworkGetArpEntry.loop ctrl.pArpArray X 0 cd.ArpEntryNb = some (some idx))
    (he : ctrl.pArpArray[idx]? = some e) (hvalid : e.Status.IsValid = true) :
    ∃ s1 c1 e1, NetworkCtrlAddArpEntry s ctrlId (some X) (some M) hasDecay = some (true, s1) ∧
      s1.pCtrlInfoList[ctrlId]? = some c1 ∧
      NetworkGetArpEntry.loop c1.pArpArray X 0 cd.ArpEntryNb = some (some idx) ∧
      c1.pArpArray[idx]? = some e1 ∧
      e1.MacAddr = M ∧ e1.DecayTimer = s.pInitDesc.GenInterface.pFnTimerGetTime ∧
      e1.Status = e.Status ∧ e1.Status.HasDecay = e.Status.HasDecay ∧ e1.IpAddr = e.IpAddr ∧
      (∀ j, j ≠ idx → c1.pArpArray[j]? = ctrl.pArpArray[j]?) ∧
      NetworkCtrlIsArpValid s1 ctrlId (some X) = some true := by
  have hvalidc : NetworkCtrlValid s ctrlId = true := by
    simp [NetworkCtrlValid, hid, hctrl, hcd]
  have hupd := NetworkUpdateArpTable_refresh s ctrlId ctrl cd X M hasDecay idx e hctrl hcd hget
    he hvalid
  have hres : NetworkCtrlAddArpEntry s ctrlId (some X) (some M) hasDecay = some (true, setCtrl s ctrlId
      { ctrl with pArpArray := (ctrl.pArpArray.set idx
          { e with DecayTimer := s.pInitDesc.GenInterface.pFnTimerGetTime, MacAddr := M }) }) := by
    simp only [NetworkCtrlAddArpEntry, hctrl, hvalidc, hsub, if_true, hupd]
  obtain ⟨e', he', hm⟩ := (NetworkGetArpEntry_loop_some _ _ _ 0 idx hget).2.2.1
  have hee : e' = e := by rw [he] at he'; exact (Option.some.inj he').symm
  subst hee
  have hget1 := NetworkGetArpEntry_loop_set ctrl.pArpArray X cd.ArpEntryNb idx
    { e' with DecayTimer := s.pInitDesc.GenInterface.pFnTimerGetTime, MacAddr := M } hget
    (by simpa [arpMatches] using hm)
  have hc1 := setCtrl_get s ctrlId
      { ctrl with pArpArray := (ctrl.pArpArray.set idx
          { e' with DecayTimer := s.pInitDesc.GenInterface.pFnTimerGetTime, MacAddr := M }) }
      ctrl hctrl
  have he1 := getElem?_set_same ctrl.pArpArray idx
    { e' with DecayTimer := s.pInitDesc.GenInterface.pFnTimerGetTime, MacAddr := M } e' he
  refine ⟨_, _, _, hres, hc1, hget1, he1, rfl, rfl, rfl, rfl, rfl, fun j hj => ?_, ?_⟩
  · exact getElem?_set_other _ _ _ _ (Ne.symm hj)
  · have hv1 := NetworkCtrlValid_of _ ctrlId _ cd (by exact hid) hc1 hcd
    simp only [NetworkCtrlIsArpValid, hv1, if_true, hc1,
      NetworkGetArpEntry_eq _ ctrlId _ cd hc1 hcd, hget1, he1, hvalid]

set_option maxRecDepth 100000 in
/-- C38 (witness): on the module of test_network.c the peer 192.168.2.0 is pinned (added
with hasDecay false); adding it again at clock 500 with another MAC address and hasDecay
true returns true, stores the MAC address and the clock value, and the decay flag is
still off. -/
theorem add_arp_entry_on_valid_entry_keeps_decay_flag_witness :
    ∃ (s1 : network_module_info_t) (e1 : arp_entry_t),
      NetworkCtrlAddArpEntry (atClock testState 500) 0 (some ⟨192, 168, 2, 0⟩)
        (some ⟨0x02, 0, 0, 0, 0, 0x07⟩) true = some (true, s1) ∧
      firstArpEntry s1 = some e1 ∧ e1.MacAddr = ⟨0x02, 0, 0, 0, 0, 0x07⟩ ∧
      e1.DecayTimer = 500 ∧ e1.Status.HasDecay = false := by
  obtain ⟨s1, c1, e1, h1, h2, -, h4, h5, h6, -, h8, -, -, -⟩ :=
    add_arp_entry_on_valid_entry_keeps_decay_flag (atClock testState 500) 0 testCtrl testCtrlDesc
      ⟨192, 168, 2, 0⟩ ⟨0x02, 0, 0, 0, 0, 0x07⟩ true 0
      { DecayTimer := 0, MacAddr := ⟨0x11, 0x22, 0x44, 0x55, 0x88, 0xaa⟩,
        IpAddr := ⟨192, 168, 2, 0⟩,
        Status := { IsInitialised := true, IsValid := true, IsRequested := true,
                    HasDecay := false } }
      (by decide) rfl rfl (by decide) (by decide) (by decide) rfl
  refine ⟨s1, e1, h1, ?_, h5, h6, h8⟩
  simp only [firstArpEntry, h2, Option.some_bind, h4]

/-! ## Unsolicited ARP reply -/

/-- `NetworkStoreArp` for an address that has no entry, in a table with a free slot: the
first free slot becomes a valid entry of the address. -/
theorem NetworkStoreArp_new (s : network_module_info_t) (ctrlId : Nat)
    (ctrl : network_ctrl_info_t) (cd : network_ctrl_desc_t) (S : ip_addr) (M : mac_addr)
    (hasDecay : Bool)
    (hctrl : s.pCtrlInfoList[ctrlId]? = some ctrl) (hcd : ctrl.pDesc = some cd)
    (hlen : cd.ArpEntryNb ≤ ctrl.pArpArray.length)
    (hnone : NetworkGetArpEntry.loop ctrl.pArpArray S 0 cd.ArpEntryNb = some none)
    (hfree : ∃ j e, j < cd.ArpEntryNb ∧ ctrl.pArpArray[j]? = some e ∧
      e.Status.IsInitialised = false) :
    ∃ f e0, f < cd.ArpEntryNb ∧ ctrl.pArpArray[f]? = some e0 ∧
      e0.Status.IsInitialised = false ∧
      NetworkStoreArp s ctrlId S M hasDecay = some (true, setCtrl s ctrlId
        { ctrl with pArpArray := (ctrl.pArpArray.set f
            { e0 with IpAddr := S, MacAddr := M,
                      Status := { e0.Status with IsRequested := true, IsInitialised := true,
                                                 IsValid := true, HasDecay := hasDecay },
                      DecayTimer := s.pInitDesc.GenInterface.pFnTimerGetTime }) }) ∧
      NetworkGetArpEntry.loop (ctrl.pArpArray.set f
            { e0 with IpAddr := S, MacAddr := M,
                      Status := { e0.Status with IsRequested := true, IsInitialised := true,
                                                 IsValid := true, HasDecay := hasDecay },
                      DecayTimer := s.pInitDesc.GenInterface.pFnTimerGetTime }) S 0 cd.ArpEntryNb
        = some (some f) := by
  obtain ⟨f, e0, hcreate, hlt, he0, hinit⟩ := NetworkCreateArpEntry_free s ctrlId ctrl cd hctrl hcd
    hlen hfree
  refine ⟨f, e0, hlt, he0, hinit, ?_, ?_⟩
  · simp only [NetworkStoreArp,
      NetworkGetArpEntry_eq s ctrlId ctrl cd hctrl hcd, hnone, hcreate, hctrl, he0,
      setArp_eq s ctrlId f _ ctrl hctrl]
  · exact NetworkGetArpEntry_loop_fill _ _ _ _ _ e0 hnone hlt he0 (by simp [arpMatches])

/-- C35: a frame with EtherType ARP and opcode 2 whose sender address S is in the subnet
of the controller, has no ARP entry, while the table has a free slot, is processed with
result true: the first free slot becomes the entry S -> M (M the sender MAC of the frame),
valid, with the decay flag off and lastSeen the clock value; nothing is sent, and
NetworkCtrlIsArpValid(S) then returns true. Nothing is asked of the state besides this (no
request for S need have been emitted) and the target MAC, the target IP and the
Ethernet addresses of the frame are not constrained. -/
theorem arp_reply_is_accepted_without_request (s : network_module_info_t) (ctrlId : Nat)
    (ctrl : network_ctrl_info_t) (cd : network_ctrl_desc_t) (pBuffer : Nat → Nat) (L : Nat)
    (hid : ctrlId < s.pInitDesc.CtrlNb)
    (hctrl : s.pCtrlInfoList[ctrlId]? = some ctrl) (hcd : ctrl.pDesc = some cd)
    (hlen : cd.ArpEntryNb ≤ ctrl.pArpArray.length)
    (heth : SWAP16 (load16 pBuffer 12) = ETH_PROT_ARP)
    (hop : SWAP16 (load16 pBuffer 20) = ARP_REPLY)
    (hsub : NetworkIsIpValid (ip_addr.ofMem pBuffer 28) ctrl.IpAddr ctrl.SubnetMask = true)
    (hnone : NetworkGetArpEntry.loop ctrl.pArpArray (ip_addr.ofMem pBuffer 28) 0 cd.ArpEntryNb
      = some none)
    (hfree : ∃ j e, j < cd.ArpEntryNb ∧ ctrl.pArpArray[j]? = some e ∧
      e.Status.IsInitialised = false) :
    ∃ s1 c1 f e1, NetworkProcessEthPacket s ctrlId pBuffer L = some (true, s1, pBuffer) ∧
      s1.Sent = s.Sent ∧
      s1.pCtrlInfoList[ctrlId]? = some c1 ∧
      NetworkGetArpEntry.loop c1.pArpArray (ip_addr.ofMem pBuffer 28) 0 cd.ArpEntryNb
        = some (some f) ∧
      c1.pArpArray[f]? = some e1 ∧
      e1.IpAddr = ip_addr.ofMem pBuffer 28 ∧ e1.MacAddr = mac_addr.ofMem pBuffer 22 ∧
      e1.Status.IsInitialised = true ∧ e1.Status.IsValid = true ∧ e1.Status.HasDecay = false ∧
      e1.DecayTimer = s.pInitDesc.GenInterface.pFnTimerGetTime ∧
      (∀ j, j ≠ f → c1.pArpArray[j]? = ctrl.pArpArray[j]?) ∧
      NetworkCtrlIsArpValid s1 ctrlId (some (ip_addr.ofMem pBuffer 28)) = some true := by
  obtain ⟨f, e0, hlt, he0, -, hstore, hget1⟩ := NetworkStoreArp_new s ctrlId ctrl cd
    (ip_addr.ofMem pBuffer 28) (mac_addr.ofMem pBuffer 22) false hctrl hcd hlen hnone hfree
  have hne : ¬ (ARP_REPLY = ARP_REQUEST) := by decide
  have hres : NetworkProcessEthPacket s ctrlId pBuffer L = some (true, setCtrl s ctrlId
        { ctrl with pArpArray := (ctrl.pArpArray.set f
            { e0 with IpAddr := ip_addr.ofMem pBuffer 28, MacAddr := mac_addr.ofMem pBuffer 22,
                      Status := { e0.Status with IsRequested := true, IsInitialised := true,
                                                 IsValid := true, HasDecay := false },
                      DecayTimer := s.pInitDesc.GenInterface.pFnTimerGetTime }) }, pBuffer) := by
    simp only [NetworkProcessEthPacket, heth, if_true, NetworkProcessArpPacket, hctrl,
      ETH_HEADER_SIZE, Nat.reduceAdd, hop, hsub, hne, if_false, hstore]
  have hc1 := setCtrl_get s ctrlId
      { ctrl with pArpArray := (ctrl.pArpArray.set f
            { e0 with IpAddr := ip_addr.ofMem pBuffer 28, MacAddr := mac_addr.ofMem pBuffer 22,
                      Status := { e0.Status with IsRequested := true, IsInitialised := true,
                                                 IsValid := true, HasDecay := false },
                      DecayTimer := s.pInitDesc.GenInterface.pFnTimerGetTime }) }
      ctrl hctrl
  have he1 := getElem?_set_same ctrl.pArpArray f
            { e0 with IpAddr := ip_addr.ofMem pBuffer 28, MacAddr := mac_addr.ofMem pBuffer 22,
                      Status := { e0.Status with IsRequested := true, IsInitialised := true,
                                                 IsValid := true, HasDecay := false },
                      DecayTimer := s.pInitDesc.GenInterface.pFnTimerGetTime } e0 he0
  refine ⟨_, _, f, _, hres, rfl, hc1, hget1, he1, rfl, rfl, rfl, rfl, rfl, rfl,
    fun j hj => ?_, ?_⟩
  · exact getElem?_set_other _ _ _ _ (Ne.symm hj)
  · have hv1 := NetworkCtrlValid_of _ ctrlId _ cd (by exact hid) hc1 hcd
    simp only [NetworkCtrlIsArpValid, hv1, if_true, hc1,
      NetworkGetArpEntry_eq _ ctrlId _ cd hc1 hcd, hget1, he1]

set_option maxRecDepth 100000 in
/-- C35 (witness): the controller of test_network.c right after NetworkCtrlAdd has sent
nothing and knows no peer; the frame `arp_reply_unsolicited`, processed at clock 77,
enters 192.168.2.9 at 02:00:00:00:00:09 as a valid entry with the decay flag off. -/
theorem arp_reply_is_accepted_without_request_witness :
    baseState.Sent = [] ∧
    NetworkCtrlIsArpValid baseState 0 (some ⟨192, 168, 2, 9⟩) = some false ∧
    ∃ (s1 : network_module_info_t) (c1 : network_ctrl_info_t) (f : Nat) (e1 : arp_entry_t),
      NetworkProcessEthPacket (atClock baseState 77) 0 (bufOf arp_reply_unsolicited) 42
        = some (true, s1, bufOf arp_reply_unsolicited) ∧
      s1.Sent = [] ∧ s1.pCtrlInfoList[0]? = some c1 ∧ c1.pArpArray[f]? = some e1 ∧
      e1.IpAddr = ⟨192, 168, 2, 9⟩ ∧ e1.MacAddr = ⟨0x02, 0, 0, 0, 0, 0x09⟩ ∧
      e1.Status.IsValid = true ∧ e1.Status.HasDecay = false ∧ e1.DecayTimer = 77 ∧
      NetworkCtrlIsArpValid s1 0 (some ⟨192, 168, 2, 9⟩) = some true := by
  obtain ⟨s1, c1, f, e1, h1, h2, h3, -, h5, h6, h7, -, h9, h10, h11, -, h13⟩ :=
    arp_reply_is_accepted_without_request (atClock baseState 77) 0
      (baseState.pCtrlInfoList.getD 0 network_ctrl_info_t.zero) testCtrlDesc
      (bufOf arp_reply_unsolicited) 42 (by decide) rfl rfl (by decide) (by decide) (by decide)
      (by decide) (by decide) ⟨0, arp_entry_t.zero, by decide, rfl, rfl⟩
  exact ⟨rfl, by decide, s1, c1, f, e1, h1, h2, h3, h5, h6, h7, h9, h10, h11, h13⟩

/-! ## ARP table well-formedness: the table operations -/

theorem ArpWf_replicate (k n : Nat) : ArpWf k (List.replicate n arp_entry_t.zero) := by
  have hz : ∀ (i : Nat) (e : arp_entry_t), (List.replicate n arp_entry_t.zero)[i]? = some e → e = arp_entry_t.zero := by
    intro i e h
    rw [List.getElem?_replicate] at h
    split at h
    · exact (Option.some.inj h).symm
    · exact absurd h (by simp)
  constructor
  · intro i e _ he hv
    rw [hz i e he] at hv
    exact absurd hv (by decide)
  · intro i j ei ej _ _ hei _ hi _ _
    rw [hz i ei hei] at hi
    exact absurd hi (by decide)

/-- A table that differs from a well-formed one in one entry is well formed when the new
entry, if valid, is initialised and, if initialised, holds an address that no other
initialised entry holds. -/
theorem ArpWf_change (k : Nat) (arr arr1 : List arp_entry_t) (idx : Nat) (e1 : arp_entry_t)
    (h : ArpWf k arr) (hidx : arr1[idx]? = some e1)
    (hoth : ∀ j, j ≠ idx → arr1[j]? = arr[j]?)
    (h1 : e1.Status.IsValid = true → e1.Status.IsInitialised = true)
    (h2 : e1.Status.IsInitialised = true → ∀ j ej, j < k → j ≠ idx → arr[j]? = some ej →
      ej.Status.IsInitialised = true → ej.IpAddr ≠ e1.IpAddr) : ArpWf k arr1 := by
  constructor
  · intro i e hi he hv
    by_cases hii : i = idx
    · subst hii
      rw [hidx] at he
      cases Option.some.inj he
      exact h1 hv
    · rw [hoth i hii] at he
      exact h.1 i e hi he hv
  · intro i j ei ej hi hj hei hej hii hij hip
    by_cases h_i : i = idx
    · by_cases h_j : j = idx
      · rw [h_i, h_j]
      · subst h_i
        rw [hidx] at hei
        cases Option.some.inj hei
        rw [hoth j h_j] at hej
        exact absurd hip.symm (h2 hii j ej hj h_j hej hij)
    · by_cases h_j : j = idx
      · subst h_j
        rw [hidx] at hej
        cases Option.some.inj hej
        rw [hoth i h_i] at hei
        exact absurd hip (h2 hij i ei hi h_i hei hii)
      · rw [hoth i h_i] at hei
        rw [hoth j h_j] at hej
        exact h.2 i j ei ej hi hj hei hej hii hij hip

/-- Writing an entry of a well-formed table. -/
theorem ArpWf_set (k : Nat) (arr : List arp_entry_t) (idx : Nat) (e1 : arp_entry_t)
    (h : ArpWf k arr)
    (h1 : e1.Status.IsValid = true → e1.Status.IsInitialised = true)
    (h2 : e1.Status.IsInitialised = true → ∀ j ej, j < k → j ≠ idx → arr[j]? = some ej →
      ej.Status.IsInitialised = true → ej.IpAddr ≠ e1.IpAddr) : ArpWf k (arr.set idx e1) := by
  cases he : arr[idx]? with
  | none =>
    have hlen : arr.length ≤ idx := by
      by_contra hc
      rw [List.getElem?_eq_getElem (by omega)] at he
      exact absurd he (by simp)
    rw [List.set_eq_of_length_le hlen]
    exact h
  | some e =>
    exact ArpWf_change k arr _ idx e1 h (getElem?_set_same arr idx e1 e he)
      (fun j hj => getElem?_set_other arr idx j e1 (Ne.symm hj)) h1 h2

/-- Rewriting the entry that the search finds for an address, the address and the
initialised flag kept. -/
theorem ArpWf_set_found (k : Nat) (arr : List arp_entry_t) (X : ip_addr) (idx : Nat)
    (e1 : arp_entry_t) (h : ArpWf k arr)
    (hget : NetworkGetArpEntry.loop arr X 0 k = some (some idx))
    (hm : arpMatches X e1 = true) : ArpWf k (arr.set idx e1) := by
  obtain ⟨-, hlt, ⟨e, he, hme⟩, -⟩ := NetworkGetArpEntry_loop_some arr X k 0 idx hget
  simp only [arpMatches, Bool.and_eq_true, decide_eq_true_eq] at hm hme
  refine ArpWf_set k arr idx e1 h (fun _ => hm.1) (fun _ j ej hj hne hej hij hip => ?_)
  exact hne (h.2 j idx ej e hj (by omega) hej he hij hme.1 (by rw [hip, hm.2, hme.2]))

/-- Taking an entry for an address that the search does not find. -/
theorem ArpWf_set_fill (k : Nat) (arr : List arp_entry_t) (X : ip_addr) (f : Nat)
    (e1 : arp_entry_t) (h : ArpWf k arr)
    (hget : NetworkGetArpEntry.loop arr X 0 k = some none)
    (hm : arpMatches X e1 = true) : ArpWf k (arr.set f e1) := by
  have hnone := NetworkGetArpEntry_loop_none arr X k 0 hget
  simp only [arpMatches, Bool.and_eq_true, decide_eq_true_eq] at hm
  refine ArpWf_set k arr f e1 h (fun _ => hm.1) (fun _ j ej hj _ hej hij hip => ?_)
  obtain ⟨e, he, hme⟩ := hnone j (Nat.zero_le _) (by omega)
  rw [hej] at he
  cases Option.some.inj he
  simp [arpMatches, hij, hip, hm.2] at hme

/-- The decay sweep keeps a table well formed. -/
theorem ArpWf_decay (k : Nat) (arr arr1 : List arp_entry_t) (isPassed : Nat → Bool)
    (h : ArpWf k arr)
    (hd : ∀ j, arr1[j]? =
      if 0 ≤ j ∧ j < 0 + k then (arr[j]?).map (decayUpdate isPassed) else arr[j]?) :
    ArpWf k arr1 := by
  have hcase : ∀ i e1, i < k → arr1[i]? = some e1 →
      ∃ e, arr[i]? = some e ∧ (e1 = e ∨ e1 = arp_entry_t.zero) := by
    intro i e1 hi he1
    rw [hd i, if_pos ⟨Nat.zero_le _, by omega⟩] at he1
    cases he : arr[i]? with
    | none => rw [he] at he1; exact absurd he1 (by simp)
    | some e =>
      rw [he] at he1
      simp only [Option.map_some'] at he1
      have := Option.some.inj he1
      refine ⟨e, rfl, ?_⟩
      unfold decayUpdate at this
      split at this
      · right; exact this.symm
      · left; exact this.symm
  constructor
  · intro i e1 hi he1 hv
    obtain ⟨e, he, hor⟩ := hcase i e1 hi he1
    rcases hor with rfl | rfl
    · exact h.1 i _ hi he hv
    · exact absurd hv (by decide)
  · intro i j ei ej hi hj hei hej hii hij hip
    obtain ⟨e, he, hor⟩ := hcase i ei hi hei
    obtain ⟨e', he', hor'⟩ := hcase j ej hj hej
    rcases hor with rfl | rfl
    · rcases hor' with rfl | rfl
      · exact h.2 i j _ _ hi hj he he' hii hij hip
      · exact absurd hij (by decide)
    · exact absurd hii (by decide)

/-! ## ARP table well-formedness: the private functions -/

theorem ArpTablesWf_congr (s s1 : network_module_info_t) (h : ArpTablesWf s)
    (hl : s1.pCtrlInfoList = s.pCtrlInfoList) : ArpTablesWf s1 := by
  intro id c cd hc hcd
  rw [hl] at hc
  exact h id c cd hc hcd

theorem ArpTablesWf_set (s s1 : network_module_info_t) (id : Nat) (c1 : network_ctrl_info_t)
    (h : ArpTablesWf s) (hl : s1.pCtrlInfoList = s.pCtrlInfoList.set id c1)
    (h1 : ∀ cd1, c1.pDesc = some cd1 →
      c1.pArpArray.length = cd1.ArpEntryNb ∧ ArpWf cd1.ArpEntryNb c1.pArpArray) :
    ArpTablesWf s1 := by
  intro j c cd hc hcd
  rw [hl] at hc
  by_cases hj : id = j
  · subst hj
    cases hs : s.pCtrlInfoList[id]? with
    | none =>
      have hlen : s.pCtrlInfoList.length ≤ id := by
        by_contra hcon
        rw [List.getElem?_eq_getElem (by omega)] at hs
        exact absurd hs (by simp)
      rw [List.set_eq_of_length_le hlen] at hc
      rw [hs] at hc
      exact absurd hc (by simp)
    | some c0 =>
      rw [getElem?_set_same _ _ _ _ hs] at hc
      cases Option.some.inj hc
      exact h1 cd hcd
  · rw [getElem?_set_other _ _ _ _ hj] at hc
    exact h j c cd hc hcd

/-- A table that differs from a well-formed one in the entry of an address, found by the
search or taken when the search finds none, is well formed. -/
theorem ArpWf_change_addr (k : Nat) (arr arr1 : List arp_entry_t) (X : ip_addr)
    (r0 : Option Nat) (idx : Nat) (e1 : arp_entry_t) (h : ArpWf k arr)
    (hget : NetworkGetArpEntry.loop arr X 0 k = some r0)
    (hsame : ∀ i0, r0 = some i0 → idx = i0)
    (hidx : arr1[idx]? = some e1) (hm : arpMatches X e1 = true)
    (hoth : ∀ j, j ≠ idx → arr1[j]? = arr[j]?) : ArpWf k arr1 := by
  simp only [arpMatches, Bool.and_eq_true, decide_eq_true_eq] at hm
  refine ArpWf_change k arr arr1 idx e1 h hidx hoth (fun _ => hm.1)
    (fun _ j ej hj hne hej hij hip => ?_)
  cases r0 with
  | none =>
    obtain ⟨e, he, hme⟩ := NetworkGetArpEntry_loop_none arr X k 0 hget j (Nat.zero_le _) (by omega)
    rw [hej] at he
    cases Option.some.inj he
    simp [arpMatches, hij, hip, hm.2] at hme
  | some i0 =>
    have := hsame i0 rfl
    subst this
    obtain ⟨-, hlt, ⟨e, he, hme⟩, -⟩ := NetworkGetArpEntry_loop_some arr X k 0 idx hget
    simp only [arpMatches, Bool.and_eq_true, decide_eq_true_eq] at hme
    exact hne (h.2 j idx ej e hj (by omega) hej he hij hme.1 (by rw [hip, hm.2, hme.2]))

/-- Either the table has a free entry among the first `k`, or they are all initialised. -/
theorem arp_free_or_full (k : Nat) (arr : List arp_entry_t) (hlen : k ≤ arr.length) :
    (∃ j e, j < k ∧ arr[j]? = some e ∧ e.Status.IsInitialised = false) ∨
    (∀ j, j < k → ∃ e, arr[j]? = some e ∧ e.Status.IsInitialised = true) := by
  by_cases hfree : ∃ j e, j < k ∧ arr[j]? = some e ∧ e.Status.IsInitialised = false
  · exact Or.inl hfree
  · right
    intro j hj
    refine ⟨arr[j], List.getElem?_eq_getElem (by omega), ?_⟩
    by_contra hc
    exact hfree ⟨j, arr[j], hj, List.getElem?_eq_getElem (by omega), by simpa using hc⟩

/-- `NetworkRequestArp` returns and keeps the table of the controller well formed. -/
theorem NetworkRequestArp_table (s : network_module_info_t) (ctrlId : Nat)
    (ctrl : network_ctrl_info_t) (cd : network_ctrl_desc_t) (X : ip_addr)
    (hctrl : s.pCtrlInfoList[ctrlId]? = some ctrl) (hcd : ctrl.pDesc = some cd)
    (hlen : cd.ArpEntryNb ≤ ctrl.pArpArray.length)
    (hwf : ArpWf cd.ArpEntryNb ctrl.pArpArray) :
    ∃ ans s1 arr1, NetworkRequestArp s ctrlId X = some (ans, s1) ∧
      s1.pPortInfoList = s.pPortInfoList ∧ s1.pInitDesc = s.pInitDesc ∧
      s1.pCtrlInfoList = s.pCtrlInfoList.set ctrlId { ctrl with pArpArray := arr1 } ∧
      arr1.length = ctrl.pArpArray.length ∧ ArpWf cd.ArpEntryNb arr1 := by
  obtain ⟨r, hr, -⟩ := NetworkGetArpEntry_loop_total ctrl.pArpArray X cd.ArpEntryNb 0 (by omega)
  have hcase : (∃ idx, r = some idx) ∨ r = none := by
    cases r with
    | none => exact Or.inr rfl
    | some idx => exact Or.inl ⟨idx, rfl⟩
  have hroom_case : ((∃ idx, NetworkGetArpEntry.loop ctrl.pArpArray X 0 cd.ArpEntryNb
        = some (some idx)) ∨
      (∃ j e, j < cd.ArpEntryNb ∧ ctrl.pArpArray[j]? = some e ∧ e.Status.IsInitialised = false)) ∨
      (r = none ∧ ∀ j, j < cd.ArpEntryNb →
        ∃ e, ctrl.pArpArray[j]? = some e ∧ e.Status.IsInitialised = true) := by
    rcases hcase with ⟨idx, rfl⟩ | rfl
    · exact Or.inl (Or.inl ⟨idx, hr⟩)
    · rcases arp_free_or_full cd.ArpEntryNb ctrl.pArpArray hlen with hf | hf
      · exact Or.inl (Or.inr hf)
      · exact Or.inr ⟨rfl, hf⟩
  rcases hroom_case with hroom | ⟨rfl, hfull⟩
  · obtain ⟨arr1, idx, e1, hreq, hlen1, hget1, he1, -, hm1, hoth, hprev⟩ :=
      NetworkRequestArp_spec s ctrlId ctrl cd X hctrl hcd hlen hroom
    refine ⟨_, _, arr1, hreq, rfl, rfl, rfl, hlen1, ?_⟩
    refine ArpWf_change_addr cd.ArpEntryNb ctrl.pArpArray arr1 X r idx e1 hwf hr ?_ he1 hm1 hoth
    intro i0 hi0
    subst hi0
    obtain ⟨-, -, ⟨e0, he0, -⟩, -⟩ := NetworkGetArpEntry_loop_some _ _ _ 0 i0 hr
    exact (hprev i0 e0 hr he0).1
  · have hcreate := NetworkCreateArpEntry_full s ctrlId ctrl cd hctrl hcd hfull
    obtain ⟨e1, e2, e3, -, -, -⟩ := notifyError_fields s
    refine ⟨false, notifyError s, ctrl.pArpArray, ?_, e2, e3, ?_, rfl, hwf⟩
    · simp only [NetworkRequestArp, NetworkGetArpEntry_eq s ctrlId ctrl cd hctrl hcd, hr, hcreate]
    · rw [e1]
      exact (set_self_of_getElem? _ _ _ hctrl).symm

/-- `NetworkStoreArp` returns and keeps the table of the controller well formed. -/
theorem NetworkStoreArp_table (s : network_module_info_t) (ctrlId : Nat)
    (ctrl : network_ctrl_info_t) (cd : network_ctrl_desc_t) (X : ip_addr) (M : mac_addr)
    (hasDecay : Bool)
    (hctrl : s.pCtrlInfoList[ctrlId]? = some ctrl) (hcd : ctrl.pDesc = some cd)
    (hlen : cd.ArpEntryNb ≤ ctrl.pArpArray.length)
    (hwf : ArpWf cd.ArpEntryNb ctrl.pArpArray) :
    ∃ ans s1 arr1, NetworkStoreArp s ctrlId X M hasDecay = some (ans, s1) ∧
      s1.pPortInfoList = s.pPortInfoList ∧ s1.pInitDesc = s.pInitDesc ∧ s1.Sent = s.Sent ∧
      s1.pCtrlInfoList = s.pCtrlInfoList.set ctrlId { ctrl with pArpArray := arr1 } ∧
      arr1.length = ctrl.pArpArray.length ∧ ArpWf cd.ArpEntryNb arr1 := by
  have hself : s.pCtrlInfoList = s.pCtrlInfoList.set ctrlId { ctrl with pArpArray := ctrl.pArpArray } :=
    (set_self_of_getElem? _ _ _ hctrl).symm
  obtain ⟨r, hr, hri⟩ := NetworkGetArpEntry_loop_total ctrl.pArpArray X cd.ArpEntryNb 0 (by omega)
  cases r with
  | none =>
    rcases arp_free_or_full cd.ArpEntryNb ctrl.pArpArray hlen with hfree | hfull
    · obtain ⟨f, e0, hf, he0, -, hstore, -⟩ := NetworkStoreArp_new s ctrlId ctrl cd X M hasDecay
        hctrl hcd hlen hr hfree
      refine ⟨_, _, _, hstore, rfl, rfl, rfl, rfl, by simp, ?_⟩
      exact ArpWf_set_fill _ _ X f _ hwf hr (by simp [arpMatches])
    · have hcreate := NetworkCreateArpEntry_full s ctrlId ctrl cd hctrl hcd hfull
      obtain ⟨e1, e2, e3, -, e5, -⟩ := notifyError_fields s
      refine ⟨false, notifyError s, ctrl.pArpArray, ?_, e2, e3, e5, ?_, rfl, hwf⟩
      · simp only [NetworkStoreArp, NetworkGetArpEntry_eq s ctrlId ctrl cd hctrl hcd, hr, hcreate]
      · rw [e1]; exact hself
  | some idx =>
    obtain ⟨-, -, ⟨e, he, hme⟩, -⟩ := NetworkGetArpEntry_loop_some _ _ _ 0 idx hr
    cases hv : e.Status.IsValid with
    | false =>
      have hstore := NetworkStoreArp_complete s ctrlId ctrl cd X M hasDecay idx e hctrl hcd hr he hv
      refine ⟨_, _, _, hstore, rfl, rfl, rfl, rfl, by simp, ?_⟩
      exact ArpWf_set_found _ _ X idx _ hwf hr (by simpa [arpMatches] using hme)
    | true =>
      refine ⟨true, s, ctrl.pArpArray, ?_, rfl, rfl, rfl, hself, rfl, hwf⟩
      simp only [NetworkStoreArp, NetworkGetArpEntry_eq s ctrlId ctrl cd hctrl hcd, hr, hctrl, he,
        hv, Bool.not_true, Bool.false_eq_true, if_false]

/-- `NetworkUpdateArpTable` returns and keeps the table of the controller well formed. -/
theorem NetworkUpdateArpTable_table (s : network_module_info_t) (ctrlId : Nat)
    (ctrl : network_ctrl_info_t) (cd : network_ctrl_desc_t) (X : ip_addr) (M : mac_addr)
    (hasDecay : Bool)
    (hctrl : s.pCtrlInfoList[ctrlId]? = some ctrl) (hcd : ctrl.pDesc = some cd)
    (hlen : cd.ArpEntryNb ≤ ctrl.pArpArray.length)
    (hwf : ArpWf cd.ArpEntryNb ctrl.pArpArray) :
    ∃ ans s1 arr1, NetworkUpdateArpTable s ctrlId X M hasDecay = some (ans, s1) ∧
      s1.pPortInfoList = s.pPortInfoList ∧ s1.pInitDesc = s.pInitDesc ∧ s1.Sent = s.Sent ∧
      s1.pCtrlInfoList = s.pCtrlInfoList.set ctrlId { ctrl with pArpArray := arr1 } ∧
      arr1.length = ctrl.pArpArray.length ∧ ArpWf cd.ArpEntryNb arr1 := by
  obtain ⟨r, hr, hri⟩ := NetworkGetArpEntry_loop_total ctrl.pArpArray X cd.ArpEntryNb 0 (by omega)
  have hstore := NetworkStoreArp_table s ctrlId ctrl cd X M hasDecay hctrl hcd hlen hwf
  cases r with
  | none =>
    have : NetworkUpdateArpTable s ctrlId X M hasDecay = NetworkStoreArp s ctrlId X M hasDecay := by
      simp only [NetworkUpdateArpTable, NetworkGetArpEntry_eq s ctrlId ctrl cd hctrl hcd, hr]
    rw [this]; exact hstore
  | some idx =>
    obtain ⟨-, -, ⟨e, he, hme⟩, -⟩ := NetworkGetArpEntry_loop_some _ _ _ 0 idx hr
    cases hv : e.Status.IsValid with
    | false =>
      have : NetworkUpdateArpTable s ctrlId X M hasDecay = NetworkStoreArp s ctrlId X M hasDecay := by
        simp only [NetworkUpdateArpTable, NetworkGetArpEntry_eq s ctrlId ctrl cd hctrl hcd, hr,
          hctrl, he, hv, Bool.not_false, if_true]
      rw [this]; exact hstore
    | true =>
      have hupd := NetworkUpdateArpTable_refresh s ctrlId ctrl cd X M hasDecay idx e hctrl hcd hr
        he hv
      refine ⟨_, _, _, hupd, rfl, rfl, rfl, rfl, by simp, ?_⟩
      exact ArpWf_set_found _ _ X idx _ hwf hr (by simpa [arpMatches] using hme)

/-! ## ARP table well-formedness: the module operations -/

theorem NetworkGetArpEntry_none_of_ctrl (s : network_module_info_t) (ctrlId : Nat) (X : ip_addr)
    (h : s.pCtrlInfoList[ctrlId]? = none ∨
      ∃ c, s.pCtrlInfoList[ctrlId]? = some c ∧ c.pDesc = none) :
    NetworkGetArpEntry s ctrlId X = none := by
  rcases h with h | ⟨c, hc, hd⟩
  · simp [NetworkGetArpEntry, h]
  · simp [NetworkGetArpEntry, hc, hd]

/-- Either the controller entry exists with a descriptor, or the ARP search is not
defined. -/
theorem ctrl_desc_cases (s : network_module_info_t) (ctrlId : Nat) (X : ip_addr) :
    (∃ c cd, s.pCtrlInfoList[ctrlId]? = some c ∧ c.pDesc = some cd) ∨
    NetworkGetArpEntry s ctrlId X = none := by
  cases hc : s.pCtrlInfoList[ctrlId]? with
  | none => exact Or.inr (NetworkGetArpEntry_none_of_ctrl s ctrlId X (Or.inl hc))
  | some c =>
    cases hd : c.pDesc with
    | none => exact Or.inr (NetworkGetArpEntry_none_of_ctrl s ctrlId X (Or.inr ⟨c, hc, hd⟩))
    | some cd => exact Or.inl ⟨c, cd, rfl, hd⟩

theorem NetworkRequestArp_wf (s : network_module_info_t) (ctrlId : Nat) (X : ip_addr)
    (r : Bool × network_module_info_t) (h : ArpTablesWf s)
    (hr : NetworkRequestArp s ctrlId X = some r) :
    ArpTablesWf r.2 ∧ r.2.pInitDesc = s.pInitDesc ∧ r.2.pPortInfoList = s.pPortInfoList := by
  rcases ctrl_desc_cases s ctrlId X with ⟨c, cd, hc, hcd⟩ | hnone
  · obtain ⟨hlen, hwf⟩ := h ctrlId c cd hc hcd
    obtain ⟨ans, s1, arr1, hreq, hp, hi, hl, hlen1, hwf1⟩ :=
      NetworkRequestArp_table s ctrlId c cd X hc hcd (by omega) hwf
    rw [hreq] at hr
    cases Option.some.inj hr
    refine ⟨ArpTablesWf_set s s1 ctrlId _ h hl (fun cd1 hcd1 => ?_), hi, hp⟩
    have : cd1 = cd := by
      have h2 : c.pDesc = some cd1 := hcd1
      rw [hcd] at h2; exact (Option.some.inj h2).symm
    subst this
    exact ⟨by simpa [hlen1] using hlen, hwf1⟩
  · simp [NetworkRequestArp, hnone] at hr

theorem NetworkStoreArp_wf (s : network_module_info_t) (ctrlId : Nat) (X : ip_addr)
    (M : mac_addr) (hasDecay : Bool)
    (r : Bool × network_module_info_t) (h : ArpTablesWf s)
    (hr : NetworkStoreArp s ctrlId X M hasDecay = some r) :
    ArpTablesWf r.2 ∧ r.2.pInitDesc = s.pInitDesc ∧ r.2.pPortInfoList = s.pPortInfoList := by
  rcases ctrl_desc_cases s ctrlId X with ⟨c, cd, hc, hcd⟩ | hnone
  · obtain ⟨hlen, hwf⟩ := h ctrlId c cd hc hcd
    obtain ⟨ans, s1, arr1, hreq, hp, hi, -, hl, hlen1, hwf1⟩ :=
      NetworkStoreArp_table s ctrlId c cd X M hasDecay hc hcd (by omega) hwf
    rw [hreq] at hr
    cases Option.some.inj hr
    refine ⟨ArpTablesWf_set s s1 ctrlId _ h hl (fun cd1 hcd1 => ?_), hi, hp⟩
    have : cd1 = cd := by
      have h2 : c.pDesc = some cd1 := hcd1
      rw [hcd] at h2; exact (Option.some.inj h2).symm
    subst this
    exact ⟨by simpa [hlen1] using hlen, hwf1⟩
  · simp [NetworkStoreArp, hnone] at hr

theorem NetworkUpdateArpTable_wf (s : network_module_info_t) (ctrlId : Nat) (X : ip_addr)
    (M : mac_addr) (hasDecay : Bool)
    (r : Bool × network_module_info_t) (h : ArpTablesWf s)
    (hr : NetworkUpdateArpTable s ctrlId X M hasDecay = some r) :
    ArpTablesWf r.2 ∧ r.2.pInitDesc = s.pInitDesc ∧ r.2.pPortInfoList = s.pPortInfoList := by
  rcases ctrl_desc_cases s ctrlId X with ⟨c, cd, hc, hcd⟩ | hnone
  · obtain ⟨hlen, hwf⟩ := h ctrlId c cd hc hcd
    obtain ⟨ans, s1, arr1, hreq, hp, hi, -, hl, hlen1, hwf1⟩ :=
      NetworkUpdateArpTable_table s ctrlId c cd X M hasDecay hc hcd (by omega) hwf
    rw [hreq] at hr
    cases Option.some.inj hr
    refine ⟨ArpTablesWf_set s s1 ctrlId _ h hl (fun cd1 hcd1 => ?_), hi, hp⟩
    have : cd1 = cd := by
      have h2 : c.pDesc = some cd1 := hcd1
      rw [hcd] at h2; exact (Option.some.inj h2).symm
    subst this
    exact ⟨by simpa [hlen1] using hlen, hwf1⟩
  · simp [NetworkUpdateArpTable, hnone] at hr

theorem notifyError_wf (s : network_module_info_t) (h : ArpTablesWf s) :
    ArpTablesWf (notifyError s) :=
  ArpTablesWf_congr s _ h (notifyError_fields s).1

theorem NetworkCtrlAdd_wf (s : network_module_info_t) (ctrlId : Nat)
    (pCtrlDesc : Option network_ctrl_desc_t) (r : Bool × network_module_info_t)
    (h : ArpTablesWf s) (hr : NetworkCtrlAdd s ctrlId pCtrlDesc = some r) : ArpTablesWf r.2 := by
  unfold NetworkCtrlAdd at hr
  split at hr
  · split at hr
    · split at hr
      · exact absurd hr (by simp)
      · cases Option.some.inj hr
        refine ArpTablesWf_set s _ ctrlId _ h rfl (fun cd1 hcd1 => ?_)
        cases Option.some.inj hcd1
        exact ⟨by simp, ArpWf_replicate _ _⟩
    · cases Option.some.inj hr; exact h
  · cases Option.some.inj hr; exact h

theorem NetworkPortAdd_wf (s : network_module_info_t) (portId : Nat)
    (pPortDesc : Option network_port_desc_t) (r : Bool × network_module_info_t)
    (h : ArpTablesWf s) (hr : NetworkPortAdd s portId pPortDesc = some r) : ArpTablesWf r.2 := by
  unfold NetworkPortAdd at hr
  split at hr
  · split at hr
    · split at hr
      · split at hr
        · cases Option.some.inj hr; exact ArpTablesWf_congr s _ h rfl
        · cases Option.some.inj hr; exact h
      · exact absurd hr (by simp)
    · cases Option.some.inj hr; exact h
  · cases Option.some.inj hr; exact h

theorem withClock_wf (s : network_module_info_t) (now : Nat) (isPassed : Nat → Bool)
    (h : ArpTablesWf s) : ArpTablesWf (withClock s now isPassed) :=
  ArpTablesWf_congr s _ h rfl

theorem withDriver_wf (s : network_module_info_t) (ctrlId : Nat) (itf : network_com_itfc_t)
    (h : ArpTablesWf s) : ArpTablesWf (withDriver s ctrlId itf) := by
  unfold withDriver
  split
  · exact h
  · rename_i c hc
    split
    · exact h
    · rename_i cd hcd
      refine ArpTablesWf_set s _ ctrlId _ h rfl (fun cd1 hcd1 => ?_)
      cases Option.some.inj hcd1
      exact h ctrlId c cd hc hcd

theorem NetworkCtrlAddArpEntry_wf (s : network_module_info_t) (ctrlId : Nat)
    (pIpAddr : Option ip_addr) (pMacAddr : Option mac_addr) (hasDecay : Bool)
    (r : Bool × network_module_info_t) (h : ArpTablesWf s)
    (hr : NetworkCtrlAddArpEntry s ctrlId pIpAddr pMacAddr hasDecay = some r) :
    ArpTablesWf r.2 := by
  unfold NetworkCtrlAddArpEntry at hr
  split at hr
  · split at hr
    · split at hr
      · exact (NetworkUpdateArpTable_wf s ctrlId _ _ hasDecay r h hr).1
      · cases Option.some.inj hr; exact h
    · cases Option.some.inj hr; exact h
  · cases Option.some.inj hr; exact h

theorem NetworkCtrlForceRequestARP_wf (s : network_module_info_t) (ctrlId : Nat)
    (pIpAddr : Option ip_addr) (r : Bool × network_module_info_t) (h : ArpTablesWf s)
    (hr : NetworkCtrlForceRequestARP s ctrlId pIpAddr = some r) : ArpTablesWf r.2 := by
  unfold NetworkCtrlForceRequestARP at hr
  split at hr
  · split at hr
    · split at hr
      · exact (NetworkRequestArp_wf s ctrlId _ r h hr).1
      · cases Option.some.inj hr; exact h
    · cases Option.some.inj hr; exact h
  · cases Option.some.inj hr; exact h

theorem decay_length (k : Nat) (arr arr1 : List arp_entry_t) (isPassed : Nat → Bool)
    (hd : ∀ j, arr1[j]? =
      if 0 ≤ j ∧ j < 0 + k then (arr[j]?).map (decayUpdate isPassed) else arr[j]?) :
    arr1.length = arr.length := by
  have h1 : ∀ j : Nat, arr1[j]? = none ↔ arr[j]? = none := by
    intro j
    rw [hd j]
    split <;> simp
  have ha := h1 arr.length
  have hb := h1 arr1.length
  simp only [List.getElem?_eq_none_iff, le_refl, iff_true, true_iff] at ha hb
  omega

theorem NetworkCtrlArpDecayProcess_wf (s s1 : network_module_info_t) (ctrlId : Nat)
    (h : ArpTablesWf s) (hr : NetworkCtrlArpDecayProcess s ctrlId = some s1) :
    ArpTablesWf s1 := by
  unfold NetworkCtrlArpDecayProcess at hr
  split at hr
  · split at hr
    · exact absurd hr (by simp)
    · rename_i c hc
      split at hr
      · simp only at hr
        split at hr
        · exact absurd hr (by simp)
        · rename_i cd hcd
          obtain ⟨hlen, hwf⟩ := h ctrlId c cd hc hcd
          obtain ⟨arr1, hloop, hspec⟩ := NetworkCtrlArpDecayProcess_loop_spec
            s.pInitDesc.GenInterface.pFnTimerIsPassed cd.ArpEntryNb c.pArpArray 0 (by omega)
          rw [hloop] at hr
          cases Option.some.inj hr
          refine ArpTablesWf_set s _ ctrlId _ h rfl (fun cd1 hcd1 => ?_)
          have : cd1 = cd := by
            have h2 : c.pDesc = some cd1 := hcd1
            rw [hcd] at h2; exact (Option.some.inj h2).symm
          subst this
          refine ⟨?_, ArpWf_decay _ _ _ _ hwf hspec⟩
          have := decay_length _ _ _ _ hspec
          show arr1.length = cd1.ArpEntryNb
          omega
      · cases Option.some.inj hr; exact h
  · cases Option.some.inj hr; exact h

/-! ## ARP table well-formedness: reception and transmission -/

theorem NetworkProcessArpPacket_wf (s : network_module_info_t) (ctrlId : Nat)
    (pBuffer : Nat → Nat) (buffSize : Nat) (r : Bool × network_module_info_t × (Nat → Nat))
    (h : ArpTablesWf s) (hr : NetworkProcessArpPacket s ctrlId pBuffer buffSize = some r) :
    ArpTablesWf r.2.1 ∧ r.2.1.pInitDesc = s.pInitDesc := by
  unfold NetworkProcessArpPacket at hr
  split at hr
  · exact absurd hr (by simp)
  · simp only at hr
    split at hr
    · split at hr
      · split at hr
        · split at hr
          · exact absurd hr (by simp)
          · cases Option.some.inj hr
            exact ⟨ArpTablesWf_congr s _ h rfl, rfl⟩
        · cases Option.some.inj hr; exact ⟨h, rfl⟩
      · split at hr
        · split at hr
          · exact absurd hr (by simp)
          · rename_i u hu
            cases Option.some.inj hr
            obtain ⟨h1, h2, -⟩ := NetworkStoreArp_wf s ctrlId _ _ false u h hu
            exact ⟨h1, h2⟩
        · cases Option.some.inj hr; exact ⟨h, rfl⟩
    · cases Option.some.inj hr; exact ⟨h, rfl⟩

theorem NetworkProcessIcmpPacket_wf (s : network_module_info_t) (ctrlId : Nat)
    (pBuffer : Nat → Nat) (buffSize : Nat) (r : Bool × network_module_info_t × (Nat → Nat))
    (h : ArpTablesWf s) (hr : NetworkProcessIcmpPacket s ctrlId pBuffer buffSize = some r) :
    ArpTablesWf r.2.1 ∧ r.2.1.pInitDesc = s.pInitDesc := by
  unfold NetworkProcessIcmpPacket at hr
  simp only at hr
  split at hr
  · unfold NetworkProcessIcmpEchoRequest at hr
    split at hr
    · exact absurd hr (by simp)
    · simp only at hr
      split at hr
      · exact absurd hr (by simp)
      · cases Option.some.inj hr
        exact ⟨ArpTablesWf_congr s _ h rfl, rfl⟩
  · split at hr
    · split at hr
      · exact absurd hr (by simp)
      · rename_i q hq
        cases Option.some.inj hr
        unfold NetworkProcessIcmpEchoReply at hq
        split at hq
        · exact absurd hq (by simp)
        · rename_i c hc
          split at hq
          · cases Option.some.inj hq
            refine ⟨ArpTablesWf_set s _ ctrlId _ h rfl (fun cd1 hcd1 => ?_), rfl⟩
            exact h ctrlId c cd1 hc hcd1
          · cases Option.some.inj hq; exact ⟨h, rfl⟩
    · cases Option.some.inj hr; exact ⟨h, rfl⟩

theorem NetworkStoreIncMsg_loop_frame (pBuffer : Nat → Nat) (buffSize destPort protocol : Nat)
    (pIpSrc : ip_addr) (k : Nat) :
    ∀ (i : Nat) (s : network_module_info_t) (st : Bool) (r : Bool × network_module_info_t),
      NetworkStoreIncMsg.loop pBuffer buffSize destPort protocol pIpSrc i k s st = some r →
      r.2.pCtrlInfoList = s.pCtrlInfoList ∧ r.2.pInitDesc = s.pInitDesc := by
  induction k with
  | zero =>
    intro i s st r hr
    simp only [NetworkStoreIncMsg.loop] at hr
    cases Option.some.inj hr
    exact ⟨rfl, rfl⟩
  | succ k ih =>
    intro i s st r hr
    simp only [NetworkStoreIncMsg.loop] at hr
    split at hr
    · exact absurd hr (by simp)
    · rename_i b hb
      obtain ⟨h1, h2⟩ := ih (i + 1) b.2 b.1 r hr
      have hbody : b.2.pCtrlInfoList = s.pCtrlInfoList ∧ b.2.pInitDesc = s.pInitDesc := by
        unfold NetworkStoreIncMsg.body at hb
        split at hb
        · exact absurd hb (by simp)
        · split at hb
          · split at hb
            · exact absurd hb (by simp)
            · split at hb
              · cases Option.some.inj hb; exact ⟨rfl, rfl⟩
              · cases Option.some.inj hb; exact ⟨rfl, rfl⟩
          · cases Option.some.inj hb; exact ⟨rfl, rfl⟩
      exact ⟨h1.trans hbody.1, h2.trans hbody.2⟩

theorem NetworkProcessIpPacket_wf (s : network_module_info_t) (ctrlId : Nat)
    (pBuffer : Nat → Nat) (buffSize : Nat) (r : Bool × network_module_info_t × (Nat → Nat))
    (h : ArpTablesWf s) (hr : NetworkProcessIpPacket s ctrlId pBuffer buffSize = some r) :
    ArpTablesWf r.2.1 ∧ r.2.1.pInitDesc = s.pInitDesc := by
  unfold NetworkProcessIpPacket at hr
  split at hr
  · exact absurd hr (by simp)
  · cases Option.some.inj hr; exact ⟨h, rfl⟩
  · split at hr
    · exact absurd hr (by simp)
    · rename_i u hu
      obtain ⟨hu1, hu2, -⟩ := NetworkUpdateArpTable_wf s ctrlId _ _ false u h hu
      simp only at hr
      split at hr
      · obtain ⟨h1, h2⟩ := NetworkProcessIcmpPacket_wf u.2 ctrlId pBuffer buffSize r hu1 hr
        exact ⟨h1, h2.trans hu2⟩
      · split at hr
        · split at hr
          · exact absurd hr (by simp)
          · rename_i q hq
            cases Option.some.inj hr
            obtain ⟨h1, h2⟩ := NetworkStoreIncMsg_loop_frame _ _ _ _ _ _ _ _ _ _ hq
            exact ⟨ArpTablesWf_congr u.2 _ hu1 h1, h2.trans hu2⟩
        · cases Option.some.inj hr; exact ⟨hu1, hu2⟩

theorem NetworkProcessEthPacket_wf (s : network_module_info_t) (ctrlId : Nat)
    (pBuffer : Nat → Nat) (buffSize : Nat) (r : Bool × network_module_info_t × (Nat → Nat))
    (h : ArpTablesWf s) (hr : NetworkProcessEthPacket s ctrlId pBuffer buffSize = some r) :
    ArpTablesWf r.2.1 ∧ r.2.1.pInitDesc = s.pInitDesc := by
  unfold NetworkProcessEthPacket at hr
  simp only at hr
  split at hr
  · exact NetworkProcessArpPacket_wf s ctrlId pBuffer buffSize r h hr
  · split at hr
    · exact NetworkProcessIpPacket_wf s ctrlId pBuffer buffSize r h hr
    · cases Option.some.inj hr; exact ⟨h, rfl⟩

theorem NetworkCtrlRxProcess_wf (s s1 : network_module_info_t) (ctrlId : Nat)
    (h : ArpTablesWf s) (hr : NetworkCtrlRxProcess s ctrlId = some s1) : ArpTablesWf s1 := by
  unfold NetworkCtrlRxProcess at hr
  split at hr
  · split at hr
    · exact absurd hr (by simp)
    · split at hr
      · exact absurd hr (by simp)
      · split at hr
        · simp only at hr
          split at hr
          · exact absurd hr (by simp)
          · rename_i q hq
            have hq1 := (NetworkProcessEthPacket_wf _ ctrlId _ _ q
              (by exact ArpTablesWf_congr s _ h rfl) hq).1
            split at hr
            · cases Option.some.inj hr
              exact notifyError_wf _ (ArpTablesWf_congr _ _ hq1 rfl)
            · cases Option.some.inj hr
              exact ArpTablesWf_congr _ _ hq1 rfl
        · cases Option.some.inj hr; exact h
  · cases Option.some.inj hr; exact h

theorem NetworkSendEthPacket_frame (s : network_module_info_t) (ctrlId : Nat)
    (pBuffer : Nat → Nat) (msgInfo : network_msg_info_t)
    (r : Bool × network_module_info_t × (Nat → Nat))
    (hr : NetworkSendEthPacket s ctrlId pBuffer msgInfo = some r) :
    r.2.1.pCtrlInfoList = s.pCtrlInfoList ∧ r.2.1.pInitDesc = s.pInitDesc ∧
    r.2.1.pPortInfoList = s.pPortInfoList := by
  unfold NetworkSendEthPacket at hr
  split at hr
  · simp only at hr
    split at hr
    · split at hr
      · cases Option.some.inj hr; exact ⟨rfl, rfl, rfl⟩
      · exact absurd hr (by simp)
    · cases Option.some.inj hr; exact ⟨rfl, rfl, rfl⟩
  · exact absurd hr (by simp)

theorem NetworkSendIpPacket_frame (s : network_module_info_t) (ctrlId protocol : Nat)
    (pBuffer : Nat → Nat) (msgInfo : network_msg_info_t)
    (r : Bool × network_module_info_t × (Nat → Nat))
    (hr : NetworkSendIpPacket s ctrlId protocol pBuffer msgInfo = some r) :
    r.2.1.pCtrlInfoList = s.pCtrlInfoList ∧ r.2.1.pInitDesc = s.pInitDesc ∧
    r.2.1.pPortInfoList = s.pPortInfoList := by
  unfold NetworkSendIpPacket at hr
  split at hr
  · exact absurd hr (by simp)
  · exact NetworkSendEthPacket_frame s ctrlId _ _ r hr

theorem NetworkSendUdpPacket_frame' (s : network_module_info_t) (ctrlId : Nat)
    (pBuffer : Nat → Nat) (msgInfo : network_msg_info_t)
    (r : Bool × network_module_info_t × (Nat → Nat))
    (hr : NetworkSendUdpPacket s ctrlId pBuffer msgInfo = some r) :
    r.2.1.pCtrlInfoList = s.pCtrlInfoList ∧ r.2.1.pInitDesc = s.pInitDesc ∧
    r.2.1.pPortInfoList = s.pPortInfoList := by
  unfold NetworkSendUdpPacket at hr
  exact NetworkSendIpPacket_frame s ctrlId _ _ _ r hr

/-- The four outcomes of one transmit attempt: nothing changes, only the port changes,
a UDP packet is handed to `NetworkSendUdpPacket` (and the message consumed when the driver
accepts it), or the port is updated and `NetworkRequestArp` is called. -/
theorem NetworkProcessSendMsg_shape (s : network_module_info_t) (portId : Nat)
    (pBuffer : Nat → Nat) (r : Bool × network_module_info_t × (Nat → Nat))
    (hr : NetworkProcessSendMsg s portId pBuffer = some r) :
    ∃ port, s.pPortInfoList[portId]? = some port ∧
      (r.2.1 = s ∨
       (∃ p1, r.2.1 = setPort s portId p1) ∨
       (∃ pd buf mi q, port.pDesc = some pd ∧
          NetworkSendUdpPacket s pd.NetworkCtrlId buf mi = some q ∧
          (r.2.1 = q.2.1 ∨ ∃ p1, r.2.1 = setPort q.2.1 portId p1)) ∨
       (∃ pd p1 D q, port.pDesc = some pd ∧
          NetworkRequestArp (setPort s portId p1) pd.NetworkCtrlId D = some q ∧ r.2.1 = q.2)) := by
  unfold NetworkProcessSendMsg at hr
  split at hr
  · exact absurd hr (by simp)
  · rename_i port hport
    refine ⟨port, hport, ?_⟩
    split at hr
    · cases Option.some.inj hr; exact Or.inl rfl
    · rename_i n0 D hinfo
      simp only at hr
      generalize (if n0 < ETHERNET_MAX_DATA_SIZE then n0 else ETHERNET_MAX_DATA_SIZE) = n at hr
      split at hr
      · exact absurd hr (by simp)
      · rename_i pd hpd
        split at hr
        · exact absurd hr (by simp)
        · rename_i c hc
          split at hr
          · split at hr
            · exact absurd hr (by simp)
            · rename_i found hfound
              split at hr
              · split at hr
                · rename_i d h1 h2
                  split at hr
                  · exact absurd hr (by simp)
                  · rename_i s1 b hs
                    cases Option.some.inj hr
                    exact Or.inr (Or.inr (Or.inl ⟨pd, _, _, _, hpd, hs, Or.inr ⟨_, rfl⟩⟩))
                  · rename_i s1 b hs
                    cases Option.some.inj hr
                    exact Or.inr (Or.inr (Or.inl ⟨pd, _, _, _, hpd, hs, Or.inl rfl⟩))
                · cases Option.some.inj hr; exact Or.inl rfl
              · split at hr
                · split at hr
                  · exact absurd hr (by simp)
                  · rename_i q hq
                    cases Option.some.inj hr
                    exact Or.inr (Or.inr (Or.inr ⟨pd, _, _, q, hpd, hq, rfl⟩))
                · cases Option.some.inj hr; exact Or.inl rfl
          · cases Option.some.inj hr
            exact Or.inr (Or.inl ⟨_, rfl⟩)
theorem NetworkProcessSendMsg_wf (s : network_module_info_t) (portId : Nat)
    (pBuffer : Nat → Nat) (r : Bool × network_module_info_t × (Nat → Nat))
    (h : ArpTablesWf s) (hr : NetworkProcessSendMsg s portId pBuffer = some r) :
    ArpTablesWf r.2.1 ∧ r.2.1.pInitDesc = s.pInitDesc := by
  obtain ⟨port, -, hcase⟩ := NetworkProcessSendMsg_shape s portId pBuffer r hr
  rcases hcase with h1 | ⟨p1, h1⟩ | ⟨pd, buf, mi, q, -, hq, h1 | ⟨p1, h1⟩⟩ | ⟨pd, p1, D, q, -, hq, h1⟩
  · rw [h1]; exact ⟨h, rfl⟩
  · rw [h1]; exact ⟨ArpTablesWf_congr s _ h rfl, rfl⟩
  · obtain ⟨e1, e2, -⟩ := NetworkSendUdpPacket_frame' _ _ _ _ _ hq
    rw [h1]; exact ⟨ArpTablesWf_congr s _ h e1, e2⟩
  · obtain ⟨e1, e2, -⟩ := NetworkSendUdpPacket_frame' _ _ _ _ _ hq
    rw [h1]; exact ⟨ArpTablesWf_congr s _ h e1, e2⟩
  · obtain ⟨e1, e2, -⟩ := NetworkRequestArp_wf _ _ _ q
      (by exact ArpTablesWf_congr s _ h rfl) hq
    rw [h1]; exact ⟨e1, e2⟩

theorem NetworkCtrlTxProcess_body_wf (s s1 : network_module_info_t) (portIdx : Nat)
    (h : ArpTablesWf s) (hr : NetworkCtrlTxProcess.body s portIdx = some s1) :
    ArpTablesWf s1 ∧ s1.pInitDesc = s.pInitDesc := by
  unfold NetworkCtrlTxProcess.body at hr
  split at hr
  · cases Option.some.inj hr; exact ⟨h, rfl⟩
  · split at hr
    · split at hr
      · exact absurd hr (by simp)
      · rename_i q hq
        obtain ⟨h1, h2⟩ := NetworkProcessSendMsg_wf s portIdx _ q h hq
        simp only at hr
        split at hr
        · cases Option.some.inj hr
          exact ⟨notifyError_wf _ (ArpTablesWf_congr _ _ h1 rfl),
            (notifyError_fields _).2.2.1.trans h2⟩
        · cases Option.some.inj hr
          exact ⟨ArpTablesWf_congr _ _ h1 rfl, h2⟩
    · cases Option.some.inj hr; exact ⟨h, rfl⟩

theorem NetworkCtrlTxProcess_loop_wf (k : Nat) :
    ∀ (i : Nat) (s s1 : network_module_info_t), ArpTablesWf s →
      NetworkCtrlTxProcess.loop i k s = some s1 →
      ArpTablesWf s1 ∧ s1.pInitDesc = s.pInitDesc := by
  induction k with
  | zero =>
    intro i s s1 h hr
    simp only [NetworkCtrlTxProcess.loop] at hr
    cases Option.some.inj hr
    exact ⟨h, rfl⟩
  | succ k ih =>
    intro i s s1 h hr
    simp only [NetworkCtrlTxProcess.loop] at hr
    split at hr
    · exact absurd hr (by simp)
    · rename_i b hb
      obtain ⟨hb1, hb2⟩ := NetworkCtrlTxProcess_body_wf s b i h hb
      obtain ⟨h1, h2⟩ := ih (i + 1) b s1 hb1 hr
      exact ⟨h1, h2.trans hb2⟩

theorem NetworkCtrlTxProcess_wf (s s1 : network_module_info_t) (ctrlId : Nat)
    (h : ArpTablesWf s) (hr : NetworkCtrlTxProcess s ctrlId = some s1) : ArpTablesWf s1 := by
  unfold NetworkCtrlTxProcess at hr
  split at hr
  · exact (NetworkCtrlTxProcess_loop_wf _ 0 s s1 h hr).1
  · cases Option.some.inj hr; exact h

theorem NetworkStoreSendData_frame (s : network_module_info_t) (portId : Nat)
    (pBuffer : Nat → Nat) (buffSize : Nat) (pIpDest : Option ip_addr)
    (r : Bool × network_module_info_t)
    (hr : NetworkStoreSendData s portId pBuffer buffSize pIpDest = some r) :
    r.2.pCtrlInfoList = s.pCtrlInfoList := by
  unfold NetworkStoreSendData at hr
  split at hr
  · exact absurd hr (by simp)
  · split at hr
    · simp only at hr
      split at hr
      · cases Option.some.inj hr; rfl
      · cases Option.some.inj hr; rfl
    · cases Option.some.inj hr; rfl

theorem NetworkPortSendByte_wf (s : network_module_info_t) (portId data : Nat)
    (pIpDest : Option ip_addr) (r : Bool × network_module_info_t) (h : ArpTablesWf s)
    (hr : NetworkPortSendByte s portId data pIpDest = some r) : ArpTablesWf r.2 := by
  unfold NetworkPortSendByte at hr
  split at hr
  · exact ArpTablesWf_congr s _ h (NetworkStoreSendData_frame s portId _ _ _ r hr)
  · cases Option.some.inj hr; exact h

theorem NetworkPortSendBuff_wf (s : network_module_info_t) (portId : Nat)
    (pBuffer : Option (Nat → Nat)) (buffSize : Nat) (pIpDest : Option ip_addr)
    (r : Bool × network_module_info_t) (h : ArpTablesWf s)
    (hr : NetworkPortSendBuff s portId pBuffer buffSize pIpDest = some r) : ArpTablesWf r.2 := by
  unfold NetworkPortSendBuff at hr
  split at hr
  · split at hr
    · split at hr
      · exact ArpTablesWf_congr s _ h (NetworkStoreSendData_frame s portId _ _ _ r hr)
      · cases Option.some.inj hr; exact h
    · cases Option.some.inj hr; exact h
  · cases Option.some.inj hr; exact h

theorem NetworkPortReadByte_ctrl (s : network_module_info_t) (portId : Nat)
    (pBuffer : Option (Nat → Nat)) :
    (NetworkPortReadByte s portId pBuffer).s.pCtrlInfoList = s.pCtrlInfoList := by
  unfold NetworkPortReadByte
  repeat' first
    | rfl
    | split

theorem NetworkPortReadBuff_ctrl (s : network_module_info_t) (portId : Nat)
    (pBuffer : Option (Nat → Nat)) (pDataSize : Option Nat) (buffSize : Nat)
    (pSrcIp : Option ip_addr) :
    (NetworkPortReadBuff s portId pBuffer pDataSize buffSize pSrcIp).s.pCtrlInfoList
      = s.pCtrlInfoList := by
  unfold NetworkPortReadBuff
  repeat' first
    | rfl
    | split
    | simp only []

theorem NetworkPortReadByte_wf (s : network_module_info_t) (portId : Nat)
    (pBuffer : Option (Nat → Nat)) (h : ArpTablesWf s) :
    ArpTablesWf (NetworkPortReadByte s portId pBuffer).s :=
  ArpTablesWf_congr s _ h (NetworkPortReadByte_ctrl s portId pBuffer)

theorem NetworkPortReadBuff_wf (s : network_module_info_t) (portId : Nat)
    (pBuffer : Option (Nat → Nat)) (pDataSize : Option Nat) (buffSize : Nat)
    (pSrcIp : Option ip_addr) (h : ArpTablesWf s) :
    ArpTablesWf (NetworkPortReadBuff s portId pBuffer pDataSize buffSize pSrcIp).s :=
  ArpTablesWf_congr s _ h (NetworkPortReadBuff_ctrl s portId pBuffer pDataSize buffSize pSrcIp)

theorem NetworkCtrlSendPingIcmp_wf (s : network_module_info_t) (ctrlId : Nat)
    (pIpAddr : Option ip_addr) (r : Bool × network_module_info_t) (h : ArpTablesWf s)
    (hr : NetworkCtrlSendPingIcmp s ctrlId pIpAddr = some r) : ArpTablesWf r.2 := by
  unfold NetworkCtrlSendPingIcmp at hr
  split at hr
  · split at hr
    · unfold NetworkSendIcmpEchoRequest at hr
      split at hr
      · exact absurd hr (by simp)
      · rename_i c hc
        simp only at hr
        split at hr
        · exact absurd hr (by simp)
        · rename_i c1 hc1
          split at hr
          · exact absurd hr (by simp)
          · rename_i q hq
            cases Option.some.inj hr
            have hw1 : ArpTablesWf (setCtrl s ctrlId { c with IcmpReplyReceived := false }) :=
              ArpTablesWf_set s _ ctrlId _ h rfl (fun cd1 hcd1 => h ctrlId c cd1 hc hcd1)
            have hc1' : c1 = { c with IcmpReplyReceived := false } := by
              rw [setCtrl_get s ctrlId _ c hc] at hc1
              exact (Option.some.inj hc1).symm
            subst hc1'
            have hw2 := ArpTablesWf_set _ (setCtrl (setCtrl s ctrlId { c with IcmpReplyReceived := false }) ctrlId
                { ({ c with IcmpReplyReceived := false } : network_ctrl_info_t) with
                  IcmpReplyDelay := s.pInitDesc.GenInterface.pFnTimerGetTime }) ctrlId _ hw1 rfl
              (fun cd1 hcd1 => h ctrlId c cd1 hc hcd1)
            exact ArpTablesWf_congr _ _ hw2 (NetworkSendIpPacket_frame _ _ _ _ _ q hq).1
    · cases Option.some.inj hr; exact h
  · cases Option.some.inj hr; exact h

/-! ## ARP table well-formedness: the invariant -/

theorem NetworkInit_wf (d : network_init_desc_t) : ArpTablesWf (NetworkInit d) := by
  intro id c cd hc hcd
  simp only [NetworkInit, List.getElem?_replicate] at hc
  split at hc
  · cases Option.some.inj hc
    exact absurd hcd (by simp [network_ctrl_info_t.zero])
  · exact absurd hc (by simp)

/-- Every reachable module state has well-formed ARP tables. -/
theorem Reachable_wf (s : network_module_info_t) (h : Reachable s) : ArpTablesWf s := by
  induction h with
  | init d => exact NetworkInit_wf d
  | clock now isPassed _ ih => exact withClock_wf _ now isPassed ih
  | driver ctrlId itf _ ih => exact withDriver_wf _ ctrlId itf ih
  | ctrlAdd ctrlId d r _ hr ih => exact NetworkCtrlAdd_wf _ ctrlId d r ih hr
  | portAdd portId d r _ hr ih => exact NetworkPortAdd_wf _ portId d r ih hr
  | addArpEntry ctrlId ip mac hasDecay r _ hr ih =>
    exact NetworkCtrlAddArpEntry_wf _ ctrlId ip mac hasDecay r ih hr
  | forceRequestARP ctrlId ip r _ hr ih => exact NetworkCtrlForceRequestARP_wf _ ctrlId ip r ih hr
  | rxProcess ctrlId _ hr ih => exact NetworkCtrlRxProcess_wf _ _ ctrlId ih hr
  | txProcess ctrlId _ hr ih => exact NetworkCtrlTxProcess_wf _ _ ctrlId ih hr
  | decayProcess ctrlId _ hr ih => exact NetworkCtrlArpDecayProcess_wf _ _ ctrlId ih hr
  | sendPing ctrlId ip r _ hr ih => exact NetworkCtrlSendPingIcmp_wf _ ctrlId ip r ih hr
  | sendByte portId data ip r _ hr ih => exact NetworkPortSendByte_wf _ portId data ip r ih hr
  | sendBuff portId buf n ip r _ hr ih => exact NetworkPortSendBuff_wf _ portId buf n ip r ih hr
  | readByte portId buf _ ih => exact NetworkPortReadByte_wf _ portId buf ih
  | readBuff portId buf size n ip _ ih => exact NetworkPortReadBuff_wf _ portId buf size n ip ih

/-- C32: in every module state reached from NetworkInit through NetworkCtrlAdd,
NetworkPortAdd, NetworkCtrlAddArpEntry, NetworkCtrlForceRequestARP, frame reception
(NetworkCtrlRxProcess), transmission (NetworkCtrlTxProcess, with the send and read
functions of the ports and the ping request) and decay sweeps, whatever the clock and the
drivers answer in between, the ARP table of every controller that was added has the
configured number of entries, every entry with valid set has initialised set, and no two
initialised entries hold the same IP. -/
theorem arp_table_well_formedness_is_invariant (s : network_module_info_t) (h : Reachable s)
    (ctrlId : Nat) (ctrl : network_ctrl_info_t) (cd : network_ctrl_desc_t)
    (hctrl : s.pCtrlInfoList[ctrlId]? = some ctrl) (hcd : ctrl.pDesc = some cd) :
    ctrl.pArpArray.length = cd.ArpEntryNb ∧
    (∀ (i : Nat) (e : arp_entry_t), ctrl.pArpArray[i]? = some e → e.Status.IsValid = true →
      e.Status.IsInitialised = true) ∧
    (∀ (i j : Nat) (ei ej : arp_entry_t), ctrl.pArpArray[i]? = some ei →
      ctrl.pArpArray[j]? = some ej → ei.Status.IsInitialised = true →
      ej.Status.IsInitialised = true → ei.IpAddr = ej.IpAddr → i = j) := by
  obtain ⟨hlen, h1, h2⟩ := Reachable_wf s h ctrlId ctrl cd hctrl hcd
  have hb : ∀ (i : Nat) (e : arp_entry_t), ctrl.pArpArray[i]? = some e → i < cd.ArpEntryNb := by
    intro i e he
    by_contra hc
    rw [List.getElem?_eq_none (by omega)] at he
    exact absurd he (by simp)
  refine ⟨hlen, fun i e he hv => h1 i e (hb i e he) he hv, ?_⟩
  intro i j ei ej hei hej hii hij hip
  exact h2 i j ei ej (hb i ei hei) (hb j ej hej) hei hej hii hij hip

/-- How `resolvedState` is reached. -/
theorem Reachable_resolvedState : Reachable resolvedState := by
  have h0 : Reachable (NetworkInit (testInitDesc 0 1 1)) := Reachable.init _
  have h1 : Reachable baseState :=
    Reachable.ctrlAdd 0 (some testCtrlDesc) (true, baseState) h0 rfl
  have h2 : Reachable portState :=
    Reachable.portAdd 0 (some testPortDesc) (true, portState) h1 rfl
  have h3 : Reachable requestedState :=
    Reachable.forceRequestARP 0 (some ⟨192, 168, 2, 0⟩) (true, requestedState) h2 rfl
  exact Reachable.rxProcess 0 (Reachable.driver 0 driverWithReply h3) rfl

set_option maxRecDepth 100000 in
/-- C32 (witness): the module of test_network.c after a forced ARP request for
192.168.2.0 and the reception of the reply `arp_reply_ext`: the table has 20 entries, its
first entry is the valid entry of 192.168.2.0, and the table is well formed. -/
theorem arp_table_well_formedness_is_invariant_witness :
    ∃ ctrl : network_ctrl_info_t, resolvedState.pCtrlInfoList[0]? = some ctrl ∧
      (firstArpEntry resolvedState).map (fun e => (e.IpAddr, e.Status.IsValid))
        = some (⟨192, 168, 2, 0⟩, true) ∧
      ctrl.pArpArray.length = 20 ∧
      (∀ (i : Nat) (e : arp_entry_t), ctrl.pArpArray[i]? = some e → e.Status.IsValid = true →
        e.Status.IsInitialised = true) ∧
      (∀ (i j : Nat) (ei ej : arp_entry_t), ctrl.pArpArray[i]? = some ei →
        ctrl.pArpArray[j]? = some ej → ei.Status.IsInitialised = true →
        ej.Status.IsInitialised = true → ei.IpAddr = ej.IpAddr → i = j) :=
  ⟨_, rfl, by decide,
    arp_table_well_formedness_is_invariant resolvedState Reachable_resolvedState 0 _ _
      rfl rfl⟩

/-! ## The ARP entry of the source of an accepted packet -/

/-- `NetworkUpdateArpTable` for an address that has an entry, or in a table with a free
slot: the entry of the address is afterwards valid, with the MAC address given and the
clock value, and the table stays well formed. -/
theorem NetworkUpdateArpTable_learns (s : network_module_info_t) (ctrlId : Nat)
    (ctrl : network_ctrl_info_t) (cd : network_ctrl_desc_t) (S : ip_addr) (M : mac_addr)
    (hasDecay : Bool)
    (hctrl : s.pCtrlInfoList[ctrlId]? = some ctrl) (hcd : ctrl.pDesc = some cd)
    (hlen : cd.ArpEntryNb ≤ ctrl.pArpArray.length)
    (hroom : (∃ idx, NetworkGetArpEntry.loop ctrl.pArpArray S 0 cd.ArpEntryNb = some (some idx)) ∨
      (∃ j e, j < cd.ArpEntryNb ∧ ctrl.pArpArray[j]? = some e ∧ e.Status.IsInitialised = false)) :
    ∃ f e1, f < cd.ArpEntryNb ∧
      NetworkUpdateArpTable s ctrlId S M hasDecay = some (true, setCtrl s ctrlId
        { ctrl with pArpArray := ctrl.pArpArray.set f e1 }) ∧
      (ctrl.pArpArray.set f e1)[f]? = some e1 ∧
      e1.IpAddr = S ∧ e1.MacAddr = M ∧ e1.Status.IsInitialised = true ∧
      e1.Status.IsValid = true ∧ e1.DecayTimer = s.pInitDesc.GenInterface.pFnTimerGetTime ∧
      (ArpWf cd.ArpEntryNb ctrl.pArpArray →
        ArpWf cd.ArpEntryNb (ctrl.pArpArray.set f e1)) ∧
      NetworkGetArpEntry.loop (ctrl.pArpArray.set f e1) S 0 cd.ArpEntryNb = some (some f) := by
  obtain ⟨r, hr, -⟩ := NetworkGetArpEntry_loop_total ctrl.pArpArray S cd.ArpEntryNb 0 (by omega)
  cases r with
  | none =>
    have hfree : ∃ j e, j < cd.ArpEntryNb ∧ ctrl.pArpArray[j]? = some e ∧
        e.Status.IsInitialised = false := by
      rcases hroom with ⟨idx, hidx⟩ | hfree
      · rw [hr] at hidx; exact absurd hidx (by simp)
      · exact hfree
    obtain ⟨f, e0, hf, he0, hupd, hget1⟩ := NetworkUpdateArpTable_new s ctrlId ctrl cd S M
      hasDecay hctrl hcd hlen hr hfree
    exact ⟨f, _, hf, hupd, getElem?_set_same _ _ _ _ he0, rfl, rfl, rfl, rfl, rfl,
      fun hwf => ArpWf_set_fill _ _ S f _ hwf hr (by simp [arpMatches]), hget1⟩
  | some idx =>
    obtain ⟨-, hlt, ⟨e, he, hme⟩, -⟩ := NetworkGetArpEntry_loop_some _ _ _ 0 idx hr
    have hme2 := hme
    simp only [arpMatches, Bool.and_eq_true, decide_eq_true_eq] at hme2
    cases hv : e.Status.IsValid with
    | false =>
      have hstore := NetworkStoreArp_complete s ctrlId ctrl cd S M hasDecay idx e hctrl hcd hr he hv
      have hupd : NetworkUpdateArpTable s ctrlId S M hasDecay
          = NetworkStoreArp s ctrlId S M hasDecay := by
        simp only [NetworkUpdateArpTable, NetworkGetArpEntry_eq s ctrlId ctrl cd hctrl hcd, hr,
          hctrl, he, hv, Bool.not_false, if_true]
      rw [← hupd] at hstore
      exact ⟨idx, _, by omega, hstore, getElem?_set_same _ _ _ _ he, hme2.2, rfl, hme2.1, rfl, rfl,
        fun hwf => ArpWf_set_found _ _ S idx _ hwf hr (by simpa [arpMatches] using hme),
        NetworkGetArpEntry_loop_set _ _ _ _ _ hr (by simpa [arpMatches] using hme)⟩
    | true =>
      have hupd := NetworkUpdateArpTable_refresh s ctrlId ctrl cd S M hasDecay idx e hctrl hcd hr
        he hv
      exact ⟨idx, _, by omega, hupd, getElem?_set_same _ _ _ _ he, hme2.2, rfl, hme2.1, hv, rfl,
        fun hwf => ArpWf_set_found _ _ S idx _ hwf hr (by simpa [arpMatches] using hme),
        NetworkGetArpEntry_loop_set _ _ _ _ _ hr (by simpa [arpMatches] using hme)⟩

/-- How `fullState` is reached. -/
theorem Reachable_fullState : Reachable fullState := by
  have h0 := Reachable.init
    { testInitDesc 0 1 1 with
        GenInterface := { (testInitDesc 0 1 1).GenInterface with pFnErrorNotify := true },
        ErrorCode := 0x42 }
  have h1 := Reachable.ctrlAdd 0 (some tinyCtrlDesc) _ h0 rfl
  have h2 := Reachable.portAdd 0 (some testPortDesc) _ h1 rfl
  exact Reachable.addArpEntry 0 (some ⟨192, 168, 2, 0⟩)
    (some ⟨0x11, 0x22, 0x44, 0x55, 0x88, 0xaa⟩) false (true, fullState) h2 rfl

/-- How `testState` is reached. -/
theorem Reachable_testState : Reachable testState := by
  have h0 : Reachable (NetworkInit (testInitDesc 0 1 1)) := Reachable.init _
  have h1 : Reachable baseState :=
    Reachable.ctrlAdd 0 (some testCtrlDesc) (true, baseState) h0 rfl
  have h2 : Reachable portState :=
    Reachable.portAdd 0 (some testPortDesc) (true, portState) h1 rfl
  exact Reachable.addArpEntry 0 (some ⟨192, 168, 2, 0⟩)
    (some ⟨0x11, 0x22, 0x44, 0x55, 0x88, 0xaa⟩) false (true, testState) h2 rfl

set_option maxRecDepth 100000 in
/-- C34 (counterexample): `fullState` is reached by NetworkInit, NetworkCtrlAdd,
NetworkPortAdd and NetworkCtrlAddArpEntry; its ARP table has one slot, which holds
192.168.2.0. The controller accepts the frame `udp_com_rx_barray`, whose source is
192.168.2.16, and processes it at clock 500 with result true: afterwards the table still
holds the one entry of 192.168.2.0, with lastSeen 0, no entry has the address
192.168.2.16, and the error callback was called once with the code 0x42. -/
theorem accepted_packet_learns_nothing_when_table_is_full :
    Reachable fullState ∧
    NetworkAcceptIncIpPacket fullState 0 (ptrAdd (bufOf udp_com_rx_barray) 14) = some true ∧
    ip_addr.ofMem (bufOf udp_com_rx_barray) 26 = ⟨192, 168, 2, 16⟩ ∧
    ((NetworkProcessIpPacket (atClock fullState 500) 0 (bufOf udp_com_rx_barray) 56).map
      fun r => (r.1, r.2.1.Errors)) = some (true, [0x42]) ∧
    ((NetworkProcessIpPacket (atClock fullState 500) 0 (bufOf udp_com_rx_barray) 56).map
      fun r => r.2.1.pCtrlInfoList.map fun c =>
        c.pArpArray.map fun e => (e.IpAddr, e.Status.IsValid, e.DecayTimer))
      = some [[(⟨192, 168, 2, 0⟩, true, 0)]] :=
  ⟨Reachable_fullState, by decide, by decide, by decide, by decide⟩

/-- C34 (amended): for every reachable module state and every inbound IPv4 packet that a
controller accepts, whose source S already has an ARP entry or finds a free slot in the
table, the packet is processed and afterwards exactly one initialised ARP entry has the IP
S; that entry is valid, with lastSeen = now. -/
theorem accepted_packet_source_has_one_valid_entry (s : network_module_info_t)
    (ctrlId : Nat) (ctrl : network_ctrl_info_t) (cd : network_ctrl_desc_t)
    (pBuffer : Nat → Nat) (buffSize : Nat) (S : ip_addr)
    (hreach : Reachable s)
    (hctrl : s.pCtrlInfoList[ctrlId]? = some ctrl) (hcd : ctrl.pDesc = some cd)
    (haccept : NetworkAcceptIncIpPacket s ctrlId (ptrAdd pBuffer ETH_HEADER_SIZE) = some true)
    (hS : ip_addr.ofMem pBuffer 26 = S)
    (hroom : (∃ idx, NetworkGetArpEntry.loop ctrl.pArpArray S 0 cd.ArpEntryNb = some (some idx)) ∨
      (∃ j e, j < cd.ArpEntryNb ∧ ctrl.pArpArray[j]? = some e ∧ e.Status.IsInitialised = false))
    (hports : pBuffer 23 = IP_PROT_UDP →
      ∀ j, j < s.pInitDesc.PortNb → ∃ q, s.pPortInfoList[j]? = some q ∧
        ((NetworkDecodeUdpPacket pBuffer).2.2.1 = q.InPortNb → q.pDesc.isSome = true)) :
    ∃ st s1 b1 c1 f e1,
      NetworkProcessIpPacket s ctrlId pBuffer buffSize = some (st, s1, b1) ∧
      s1.pCtrlInfoList[ctrlId]? = some c1 ∧ c1.pArpArray[f]? = some e1 ∧
      e1.Status.IsInitialised = true ∧ e1.IpAddr = S ∧
      e1.Status.IsValid = true ∧
      e1.DecayTimer = s.pInitDesc.GenInterface.pFnTimerGetTime ∧
      (∀ (j : Nat) (e : arp_entry_t), c1.pArpArray[j]? = some e →
        e.Status.IsInitialised = true → e.IpAddr = S → j = f) := by
  obtain ⟨hlen, hwf⟩ := Reachable_wf s hreach ctrlId ctrl cd hctrl hcd
  obtain ⟨f, e1, hf, hupd, he1, hip, -, hinit, hval, htime, hwf1, -⟩ :=
    NetworkUpdateArpTable_learns s ctrlId ctrl cd S (mac_addr.ofMem pBuffer 6) false hctrl hcd
      (by omega) hroom
  rw [← hS] at hupd
  obtain ⟨st, s1, b1, c1, hres, hc1, harr, -⟩ := NetworkProcessIpPacket_table s ctrlId pBuffer
    buffSize _ _ cd haccept hupd (setCtrl_get s ctrlId _ ctrl hctrl) hcd hports
  have harr2 : c1.pArpArray = ctrl.pArpArray.set f e1 := harr
  refine ⟨st, s1, b1, c1, f, e1, hres, hc1, by rw [harr2]; exact he1, hinit, hip, hval, htime, ?_⟩
  intro j e he hi hje
  rw [harr2] at he
  have hj : j < cd.ArpEntryNb := by
    by_contra hc
    rw [List.getElem?_eq_none (by simp; omega)] at he
    exact absurd he (by simp)
  exact (hwf1 hwf).2 j f e e1 hj hf he he1 hi hinit (by rw [hje, hip])

set_option maxRecDepth 100000 in
/-- C34 (witness): the controller of test_network.c knows 192.168.2.0; it accepts the frame
`udp_rx_barray` of that peer at clock 500, after which the one entry of 192.168.2.0 is
valid with lastSeen 500. -/
theorem accepted_packet_source_has_one_valid_entry_witness :
    ∃ (st : Bool) (s1 : network_module_info_t) (b1 : Nat → Nat) (c1 : network_ctrl_info_t)
        (f : Nat) (e1 : arp_entry_t),
      NetworkProcessIpPacket (atClock testState 500) 0 (bufOf udp_rx_barray) 51
        = some (st, s1, b1) ∧
      s1.pCtrlInfoList[0]? = some c1 ∧ c1.pArpArray[f]? = some e1 ∧
      e1.Status.IsInitialised = true ∧ e1.IpAddr = ⟨192, 168, 2, 0⟩ ∧
      e1.Status.IsValid = true ∧ e1.DecayTimer = 500 ∧
      (∀ (j : Nat) (e : arp_entry_t), c1.pArpArray[j]? = some e →
        e.Status.IsInitialised = true → e.IpAddr = ⟨192, 168, 2, 0⟩ → j = f) :=
  accepted_packet_source_has_one_valid_entry (atClock testState 500) 0 testCtrl testCtrlDesc
    (bufOf udp_rx_barray) 51 ⟨192, 168, 2, 0⟩
    (Reachable.clock 500 (fun d => decide (500 ≥ d)) Reachable_testState)
    rfl rfl (by decide) (by decide) (Or.inl ⟨0, by decide⟩)
    (fun _ j hj => by
      have h1 : (atClock testState 500).pInitDesc.PortNb = 1 := by decide
      have h0 : j = 0 := by omega
      subst h0
      exact ⟨testState.pPortInfoList.getD 0 network_port_info_t.zero, rfl, fun _ => rfl⟩)

/-! ## Forced ARP request on a valid entry -/

theorem arp_entry_clear_valid (e : arp_entry_t) (h : e.Status.IsValid = false) :
    ({ e with Status := { e.Status with IsValid := false } } : arp_entry_t) = e := by
  obtain ⟨t, m, ip, ⟨i, v, r, d⟩⟩ := e
  simp only at h
  subst h
  rfl

theorem arpInvalid_not_valid (s : network_module_info_t) (ctrlId : Nat) (X : ip_addr)
    (h : arpInvalid s ctrlId X) : NetworkCtrlIsArpValid s ctrlId (some X) = some false := by
  obtain ⟨hid, ctrl, cd, idx, e, hctrl, hcd, -, hget, he, hinv⟩ := h
  have hv := NetworkCtrlValid_of s ctrlId ctrl cd hid hctrl hcd
  simp only [NetworkCtrlIsArpValid, hv, if_true, hctrl,
    NetworkGetArpEntry_eq s ctrlId ctrl cd hctrl hcd, hget, he, hinv]

/-- One transmit attempt for a head message whose destination, not the broadcast address,
has an ARP entry that is not valid: the attempt returns true, hands the driver nothing or
one ARP request, and leaves the controllers as they are. -/
theorem NetworkProcessSendMsg_held (s : network_module_info_t) (portId : Nat)
    (pc : network_port_info_t) (pd : network_port_desc_t) (ctrl : network_ctrl_info_t)
    (cd : network_ctrl_desc_t) (n0 : Nat) (D : ip_addr) (idx : Nat) (e : arp_entry_t)
    (pBuffer : Nat → Nat)
    (hport : s.pPortInfoList[portId]? = some pc)
    (hinfo : sendMsgInfo pc = some (n0, D))
    (hpd : pc.pDesc = some pd) (hctrl : s.pCtrlInfoList[pd.NetworkCtrlId]? = some ctrl)
    (hcd : ctrl.pDesc = some cd) (hlen : cd.ArpEntryNb ≤ ctrl.pArpArray.length)
    (hsub : NetworkIsIpValid D ctrl.IpAddr ctrl.SubnetMask = true)
    (hnb : NetworkIsIpBroadcast D ctrl.IpAddr ctrl.SubnetMask = false)
    (hget : NetworkGetArpEntry.loop ctrl.pArpArray D 0 cd.ArpEntryNb = some (some idx))
    (he : ctrl.pArpArray[idx]? = some e) (hinv : e.Status.IsValid = false) :
    ∃ s1, NetworkProcessSendMsg s portId pBuffer = some (true, s1, pBuffer) ∧
      (s1.Sent = s.Sent ∨
        s1.Sent = s.Sent ++ [(cd.MacCtrlId, frameOf (arpRequestBuffer ctrl D) 42)]) ∧
      s1.pInitDesc = s.pInitDesc ∧ s1.pCtrlInfoList = s.pCtrlInfoList := by
  have harp : NetworkGetArpEntry s pd.NetworkCtrlId D = some (some idx) := by
    rw [NetworkGetArpEntry_eq _ _ ctrl cd hctrl hcd]; exact hget
  obtain ⟨pDesc, rx, rxd, tx, txd, timer, inp, outp, cnt, vrx, vtx, dst⟩ := pc
  simp only at hpd
  subst hpd
  generalize hn : (if n0 < ETHERNET_MAX_DATA_SIZE then n0 else ETHERNET_MAX_DATA_SIZE) = n
  cases hcool : s.pInitDesc.GenInterface.pFnTimerIsPassed timer with
  | false =>
    refine ⟨s, ?_, Or.inl rfl, rfl, rfl⟩
    simp only [NetworkProcessSendMsg, hport, hinfo, hn, hctrl, hsub, if_true,
      NetworkInitMsgInfo, harp, hnb, Bool.false_or, he, hinv, Bool.false_eq_true, if_false,
      Option.isNone_some, Bool.not_false, Bool.true_and, hcool]
  | true =>
    generalize hq : (if cnt < 3 then
        ({ pDesc := some pd, pFifoRxMsg := rx, pFifoRxMsgDesc := rxd, pFifoTxMsg := tx,
           pFifoTxMsgDesc := txd,
           TimerRequestARP := add32 s.pInitDesc.GenInterface.pFnTimerGetTime 2000,
           InPortNb := inp, OutPortNb := outp, CounterARP := (cnt + 1) % 256,
           IsVirtualComRx := vrx, IsVirtualComTx := vtx, DstIpAddr := dst }
          : network_port_info_t)
      else consumeTxMsg
        { pDesc := some pd, pFifoRxMsg := rx, pFifoRxMsgDesc := rxd, pFifoTxMsg := tx,
          pFifoTxMsgDesc := txd, TimerRequestARP := timer, InPortNb := inp, OutPortNb := outp,
          CounterARP := 0, IsVirtualComRx := vrx, IsVirtualComTx := vtx, DstIpAddr := dst } n) = q
    have hctrl2 : (setPort s portId q).pCtrlInfoList[pd.NetworkCtrlId]? = some ctrl := hctrl
    obtain ⟨arr1, idx1, e1, hreq, hlen1, -, he1, -, -, hoth, hprev⟩ :=
      NetworkRequestArp_spec (setPort s portId q) pd.NetworkCtrlId ctrl cd D hctrl2 hcd hlen
        (Or.inl ⟨idx, hget⟩)
    obtain ⟨hi, hee⟩ := hprev idx e hget he
    subst hi
    rw [arp_entry_clear_valid e hinv] at hee
    subst hee
    have harr : arr1 = ctrl.pArpArray := by
      apply List.ext_getElem?
      intro j
      by_cases hj : j = idx1
      · subst hj; rw [he1, he]
      · exact hoth j hj
    subst harr
    refine ⟨{ setCtrl (setPort s portId q) pd.NetworkCtrlId
                { ctrl with pArpArray := ctrl.pArpArray } with
              Sent := s.Sent ++ [(cd.MacCtrlId, frameOf (arpRequestBuffer ctrl D) 42)] },
      ?_, Or.inr rfl, rfl, ?_⟩
    · simp only [NetworkProcessSendMsg, hport, hinfo, hn, hctrl, hsub, if_true,
        NetworkInitMsgInfo, harp, hnb, Bool.false_or, he, hinv, Bool.false_eq_true, if_false,
        Option.isNone_some, Bool.not_false, Bool.true_and, hcool, NETWORK_ARP_REQ_GROUP_NB,
        NETWORK_ARP_REQUEST_COOLDOWN, hq, hreq]
      rfl
    · show (s.pCtrlInfoList.set pd.NetworkCtrlId _) = s.pCtrlInfoList
      exact set_self_of_getElem? _ _ _ hctrl

/-- `NetworkProcessIcmpPacket` returns, and leaves the ARP table of the controller and the
module descriptor as they are. -/
theorem NetworkProcessIcmpPacket_table_desc (s : network_module_info_t) (ctrlId : Nat)
    (ctrl : network_ctrl_info_t) (cd : network_ctrl_desc_t) (pBuffer : Nat → Nat) (buffSize : Nat)
    (hctrl : s.pCtrlInfoList[ctrlId]? = some ctrl) (hcd : ctrl.pDesc = some cd) :
    ∃ st s1 b1 c1, NetworkProcessIcmpPacket s ctrlId pBuffer buffSize = some (st, s1, b1) ∧
      s1.pCtrlInfoList[ctrlId]? = some c1 ∧ c1.pArpArray = ctrl.pArpArray ∧
      c1.pDesc = ctrl.pDesc ∧ s1.pInitDesc = s.pInitDesc := by
  unfold NetworkProcessIcmpPacket
  simp only []
  split_ifs
  · simp only [NetworkProcessIcmpEchoRequest, hctrl, hcd, macSend]
    exact ⟨_, _, _, ctrl, rfl, hctrl, rfl, hcd, rfl⟩
  · simp only [NetworkProcessIcmpEchoReply, hctrl]
    split_ifs
    · exact ⟨_, _, _, _, rfl, setCtrl_get s ctrlId _ ctrl hctrl, rfl, rfl, rfl⟩
    · exact ⟨_, _, _, ctrl, rfl, hctrl, rfl, rfl, rfl⟩
  · exact ⟨_, _, _, ctrl, rfl, hctrl, rfl, rfl, rfl⟩

/-- `NetworkProcessIpPacket` on an accepted packet: the ARP table after the call is the one
that `NetworkUpdateArpTable` leaves, and the module descriptor is unchanged. -/
theorem NetworkProcessIpPacket_table_desc (s : network_module_info_t) (ctrlId : Nat)
    (pBuffer : Nat → Nat) (buffSize : Nat) (u : Bool × network_module_info_t)
    (cu : network_ctrl_info_t) (cd : network_ctrl_desc_t)
    (haccept : NetworkAcceptIncIpPacket s ctrlId (ptrAdd pBuffer ETH_HEADER_SIZE) = some true)
    (hu : NetworkUpdateArpTable s ctrlId (ip_addr.ofMem pBuffer 26) (mac_addr.ofMem pBuffer 6)
      false = some u)
    (hcu : u.2.pCtrlInfoList[ctrlId]? = some cu) (hcd : cu.pDesc = some cd)
    (hports : pBuffer 23 = IP_PROT_UDP →
      ∀ j, j < u.2.pInitDesc.PortNb → ∃ q, u.2.pPortInfoList[j]? = some q ∧
        ((NetworkDecodeUdpPacket pBuffer).2.2.1 = q.InPortNb → q.pDesc.isSome = true)) :
    ∃ st s1 b1 c1, NetworkProcessIpPacket s ctrlId pBuffer buffSize = some (st, s1, b1) ∧
      s1.pCtrlInfoList[ctrlId]? = some c1 ∧ c1.pArpArray = cu.pArpArray ∧
      c1.pDesc = cu.pDesc ∧ s1.pInitDesc = u.2.pInitDesc := by
  simp only [NetworkProcessIpPacket, haccept, ETH_HEADER_SIZE, Nat.reduceAdd, hu]
  by_cases h1 : pBuffer 23 = IP_PROT_ICMP
  · rw [if_pos h1]
    exact NetworkProcessIcmpPacket_table_desc u.2 ctrlId cu cd pBuffer buffSize hcu hcd
  · rw [if_neg h1]
    by_cases h2 : pBuffer 23 = IP_PROT_UDP
    · rw [if_pos h2]
      obtain ⟨st1, s1, hst, hinit, hcl, -⟩ := NetworkStoreIncMsg_spec u.2
        (ptrAdd (NetworkDecodeUdpPacket pBuffer).1 (NetworkDecodeUdpPacket pBuffer).2.2.2)
        (NetworkDecodeUdpPacket pBuffer).2.1 (NetworkDecodeUdpPacket pBuffer).2.2.1 IP_PROT_UDP
        (ip_addr.ofMem (NetworkDecodeUdpPacket pBuffer).1 (ETH_HEADER_SIZE + 12)) (hports h2)
      simp only [ETH_HEADER_SIZE, Nat.reduceAdd] at hst
      rw [hst]
      exact ⟨_, _, _, cu, rfl, by rw [hcl]; exact hcu, rfl, rfl, hinit⟩
    · rw [if_neg h2]
      exact ⟨_, _, _, cu, rfl, hcu, rfl, rfl, rfl⟩

set_option maxRecDepth 100000 in
/-- C36 (counterexample): the subnet broadcast address 192.168.2.255 has a valid entry in
`bcastArpState`; NetworkCtrlForceRequestARP(192.168.2.255) clears the valid flag
(NetworkCtrlIsArpValid returns false), and the byte 0x55 then queued for 192.168.2.255 is
sent by the next transmit attempt, as the frame `udp_tx_bcast`, although no reply and no
packet from that address was processed. For the ordinary peer 192.168.2.0 of `forcedState`
the queued byte is not sent, but it is not held either: the attempts at the clock values
0, 2000, 4000 and 6000 hand the driver ARP requests only, and the fourth removes the
message. -/
theorem forced_request_does_not_hold_broadcast_messages :
    (bcastArpState.bind fun s => NetworkCtrlIsArpValid s 0 (some bcastIp)) = some true ∧
    (bcastForcedState.bind fun s => NetworkCtrlIsArpValid s 0 (some bcastIp)) = some false ∧
    (bcastForcedState.map txSummary) = some [(1, 1)] ∧
    (bcastForcedState.bind fun s =>
      (NetworkProcessSendMsg s 0 s.pBuffer).map fun r =>
        (r.1, r.2.1.Sent.getLast?, txSummary r.2.1)) = some (true, some (0, udp_tx_bcast), [(0, 0)]) ∧
    NetworkCtrlIsArpValid txState 0 (some ⟨192, 168, 2, 0⟩) = some true ∧
    NetworkCtrlIsArpValid forcedState 0 (some ⟨192, 168, 2, 0⟩) = some false ∧
    txSummary forcedState = [(1, 1)] ∧
    txSummary (attemptAt (attemptAt (attemptAt forcedState 0) 2000) 4000) = [(1, 1)] ∧
    txSummary (attemptAt (attemptAt (attemptAt (attemptAt forcedState 0) 2000) 4000) 6000)
      = [(0, 0)] ∧
    (attemptAt (attemptAt (attemptAt (attemptAt forcedState 0) 2000) 4000) 6000).Sent
      = [(0, arp_req_int), (0, arp_req_int), (0, arp_req_int), (0, arp_req_int),
         (0, arp_req_int)] := by
  decide

/-- C36 (amended): NetworkCtrlForceRequestARP on an in-subnet IP X whose entry is valid
(NetworkCtrlIsArpValid(X) returns true before the call) returns the answer of the driver, whatever it is, after handing it the request frame; the
entry keeps its slot, MAC, timer and decay flag and loses only its valid flag, the other
entries are unchanged, and NetworkCtrlIsArpValid(X) returns false. While the entry of X is
not valid and X is not the subnet broadcast address, a transmit attempt of a port of that
controller whose head message goes to X returns true, hands the driver nothing or one ARP
request for X, never the message, and leaves the entry not valid. Processing an ARP reply
whose sender is X, or an accepted IPv4 packet whose source is X, makes
NetworkCtrlIsArpValid(X) return true again. -/
theorem forced_request_invalidates_valid_entry (s : network_module_info_t) (ctrlId : Nat)
    (ctrl : network_ctrl_info_t) (cd : network_ctrl_desc_t) (X : ip_addr) (idx : Nat)
    (e : arp_entry_t)
    (hid : ctrlId < s.pInitDesc.CtrlNb)
    (hctrl : s.pCtrlInfoList[ctrlId]? = some ctrl) (hcd : ctrl.pDesc = some cd)
    (hlen : cd.ArpEntryNb ≤ ctrl.pArpArray.length)
    (hsub : NetworkIsIpValid X ctrl.IpAddr ctrl.SubnetMask = true)
    (hget : NetworkGetArpEntry.loop ctrl.pArpArray X 0 cd.ArpEntryNb = some (some idx))
    (he : ctrl.pArpArray[idx]? = some e) (hvalid : e.Status.IsValid = true) :
    NetworkCtrlIsArpValid s ctrlId (some X) = some true ∧
    (∃ s1 c1,
      NetworkCtrlForceRequestARP s ctrlId (some X) =
        some (cd.ComInterface.MacCtrlSendMsg cd.MacCtrlId
          (frameOf (arpRequestBuffer ctrl X) 42), s1) ∧
      s1.Sent = s.Sent ++ [(cd.MacCtrlId, frameOf (arpRequestBuffer ctrl X) 42)] ∧
      s1.pCtrlInfoList[ctrlId]? = some c1 ∧
      c1.pArpArray[idx]? = some { e with Status := { e.Status with IsValid := false } } ∧
      (∀ j, j ≠ idx → c1.pArpArray[j]? = ctrl.pArpArray[j]?) ∧
      NetworkCtrlIsArpValid s1 ctrlId (some X) = some false ∧
      arpInvalid s1 ctrlId X) ∧
    (∀ (s2 : network_module_info_t) (c2 : network_ctrl_info_t) (portId : Nat)
        (port : network_port_info_t) (pd : network_port_desc_t) (n0 : Nat) (pb : Nat → Nat),
      arpInvalid s2 ctrlId X → s2.pCtrlInfoList[ctrlId]? = some c2 →
      NetworkIsIpValid X c2.IpAddr c2.SubnetMask = true →
      NetworkIsIpBroadcast X c2.IpAddr c2.SubnetMask = false →
      s2.pPortInfoList[portId]? = some port → port.pDesc = some pd →
      pd.NetworkCtrlId = ctrlId → headMessage port n0 X →
      ∃ s3, NetworkProcessSendMsg s2 portId pb = some (true, s3, pb) ∧
        (s3.Sent = s2.Sent ∨
          ∃ id, s3.Sent = s2.Sent ++ [(id, frameOf (arpRequestBuffer c2 X) 42)]) ∧
        arpInvalid s3 ctrlId X) ∧
    (∀ (s2 : network_module_info_t) (c2 : network_ctrl_info_t) (reply : Nat → Nat) (L : Nat),
      arpInvalid s2 ctrlId X → s2.pCtrlInfoList[ctrlId]? = some c2 →
      NetworkIsIpValid X c2.IpAddr c2.SubnetMask = true →
      SWAP16 (load16 reply 12) = ETH_PROT_ARP → SWAP16 (load16 reply 20) = ARP_REPLY →
      ip_addr.ofMem reply 28 = X →
      ∃ s3, NetworkProcessEthPacket s2 ctrlId reply L = some (true, s3, reply) ∧
        NetworkCtrlIsArpValid s3 ctrlId (some X) = some true) ∧
    (∀ (s2 : network_module_info_t) (pkt : Nat → Nat) (L : Nat),
      arpInvalid s2 ctrlId X →
      NetworkAcceptIncIpPacket s2 ctrlId (ptrAdd pkt ETH_HEADER_SIZE) = some true →
      ip_addr.ofMem pkt 26 = X →
      (pkt 23 = IP_PROT_UDP →
        ∀ j, j < s2.pInitDesc.PortNb → ∃ q, s2.pPortInfoList[j]? = some q ∧
          ((NetworkDecodeUdpPacket pkt).2.2.1 = q.InPortNb → q.pDesc.isSome = true)) →
      ∃ st s3 b3, NetworkProcessIpPacket s2 ctrlId pkt L = some (st, s3, b3) ∧
        NetworkCtrlIsArpValid s3 ctrlId (some X) = some true) := by
  refine ⟨?_, ?_, ?_, ?_, ?_⟩
  · have hv := NetworkCtrlValid_of s ctrlId ctrl cd hid hctrl hcd
    simp only [NetworkCtrlIsArpValid, hv, if_true, hctrl,
      NetworkGetArpEntry_eq s ctrlId ctrl cd hctrl hcd, hget, he, hvalid]
  · have hv := NetworkCtrlValid_of s ctrlId ctrl cd hid hctrl hcd
    obtain ⟨arr1, idx1, e1, hreq, hlen1, hget1, he1, hinv1, -, hoth, hprev⟩ :=
      NetworkRequestArp_spec s ctrlId ctrl cd X hctrl hcd hlen (Or.inl ⟨idx, hget⟩)
    obtain ⟨hi, hee⟩ := hprev idx e hget he
    subst hi
    subst hee
    have hc1 : ({ setCtrl s ctrlId { ctrl with pArpArray := arr1 } with
        Sent := s.Sent ++ [(cd.MacCtrlId, frameOf (arpRequestBuffer ctrl X) 42)] }
        : network_module_info_t).pCtrlInfoList[ctrlId]? = some { ctrl with pArpArray := arr1 } :=
      setCtrl_get s ctrlId _ ctrl hctrl
    have hinvs : arpInvalid ({ setCtrl s ctrlId { ctrl with pArpArray := arr1 } with
        Sent := s.Sent ++ [(cd.MacCtrlId, frameOf (arpRequestBuffer ctrl X) 42)] }
        : network_module_info_t) ctrlId X :=
      ⟨hid, _, cd, idx1, _, hc1, hcd, by rw [hlen1]; exact hlen, hget1, he1, rfl⟩
    refine ⟨_, _, ?_, rfl, hc1, he1, hoth, arpInvalid_not_valid _ _ _ hinvs, hinvs⟩
    simp only [NetworkCtrlForceRequestARP, hctrl, hv, hsub, if_true, hreq]
  · intro s2 c2 portId port pd n0 pb hinv hc2 hsub2 hnb2 hport hpd hpc hhead
    obtain ⟨hid2, ctrl2, cd2, idx2, e2, hctrl2, hcd2, hlen2, hget2, he2, hinv2⟩ := hinv
    have hcc : ctrl2 = c2 := by rw [hc2] at hctrl2; exact (Option.some.inj hctrl2).symm
    subst hcc
    subst hpc
    obtain ⟨s3, hres, hsent, hinit, hlist⟩ := NetworkProcessSendMsg_held s2 portId port pd ctrl2 cd2
      n0 X idx2 e2 pb hport (sendMsgInfo_head port n0 X hhead) hpd hctrl2 hcd2 hlen2 hsub2 hnb2
      hget2 he2 hinv2
    refine ⟨s3, hres, ?_, ?_⟩
    · rcases hsent with h1 | h1
      · exact Or.inl h1
      · exact Or.inr ⟨_, h1⟩
    · exact ⟨by rw [hinit]; exact hid2, ctrl2, cd2, idx2, e2, by rw [hlist]; exact hctrl2, hcd2,
        hlen2, hget2, he2, hinv2⟩
  · intro s2 c2 reply L hinv hc2 hsub2 heth hop hip
    obtain ⟨hid2, ctrl2, cd2, idx2, e2, hctrl2, hcd2, hlen2, hget2, he2, hinv2⟩ := hinv
    have hcc : ctrl2 = c2 := by rw [hc2] at hctrl2; exact (Option.some.inj hctrl2).symm
    subst hcc
    subst hip
    have hstore := NetworkStoreArp_complete s2 ctrlId ctrl2 cd2 (ip_addr.ofMem reply 28)
      (mac_addr.ofMem reply 22) false idx2 e2 hctrl2 hcd2 hget2 he2 hinv2
    have hne : ¬ (ARP_REPLY = ARP_REQUEST) := by decide
    obtain ⟨e', he', hm⟩ := (NetworkGetArpEntry_loop_some _ _ _ 0 idx2 hget2).2.2.1
    have hee : e' = e2 := by rw [he2] at he'; exact (Option.some.inj he').symm
    subst hee
    have hget3 := NetworkGetArpEntry_loop_set ctrl2.pArpArray (ip_addr.ofMem reply 28)
      cd2.ArpEntryNb idx2
      { e' with MacAddr := mac_addr.ofMem reply 22,
                Status := { e'.Status with IsValid := true, HasDecay := false },
                DecayTimer := s2.pInitDesc.GenInterface.pFnTimerGetTime } hget2
      (by simpa [arpMatches] using hm)
    have hc3 := setCtrl_get s2 ctrlId
      { ctrl2 with pArpArray := (ctrl2.pArpArray.set idx2
          { e' with MacAddr := mac_addr.ofMem reply 22,
                    Status := { e'.Status with IsValid := true, HasDecay := false },
                    DecayTimer := s2.pInitDesc.GenInterface.pFnTimerGetTime }) } ctrl2 hctrl2
    have he3 := getElem?_set_same ctrl2.pArpArray idx2
      { e' with MacAddr := mac_addr.ofMem reply 22,
                Status := { e'.Status with IsValid := true, HasDecay := false },
                DecayTimer := s2.pInitDesc.GenInterface.pFnTimerGetTime } e' he2
    have hv3 := NetworkCtrlValid_of _ ctrlId _ cd2 (by exact hid2) hc3 hcd2
    have hres : NetworkProcessEthPacket s2 ctrlId reply L = some (true, setCtrl s2 ctrlId
        { ctrl2 with pArpArray := (ctrl2.pArpArray.set idx2
            { e' with MacAddr := mac_addr.ofMem reply 22,
                      Status := { e'.Status with IsValid := true, HasDecay := false },
                      DecayTimer := s2.pInitDesc.GenInterface.pFnTimerGetTime }) }, reply) := by
      simp only [NetworkProcessEthPacket, heth, if_true, NetworkProcessArpPacket, hctrl2,
        ETH_HEADER_SIZE, Nat.reduceAdd, hop, hsub2, hne, if_false, hstore]
    refine ⟨_, hres, ?_⟩
    simp only [NetworkCtrlIsArpValid, hv3, if_true, hc3,
      NetworkGetArpEntry_eq _ ctrlId _ cd2 hc3 hcd2, hget3, he3]
  · intro s2 pkt L hinv haccept hip hports
    obtain ⟨hid2, ctrl2, cd2, idx2, e2, hctrl2, hcd2, hlen2, hget2, he2, hinv2⟩ := hinv
    subst hip
    obtain ⟨f, e1, hf, hupd, he1, hip1, -, hinit1, hval1, -, -, hgetf⟩ :=
      NetworkUpdateArpTable_learns s2 ctrlId ctrl2 cd2 (ip_addr.ofMem pkt 26)
        (mac_addr.ofMem pkt 6) false hctrl2 hcd2 hlen2 (Or.inl ⟨idx2, hget2⟩)
    obtain ⟨st, s3, b3, c3, hres, hc3, harr, hdesc, hinit⟩ := NetworkProcessIpPacket_table_desc s2
      ctrlId pkt L _ _ cd2 haccept hupd (setCtrl_get s2 ctrlId _ ctrl2 hctrl2) hcd2 hports
    have harr2 : c3.pArpArray = ctrl2.pArpArray.set f e1 := harr
    have hcd3 : c3.pDesc = some cd2 := by rw [hdesc]; exact hcd2
    have hid3 : ctrlId < s3.pInitDesc.CtrlNb := by rw [hinit]; exact hid2
    have hv3 := NetworkCtrlValid_of s3 ctrlId c3 cd2 hid3 hc3 hcd3
    have hget3 : NetworkGetArpEntry.loop c3.pArpArray (ip_addr.ofMem pkt 26) 0 cd2.ArpEntryNb
        = some (some f) := by
      rw [harr2]; exact hgetf
    have he3 : c3.pArpArray[f]? = some e1 := by rw [harr2]; exact he1
    refine ⟨st, s3, b3, hres, ?_⟩
    simp only [NetworkCtrlIsArpValid, hv3, if_true, hc3,
      NetworkGetArpEntry_eq _ ctrlId _ cd2 hc3 hcd3, hget3, he3, hval1]

set_option maxRecDepth 100000 in
/-- C36 (witness): the peer 192.168.2.0 of test_network.c is pinned with the MAC
11:22:44:55:88:aa; a forced request at clock 500 returns true (the driver of the test
accepts the frame), and the entry is then not valid, with the same MAC, timer and decay
flag. -/
theorem forced_request_invalidates_valid_entry_witness :
    ∃ (s1 : network_module_info_t) (c1 : network_ctrl_info_t),
      NetworkCtrlForceRequestARP (atClock testState 500) 0 (some ⟨192, 168, 2, 0⟩)
        = some (true, s1) ∧
      s1.Sent = [(0, arp_req_int)] ∧
      s1.pCtrlInfoList[0]? = some c1 ∧
      c1.pArpArray[0]? = some
        { DecayTimer := 0, MacAddr := ⟨0x11, 0x22, 0x44, 0x55, 0x88, 0xaa⟩,
          IpAddr := ⟨192, 168, 2, 0⟩,
          Status := { IsInitialised := true, IsValid := false, IsRequested := true,
                      HasDecay := false } } ∧
      NetworkCtrlIsArpValid s1 0 (some ⟨192, 168, 2, 0⟩) = some false := by
  obtain ⟨-, ⟨s1, c1, h1, h2, h3, h4, -, h6, -⟩, -⟩ :=
    forced_request_invalidates_valid_entry (atClock testState 500) 0 testCtrl testCtrlDesc
      ⟨192, 168, 2, 0⟩ 0
      { DecayTimer := 0, MacAddr := ⟨0x11, 0x22, 0x44, 0x55, 0x88, 0xaa⟩,
        IpAddr := ⟨192, 168, 2, 0⟩,
        Status := { IsInitialised := true, IsValid := true, IsRequested := true,
                    HasDecay := false } }
      (by decide) rfl rfl (by decide) (by decide) (by decide) (by decide) rfl
  refine ⟨s1, c1, ?_, ?_, h3, h4, h6⟩
  · rw [h1]
    exact congrArg (fun b => some (b, s1)) (by decide)
  · rw [h2]
    decide

/-! ## Descriptors and bytes of the receive queues -/

/-- How `mixedReadState` is reached. -/
theorem Reachable_mixedReadState : Reachable mixedReceivedState ∧ Reachable mixedReadState := by
  have h0 : Reachable (NetworkInit (testInitDesc 0 1 1)) := Reachable.init _
  have h1 : Reachable baseState :=
    Reachable.ctrlAdd 0 (some testCtrlDesc) (true, baseState) h0 rfl
  have h2 : Reachable mixedState :=
    Reachable.portAdd 0 (some mixedPortDesc) (true, mixedState) h1 rfl
  have h3 : Reachable mixedReceivedState :=
    Reachable.rxProcess 0 (Reachable.driver 0 driverWithDatagram h2) rfl
  exact ⟨h3, Reachable.readBuff 0 (some (fun _ => 0)) (some 0) 64 (some ip_addr.zero) h3⟩

set_option maxRecDepth 100000 in
/-- C33 (failing input): `mixedReadState` is reached by NetworkInit, NetworkCtrlAdd,
NetworkPortAdd of a port whose receive side is in datagram mode and whose transmit side is
in stream mode, the reception of the 9-byte datagram `udp_rx_barray` and one
NetworkPortReadBuff, which returns true. After the reception the receive queues hold 9
bytes and one descriptor of size 9; after the read they hold no byte and still the
descriptor of size 9: the descriptor count is 1 where no message is queued, and the
descriptor sizes add up to 9 where the byte count is 0. -/
theorem rx_descriptor_outlives_its_bytes :
    Reachable mixedReadState ∧
    modeSummary mixedReceivedState = [(false, true)] ∧
    rxQueues mixedReceivedState = [(9, [9])] ∧
    (NetworkPortReadBuff mixedReceivedState 0 (some (fun _ => 0)) (some 0) 64
      (some ip_addr.zero)).ret = true ∧
    rxQueues mixedReadState = [(0, [9])] :=
  ⟨Reachable_mixedReadState.2, by decide, by decide, by decide, by decide⟩

/-! ## Delivery and ports that were never added -/

/-- The body of the loop of `NetworkStoreIncMsg` on a port that was never added: the port
is skipped when the destination port differs from its port number, and the descriptor is
read through the null pointer, which the model leaves undefined, when they are equal. -/
theorem NetworkStoreIncMsg_body_absent (pBuffer : Nat → Nat) (buffSize destPort protocol : Nat)
    (pIpSrc : ip_addr) (portId : Nat) (s : network_module_info_t) (st : Bool)
    (port : network_port_info_t)
    (hport : s.pPortInfoList[portId]? = some port) (hdesc : port.pDesc = none) :
    NetworkStoreIncMsg.body pBuffer buffSize destPort protocol pIpSrc portId s st =
      if destPort = port.InPortNb then none else some (st, s) := by
  simp only [NetworkStoreIncMsg.body, hport, hdesc]

/-- A port entry that `NetworkInit` allocated and `NetworkPortAdd` never filled has no
descriptor and the port number 0. -/
theorem NetworkInit_port (d : network_init_desc_t) (portId : Nat) (port : network_port_info_t)
    (h : (NetworkInit d).pPortInfoList[portId]? = some port) :
    port.pDesc = none ∧ port.InPortNb = 0 := by
  simp only [NetworkInit, List.getElem?_replicate] at h
  split at h
  · cases Option.some.inj h
    exact ⟨rfl, rfl⟩
  · exact absurd h (by simp)

set_option maxRecDepth 100000 in
/-- C39 (failing input): in `baseState` the module has one port, which was never added
(no descriptor, port number 0 from the zeroed allocation). The controller accepts the
frame `udp_rx_port_zero`, a UDP datagram for the destination port 0: the port number
matches, `NetworkStoreIncMsg` goes on to read the protocol through the absent descriptor,
and the processing has no defined result. With the destination port 10101 of
`udp_rx_barray` the port is skipped, the processing returns true and nothing is stored. -/
theorem udp_delivery_reads_absent_descriptor :
    NetworkPortValid baseState 0 = false ∧
    (baseState.pPortInfoList.map fun p => (p.pDesc.isSome, p.InPortNb)) = [(false, 0)] ∧
    NetworkAcceptIncIpPacket baseState 0 (ptrAdd (bufOf udp_rx_port_zero) 14) = some true ∧
    (NetworkDecodeUdpPacket (bufOf udp_rx_port_zero)).2.2.1 = 0 ∧
    (NetworkStoreIncMsg baseState (fun _ => 0) 9 0 IP_PROT_UDP ⟨192, 168, 2, 0⟩).isNone = true ∧
    (NetworkProcessIpPacket baseState 0 (bufOf udp_rx_port_zero) 51).isNone = true ∧
    ((NetworkProcessIpPacket baseState 0 (bufOf udp_rx_barray) 51).map
      fun r => (r.1, rxSummary r.2.1)) = some (true, [(none, 0, 0)]) := by
  decide

/-! ## Transmit sweep over all ports -/

theorem NetworkCtrlTxProcess_body_eq (s : network_module_info_t) (j : Nat) :
    NetworkCtrlTxProcess.body s j = txAttempt s j := by
  unfold NetworkCtrlTxProcess.body txAttempt
  cases hv : NetworkPortValid s j <;> cases he : NetworkPortIsTxEmpty s j <;>
    simp
  cases hs : NetworkProcessSendMsg s j s.pBuffer with
  | none => rfl
  | some r =>
    cases hr : r.1 <;> simp [hr]

theorem NetworkCtrlTxProcess_loop_fold (k : Nat) :
    ∀ (i : Nat) (s : network_module_info_t),
      NetworkCtrlTxProcess.loop i k s = (List.range' i k).foldlM txAttempt s := by
  induction k with
  | zero => intro i s; rfl
  | succ k ih =>
    intro i s
    rw [List.range'_succ, List.foldlM_cons, NetworkCtrlTxProcess.loop,
      NetworkCtrlTxProcess_body_eq]
    cases h : txAttempt s i with
    | none => rfl
    | some s1 => exact ih (i + 1) s1

/-- What `NetworkSendEthPacket` hands to the driver: nothing, or one frame, given to the
driver of the controller `ctrlId`. -/
theorem NetworkSendEthPacket_sent (s : network_module_info_t) (ctrlId : Nat)
    (pBuffer : Nat → Nat) (msgInfo : network_msg_info_t)
    (r : Bool × network_module_info_t × (Nat → Nat))
    (hr : NetworkSendEthPacket s ctrlId pBuffer msgInfo = some r) :
    r.2.1.Sent = s.Sent ∨
    ∃ c cd frame, s.pCtrlInfoList[ctrlId]? = some c ∧ c.pDesc = some cd ∧
      r.2.1.Sent = s.Sent ++ [(cd.MacCtrlId, frame)] := by
  unfold NetworkSendEthPacket at hr
  split at hr
  · rename_i c found hc hfound
    simp only at hr
    split at hr
    · split at hr
      · rename_i b2 desc hb2 hdesc
        cases Option.some.inj hr
        exact Or.inr ⟨c, desc, _, hc, hdesc, rfl⟩
      · exact absurd hr (by simp)
    · cases Option.some.inj hr; exact Or.inl rfl
  · exact absurd hr (by simp)

theorem NetworkSendUdpPacket_sent (s : network_module_info_t) (ctrlId : Nat)
    (pBuffer : Nat → Nat) (msgInfo : network_msg_info_t)
    (r : Bool × network_module_info_t × (Nat → Nat))
    (hr : NetworkSendUdpPacket s ctrlId pBuffer msgInfo = some r) :
    r.2.1.Sent = s.Sent ∨
    ∃ c cd frame, s.pCtrlInfoList[ctrlId]? = some c ∧ c.pDesc = some cd ∧
      r.2.1.Sent = s.Sent ++ [(cd.MacCtrlId, frame)] := by
  unfold NetworkSendUdpPacket NetworkSendIpPacket at hr
  split at hr
  · exact absurd hr (by simp)
  · exact NetworkSendEthPacket_sent s ctrlId _ _ r hr

theorem setArp_fields (s s1 : network_module_info_t) (ctrlId idx : Nat) (e : arp_entry_t)
    (h : setArp s ctrlId idx e = some s1) :
    s1.Sent = s.Sent ∧
    ∃ c, s.pCtrlInfoList[ctrlId]? = some c ∧
      s1.pCtrlInfoList[ctrlId]? = some { c with pArpArray := c.pArpArray.set idx e } := by
  unfold setArp at h
  split at h
  · exact absurd h (by simp)
  · rename_i c hc
    cases Option.some.inj h
    exact ⟨rfl, c, hc, setCtrl_get s ctrlId _ c hc⟩

theorem NetworkCreateArpEntry_fields (s : network_module_info_t) (ctrlId : Nat)
    (r : Option Nat × network_module_info_t) (h : NetworkCreateArpEntry s ctrlId = some r) :
    r.2.Sent = s.Sent ∧ r.2.pCtrlInfoList = s.pCtrlInfoList := by
  unfold NetworkCreateArpEntry at h
  split at h
  · exact absurd h (by simp)
  · split at h
    · exact absurd h (by simp)
    · split at h
      · exact absurd h (by simp)
      · split at h
        · cases Option.some.inj h; exact ⟨rfl, rfl⟩
        · cases Option.some.inj h
          exact ⟨(notifyError_fields s).2.2.2.2.1, (notifyError_fields s).1⟩

/-- What `NetworkRequestArp` hands to the driver: nothing, or one frame, given to the
driver of the controller `ctrlId`. -/
theorem NetworkRequestArp_sent (s : network_module_info_t) (ctrlId : Nat) (X : ip_addr)
    (r : Bool × network_module_info_t) (hr : NetworkRequestArp s ctrlId X = some r) :
    r.2.Sent = s.Sent ∨
    ∃ c cd frame, s.pCtrlInfoList[ctrlId]? = some c ∧ c.pDesc = some cd ∧
      r.2.Sent = s.Sent ++ [(cd.MacCtrlId, frame)] := by
  rcases ctrl_desc_cases s ctrlId X with ⟨c, cd, hc, hcd⟩ | hnone
  · have hkey : ∀ (idx : Nat) (s1 : network_module_info_t), s1.Sent = s.Sent →
        (∃ c1, s1.pCtrlInfoList[ctrlId]? = some c1 ∧ c1.pDesc = some cd) →
        (match s1.pCtrlInfoList[ctrlId]? with
          | none => none
          | some pNetworkCtrl =>
            match pNetworkCtrl.pDesc, pNetworkCtrl.pArpArray[idx]? with
            | some desc, some e =>
              match setArp s1 ctrlId idx
                  { e with Status := { e.Status with IsValid := false } } with
              | none => none
              | some s2 => some (macSend s2 desc (arpRequestBuffer pNetworkCtrl X)
                  (ETH_HEADER_SIZE + ARP_HEADER_SIZE))
            | _, _ => none) = some r →
        ∃ frame, r.2.Sent = s.Sent ++ [(cd.MacCtrlId, frame)] := by
      intro idx s1 hs1 ⟨c1, hc1, hcd1⟩ h
      rw [hc1] at h
      simp only [hcd1] at h
      split at h
      · rename_i desc e hd he
        cases Option.some.inj hd
        split at h
        · exact absurd h (by simp)
        · rename_i s2 hs2
          cases Option.some.inj h
          exact ⟨_, by rw [← hs1, ← (setArp_fields _ _ _ _ _ hs2).1]; rfl⟩
      · exact absurd h (by simp)
    have hfin : (∃ frame, r.2.Sent = s.Sent ++ [(cd.MacCtrlId, frame)]) →
        r.2.Sent = s.Sent ∨
        ∃ c cd frame, s.pCtrlInfoList[ctrlId]? = some c ∧ c.pDesc = some cd ∧
          r.2.Sent = s.Sent ++ [(cd.MacCtrlId, frame)] := by
      rintro ⟨frame, hf⟩
      exact Or.inr ⟨c, cd, frame, hc, hcd, hf⟩
    unfold NetworkRequestArp at hr
    cases hg : NetworkGetArpEntry s ctrlId X with
    | none => rw [hg] at hr; exact absurd hr (by simp)
    | some found =>
      rw [hg] at hr
      cases found with
      | some idx =>
        exact hfin (hkey idx s rfl ⟨c, hc, hcd⟩ hr)
      | none =>
        simp only at hr
        cases hcr : NetworkCreateArpEntry s ctrlId with
        | none => rw [hcr] at hr; exact absurd hr (by simp)
        | some cr =>
          obtain ⟨o, s1⟩ := cr
          obtain ⟨hs1, hl1⟩ := NetworkCreateArpEntry_fields s ctrlId _ hcr
          rw [hcr] at hr
          cases o with
          | none =>
            simp only at hr
            cases Option.some.inj hr
            exact Or.inl hs1
          | some idx =>
            simp only at hr
            have hc1 : s1.pCtrlInfoList[ctrlId]? = some c := by
              have : s1.pCtrlInfoList = s.pCtrlInfoList := hl1
              rw [this]; exact hc
            rw [hc1] at hr
            simp only at hr
            cases he : c.pArpArray[idx]? with
            | none => rw [he] at hr; exact absurd hr (by simp)
            | some e0 =>
              rw [he] at hr
              simp only at hr
              cases hset : setArp s1 ctrlId idx
                  { DecayTimer := 0, MacAddr := e0.MacAddr, IpAddr := X,
                    Status := { IsInitialised := true, IsValid := false, IsRequested := true,
                                HasDecay := false } } with
              | none => rw [hset] at hr; exact absurd hr (by simp)
              | some s2 =>
                rw [hset] at hr
                obtain ⟨hs2, c', hc', hc2⟩ := setArp_fields _ _ _ _ _ hset
                have hcc : c' = c := by rw [hc1] at hc'; exact (Option.some.inj hc').symm
                subst hcc
                refine hfin (hkey idx s2 (hs2.trans hs1) ⟨_, hc2, hcd⟩ hr)
  · simp [NetworkRequestArp, hnone] at hr

/-- One step of the sweep leaves a port that was not added, or has nothing pending, and
the whole module, as they are; otherwise it hands the driver nothing or one frame, and
that frame goes to the driver of the controller the port is bound to. -/
theorem txAttempt_sent (s s1 : network_module_info_t) (j : Nat) (h : txAttempt s j = some s1) :
    ((NetworkPortValid s j = false ∨ NetworkPortIsTxEmpty s j = true) → s1 = s) ∧
    (s1.Sent = s.Sent ∨
      ∃ port pd c cd frame, s.pPortInfoList[j]? = some port ∧ port.pDesc = some pd ∧
        s.pCtrlInfoList[pd.NetworkCtrlId]? = some c ∧ c.pDesc = some cd ∧
        s1.Sent = s.Sent ++ [(cd.MacCtrlId, frame)]) := by
  unfold txAttempt at h
  by_cases hcond : NetworkPortValid s j = true ∧ NetworkPortIsTxEmpty s j = false
  · rw [if_pos hcond] at h
    refine ⟨fun hor => ?_, ?_⟩
    · rcases hor with h1 | h1
      · rw [hcond.1] at h1; exact absurd h1 (by simp)
      · rw [hcond.2] at h1; exact absurd h1 (by simp)
    · cases hs : NetworkProcessSendMsg s j s.pBuffer with
      | none => rw [hs] at h; exact absurd h (by simp)
      | some r =>
        rw [hs] at h
        have hsent : s1.Sent = r.2.1.Sent := by
          simp only [Option.map_some', Option.some.injEq] at h
          rw [← h]
          split
          · rfl
          · exact (notifyError_fields _).2.2.2.2.1
        rw [hsent]
        obtain ⟨port, hport, hcase⟩ := NetworkProcessSendMsg_shape s j s.pBuffer r hs
        rcases hcase with h1 | ⟨p1, h1⟩ | ⟨pd, buf, mi, q, hpd, hq, h1⟩ | ⟨pd, p1, D, q, hpd, hq, h1⟩
        · rw [h1]; exact Or.inl rfl
        · rw [h1]; exact Or.inl rfl
        · have hrq : r.2.1.Sent = q.2.1.Sent := by
            rcases h1 with h1 | ⟨p1, h1⟩
            · rw [h1]
            · rw [h1]; rfl
          rw [hrq]
          rcases NetworkSendUdpPacket_sent _ _ _ _ _ hq with h2 | ⟨c, cd, frame, hc, hcd, h2⟩
          · exact Or.inl h2
          · exact Or.inr ⟨port, pd, c, cd, frame, hport, hpd, hc, hcd, h2⟩
        · rw [h1]
          rcases NetworkRequestArp_sent _ _ _ _ hq with h2 | ⟨c, cd, frame, hc, hcd, h2⟩
          · exact Or.inl h2
          · exact Or.inr ⟨port, pd, c, cd, frame, hport, hpd, hc, hcd, h2⟩
  · rw [if_neg hcond] at h
    cases Option.some.inj h
    exact ⟨fun _ => rfl, Or.inl rfl⟩

theorem txAttempt_fold_sent (l : List Nat) :
    ∀ (s s1 : network_module_info_t), l.foldlM txAttempt s = some s1 →
      ∃ frames, s1.Sent = s.Sent ++ frames ∧ frames.length ≤ l.length := by
  induction l with
  | nil =>
    intro s s1 h
    cases Option.some.inj h
    exact ⟨[], by simp, by simp⟩
  | cons j l ih =>
    intro s s1 h
    rw [List.foldlM_cons] at h
    cases hj : txAttempt s j with
    | none => rw [hj] at h; exact absurd h (by simp)
    | some s2 =>
      rw [hj] at h
      obtain ⟨frames, hf, hlen⟩ := ih s2 s1 h
      rcases (txAttempt_sent s s2 j hj).2 with h2 | ⟨_, _, _, cd, frame, _, _, _, _, h2⟩
      · exact ⟨frames, by rw [hf, h2], by simp; omega⟩
      · exact ⟨(cd.MacCtrlId, frame) :: frames, by rw [hf, h2]; simp, by simp; omega⟩

/-- C40: NetworkCtrlTxProcess(c) for a valid controller c goes over the port ids
0, 1, .., PortNb - 1 in that order and makes, for each port that was added and has pending
data, one transmit attempt (one call of NetworkProcessSendMsg), leaving every other port
alone; the result does not depend on which valid controller the sweep is called for; an
attempt hands the driver at most one frame, and hands it to the driver of the controller
the port is bound to, so a sweep hands the drivers at most one frame per port. -/
theorem tx_sweep_attempts_every_port_once (s : network_module_info_t) (ctrlId : Nat)
    (hv : NetworkCtrlValid s ctrlId = true) :
    NetworkCtrlTxProcess s ctrlId = (List.range s.pInitDesc.PortNb).foldlM txAttempt s ∧
    (∀ c2, NetworkCtrlValid s c2 = true →
      NetworkCtrlTxProcess s c2 = NetworkCtrlTxProcess s ctrlId) ∧
    (∀ (st st1 : network_module_info_t) (j : Nat), txAttempt st j = some st1 →
      ((NetworkPortValid st j = false ∨ NetworkPortIsTxEmpty st j = true) → st1 = st) ∧
      (NetworkPortValid st j = true → NetworkPortIsTxEmpty st j = false →
        ∃ r, NetworkProcessSendMsg st j st.pBuffer = some r ∧
          st1.pPortInfoList = r.2.1.pPortInfoList ∧ st1.pCtrlInfoList = r.2.1.pCtrlInfoList ∧
          st1.Sent = r.2.1.Sent) ∧
      (st1.Sent = st.Sent ∨
        ∃ port pd c cd frame, st.pPortInfoList[j]? = some port ∧ port.pDesc = some pd ∧
          st.pCtrlInfoList[pd.NetworkCtrlId]? = some c ∧ c.pDesc = some cd ∧
          st1.Sent = st.Sent ++ [(cd.MacCtrlId, frame)])) ∧
    (∀ s1, NetworkCtrlTxProcess s ctrlId = some s1 →
      ∃ frames, s1.Sent = s.Sent ++ frames ∧ frames.length ≤ s.pInitDesc.PortNb) := by
  have hfold : NetworkCtrlTxProcess s ctrlId
      = (List.range s.pInitDesc.PortNb).foldlM txAttempt s := by
    simp only [NetworkCtrlTxProcess, hv, if_true, NetworkCtrlTxProcess_loop_fold,
      List.range_eq_range']
  refine ⟨hfold, fun c2 hv2 => ?_, fun st st1 j h => ?_, fun s1 h => ?_⟩
  · simp only [NetworkCtrlTxProcess, hv, hv2, if_true]
  · obtain ⟨h1, h2⟩ := txAttempt_sent st st1 j h
    refine ⟨h1, fun hpv hne => ?_, h2⟩
    unfold txAttempt at h
    rw [if_pos ⟨hpv, hne⟩] at h
    cases hs : NetworkProcessSendMsg st j st.pBuffer with
    | none => rw [hs] at h; exact absurd h (by simp)
    | some r =>
      rw [hs] at h
      simp only [Option.map_some', Option.some.injEq] at h
      refine ⟨r, rfl, ?_, ?_, ?_⟩ <;> (rw [← h]; split)
      · rfl
      · exact (notifyError_fields _).2.1
      · rfl
      · exact (notifyError_fields _).1
      · rfl
      · exact (notifyError_fields _).2.2.2.2.1
  · rw [hfold] at h
    obtain ⟨frames, hf, hlen⟩ := txAttempt_fold_sent _ s s1 h
    exact ⟨frames, hf, by simpa using hlen⟩

set_option maxRecDepth 100000 in
/-- C40 (witness): in `sweepState` port 0 is bound to controller 1 and port 1 to
controller 0; the bytes 0x66 and 0x67 were queued on port 1 before the byte 0x55 on port
0. The sweep of controller 0 hands the driver of controller 1 the message of port 0
first, with the addresses of controller 1, then the driver of controller 0 the first
message of port 1; the second message of port 1 stays queued for the next sweep. -/
theorem tx_sweep_attempts_every_port_once_witness :
    NetworkCtrlValid sweepState 0 = true ∧
    txSummary sweepState = [(1, 1), (2, 2)] ∧
    NetworkCtrlTxProcess sweepState 0 = (List.range 2).foldlM txAttempt sweepState ∧
    NetworkCtrlTxProcess sweepState 1 = NetworkCtrlTxProcess sweepState 0 ∧
    ((NetworkCtrlTxProcess sweepState 0).map fun s1 => (s1.Sent, txSummary s1))
      = some ([(1, udpFrame ⟨0x02, 0, 0, 0, 0, 0x02⟩ ⟨0x02, 0, 0, 0, 0, 0x01⟩ ⟨10, 0, 0, 1⟩
                    ⟨10, 0, 0, 2⟩ 10101 10201 [0x55]),
               (0, udpFrame ⟨0x11, 0x22, 0x44, 0x55, 0x88, 0xaa⟩
                    ⟨0x01, 0x23, 0x45, 0x67, 0x89, 0xab⟩ ⟨192, 168, 2, 101⟩
                    ⟨192, 168, 2, 100⟩ 10101 10201 [0x66])],
              [(0, 0), (1, 1)]) :=
  ⟨by decide, by decide,
    (tx_sweep_attempts_every_port_once sweepState 0 (by decide)).1,
    (tx_sweep_attempts_every_port_once sweepState 0 (by decide)).2.1 1 (by decide),
    by decide⟩

end Network
